import Mathlib

/-!
Verification of the cuboid inclusion-exclusion volume engine of an
Advent-of-Code solver (day 22: "Reactor Reboot").

The Rust source represents an axis-aligned box in integer 3-space as a
`Cuboid` (two `Point3<i32>` corners, half-open per axis), and a toggle
instruction as a `PowerCuboid` (a cuboid plus an on/off flag).  The total
"on" volume of an ordered instruction list is computed by
`compute_on_volume`, a recursive overlap subtraction.

This file gives a shallow embedding of that code:
* machine integers (`i32` coordinates, `u64` volumes) are modelled as
  unbounded `Int` / `Nat`; the puzzle-scale inputs stay far from the
  overflow boundaries and no claim is about wrap-around behaviour;
* the recursive `compute_on_volume` is embedded with an explicit fuel
  argument (`covGo`); one unit of fuel is spent per recursive level and
  `list length + 1` fuel is proved sufficient, so `computeOnVolume`
  agrees with the Rust recursion on every input;
* the `.unwrap()` of the checked subtraction (a potential panic) is
  modelled by an `Option Nat` result, `none` meaning a panic occurred;
* the `nom` parsing front end (`power_cube` and its sub-parsers) is
  embedded over `List Char`, with a three-valued result distinguishing
  a parse error (`nom` `Err`) from a Rust panic.
-/

/-- Integer point in 3-space, mirroring `nalgebra::Point3<i32>`. -/
structure Point3 where
  x : Int
  y : Int
  z : Int
deriving DecidableEq

/-- Componentwise `<=` on points, as the Boolean comparison used by
`nalgebra`'s componentwise `PartialOrd` on points. -/
def Point3.leB (a b : Point3) : Bool :=
  decide (a.x ≤ b.x) && decide (a.y ≤ b.y) && decide (a.z ≤ b.z)

/-- Axis-aligned box; `bottom_left` inclusive, `top_right` exclusive per
axis.  Field order mirrors the Rust struct. -/
structure Cuboid where
  top_right : Point3
  bottom_left : Point3
deriving DecidableEq

namespace Cuboid

/-- `Cuboid::new(bottom_left, top_right)`. -/
def new (bl tr : Point3) : Cuboid := ⟨tr, bl⟩

/-- `Cuboid::inside_volume`: containment of `self` in `volume`,
componentwise on both corners. -/
def inside_volume (self vol : Cuboid) : Bool :=
  Point3.leB vol.bottom_left self.bottom_left && Point3.leB self.top_right vol.top_right

/-- `Cuboid::volume`: product over the axes of the absolute coordinate
difference, mirroring `(top_right - bottom_left).abs()` mapped into `u64`
and multiplied up. -/
def volume (self : Cuboid) : Nat :=
  (([self.top_right.x - self.bottom_left.x,
     self.top_right.y - self.bottom_left.y,
     self.top_right.z - self.bottom_left.z]).map Int.natAbs).prod

/-- `Cuboid::intersect`: `None` when some axis test fails, otherwise the
box of the componentwise max lower / min upper corners. -/
def intersect (self other : Cuboid) : Option Cuboid :=
  if self.bottom_left.x > other.top_right.x ∨ self.top_right.x < other.bottom_left.x then
    none
  else if self.bottom_left.y > other.top_right.y ∨ self.top_right.y < other.bottom_left.y then
    none
  else if self.bottom_left.z > other.top_right.z ∨ self.top_right.z < other.bottom_left.z then
    none
  else
    some ⟨⟨min self.top_right.x other.top_right.x,
           min self.top_right.y other.top_right.y,
           min self.top_right.z other.top_right.z⟩,
          ⟨max self.bottom_left.x other.bottom_left.x,
           max self.bottom_left.y other.bottom_left.y,
           max self.bottom_left.z other.bottom_left.z⟩⟩

end Cuboid

/-- A toggle instruction: a cuboid plus its power state
(`true` = "on"). -/
structure PowerCuboid where
  cuboid : Cuboid
  power_state : Bool
deriving DecidableEq

namespace PowerCuboid

/-- `PowerCuboid::new`: corners assembled positionally from the three
half-open ranges. -/
def new (power_state : Bool) (x_range y_range z_range : Int × Int) : PowerCuboid :=
  { cuboid :=
      { top_right := ⟨x_range.2, y_range.2, z_range.2⟩
        bottom_left := ⟨x_range.1, y_range.1, z_range.1⟩ }
    power_state := power_state }

/-- `PowerCuboid::inside_volume`: delegates to the cuboid. -/
def inside_volume (self : PowerCuboid) (vol : Cuboid) : Bool :=
  self.cuboid.inside_volume vol

/-- `PowerCuboid::intersect`: cuboid intersection, power state taken from
the second (later) operand. -/
def intersect (self other : PowerCuboid) : Option PowerCuboid :=
  (self.cuboid.intersect other.cuboid).map
    (fun k => { cuboid := k, power_state := other.power_state })

end PowerCuboid

/-- `u64::checked_sub`. -/
def checkedSub (a b : Nat) : Option Nat :=
  if b ≤ a then some (a - b) else none

/-- The inner summation of `compute_on_volume`: for each element of the
conflict list, the net contribution `f` of that element against the
strictly later conflicts, summed left to right.  `none` propagates a
panic from a recursive call. -/
def sumTails (f : PowerCuboid → List PowerCuboid → Option Nat) :
    List PowerCuboid → Option Nat
  | [] => some 0
  | k :: rest =>
    match f k rest, sumTails f rest with
    | some a, some b => some (a + b)
    | _, _ => none

/-- Fuelled embedding of `PowerCuboid::compute_on_volume`.  Each
recursive level consumes one unit of fuel; with fuel exceeding the list
length the fuel never runs out (proved below), so this is the Rust
recursion with panics made explicit: `none` means the final
`checked_sub(..).unwrap()` (at this level or in a recursive call)
panicked. -/
def covGo (fuel : Nat) : PowerCuboid → List PowerCuboid → Option Nat :=
  match fuel with
  | 0 => fun _ _ => none
  | fuel + 1 => fun self other_cuboids =>
    let conflicts := other_cuboids.filterMap (fun c => self.intersect c)
    match sumTails (covGo fuel) conflicts with
    | none => none
    | some conflict_volume => checkedSub self.cuboid.volume conflict_volume

/-- `PowerCuboid::compute_on_volume self other_cuboids`, with the fuel
instantiated to a provably sufficient amount. -/
def computeOnVolume (self : PowerCuboid) (other_cuboids : List PowerCuboid) : Option Nat :=
  covGo (other_cuboids.length + 1) self other_cuboids

/-- The top-level driver used by the solver and its tests: sum, over the
instructions whose power state is on, of `compute_on_volume` of the
instruction against the suffix of strictly later instructions. -/
def totalOnVolume : List PowerCuboid → Option Nat
  | [] => some 0
  | c :: rest =>
    match (if c.power_state then computeOnVolume c rest else some 0),
        totalOnVolume rest with
    | some a, some b => some (a + b)
    | _, _ => none

/-! ## Parsing front end

The Rust parser is built from `nom` combinators over `&str`; we embed it
over `List Char`.  A parser outcome is three-valued: `ok` (the remaining
input and the value), `err` (a `nom` parse error, propagated by `?`), and
`panic` (a Rust panic: an `unwrap` of a failed `i32` conversion, or an
out-of-bounds index into the parsed range list). -/

/-- Outcome of an embedded parser: success, `nom` error, or panic. -/
inductive PRes (α : Type) where
  | ok : List Char → α → PRes α
  | err : PRes α
  | panic : PRes α
deriving DecidableEq

/-- `nom::character::complete::space0`: strips leading spaces and tabs. -/
def space0 (input : List Char) : List Char :=
  input.dropWhile (fun c => c == ' ' || c == '\t')

/-- `nom::bytes::complete::tag t`: `some` of the rest of the input when
`t` is a literal prefix of it. -/
def tagP (t input : List Char) : Option (List Char) :=
  if List.isPrefixOf t input then some (input.drop t.length) else none

/-- The `power` parser: `alt((tag("on"), tag("off")))`, the value being
whether the matched tag was `"on"`. -/
def power (input : List Char) : PRes Bool :=
  match tagP ("on".toList) input with
  | some rest => PRes.ok rest true
  | none =>
    match tagP ("off".toList) input with
    | some rest => PRes.ok rest false
    | none => PRes.err

/-- `nom::character::complete::digit1`: one or more ASCII digits; `none`
on an empty match. -/
def digit1 (input : List Char) : Option (List Char × List Char) :=
  let ds := input.takeWhile (fun c => c.isDigit)
  if ds.isEmpty then none else some (ds, input.drop ds.length)

/-- Numeric value of a digit string. -/
def digitsToNat (ds : List Char) : Nat :=
  ds.foldl (fun n c => 10 * n + (c.toNat - ('0').toNat)) 0

/-- An optional minus sign followed by digits, yielding the signed
value; mirrors `pair(opt(tag("-")), digit1)` followed by
`format!`-and-`parse::<i32>`.  A value outside the `i32` range makes the
`parse(..).unwrap()` panic. -/
def signedValue (input : List Char) : PRes Int :=
  let (neg, after) :=
    match tagP ("-".toList) input with
    | some rest => (true, rest)
    | none => (false, input)
  match digit1 after with
  | none => PRes.err
  | some (ds, rest) =>
    let v : Int := if neg then -(Int.ofNat (digitsToNat ds)) else Int.ofNat (digitsToNat ds)
    if v < -(2 ^ 31) ∨ 2 ^ 31 - 1 < v then PRes.panic else PRes.ok rest v

/-- The `axis_range` parser: an axis label (`x=`, `y=` or `z=` — any of
the three is accepted), then `<signed>..<signed>`. -/
def axis_range (input : List Char) : PRes (Int × Int) :=
  let lbl :=
    match tagP ("x=".toList) input with
    | some rest => some rest
    | none =>
      match tagP ("y=".toList) input with
      | some rest => some rest
      | none => tagP ("z=".toList) input
  match lbl with
  | none => PRes.err
  | some r1 =>
    match signedValue r1 with
    | PRes.err => PRes.err
    | PRes.panic => PRes.panic
    | PRes.ok r2 first_value =>
      match tagP ("..".toList) r2 with
      | none => PRes.err
      | some r3 =>
        match signedValue r3 with
        | PRes.err => PRes.err
        | PRes.panic => PRes.panic
        | PRes.ok r4 second_value => PRes.ok r4 (first_value, second_value)

/-- The repetition step of `separated_list1(tag(","), axis_range)`: keep
consuming `,`-separated ranges, backtracking to before the separator when
the element parser fails.  Fuel bounds the loop; `input.length + 1` is
always enough since each iteration consumes at least one character. -/
def sepGo (fuel : Nat) (input : List Char) (acc : List (Int × Int)) :
    PRes (List (Int × Int)) :=
  match fuel with
  | 0 => PRes.err
  | fuel + 1 =>
    match tagP ([',']) input with
    | none => PRes.ok input acc.reverse
    | some afterComma =>
      match axis_range afterComma with
      | PRes.ok rest v => sepGo fuel rest (v :: acc)
      | PRes.err => PRes.ok input acc.reverse
      | PRes.panic => PRes.panic

/-- The `power_cube` parser: whitespace-delimited power keyword, then a
`,`-separated list of axis ranges.  The three ranges are read
positionally as x, y, z; each is normalised to
`(min, max + 1)`.  Fewer than three parsed ranges makes the direct
indexing `axes[1]` / `axes[2]` panic. -/
def power_cube (input : List Char) : PRes PowerCuboid :=
  match power (space0 input) with
  | PRes.err => PRes.err
  | PRes.panic => PRes.panic
  | PRes.ok r1 power_state =>
    let r2 := space0 r1
    match axis_range r2 with
    | PRes.err => PRes.err
    | PRes.panic => PRes.panic
    | PRes.ok r3 v1 =>
      match sepGo (r3.length + 1) r3 [v1] with
      | PRes.err => PRes.err
      | PRes.panic => PRes.panic
      | PRes.ok rest axes =>
        match axes with
        | a0 :: a1 :: a2 :: _ =>
          PRes.ok rest
            (PowerCuboid.new power_state
              (min a0.1 a0.2, max a0.1 a0.2 + 1)
              (min a1.1 a1.2, max a1.1 a1.2 + 1)
              (min a2.1 a2.2, max a2.1 a2.2 + 1))
        | _ => PRes.panic

/-! ## Unit cells

The semantic domain for the correctness claims: the finite set of unit
cells (integer points) covered by a cuboid, under the half-open
convention. -/

/-- A unit cell, named by the integer coordinates of its corner. -/
abbrev Cell := Int × Int × Int

/-- The finite set of unit cells inside a cuboid: per axis, the half-open
interval from `bottom_left` (inclusive) to `top_right` (exclusive). -/
def cellsOf (c : Cuboid) : Finset Cell :=
  Finset.Ico c.bottom_left.x c.top_right.x ×ˢ
    (Finset.Ico c.bottom_left.y c.top_right.y ×ˢ
      Finset.Ico c.bottom_left.z c.top_right.z)

/-- A cuboid is well formed when `bottom_left <= top_right` on every
axis; the parser only ever builds well-formed cuboids. -/
def Cuboid.WellFormed (c : Cuboid) : Prop :=
  c.bottom_left.x ≤ c.top_right.x ∧ c.bottom_left.y ≤ c.top_right.y ∧
    c.bottom_left.z ≤ c.top_right.z

instance (c : Cuboid) : Decidable c.WellFormed := by
  unfold Cuboid.WellFormed; infer_instance

/-- The union of the cells of all instructions in a list. -/
def unionCells : List PowerCuboid → Finset Cell
  | [] => ∅
  | c :: rest => cellsOf c.cuboid ∪ unionCells rest

/-- The power state of the last instruction in the list covering a given
cell, if any instruction covers it. -/
def lastCover : List PowerCuboid → Cell → Option Bool
  | [], _ => none
  | c :: rest, p =>
    match lastCover rest p with
    | some b => some b
    | none => if p ∈ cellsOf c.cuboid then some c.power_state else none

/-- The cells whose last covering instruction is an on-instruction. -/
def onCells (l : List PowerCuboid) : Finset Cell :=
  (unionCells l).filter (fun p => lastCover l p = some true)

/-- The number of cells left on after applying the list in order. -/
def onCount (l : List PowerCuboid) : Nat :=
  (onCells l).card

/-! ## The documented reference input

The 22-line reference input of the `full_centre_power_cycle` test, with
each line already taken through the parser's normalisation
(`bottom_left` the per-axis minimum, `top_right` the maximum plus
one). -/

/-- One parsed input line: an instruction built exactly as `power_cube`
builds it from the two raw bounds of each axis. -/
def line (st : Bool) (x1 x2 y1 y2 z1 z2 : Int) : PowerCuboid :=
  PowerCuboid.new st (min x1 x2, max x1 x2 + 1) (min y1 y2, max y1 y2 + 1)
    (min z1 z2, max z1 z2 + 1)

/-- The 22 instructions of the reference input, in input order. -/
def refInput : List PowerCuboid :=
  [line true (-20) 26 (-36) 17 (-47) 7,
   line true (-20) 33 (-21) 23 (-26) 28,
   line true (-22) 28 (-29) 23 (-38) 16,
   line true (-46) 7 (-6) 46 (-50) (-1),
   line true (-49) 1 (-3) 46 (-24) 28,
   line true 2 47 (-22) 22 (-23) 27,
   line true (-27) 23 (-28) 26 (-21) 29,
   line true (-39) 5 (-6) 47 (-3) 44,
   line true (-30) 21 (-8) 43 (-13) 34,
   line true (-22) 26 (-27) 20 (-29) 19,
   line false (-48) (-32) 26 41 (-47) (-37),
   line true (-12) 35 6 50 (-50) (-2),
   line false (-48) (-32) (-32) (-16) (-15) (-5),
   line true (-18) 26 (-33) 15 (-7) 46,
   line false (-40) (-22) (-38) (-28) 23 41,
   line true (-16) 35 (-41) 10 (-47) 6,
   line false (-32) (-23) 11 30 (-14) 3,
   line true (-49) (-5) (-3) 45 (-29) 18,
   line false 18 30 (-20) (-8) (-3) 13,
   line true (-41) 9 (-7) 43 (-33) 15,
   line true (-54112) (-39298) (-85059) (-49293) (-27449) 7877,
   line true 967 23432 45373 81175 27513 53682]

/-- The centered 101-cube target region of the restricted variant. -/
def targetRegion : Cuboid := Cuboid.new ⟨-50, -50, -50⟩ ⟨51, 51, 51⟩

/-- The reference input filtered to the target region, as in the
`full_centre_power_cycle` test. -/
def refFiltered : List PowerCuboid :=
  refInput.filter (fun c => c.inside_volume targetRegion)

/-! ## Basic lemmas about cells, volume and intersection -/

theorem mem_cellsOf {c : Cuboid} {p : Cell} :
    p ∈ cellsOf c ↔
      (c.bottom_left.x ≤ p.1 ∧ p.1 < c.top_right.x) ∧
      (c.bottom_left.y ≤ p.2.1 ∧ p.2.1 < c.top_right.y) ∧
      (c.bottom_left.z ≤ p.2.2 ∧ p.2.2 < c.top_right.z) := by
  simp [cellsOf, Finset.mem_product, Finset.mem_Ico]

theorem volume_eq_card {c : Cuboid} (h : c.WellFormed) :
    c.volume = (cellsOf c).card := by
  obtain ⟨hx, hy, hz⟩ := h
  have ex : (c.top_right.x - c.bottom_left.x).natAbs =
      (c.top_right.x - c.bottom_left.x).toNat := by omega
  have ey : (c.top_right.y - c.bottom_left.y).natAbs =
      (c.top_right.y - c.bottom_left.y).toNat := by omega
  have ez : (c.top_right.z - c.bottom_left.z).natAbs =
      (c.top_right.z - c.bottom_left.z).toNat := by omega
  simp [Cuboid.volume, cellsOf, Finset.card_product, Int.card_Ico, ex, ey, ez]

theorem intersect_eq_none_iff {a b : Cuboid} :
    a.intersect b = none ↔
      (a.bottom_left.x > b.top_right.x ∨ a.top_right.x < b.bottom_left.x) ∨
      (a.bottom_left.y > b.top_right.y ∨ a.top_right.y < b.bottom_left.y) ∨
      (a.bottom_left.z > b.top_right.z ∨ a.top_right.z < b.bottom_left.z) := by
  unfold Cuboid.intersect
  split_ifs with h1 h2 h3 <;> simp_all

theorem intersect_eq_some {a b k : Cuboid} (h : a.intersect b = some k) :
    k = ⟨⟨min a.top_right.x b.top_right.x, min a.top_right.y b.top_right.y,
          min a.top_right.z b.top_right.z⟩,
         ⟨max a.bottom_left.x b.bottom_left.x, max a.bottom_left.y b.bottom_left.y,
          max a.bottom_left.z b.bottom_left.z⟩⟩ ∧
      ¬(a.bottom_left.x > b.top_right.x ∨ a.top_right.x < b.bottom_left.x) ∧
      ¬(a.bottom_left.y > b.top_right.y ∨ a.top_right.y < b.bottom_left.y) ∧
      ¬(a.bottom_left.z > b.top_right.z ∨ a.top_right.z < b.bottom_left.z) := by
  unfold Cuboid.intersect at h
  split_ifs at h with h1 h2 h3
  injection h with h4
  exact ⟨h4.symm, h1, h2, h3⟩

theorem cells_intersect_some {a b k : Cuboid} (h : a.intersect b = some k) :
    cellsOf k = cellsOf a ∩ cellsOf b := by
  obtain ⟨hk, h1, h2, h3⟩ := intersect_eq_some h
  subst hk
  ext p
  simp only [Finset.mem_inter, mem_cellsOf]
  omega

theorem cells_intersect_none {a b : Cuboid} (h : a.intersect b = none) :
    cellsOf a ∩ cellsOf b = ∅ := by
  rw [intersect_eq_none_iff] at h
  ext p
  simp only [Finset.mem_inter, mem_cellsOf, Finset.not_mem_empty, iff_false, not_and]
  omega

theorem intersect_wf {a b k : Cuboid} (ha : a.WellFormed) (hb : b.WellFormed)
    (h : a.intersect b = some k) : k.WellFormed := by
  obtain ⟨hk, h1, h2, h3⟩ := intersect_eq_some h
  subst hk
  obtain ⟨hax, hay, haz⟩ := ha
  obtain ⟨hbx, hby, hbz⟩ := hb
  refine ⟨?_, ?_, ?_⟩ <;> simp <;> omega

theorem intersect_comm (a b : Cuboid) : a.intersect b = b.intersect a := by
  unfold Cuboid.intersect
  split_ifs with h1 h2 h3 h4 h5 h6 <;> first
    | rfl
    | (exfalso; omega)
    | (simp [Cuboid.mk.injEq, Point3.mk.injEq, min_comm, max_comm])

/-! ## Lifts to PowerCuboid and unions of cells -/

theorem pc_intersect_some {a b k : PowerCuboid} (h : a.intersect b = some k) :
    a.cuboid.intersect b.cuboid = some k.cuboid ∧ k.power_state = b.power_state := by
  unfold PowerCuboid.intersect at h
  cases hc : a.cuboid.intersect b.cuboid with
  | none => rw [hc] at h; simp at h
  | some kc => rw [hc] at h; simp at h; subst h; exact ⟨rfl, rfl⟩

theorem pc_intersect_none {a b : PowerCuboid} (h : a.intersect b = none) :
    a.cuboid.intersect b.cuboid = none := by
  unfold PowerCuboid.intersect at h
  exact Option.map_eq_none'.mp h

theorem pc_cells_some {a b k : PowerCuboid} (h : a.intersect b = some k) :
    cellsOf k.cuboid = cellsOf a.cuboid ∩ cellsOf b.cuboid :=
  cells_intersect_some (pc_intersect_some h).1

theorem pc_cells_none {a b : PowerCuboid} (h : a.intersect b = none) :
    cellsOf a.cuboid ∩ cellsOf b.cuboid = ∅ :=
  cells_intersect_none (pc_intersect_none h)

theorem pc_intersect_wf {a b k : PowerCuboid} (ha : a.cuboid.WellFormed)
    (hb : b.cuboid.WellFormed) (h : a.intersect b = some k) : k.cuboid.WellFormed :=
  intersect_wf ha hb (pc_intersect_some h).1

theorem mem_unionCells {l : List PowerCuboid} {p : Cell} :
    p ∈ unionCells l ↔ ∃ c ∈ l, p ∈ cellsOf c.cuboid := by
  induction l with
  | nil => simp [unionCells]
  | cons c rest ih => simp [unionCells, ih]

theorem unionCells_filterMap (self : PowerCuboid) (l : List PowerCuboid) :
    unionCells (l.filterMap (fun o => self.intersect o)) =
      cellsOf self.cuboid ∩ unionCells l := by
  ext p
  simp only [mem_unionCells, List.mem_filterMap, Finset.mem_inter]
  constructor
  · rintro ⟨c, ⟨o, ho, hio⟩, hp⟩
    rw [pc_cells_some hio] at hp
    rw [Finset.mem_inter] at hp
    exact ⟨hp.1, o, ho, hp.2⟩
  · rintro ⟨hps, o, ho, hpo⟩
    cases h : self.intersect o with
    | none =>
      exfalso
      have := pc_cells_none h
      have hmem : p ∈ cellsOf self.cuboid ∩ cellsOf o.cuboid :=
        Finset.mem_inter.mpr ⟨hps, hpo⟩
      rw [this] at hmem
      exact Finset.not_mem_empty p hmem
    | some k =>
      refine ⟨k, ⟨o, ho, h⟩, ?_⟩
      rw [pc_cells_some h]
      exact Finset.mem_inter.mpr ⟨hps, hpo⟩

/-! ## Correctness of the recursive volume computation

The central invariant: for well-formed inputs, `compute_on_volume self
others` is exactly the number of unit cells of `self` not covered by any
element of `others`. -/

theorem sumTails_covGo_eq (fuel : Nat)
    (IH : ∀ (self : PowerCuboid) (l : List PowerCuboid), l.length < fuel →
      self.cuboid.WellFormed → (∀ d ∈ l, d.cuboid.WellFormed) →
      covGo fuel self l = some ((cellsOf self.cuboid \ unionCells l).card)) :
    ∀ ks : List PowerCuboid, ks.length ≤ fuel → (∀ d ∈ ks, d.cuboid.WellFormed) →
      sumTails (covGo fuel) ks = some ((unionCells ks).card) := by
  intro ks
  induction ks with
  | nil => intro _ _; simp [sumTails, unionCells]
  | cons k rest ih =>
    intro hlen hwf
    have hrest_len : rest.length < fuel := by
      simp only [List.length_cons] at hlen; omega
    have h1 : covGo fuel k rest = some ((cellsOf k.cuboid \ unionCells rest).card) :=
      IH k rest hrest_len (hwf k (by simp)) (fun d hd => hwf d (by simp [hd]))
    have h2 : sumTails (covGo fuel) rest = some ((unionCells rest).card) :=
      ih (Nat.le_of_lt hrest_len) (fun d hd => hwf d (by simp [hd]))
    simp only [sumTails, h1, h2]
    rw [Finset.card_sdiff_add_card]
    rfl

theorem covGo_eq : ∀ (fuel : Nat) (self : PowerCuboid) (l : List PowerCuboid),
    l.length < fuel → self.cuboid.WellFormed → (∀ d ∈ l, d.cuboid.WellFormed) →
    covGo fuel self l = some ((cellsOf self.cuboid \ unionCells l).card) := by
  intro fuel
  induction fuel with
  | zero => intro self l hlen; exact absurd hlen (Nat.not_lt_zero _)
  | succ fuel IH =>
    intro self l hlen hself hl
    have hks_wf : ∀ d ∈ l.filterMap (fun o => self.intersect o), d.cuboid.WellFormed := by
      intro d hd
      obtain ⟨o, ho, hio⟩ := List.mem_filterMap.mp hd
      exact pc_intersect_wf hself (hl o ho) hio
    have hks_len : (l.filterMap (fun o => self.intersect o)).length ≤ fuel := by
      have := List.length_filterMap_le (fun o => self.intersect o) l
      omega
    have hsum := sumTails_covGo_eq fuel IH _ hks_len hks_wf
    show covGo (fuel + 1) self l = _
    simp only [covGo]
    rw [hsum]
    have hU : unionCells (l.filterMap (fun o => self.intersect o)) =
        cellsOf self.cuboid ∩ unionCells l := unionCells_filterMap self l
    have hsub : cellsOf self.cuboid ∩ unionCells l ⊆ cellsOf self.cuboid :=
      Finset.inter_subset_left
    rw [hU, volume_eq_card hself]
    show checkedSub (cellsOf self.cuboid).card ((cellsOf self.cuboid ∩ unionCells l).card) = _
    unfold checkedSub
    rw [if_pos (Finset.card_le_card hsub), ← Finset.card_sdiff hsub,
      Finset.sdiff_inter_self_left]

theorem computeOnVolume_eq {self : PowerCuboid} {l : List PowerCuboid}
    (hself : self.cuboid.WellFormed) (hl : ∀ d ∈ l, d.cuboid.WellFormed) :
    computeOnVolume self l = some ((cellsOf self.cuboid \ unionCells l).card) :=
  covGo_eq (l.length + 1) self l (Nat.lt_succ_self _) hself hl

/-! ## Attribution of cells to their last covering instruction -/

theorem lastCover_eq_none_iff {l : List PowerCuboid} {p : Cell} :
    lastCover l p = none ↔ p ∉ unionCells l := by
  induction l with
  | nil => simp [lastCover, unionCells]
  | cons c rest ih =>
    simp only [lastCover, unionCells, Finset.mem_union]
    cases h : lastCover rest p with
    | some b =>
      have hmem : p ∈ unionCells rest := by
        by_contra hn
        rw [← ih] at hn
        rw [h] at hn
        exact Option.noConfusion hn
      simp [hmem]
    | none =>
      have hnot : p ∉ unionCells rest := ih.mp h
      by_cases hc : p ∈ cellsOf c.cuboid <;> simp [hc, hnot]

theorem onCells_cons (c : PowerCuboid) (rest : List PowerCuboid) :
    onCells (c :: rest) =
      (if c.power_state then cellsOf c.cuboid \ unionCells rest else ∅) ∪ onCells rest := by
  ext p
  simp only [onCells, Finset.mem_filter, Finset.mem_union, Finset.mem_sdiff,
    Finset.not_mem_empty]
  cases h : lastCover rest p with
  | some b =>
    have hmem : p ∈ unionCells rest := by
      by_contra hn
      rw [← lastCover_eq_none_iff] at hn
      rw [h] at hn
      exact Option.noConfusion hn
    have hcons : lastCover (c :: rest) p = some b := by
      simp [lastCover, h]
    have hu : p ∈ unionCells (c :: rest) := by
      simp [unionCells, Finset.mem_union, hmem]
    cases c.power_state <;> simp [hcons, hu, hmem, h]
  | none =>
    have hnot : p ∉ unionCells rest := lastCover_eq_none_iff.mp h
    have hcons : lastCover (c :: rest) p =
        (if p ∈ cellsOf c.cuboid then some c.power_state else none) := by
      simp [lastCover, h]
    by_cases hc : p ∈ cellsOf c.cuboid <;>
      cases hps : c.power_state <;>
        simp [hcons, hc, hps, hnot, unionCells, h]

theorem onCount_cons (c : PowerCuboid) (rest : List PowerCuboid) :
    onCount (c :: rest) =
      (if c.power_state then (cellsOf c.cuboid \ unionCells rest).card else 0) +
        onCount rest := by
  have hdisj : Disjoint
      (if c.power_state then cellsOf c.cuboid \ unionCells rest else ∅)
      (onCells rest) := by
    cases c.power_state
    · simp
    · simp only [if_pos]
      have hsub : onCells rest ⊆ unionCells rest := Finset.filter_subset _ _
      exact Disjoint.mono_right hsub Finset.sdiff_disjoint
  rw [onCount, onCells_cons, Finset.card_union_of_disjoint hdisj]
  cases c.power_state <;> simp [onCount]

theorem totalOnVolume_eq (l : List PowerCuboid)
    (h : ∀ c ∈ l, c.cuboid.WellFormed) : totalOnVolume l = some (onCount l) := by
  induction l with
  | nil => simp [totalOnVolume, onCount, onCells, unionCells]
  | cons c rest ih =>
    have hc : c.cuboid.WellFormed := h c (by simp)
    have hrest : ∀ d ∈ rest, d.cuboid.WellFormed := fun d hd => h d (by simp [hd])
    have h1 : computeOnVolume c rest =
        some ((cellsOf c.cuboid \ unionCells rest).card) :=
      computeOnVolume_eq hc hrest
    have h2 : totalOnVolume rest = some (onCount rest) := ih hrest
    rw [onCount_cons]
    cases hps : c.power_state <;>
      simp only [totalOnVolume, hps, if_pos, if_neg, Bool.false_eq_true,
        reduceIte, h1, h2]

/-! ## The claims -/

/-- C1: for every ordered list of well-formed toggle instructions, the
sum over every on-instruction of `compute_on_volume` of that instruction
against the suffix of strictly later instructions equals the number of
unit cells whose last covering instruction in the list is an
on-instruction (no panic occurs along the way).  Each unit cell is thus
attributed to exactly one instruction's net contribution. -/
theorem claim_C1_total_on_volume_counts_last_on (l : List PowerCuboid)
    (h : ∀ c ∈ l, c.cuboid.WellFormed) : totalOnVolume l = some (onCount l) :=
  totalOnVolume_eq l h

/-- Witness for C1 at a concrete two-instruction list (an on-cube
partially switched off by a later off-cube). -/
theorem claim_C1_witness :
    (∀ c ∈ [line true 0 1 0 1 0 1, line false 1 1 1 1 1 1], c.cuboid.WellFormed) ∧
    totalOnVolume [line true 0 1 0 1 0 1, line false 1 1 1 1 1 1] =
      some (onCount [line true 0 1 0 1 0 1, line false 1 1 1 1 1 1]) :=
  ⟨by decide, claim_C1_total_on_volume_counts_last_on _ (by decide)⟩

/-- C2 is false as stated: the unit cubes `[0,1)³` and `[1,2)³` share no
unit cell, yet `PowerCuboid::intersect` returns a zero-volume cuboid
rather than an absent result, because the axis tests compare the
inclusive `bottom_left` against the exclusive `top_right` with strict
inequalities only. -/
theorem claim_C2_counterexample :
    cellsOf (⟨⟨⟨1, 1, 1⟩, ⟨0, 0, 0⟩⟩, true⟩ : PowerCuboid).cuboid ∩
        cellsOf (⟨⟨⟨2, 2, 2⟩, ⟨1, 1, 1⟩⟩, true⟩ : PowerCuboid).cuboid = ∅ ∧
    PowerCuboid.intersect ⟨⟨⟨1, 1, 1⟩, ⟨0, 0, 0⟩⟩, true⟩ ⟨⟨⟨2, 2, 2⟩, ⟨1, 1, 1⟩⟩, true⟩ =
      some ⟨⟨⟨1, 1, 1⟩, ⟨1, 1, 1⟩⟩, true⟩ ∧
    Cuboid.volume ⟨⟨1, 1, 1⟩, ⟨1, 1, 1⟩⟩ = 0 := by decide

/-- C2 amended: `PowerCuboid::intersect` returns an absent result exactly
when on some axis one operand's `bottom_left` strictly exceeds the other
operand's `top_right`; two cuboids sharing no unit cell but touching on a
boundary yield a `Some` zero-volume cuboid instead of `None`. -/
theorem claim_C2_amended_none_iff_separated (a b : PowerCuboid) :
    a.intersect b = none ↔
      (a.cuboid.bottom_left.x > b.cuboid.top_right.x ∨
        a.cuboid.top_right.x < b.cuboid.bottom_left.x) ∨
      (a.cuboid.bottom_left.y > b.cuboid.top_right.y ∨
        a.cuboid.top_right.y < b.cuboid.bottom_left.y) ∨
      (a.cuboid.bottom_left.z > b.cuboid.top_right.z ∨
        a.cuboid.top_right.z < b.cuboid.bottom_left.z) := by
  rw [← intersect_eq_none_iff]
  constructor
  · exact pc_intersect_none
  · intro h
    unfold PowerCuboid.intersect
    rw [h]
    rfl

/-- C3 is false as stated: for a `PowerCuboid` whose cuboid is malformed
(`bottom_left` above `top_right` on the x axis), two copies of a single
well-formed later instruction produce a conflict volume of 10 against a
self volume of 5, so the checked subtraction underflows and the `unwrap`
panics (modelled as a `none` result). -/
theorem claim_C3_counterexample :
    computeOnVolume ⟨⟨⟨-5, 1, 1⟩, ⟨0, 0, 0⟩⟩, true⟩
      [⟨⟨⟨5, 1, 1⟩, ⟨-5, 0, 0⟩⟩, true⟩, ⟨⟨⟨5, 1, 1⟩, ⟨-5, 0, 0⟩⟩, true⟩] = none := by
  decide

/-- C3 amended: for every `PowerCuboid` with a well-formed cuboid and
every list of later instructions with well-formed cuboids, the recursive
computation succeeds (the conflict volume never exceeds the self volume,
so the checked subtraction never underflows) and the result is bounded by
the self volume. -/
theorem claim_C3_amended_no_underflow (self : PowerCuboid) (l : List PowerCuboid)
    (hself : self.cuboid.WellFormed) (hl : ∀ d ∈ l, d.cuboid.WellFormed) :
    ∃ v, computeOnVolume self l = some v ∧ v ≤ self.cuboid.volume := by
  refine ⟨(cellsOf self.cuboid \ unionCells l).card, computeOnVolume_eq hself hl, ?_⟩
  rw [volume_eq_card hself]
  exact Finset.card_le_card Finset.sdiff_subset

/-- Witness for the amended C3 at a concrete instruction pair. -/
theorem claim_C3_witness :
    ∃ v, computeOnVolume (line true 0 1 0 1 0 1) [line false 1 1 1 1 1 1] = some v ∧
      v ≤ (line true 0 1 0 1 0 1).cuboid.volume :=
  claim_C3_amended_no_underflow _ _ (by decide) (by decide)

/-- C4 is false as stated for arbitrary (possibly malformed) cuboids: for
the malformed `a` spanning `[5,0)` on x and the well-formed
`b = [0,10)`, the maximum of the lower bounds (5) exceeds the minimum of
the upper bounds (0) on the x axis, yet `intersect` does not return an
absent result, because its axis tests compare each operand's lower bound
against the *other* operand's upper bound only. -/
theorem claim_C4_counterexample :
    Cuboid.intersect ⟨⟨0, 1, 1⟩, ⟨5, 0, 0⟩⟩ ⟨⟨10, 1, 1⟩, ⟨0, 0, 0⟩⟩ ≠ none ∧
    max (⟨⟨0, 1, 1⟩, ⟨5, 0, 0⟩⟩ : Cuboid).bottom_left.x
        (⟨⟨10, 1, 1⟩, ⟨0, 0, 0⟩⟩ : Cuboid).bottom_left.x >
      min (⟨⟨0, 1, 1⟩, ⟨5, 0, 0⟩⟩ : Cuboid).top_right.x
        (⟨⟨10, 1, 1⟩, ⟨0, 0, 0⟩⟩ : Cuboid).top_right.x := by decide

/-- C4 amended: for every two *well-formed* cuboids, `intersect` returns
an absent result exactly when on some axis the maximum of the two lower
bounds exceeds the minimum of the two upper bounds, and otherwise returns
the cuboid spanning, on each axis, the maximum of the lower bounds to the
minimum of the upper bounds. -/
theorem claim_C4_amended_intersect_characterisation (a b : Cuboid)
    (ha : a.WellFormed) (hb : b.WellFormed) :
    (a.intersect b = none ↔
      max a.bottom_left.x b.bottom_left.x > min a.top_right.x b.top_right.x ∨
      max a.bottom_left.y b.bottom_left.y > min a.top_right.y b.top_right.y ∨
      max a.bottom_left.z b.bottom_left.z > min a.top_right.z b.top_right.z) ∧
    ∀ k, a.intersect b = some k →
      k = ⟨⟨min a.top_right.x b.top_right.x, min a.top_right.y b.top_right.y,
            min a.top_right.z b.top_right.z⟩,
           ⟨max a.bottom_left.x b.bottom_left.x, max a.bottom_left.y b.bottom_left.y,
            max a.bottom_left.z b.bottom_left.z⟩⟩ := by
  obtain ⟨hax, hay, haz⟩ := ha
  obtain ⟨hbx, hby, hbz⟩ := hb
  constructor
  · rw [intersect_eq_none_iff]
    omega
  · intro k hk
    exact (intersect_eq_some hk).1

/-- Witness for the amended C4 at two concrete well-formed cuboids. -/
theorem claim_C4_witness :
    (Cuboid.new ⟨0, 0, 0⟩ ⟨2, 2, 2⟩).WellFormed ∧
    (Cuboid.new ⟨1, 1, 1⟩ ⟨3, 3, 3⟩).WellFormed ∧
    (((Cuboid.new ⟨0, 0, 0⟩ ⟨2, 2, 2⟩).intersect (Cuboid.new ⟨1, 1, 1⟩ ⟨3, 3, 3⟩) = none ↔
      max (Cuboid.new ⟨0, 0, 0⟩ ⟨2, 2, 2⟩).bottom_left.x
          (Cuboid.new ⟨1, 1, 1⟩ ⟨3, 3, 3⟩).bottom_left.x >
        min (Cuboid.new ⟨0, 0, 0⟩ ⟨2, 2, 2⟩).top_right.x
          (Cuboid.new ⟨1, 1, 1⟩ ⟨3, 3, 3⟩).top_right.x ∨
      max (Cuboid.new ⟨0, 0, 0⟩ ⟨2, 2, 2⟩).bottom_left.y
          (Cuboid.new ⟨1, 1, 1⟩ ⟨3, 3, 3⟩).bottom_left.y >
        min (Cuboid.new ⟨0, 0, 0⟩ ⟨2, 2, 2⟩).top_right.y
          (Cuboid.new ⟨1, 1, 1⟩ ⟨3, 3, 3⟩).top_right.y ∨
      max (Cuboid.new ⟨0, 0, 0⟩ ⟨2, 2, 2⟩).bottom_left.z
          (Cuboid.new ⟨1, 1, 1⟩ ⟨3, 3, 3⟩).bottom_left.z >
        min (Cuboid.new ⟨0, 0, 0⟩ ⟨2, 2, 2⟩).top_right.z
          (Cuboid.new ⟨1, 1, 1⟩ ⟨3, 3, 3⟩).top_right.z) ∧
    ∀ k, (Cuboid.new ⟨0, 0, 0⟩ ⟨2, 2, 2⟩).intersect (Cuboid.new ⟨1, 1, 1⟩ ⟨3, 3, 3⟩) =
        some k →
      k = ⟨⟨min (Cuboid.new ⟨0, 0, 0⟩ ⟨2, 2, 2⟩).top_right.x
              (Cuboid.new ⟨1, 1, 1⟩ ⟨3, 3, 3⟩).top_right.x,
            min (Cuboid.new ⟨0, 0, 0⟩ ⟨2, 2, 2⟩).top_right.y
              (Cuboid.new ⟨1, 1, 1⟩ ⟨3, 3, 3⟩).top_right.y,
            min (Cuboid.new ⟨0, 0, 0⟩ ⟨2, 2, 2⟩).top_right.z
              (Cuboid.new ⟨1, 1, 1⟩ ⟨3, 3, 3⟩).top_right.z⟩,
           ⟨max (Cuboid.new ⟨0, 0, 0⟩ ⟨2, 2, 2⟩).bottom_left.x
              (Cuboid.new ⟨1, 1, 1⟩ ⟨3, 3, 3⟩).bottom_left.x,
            max (Cuboid.new ⟨0, 0, 0⟩ ⟨2, 2, 2⟩).bottom_left.y
              (Cuboid.new ⟨1, 1, 1⟩ ⟨3, 3, 3⟩).bottom_left.y,
            max (Cuboid.new ⟨0, 0, 0⟩ ⟨2, 2, 2⟩).bottom_left.z
              (Cuboid.new ⟨1, 1, 1⟩ ⟨3, 3, 3⟩).bottom_left.z⟩⟩) :=
  ⟨by decide, by decide,
    claim_C4_amended_intersect_characterisation _ _ (by decide) (by decide)⟩

/-- C5: for every two `PowerCuboid`s whose cuboids overlap (share at
least one unit cell), `intersect` returns a `PowerCuboid` whose cuboid
covers exactly the cells common to both operands, whose shape is the same
with the operands swapped, and whose power state is the second (later)
operand's. -/
theorem claim_C5_intersect_shape_and_state (a b : PowerCuboid) (p : Cell)
    (hpa : p ∈ cellsOf a.cuboid) (hpb : p ∈ cellsOf b.cuboid) :
    ∃ k, a.intersect b = some k ∧
      cellsOf k.cuboid = cellsOf a.cuboid ∩ cellsOf b.cuboid ∧
      k.power_state = b.power_state ∧
      ∃ j, b.intersect a = some j ∧ j.cuboid = k.cuboid := by
  cases h : a.intersect b with
  | none =>
    exfalso
    have hm : p ∈ cellsOf a.cuboid ∩ cellsOf b.cuboid :=
      Finset.mem_inter.mpr ⟨hpa, hpb⟩
    rw [pc_cells_none h] at hm
    exact Finset.not_mem_empty p hm
  | some k =>
    refine ⟨k, rfl, pc_cells_some h, (pc_intersect_some h).2, ?_⟩
    have hc : a.cuboid.intersect b.cuboid = some k.cuboid := (pc_intersect_some h).1
    refine ⟨⟨k.cuboid, a.power_state⟩, ?_, rfl⟩
    unfold PowerCuboid.intersect
    rw [intersect_comm b.cuboid a.cuboid, hc]
    rfl

/-- Witness for C5: the two overlapping cubes of the
`power_switch_intersection` reference test, sharing the cell
`(11, 11, 11)`. -/
theorem claim_C5_witness :
    ((11, 11, 11) : Cell) ∈ cellsOf (line true 10 12 10 12 10 12).cuboid ∧
    ((11, 11, 11) : Cell) ∈ cellsOf (line false 11 13 11 13 11 13).cuboid ∧
    (∃ k, (line true 10 12 10 12 10 12).intersect (line false 11 13 11 13 11 13) =
        some k ∧
      cellsOf k.cuboid =
        cellsOf (line true 10 12 10 12 10 12).cuboid ∩
          cellsOf (line false 11 13 11 13 11 13).cuboid ∧
      k.power_state = (line false 11 13 11 13 11 13).power_state ∧
      ∃ j, (line false 11 13 11 13 11 13).intersect (line true 10 12 10 12 10 12) =
          some j ∧ j.cuboid = k.cuboid) :=
  ⟨by decide, by decide,
    claim_C5_intersect_shape_and_state (line true 10 12 10 12 10 12)
      (line false 11 13 11 13 11 13) ((11, 11, 11) : Cell) (by decide) (by decide)⟩

/-- C6: `volume` is the product over the three axes of the absolute
coordinate difference, and on the negative-range reference cuboid
(`bottom_left = (−12,−12,−12)`, `top_right = (−9,−9,−9)`) it is 27. -/
theorem claim_C6_volume_product :
    (∀ c : Cuboid, c.volume =
      (c.top_right.x - c.bottom_left.x).natAbs *
        (c.top_right.y - c.bottom_left.y).natAbs *
        (c.top_right.z - c.bottom_left.z).natAbs) ∧
    (Cuboid.new ⟨-12, -12, -12⟩ ⟨-9, -9, -9⟩).volume = 27 := by
  constructor
  · intro c
    simp [Cuboid.volume]
    ring
  · decide

/-- The filtered reference list keeps 20 of the 22 instructions. -/
theorem refFiltered_length : refFiltered.length = 20 := by decide!

/-! ## Evaluation of the reference computation

The 590784 reference value is established by evaluating the embedded
recursion piecewise: the conflict lists and the net contributions of
sub-regions are computed as standalone kernel-checked lemmas on literal
cuboids, and the following three lemmas reassemble them step by step. -/

/-- One unfolding step of the fuelled recursion. -/
theorem covGo_succ (fuel : Nat) (self : PowerCuboid) (other_cuboids : List PowerCuboid) :
    covGo (fuel + 1) self other_cuboids =
      match sumTails (covGo fuel)
          (other_cuboids.filterMap (fun c => self.intersect c)) with
      | none => none
      | some conflict_volume => checkedSub self.cuboid.volume conflict_volume := rfl

/-- One step of the inner summation of net contributions. -/
theorem sumTails_cons (f : PowerCuboid → List PowerCuboid → Option Nat)
    (k : PowerCuboid) (rest : List PowerCuboid) (a b t : Nat)
    (h1 : f k rest = some a) (h2 : sumTails f rest = some b) (ht : a + b = t) :
    sumTails f (k :: rest) = some t := by
  simp only [sumTails, h1, h2, ht]

/-- One step of the top-level driver at an on-instruction. -/
theorem totalOnVolume_cons_on (c : PowerCuboid) (rest : List PowerCuboid)
    (v s t : Nat) (hc : c.power_state = true)
    (h1 : computeOnVolume c rest = some v) (h2 : totalOnVolume rest = some s)
    (ht : v + s = t) : totalOnVolume (c :: rest) = some t := by
  simp only [totalOnVolume, hc, reduceIte, h1, h2, ht]

/-- One step of the top-level driver at an off-instruction. -/
theorem totalOnVolume_cons_off (c : PowerCuboid) (rest : List PowerCuboid)
    (s : Nat) (hc : c.power_state = false) (h2 : totalOnVolume rest = some s) :
    totalOnVolume (c :: rest) = some s := by
  have hne : ¬(c.power_state = true) := by rw [hc]; exact Bool.false_ne_true
  simp only [totalOnVolume, if_neg hne, h2, Nat.zero_add]

/-- Leaf evaluation of the embedded recursion (768 nodes). -/
theorem cov_n4 :
    covGo 16 ⟨⟨⟨2, 18, 0⟩, ⟨-20, -3, -24⟩⟩, true⟩
    ([⟨⟨⟨8, 18, 0⟩, ⟨2, -6, -23⟩⟩, true⟩,
   ⟨⟨⟨8, 18, 0⟩, ⟨-20, -6, -21⟩⟩, true⟩,
   ⟨⟨⟨6, 18, 0⟩, ⟨-20, -6, -3⟩⟩, true⟩,
   ⟨⟨⟨8, 18, 0⟩, ⟨-20, -6, -13⟩⟩, true⟩,
   ⟨⟨⟨8, 18, 0⟩, ⟨-20, -6, -26⟩⟩, true⟩,
   ⟨⟨⟨8, 18, -1⟩, ⟨-12, 6, -26⟩⟩, true⟩,
   ⟨⟨⟨8, 16, 0⟩, ⟨-18, -6, -7⟩⟩, true⟩,
   ⟨⟨⟨8, 11, 0⟩, ⟨-16, -6, -26⟩⟩, true⟩,
   ⟨⟨⟨-4, 18, 0⟩, ⟨-20, -3, -26⟩⟩, true⟩,
   ⟨⟨⟨8, 18, 0⟩, ⟨-20, -6, -26⟩⟩, true⟩] : List PowerCuboid) = some 0 := by decide!

/-- Leaf evaluation of the embedded recursion (256 nodes). -/
theorem cov_n5 :
    covGo 16 ⟨⟨⟨8, 18, 0⟩, ⟨2, -6, -23⟩⟩, true⟩
    ([⟨⟨⟨8, 18, 0⟩, ⟨-20, -6, -21⟩⟩, true⟩,
   ⟨⟨⟨6, 18, 0⟩, ⟨-20, -6, -3⟩⟩, true⟩,
   ⟨⟨⟨8, 18, 0⟩, ⟨-20, -6, -13⟩⟩, true⟩,
   ⟨⟨⟨8, 18, 0⟩, ⟨-20, -6, -26⟩⟩, true⟩,
   ⟨⟨⟨8, 18, -1⟩, ⟨-12, 6, -26⟩⟩, true⟩,
   ⟨⟨⟨8, 16, 0⟩, ⟨-18, -6, -7⟩⟩, true⟩,
   ⟨⟨⟨8, 11, 0⟩, ⟨-16, -6, -26⟩⟩, true⟩,
   ⟨⟨⟨-4, 18, 0⟩, ⟨-20, -3, -26⟩⟩, true⟩,
   ⟨⟨⟨8, 18, 0⟩, ⟨-20, -6, -26⟩⟩, true⟩] : List PowerCuboid) = some 0 := by decide!

/-- Leaf evaluation of the embedded recursion (256 nodes). -/
theorem cov_n6 :
    covGo 16 ⟨⟨⟨8, 18, 0⟩, ⟨-20, -6, -21⟩⟩, true⟩
    ([⟨⟨⟨6, 18, 0⟩, ⟨-20, -6, -3⟩⟩, true⟩,
   ⟨⟨⟨8, 18, 0⟩, ⟨-20, -6, -13⟩⟩, true⟩,
   ⟨⟨⟨8, 18, 0⟩, ⟨-20, -6, -26⟩⟩, true⟩,
   ⟨⟨⟨8, 18, -1⟩, ⟨-12, 6, -26⟩⟩, true⟩,
   ⟨⟨⟨8, 16, 0⟩, ⟨-18, -6, -7⟩⟩, true⟩,
   ⟨⟨⟨8, 11, 0⟩, ⟨-16, -6, -26⟩⟩, true⟩,
   ⟨⟨⟨-4, 18, 0⟩, ⟨-20, -3, -26⟩⟩, true⟩,
   ⟨⟨⟨8, 18, 0⟩, ⟨-20, -6, -26⟩⟩, true⟩] : List PowerCuboid) = some 0 := by decide!

/-- Leaf evaluation of the embedded recursion (128 nodes). -/
theorem cov_n7 :
    covGo 16 ⟨⟨⟨6, 18, 0⟩, ⟨-20, -6, -3⟩⟩, true⟩
    ([⟨⟨⟨8, 18, 0⟩, ⟨-20, -6, -13⟩⟩, true⟩,
   ⟨⟨⟨8, 18, 0⟩, ⟨-20, -6, -26⟩⟩, true⟩,
   ⟨⟨⟨8, 18, -1⟩, ⟨-12, 6, -26⟩⟩, true⟩,
   ⟨⟨⟨8, 16, 0⟩, ⟨-18, -6, -7⟩⟩, true⟩,
   ⟨⟨⟨8, 11, 0⟩, ⟨-16, -6, -26⟩⟩, true⟩,
   ⟨⟨⟨-4, 18, 0⟩, ⟨-20, -3, -26⟩⟩, true⟩,
   ⟨⟨⟨8, 18, 0⟩, ⟨-20, -6, -26⟩⟩, true⟩] : List PowerCuboid) = some 0 := by decide!

/-- Leaf evaluation of the embedded recursion (64 nodes). -/
theorem cov_n8 :
    covGo 16 ⟨⟨⟨8, 18, 0⟩, ⟨-20, -6, -13⟩⟩, true⟩
    ([⟨⟨⟨8, 18, 0⟩, ⟨-20, -6, -26⟩⟩, true⟩,
   ⟨⟨⟨8, 18, -1⟩, ⟨-12, 6, -26⟩⟩, true⟩,
   ⟨⟨⟨8, 16, 0⟩, ⟨-18, -6, -7⟩⟩, true⟩,
   ⟨⟨⟨8, 11, 0⟩, ⟨-16, -6, -26⟩⟩, true⟩,
   ⟨⟨⟨-4, 18, 0⟩, ⟨-20, -3, -26⟩⟩, true⟩,
   ⟨⟨⟨8, 18, 0⟩, ⟨-20, -6, -26⟩⟩, true⟩] : List PowerCuboid) = some 0 := by decide!

/-- Leaf evaluation of the embedded recursion (32 nodes). -/
theorem cov_n9 :
    covGo 16 ⟨⟨⟨8, 18, 0⟩, ⟨-20, -6, -26⟩⟩, true⟩
    ([⟨⟨⟨8, 18, -1⟩, ⟨-12, 6, -26⟩⟩, true⟩,
   ⟨⟨⟨8, 16, 0⟩, ⟨-18, -6, -7⟩⟩, true⟩,
   ⟨⟨⟨8, 11, 0⟩, ⟨-16, -6, -26⟩⟩, true⟩,
   ⟨⟨⟨-4, 18, 0⟩, ⟨-20, -3, -26⟩⟩, true⟩,
   ⟨⟨⟨8, 18, 0⟩, ⟨-20, -6, -26⟩⟩, true⟩] : List PowerCuboid) = some 0 := by decide!

/-- Leaf evaluation of the embedded recursion (16 nodes). -/
theorem cov_n10 :
    covGo 16 ⟨⟨⟨8, 18, -1⟩, ⟨-12, 6, -26⟩⟩, true⟩
    ([⟨⟨⟨8, 16, 0⟩, ⟨-18, -6, -7⟩⟩, true⟩,
   ⟨⟨⟨8, 11, 0⟩, ⟨-16, -6, -26⟩⟩, true⟩,
   ⟨⟨⟨-4, 18, 0⟩, ⟨-20, -3, -26⟩⟩, true⟩,
   ⟨⟨⟨8, 18, 0⟩, ⟨-20, -6, -26⟩⟩, true⟩] : List PowerCuboid) = some 0 := by decide!

/-- Leaf evaluation of the embedded recursion (8 nodes). -/
theorem cov_n11 :
    covGo 16 ⟨⟨⟨8, 16, 0⟩, ⟨-18, -6, -7⟩⟩, true⟩
    ([⟨⟨⟨8, 11, 0⟩, ⟨-16, -6, -26⟩⟩, true⟩,
   ⟨⟨⟨-4, 18, 0⟩, ⟨-20, -3, -26⟩⟩, true⟩,
   ⟨⟨⟨8, 18, 0⟩, ⟨-20, -6, -26⟩⟩, true⟩] : List PowerCuboid) = some 0 := by decide!

/-- Leaf evaluation of the embedded recursion (4 nodes). -/
theorem cov_n12 :
    covGo 16 ⟨⟨⟨8, 11, 0⟩, ⟨-16, -6, -26⟩⟩, true⟩
    ([⟨⟨⟨-4, 18, 0⟩, ⟨-20, -3, -26⟩⟩, true⟩,
   ⟨⟨⟨8, 18, 0⟩, ⟨-20, -6, -26⟩⟩, true⟩] : List PowerCuboid) = some 0 := by decide!

/-- Leaf evaluation of the embedded recursion (2 nodes). -/
theorem cov_n13 :
    covGo 16 ⟨⟨⟨-4, 18, 0⟩, ⟨-20, -3, -26⟩⟩, true⟩
    ([⟨⟨⟨8, 18, 0⟩, ⟨-20, -6, -26⟩⟩, true⟩] : List PowerCuboid) = some 0 := by decide!

/-- Leaf evaluation of the embedded recursion (1 nodes). -/
theorem cov_n14 :
    covGo 16 ⟨⟨⟨8, 18, 0⟩, ⟨-20, -6, -26⟩⟩, true⟩
    ([] : List PowerCuboid) = some 17472 := by decide!

/-- The conflict list of the node above, evaluated. -/
theorem ks_n15 :
    List.filterMap (fun c => PowerCuboid.intersect ⟨⟨⟨8, 18, 0⟩, ⟨-20, -6, -26⟩⟩, true⟩ c)
    ([⟨⟨⟨2, 18, 8⟩, ⟨-20, -3, -24⟩⟩, true⟩,
   ⟨⟨⟨27, 18, 8⟩, ⟨2, -21, -23⟩⟩, true⟩,
   ⟨⟨⟨24, 18, 8⟩, ⟨-20, -21, -21⟩⟩, true⟩,
   ⟨⟨⟨6, 18, 8⟩, ⟨-20, -6, -3⟩⟩, true⟩,
   ⟨⟨⟨22, 18, 8⟩, ⟨-20, -8, -13⟩⟩, true⟩,
   ⟨⟨⟨27, 18, 8⟩, ⟨-20, -21, -26⟩⟩, true⟩,
   ⟨⟨⟨27, 18, -1⟩, ⟨-12, 6, -26⟩⟩, true⟩,
   ⟨⟨⟨27, 16, 8⟩, ⟨-18, -21, -7⟩⟩, true⟩,
   ⟨⟨⟨27, 11, 7⟩, ⟨-16, -21, -26⟩⟩, true⟩,
   ⟨⟨⟨-4, 18, 8⟩, ⟨-20, -3, -26⟩⟩, true⟩,
   ⟨⟨⟨27, -7, 8⟩, ⟨18, -20, -3⟩⟩, false⟩,
   ⟨⟨⟨10, 18, 8⟩, ⟨-20, -7, -26⟩⟩, true⟩] : List PowerCuboid) = ([⟨⟨⟨2, 18, 0⟩, ⟨-20, -3, -24⟩⟩, true⟩,
   ⟨⟨⟨8, 18, 0⟩, ⟨2, -6, -23⟩⟩, true⟩,
   ⟨⟨⟨8, 18, 0⟩, ⟨-20, -6, -21⟩⟩, true⟩,
   ⟨⟨⟨6, 18, 0⟩, ⟨-20, -6, -3⟩⟩, true⟩,
   ⟨⟨⟨8, 18, 0⟩, ⟨-20, -6, -13⟩⟩, true⟩,
   ⟨⟨⟨8, 18, 0⟩, ⟨-20, -6, -26⟩⟩, true⟩,
   ⟨⟨⟨8, 18, -1⟩, ⟨-12, 6, -26⟩⟩, true⟩,
   ⟨⟨⟨8, 16, 0⟩, ⟨-18, -6, -7⟩⟩, true⟩,
   ⟨⟨⟨8, 11, 0⟩, ⟨-16, -6, -26⟩⟩, true⟩,
   ⟨⟨⟨-4, 18, 0⟩, ⟨-20, -3, -26⟩⟩, true⟩,
   ⟨⟨⟨8, 18, 0⟩, ⟨-20, -6, -26⟩⟩, true⟩] : List PowerCuboid) := by decide!

/-- Split evaluation of the embedded recursion (1536 nodes in total),
assembled from the conflict list and the net contributions of its
members. -/
theorem cov_n3 :
    covGo 17 ⟨⟨⟨8, 18, 0⟩, ⟨-20, -6, -26⟩⟩, true⟩
    ([⟨⟨⟨2, 18, 8⟩, ⟨-20, -3, -24⟩⟩, true⟩,
   ⟨⟨⟨27, 18, 8⟩, ⟨2, -21, -23⟩⟩, true⟩,
   ⟨⟨⟨24, 18, 8⟩, ⟨-20, -21, -21⟩⟩, true⟩,
   ⟨⟨⟨6, 18, 8⟩, ⟨-20, -6, -3⟩⟩, true⟩,
   ⟨⟨⟨22, 18, 8⟩, ⟨-20, -8, -13⟩⟩, true⟩,
   ⟨⟨⟨27, 18, 8⟩, ⟨-20, -21, -26⟩⟩, true⟩,
   ⟨⟨⟨27, 18, -1⟩, ⟨-12, 6, -26⟩⟩, true⟩,
   ⟨⟨⟨27, 16, 8⟩, ⟨-18, -21, -7⟩⟩, true⟩,
   ⟨⟨⟨27, 11, 7⟩, ⟨-16, -21, -26⟩⟩, true⟩,
   ⟨⟨⟨-4, 18, 8⟩, ⟨-20, -3, -26⟩⟩, true⟩,
   ⟨⟨⟨27, -7, 8⟩, ⟨18, -20, -3⟩⟩, false⟩,
   ⟨⟨⟨10, 18, 8⟩, ⟨-20, -7, -26⟩⟩, true⟩] : List PowerCuboid) = some 0 := by
  have s11 : sumTails (covGo 16) ([] : List PowerCuboid) = some 0 := rfl
  have s10 : sumTails (covGo 16) ([⟨⟨⟨8, 18, 0⟩, ⟨-20, -6, -26⟩⟩, true⟩] : List PowerCuboid) = some 17472 :=
    sumTails_cons _ _ _ 17472 0 17472 cov_n14 s11 rfl
  have s9 : sumTails (covGo 16) ([⟨⟨⟨-4, 18, 0⟩, ⟨-20, -3, -26⟩⟩, true⟩,
   ⟨⟨⟨8, 18, 0⟩, ⟨-20, -6, -26⟩⟩, true⟩] : List PowerCuboid) = some 17472 :=
    sumTails_cons _ _ _ 0 17472 17472 cov_n13 s10 rfl
  have s8 : sumTails (covGo 16) ([⟨⟨⟨8, 11, 0⟩, ⟨-16, -6, -26⟩⟩, true⟩,
   ⟨⟨⟨-4, 18, 0⟩, ⟨-20, -3, -26⟩⟩, true⟩,
   ⟨⟨⟨8, 18, 0⟩, ⟨-20, -6, -26⟩⟩, true⟩] : List PowerCuboid) = some 17472 :=
    sumTails_cons _ _ _ 0 17472 17472 cov_n12 s9 rfl
  have s7 : sumTails (covGo 16) ([⟨⟨⟨8, 16, 0⟩, ⟨-18, -6, -7⟩⟩, true⟩,
   ⟨⟨⟨8, 11, 0⟩, ⟨-16, -6, -26⟩⟩, true⟩,
   ⟨⟨⟨-4, 18, 0⟩, ⟨-20, -3, -26⟩⟩, true⟩,
   ⟨⟨⟨8, 18, 0⟩, ⟨-20, -6, -26⟩⟩, true⟩] : List PowerCuboid) = some 17472 :=
    sumTails_cons _ _ _ 0 17472 17472 cov_n11 s8 rfl
  have s6 : sumTails (covGo 16) ([⟨⟨⟨8, 18, -1⟩, ⟨-12, 6, -26⟩⟩, true⟩,
   ⟨⟨⟨8, 16, 0⟩, ⟨-18, -6, -7⟩⟩, true⟩,
   ⟨⟨⟨8, 11, 0⟩, ⟨-16, -6, -26⟩⟩, true⟩,
   ⟨⟨⟨-4, 18, 0⟩, ⟨-20, -3, -26⟩⟩, true⟩,
   ⟨⟨⟨8, 18, 0⟩, ⟨-20, -6, -26⟩⟩, true⟩] : List PowerCuboid) = some 17472 :=
    sumTails_cons _ _ _ 0 17472 17472 cov_n10 s7 rfl
  have s5 : sumTails (covGo 16) ([⟨⟨⟨8, 18, 0⟩, ⟨-20, -6, -26⟩⟩, true⟩,
   ⟨⟨⟨8, 18, -1⟩, ⟨-12, 6, -26⟩⟩, true⟩,
   ⟨⟨⟨8, 16, 0⟩, ⟨-18, -6, -7⟩⟩, true⟩,
   ⟨⟨⟨8, 11, 0⟩, ⟨-16, -6, -26⟩⟩, true⟩,
   ⟨⟨⟨-4, 18, 0⟩, ⟨-20, -3, -26⟩⟩, true⟩,
   ⟨⟨⟨8, 18, 0⟩, ⟨-20, -6, -26⟩⟩, true⟩] : List PowerCuboid) = some 17472 :=
    sumTails_cons _ _ _ 0 17472 17472 cov_n9 s6 rfl
  have s4 : sumTails (covGo 16) ([⟨⟨⟨8, 18, 0⟩, ⟨-20, -6, -13⟩⟩, true⟩,
   ⟨⟨⟨8, 18, 0⟩, ⟨-20, -6, -26⟩⟩, true⟩,
   ⟨⟨⟨8, 18, -1⟩, ⟨-12, 6, -26⟩⟩, true⟩,
   ⟨⟨⟨8, 16, 0⟩, ⟨-18, -6, -7⟩⟩, true⟩,
   ⟨⟨⟨8, 11, 0⟩, ⟨-16, -6, -26⟩⟩, true⟩,
   ⟨⟨⟨-4, 18, 0⟩, ⟨-20, -3, -26⟩⟩, true⟩,
   ⟨⟨⟨8, 18, 0⟩, ⟨-20, -6, -26⟩⟩, true⟩] : List PowerCuboid) = some 17472 :=
    sumTails_cons _ _ _ 0 17472 17472 cov_n8 s5 rfl
  have s3 : sumTails (covGo 16) ([⟨⟨⟨6, 18, 0⟩, ⟨-20, -6, -3⟩⟩, true⟩,
   ⟨⟨⟨8, 18, 0⟩, ⟨-20, -6, -13⟩⟩, true⟩,
   ⟨⟨⟨8, 18, 0⟩, ⟨-20, -6, -26⟩⟩, true⟩,
   ⟨⟨⟨8, 18, -1⟩, ⟨-12, 6, -26⟩⟩, true⟩,
   ⟨⟨⟨8, 16, 0⟩, ⟨-18, -6, -7⟩⟩, true⟩,
   ⟨⟨⟨8, 11, 0⟩, ⟨-16, -6, -26⟩⟩, true⟩,
   ⟨⟨⟨-4, 18, 0⟩, ⟨-20, -3, -26⟩⟩, true⟩,
   ⟨⟨⟨8, 18, 0⟩, ⟨-20, -6, -26⟩⟩, true⟩] : List PowerCuboid) = some 17472 :=
    sumTails_cons _ _ _ 0 17472 17472 cov_n7 s4 rfl
  have s2 : sumTails (covGo 16) ([⟨⟨⟨8, 18, 0⟩, ⟨-20, -6, -21⟩⟩, true⟩,
   ⟨⟨⟨6, 18, 0⟩, ⟨-20, -6, -3⟩⟩, true⟩,
   ⟨⟨⟨8, 18, 0⟩, ⟨-20, -6, -13⟩⟩, true⟩,
   ⟨⟨⟨8, 18, 0⟩, ⟨-20, -6, -26⟩⟩, true⟩,
   ⟨⟨⟨8, 18, -1⟩, ⟨-12, 6, -26⟩⟩, true⟩,
   ⟨⟨⟨8, 16, 0⟩, ⟨-18, -6, -7⟩⟩, true⟩,
   ⟨⟨⟨8, 11, 0⟩, ⟨-16, -6, -26⟩⟩, true⟩,
   ⟨⟨⟨-4, 18, 0⟩, ⟨-20, -3, -26⟩⟩, true⟩,
   ⟨⟨⟨8, 18, 0⟩, ⟨-20, -6, -26⟩⟩, true⟩] : List PowerCuboid) = some 17472 :=
    sumTails_cons _ _ _ 0 17472 17472 cov_n6 s3 rfl
  have s1 : sumTails (covGo 16) ([⟨⟨⟨8, 18, 0⟩, ⟨2, -6, -23⟩⟩, true⟩,
   ⟨⟨⟨8, 18, 0⟩, ⟨-20, -6, -21⟩⟩, true⟩,
   ⟨⟨⟨6, 18, 0⟩, ⟨-20, -6, -3⟩⟩, true⟩,
   ⟨⟨⟨8, 18, 0⟩, ⟨-20, -6, -13⟩⟩, true⟩,
   ⟨⟨⟨8, 18, 0⟩, ⟨-20, -6, -26⟩⟩, true⟩,
   ⟨⟨⟨8, 18, -1⟩, ⟨-12, 6, -26⟩⟩, true⟩,
   ⟨⟨⟨8, 16, 0⟩, ⟨-18, -6, -7⟩⟩, true⟩,
   ⟨⟨⟨8, 11, 0⟩, ⟨-16, -6, -26⟩⟩, true⟩,
   ⟨⟨⟨-4, 18, 0⟩, ⟨-20, -3, -26⟩⟩, true⟩,
   ⟨⟨⟨8, 18, 0⟩, ⟨-20, -6, -26⟩⟩, true⟩] : List PowerCuboid) = some 17472 :=
    sumTails_cons _ _ _ 0 17472 17472 cov_n5 s2 rfl
  have s0 : sumTails (covGo 16) ([⟨⟨⟨2, 18, 0⟩, ⟨-20, -3, -24⟩⟩, true⟩,
   ⟨⟨⟨8, 18, 0⟩, ⟨2, -6, -23⟩⟩, true⟩,
   ⟨⟨⟨8, 18, 0⟩, ⟨-20, -6, -21⟩⟩, true⟩,
   ⟨⟨⟨6, 18, 0⟩, ⟨-20, -6, -3⟩⟩, true⟩,
   ⟨⟨⟨8, 18, 0⟩, ⟨-20, -6, -13⟩⟩, true⟩,
   ⟨⟨⟨8, 18, 0⟩, ⟨-20, -6, -26⟩⟩, true⟩,
   ⟨⟨⟨8, 18, -1⟩, ⟨-12, 6, -26⟩⟩, true⟩,
   ⟨⟨⟨8, 16, 0⟩, ⟨-18, -6, -7⟩⟩, true⟩,
   ⟨⟨⟨8, 11, 0⟩, ⟨-16, -6, -26⟩⟩, true⟩,
   ⟨⟨⟨-4, 18, 0⟩, ⟨-20, -3, -26⟩⟩, true⟩,
   ⟨⟨⟨8, 18, 0⟩, ⟨-20, -6, -26⟩⟩, true⟩] : List PowerCuboid) = some 17472 :=
    sumTails_cons _ _ _ 0 17472 17472 cov_n4 s1 rfl
  rw [covGo_succ, ks_n15, s0]
  decide

/-- Leaf evaluation of the embedded recursion (768 nodes). -/
theorem cov_n16 :
    covGo 17 ⟨⟨⟨2, 18, 8⟩, ⟨-20, -3, -24⟩⟩, true⟩
    ([⟨⟨⟨27, 18, 8⟩, ⟨2, -21, -23⟩⟩, true⟩,
   ⟨⟨⟨24, 18, 8⟩, ⟨-20, -21, -21⟩⟩, true⟩,
   ⟨⟨⟨6, 18, 8⟩, ⟨-20, -6, -3⟩⟩, true⟩,
   ⟨⟨⟨22, 18, 8⟩, ⟨-20, -8, -13⟩⟩, true⟩,
   ⟨⟨⟨27, 18, 8⟩, ⟨-20, -21, -26⟩⟩, true⟩,
   ⟨⟨⟨27, 18, -1⟩, ⟨-12, 6, -26⟩⟩, true⟩,
   ⟨⟨⟨27, 16, 8⟩, ⟨-18, -21, -7⟩⟩, true⟩,
   ⟨⟨⟨27, 11, 7⟩, ⟨-16, -21, -26⟩⟩, true⟩,
   ⟨⟨⟨-4, 18, 8⟩, ⟨-20, -3, -26⟩⟩, true⟩,
   ⟨⟨⟨27, -7, 8⟩, ⟨18, -20, -3⟩⟩, false⟩,
   ⟨⟨⟨10, 18, 8⟩, ⟨-20, -7, -26⟩⟩, true⟩] : List PowerCuboid) = some 0 := by decide!

/-- Leaf evaluation of the embedded recursion (288 nodes). -/
theorem cov_n17 :
    covGo 17 ⟨⟨⟨27, 18, 8⟩, ⟨2, -21, -23⟩⟩, true⟩
    ([⟨⟨⟨24, 18, 8⟩, ⟨-20, -21, -21⟩⟩, true⟩,
   ⟨⟨⟨6, 18, 8⟩, ⟨-20, -6, -3⟩⟩, true⟩,
   ⟨⟨⟨22, 18, 8⟩, ⟨-20, -8, -13⟩⟩, true⟩,
   ⟨⟨⟨27, 18, 8⟩, ⟨-20, -21, -26⟩⟩, true⟩,
   ⟨⟨⟨27, 18, -1⟩, ⟨-12, 6, -26⟩⟩, true⟩,
   ⟨⟨⟨27, 16, 8⟩, ⟨-18, -21, -7⟩⟩, true⟩,
   ⟨⟨⟨27, 11, 7⟩, ⟨-16, -21, -26⟩⟩, true⟩,
   ⟨⟨⟨-4, 18, 8⟩, ⟨-20, -3, -26⟩⟩, true⟩,
   ⟨⟨⟨27, -7, 8⟩, ⟨18, -20, -3⟩⟩, false⟩,
   ⟨⟨⟨10, 18, 8⟩, ⟨-20, -7, -26⟩⟩, true⟩] : List PowerCuboid) = some 0 := by decide!

/-- Leaf evaluation of the embedded recursion (272 nodes). -/
theorem cov_n18 :
    covGo 17 ⟨⟨⟨24, 18, 8⟩, ⟨-20, -21, -21⟩⟩, true⟩
    ([⟨⟨⟨6, 18, 8⟩, ⟨-20, -6, -3⟩⟩, true⟩,
   ⟨⟨⟨22, 18, 8⟩, ⟨-20, -8, -13⟩⟩, true⟩,
   ⟨⟨⟨27, 18, 8⟩, ⟨-20, -21, -26⟩⟩, true⟩,
   ⟨⟨⟨27, 18, -1⟩, ⟨-12, 6, -26⟩⟩, true⟩,
   ⟨⟨⟨27, 16, 8⟩, ⟨-18, -21, -7⟩⟩, true⟩,
   ⟨⟨⟨27, 11, 7⟩, ⟨-16, -21, -26⟩⟩, true⟩,
   ⟨⟨⟨-4, 18, 8⟩, ⟨-20, -3, -26⟩⟩, true⟩,
   ⟨⟨⟨27, -7, 8⟩, ⟨18, -20, -3⟩⟩, false⟩,
   ⟨⟨⟨10, 18, 8⟩, ⟨-20, -7, -26⟩⟩, true⟩] : List PowerCuboid) = some 0 := by decide!

/-- Leaf evaluation of the embedded recursion (128 nodes). -/
theorem cov_n19 :
    covGo 17 ⟨⟨⟨6, 18, 8⟩, ⟨-20, -6, -3⟩⟩, true⟩
    ([⟨⟨⟨22, 18, 8⟩, ⟨-20, -8, -13⟩⟩, true⟩,
   ⟨⟨⟨27, 18, 8⟩, ⟨-20, -21, -26⟩⟩, true⟩,
   ⟨⟨⟨27, 18, -1⟩, ⟨-12, 6, -26⟩⟩, true⟩,
   ⟨⟨⟨27, 16, 8⟩, ⟨-18, -21, -7⟩⟩, true⟩,
   ⟨⟨⟨27, 11, 7⟩, ⟨-16, -21, -26⟩⟩, true⟩,
   ⟨⟨⟨-4, 18, 8⟩, ⟨-20, -3, -26⟩⟩, true⟩,
   ⟨⟨⟨27, -7, 8⟩, ⟨18, -20, -3⟩⟩, false⟩,
   ⟨⟨⟨10, 18, 8⟩, ⟨-20, -7, -26⟩⟩, true⟩] : List PowerCuboid) = some 0 := by decide!

/-- Leaf evaluation of the embedded recursion (72 nodes). -/
theorem cov_n20 :
    covGo 17 ⟨⟨⟨22, 18, 8⟩, ⟨-20, -8, -13⟩⟩, true⟩
    ([⟨⟨⟨27, 18, 8⟩, ⟨-20, -21, -26⟩⟩, true⟩,
   ⟨⟨⟨27, 18, -1⟩, ⟨-12, 6, -26⟩⟩, true⟩,
   ⟨⟨⟨27, 16, 8⟩, ⟨-18, -21, -7⟩⟩, true⟩,
   ⟨⟨⟨27, 11, 7⟩, ⟨-16, -21, -26⟩⟩, true⟩,
   ⟨⟨⟨-4, 18, 8⟩, ⟨-20, -3, -26⟩⟩, true⟩,
   ⟨⟨⟨27, -7, 8⟩, ⟨18, -20, -3⟩⟩, false⟩,
   ⟨⟨⟨10, 18, 8⟩, ⟨-20, -7, -26⟩⟩, true⟩] : List PowerCuboid) = some 0 := by decide!

/-- Leaf evaluation of the embedded recursion (36 nodes). -/
theorem cov_n21 :
    covGo 17 ⟨⟨⟨27, 18, 8⟩, ⟨-20, -21, -26⟩⟩, true⟩
    ([⟨⟨⟨27, 18, -1⟩, ⟨-12, 6, -26⟩⟩, true⟩,
   ⟨⟨⟨27, 16, 8⟩, ⟨-18, -21, -7⟩⟩, true⟩,
   ⟨⟨⟨27, 11, 7⟩, ⟨-16, -21, -26⟩⟩, true⟩,
   ⟨⟨⟨-4, 18, 8⟩, ⟨-20, -3, -26⟩⟩, true⟩,
   ⟨⟨⟨27, -7, 8⟩, ⟨18, -20, -3⟩⟩, false⟩,
   ⟨⟨⟨10, 18, 8⟩, ⟨-20, -7, -26⟩⟩, true⟩] : List PowerCuboid) = some 1790 := by decide!

/-- Leaf evaluation of the embedded recursion (16 nodes). -/
theorem cov_n22 :
    covGo 17 ⟨⟨⟨27, 18, -1⟩, ⟨-12, 6, -26⟩⟩, true⟩
    ([⟨⟨⟨27, 16, 8⟩, ⟨-18, -21, -7⟩⟩, true⟩,
   ⟨⟨⟨27, 11, 7⟩, ⟨-16, -21, -26⟩⟩, true⟩,
   ⟨⟨⟨-4, 18, 8⟩, ⟨-20, -3, -26⟩⟩, true⟩,
   ⟨⟨⟨27, -7, 8⟩, ⟨18, -20, -3⟩⟩, false⟩,
   ⟨⟨⟨10, 18, 8⟩, ⟨-20, -7, -26⟩⟩, true⟩] : List PowerCuboid) = some 2465 := by decide!

/-- Leaf evaluation of the embedded recursion (10 nodes). -/
theorem cov_n23 :
    covGo 17 ⟨⟨⟨27, 16, 8⟩, ⟨-18, -21, -7⟩⟩, true⟩
    ([⟨⟨⟨27, 11, 7⟩, ⟨-16, -21, -26⟩⟩, true⟩,
   ⟨⟨⟨-4, 18, 8⟩, ⟨-20, -3, -26⟩⟩, true⟩,
   ⟨⟨⟨27, -7, 8⟩, ⟨18, -20, -3⟩⟩, false⟩,
   ⟨⟨⟨10, 18, 8⟩, ⟨-20, -7, -26⟩⟩, true⟩] : List PowerCuboid) = some 2486 := by decide!

/-- Leaf evaluation of the embedded recursion (5 nodes). -/
theorem cov_n24 :
    covGo 17 ⟨⟨⟨27, 11, 7⟩, ⟨-16, -21, -26⟩⟩, true⟩
    ([⟨⟨⟨-4, 18, 8⟩, ⟨-20, -3, -26⟩⟩, true⟩,
   ⟨⟨⟨27, -7, 8⟩, ⟨18, -20, -3⟩⟩, false⟩,
   ⟨⟨⟨10, 18, 8⟩, ⟨-20, -7, -26⟩⟩, true⟩] : List PowerCuboid) = some 28794 := by decide!

/-- Leaf evaluation of the embedded recursion (2 nodes). -/
theorem cov_n25 :
    covGo 17 ⟨⟨⟨-4, 18, 8⟩, ⟨-20, -3, -26⟩⟩, true⟩
    ([⟨⟨⟨27, -7, 8⟩, ⟨18, -20, -3⟩⟩, false⟩,
   ⟨⟨⟨10, 18, 8⟩, ⟨-20, -7, -26⟩⟩, true⟩] : List PowerCuboid) = some 0 := by decide!

/-- Leaf evaluation of the embedded recursion (1 nodes). -/
theorem cov_n26 :
    covGo 17 ⟨⟨⟨27, -7, 8⟩, ⟨18, -20, -3⟩⟩, false⟩
    ([⟨⟨⟨10, 18, 8⟩, ⟨-20, -7, -26⟩⟩, true⟩] : List PowerCuboid) = some 1287 := by decide!

/-- Leaf evaluation of the embedded recursion (1 nodes). -/
theorem cov_n27 :
    covGo 17 ⟨⟨⟨10, 18, 8⟩, ⟨-20, -7, -26⟩⟩, true⟩
    ([] : List PowerCuboid) = some 25500 := by decide!

/-- The conflict list of the node above, evaluated. -/
theorem ks_n28 :
    List.filterMap (fun c => PowerCuboid.intersect ⟨⟨⟨27, 18, 8⟩, ⟨-20, -21, -26⟩⟩, true⟩ c)
    ([⟨⟨⟨8, 18, 0⟩, ⟨-20, -6, -26⟩⟩, true⟩,
   ⟨⟨⟨2, 18, 8⟩, ⟨-20, -3, -24⟩⟩, true⟩,
   ⟨⟨⟨27, 18, 8⟩, ⟨2, -21, -23⟩⟩, true⟩,
   ⟨⟨⟨24, 18, 8⟩, ⟨-20, -21, -21⟩⟩, true⟩,
   ⟨⟨⟨6, 18, 8⟩, ⟨-20, -6, -3⟩⟩, true⟩,
   ⟨⟨⟨22, 18, 8⟩, ⟨-20, -8, -13⟩⟩, true⟩,
   ⟨⟨⟨27, 18, 8⟩, ⟨-20, -21, -26⟩⟩, true⟩,
   ⟨⟨⟨27, 18, -1⟩, ⟨-12, 6, -26⟩⟩, true⟩,
   ⟨⟨⟨27, 16, 8⟩, ⟨-18, -21, -7⟩⟩, true⟩,
   ⟨⟨⟨27, 11, 7⟩, ⟨-16, -21, -26⟩⟩, true⟩,
   ⟨⟨⟨-4, 18, 8⟩, ⟨-20, -3, -26⟩⟩, true⟩,
   ⟨⟨⟨27, -7, 8⟩, ⟨18, -20, -3⟩⟩, false⟩,
   ⟨⟨⟨10, 18, 8⟩, ⟨-20, -7, -26⟩⟩, true⟩] : List PowerCuboid) = ([⟨⟨⟨8, 18, 0⟩, ⟨-20, -6, -26⟩⟩, true⟩,
   ⟨⟨⟨2, 18, 8⟩, ⟨-20, -3, -24⟩⟩, true⟩,
   ⟨⟨⟨27, 18, 8⟩, ⟨2, -21, -23⟩⟩, true⟩,
   ⟨⟨⟨24, 18, 8⟩, ⟨-20, -21, -21⟩⟩, true⟩,
   ⟨⟨⟨6, 18, 8⟩, ⟨-20, -6, -3⟩⟩, true⟩,
   ⟨⟨⟨22, 18, 8⟩, ⟨-20, -8, -13⟩⟩, true⟩,
   ⟨⟨⟨27, 18, 8⟩, ⟨-20, -21, -26⟩⟩, true⟩,
   ⟨⟨⟨27, 18, -1⟩, ⟨-12, 6, -26⟩⟩, true⟩,
   ⟨⟨⟨27, 16, 8⟩, ⟨-18, -21, -7⟩⟩, true⟩,
   ⟨⟨⟨27, 11, 7⟩, ⟨-16, -21, -26⟩⟩, true⟩,
   ⟨⟨⟨-4, 18, 8⟩, ⟨-20, -3, -26⟩⟩, true⟩,
   ⟨⟨⟨27, -7, 8⟩, ⟨18, -20, -3⟩⟩, false⟩,
   ⟨⟨⟨10, 18, 8⟩, ⟨-20, -7, -26⟩⟩, true⟩] : List PowerCuboid) := by decide!

/-- Split evaluation of the embedded recursion (3136 nodes in total),
assembled from the conflict list and the net contributions of its
members. -/
theorem cov_n2 :
    covGo 18 ⟨⟨⟨27, 18, 8⟩, ⟨-20, -21, -26⟩⟩, true⟩
    ([⟨⟨⟨8, 18, 0⟩, ⟨-20, -6, -26⟩⟩, true⟩,
   ⟨⟨⟨2, 18, 8⟩, ⟨-20, -3, -24⟩⟩, true⟩,
   ⟨⟨⟨27, 18, 8⟩, ⟨2, -21, -23⟩⟩, true⟩,
   ⟨⟨⟨24, 18, 8⟩, ⟨-20, -21, -21⟩⟩, true⟩,
   ⟨⟨⟨6, 18, 8⟩, ⟨-20, -6, -3⟩⟩, true⟩,
   ⟨⟨⟨22, 18, 8⟩, ⟨-20, -8, -13⟩⟩, true⟩,
   ⟨⟨⟨27, 18, 8⟩, ⟨-20, -21, -26⟩⟩, true⟩,
   ⟨⟨⟨27, 18, -1⟩, ⟨-12, 6, -26⟩⟩, true⟩,
   ⟨⟨⟨27, 16, 8⟩, ⟨-18, -21, -7⟩⟩, true⟩,
   ⟨⟨⟨27, 11, 7⟩, ⟨-16, -21, -26⟩⟩, true⟩,
   ⟨⟨⟨-4, 18, 8⟩, ⟨-20, -3, -26⟩⟩, true⟩,
   ⟨⟨⟨27, -7, 8⟩, ⟨18, -20, -3⟩⟩, false⟩,
   ⟨⟨⟨10, 18, 8⟩, ⟨-20, -7, -26⟩⟩, true⟩] : List PowerCuboid) = some 0 := by
  have s13 : sumTails (covGo 17) ([] : List PowerCuboid) = some 0 := rfl
  have s12 : sumTails (covGo 17) ([⟨⟨⟨10, 18, 8⟩, ⟨-20, -7, -26⟩⟩, true⟩] : List PowerCuboid) = some 25500 :=
    sumTails_cons _ _ _ 25500 0 25500 cov_n27 s13 rfl
  have s11 : sumTails (covGo 17) ([⟨⟨⟨27, -7, 8⟩, ⟨18, -20, -3⟩⟩, false⟩,
   ⟨⟨⟨10, 18, 8⟩, ⟨-20, -7, -26⟩⟩, true⟩] : List PowerCuboid) = some 26787 :=
    sumTails_cons _ _ _ 1287 25500 26787 cov_n26 s12 rfl
  have s10 : sumTails (covGo 17) ([⟨⟨⟨-4, 18, 8⟩, ⟨-20, -3, -26⟩⟩, true⟩,
   ⟨⟨⟨27, -7, 8⟩, ⟨18, -20, -3⟩⟩, false⟩,
   ⟨⟨⟨10, 18, 8⟩, ⟨-20, -7, -26⟩⟩, true⟩] : List PowerCuboid) = some 26787 :=
    sumTails_cons _ _ _ 0 26787 26787 cov_n25 s11 rfl
  have s9 : sumTails (covGo 17) ([⟨⟨⟨27, 11, 7⟩, ⟨-16, -21, -26⟩⟩, true⟩,
   ⟨⟨⟨-4, 18, 8⟩, ⟨-20, -3, -26⟩⟩, true⟩,
   ⟨⟨⟨27, -7, 8⟩, ⟨18, -20, -3⟩⟩, false⟩,
   ⟨⟨⟨10, 18, 8⟩, ⟨-20, -7, -26⟩⟩, true⟩] : List PowerCuboid) = some 55581 :=
    sumTails_cons _ _ _ 28794 26787 55581 cov_n24 s10 rfl
  have s8 : sumTails (covGo 17) ([⟨⟨⟨27, 16, 8⟩, ⟨-18, -21, -7⟩⟩, true⟩,
   ⟨⟨⟨27, 11, 7⟩, ⟨-16, -21, -26⟩⟩, true⟩,
   ⟨⟨⟨-4, 18, 8⟩, ⟨-20, -3, -26⟩⟩, true⟩,
   ⟨⟨⟨27, -7, 8⟩, ⟨18, -20, -3⟩⟩, false⟩,
   ⟨⟨⟨10, 18, 8⟩, ⟨-20, -7, -26⟩⟩, true⟩] : List PowerCuboid) = some 58067 :=
    sumTails_cons _ _ _ 2486 55581 58067 cov_n23 s9 rfl
  have s7 : sumTails (covGo 17) ([⟨⟨⟨27, 18, -1⟩, ⟨-12, 6, -26⟩⟩, true⟩,
   ⟨⟨⟨27, 16, 8⟩, ⟨-18, -21, -7⟩⟩, true⟩,
   ⟨⟨⟨27, 11, 7⟩, ⟨-16, -21, -26⟩⟩, true⟩,
   ⟨⟨⟨-4, 18, 8⟩, ⟨-20, -3, -26⟩⟩, true⟩,
   ⟨⟨⟨27, -7, 8⟩, ⟨18, -20, -3⟩⟩, false⟩,
   ⟨⟨⟨10, 18, 8⟩, ⟨-20, -7, -26⟩⟩, true⟩] : List PowerCuboid) = some 60532 :=
    sumTails_cons _ _ _ 2465 58067 60532 cov_n22 s8 rfl
  have s6 : sumTails (covGo 17) ([⟨⟨⟨27, 18, 8⟩, ⟨-20, -21, -26⟩⟩, true⟩,
   ⟨⟨⟨27, 18, -1⟩, ⟨-12, 6, -26⟩⟩, true⟩,
   ⟨⟨⟨27, 16, 8⟩, ⟨-18, -21, -7⟩⟩, true⟩,
   ⟨⟨⟨27, 11, 7⟩, ⟨-16, -21, -26⟩⟩, true⟩,
   ⟨⟨⟨-4, 18, 8⟩, ⟨-20, -3, -26⟩⟩, true⟩,
   ⟨⟨⟨27, -7, 8⟩, ⟨18, -20, -3⟩⟩, false⟩,
   ⟨⟨⟨10, 18, 8⟩, ⟨-20, -7, -26⟩⟩, true⟩] : List PowerCuboid) = some 62322 :=
    sumTails_cons _ _ _ 1790 60532 62322 cov_n21 s7 rfl
  have s5 : sumTails (covGo 17) ([⟨⟨⟨22, 18, 8⟩, ⟨-20, -8, -13⟩⟩, true⟩,
   ⟨⟨⟨27, 18, 8⟩, ⟨-20, -21, -26⟩⟩, true⟩,
   ⟨⟨⟨27, 18, -1⟩, ⟨-12, 6, -26⟩⟩, true⟩,
   ⟨⟨⟨27, 16, 8⟩, ⟨-18, -21, -7⟩⟩, true⟩,
   ⟨⟨⟨27, 11, 7⟩, ⟨-16, -21, -26⟩⟩, true⟩,
   ⟨⟨⟨-4, 18, 8⟩, ⟨-20, -3, -26⟩⟩, true⟩,
   ⟨⟨⟨27, -7, 8⟩, ⟨18, -20, -3⟩⟩, false⟩,
   ⟨⟨⟨10, 18, 8⟩, ⟨-20, -7, -26⟩⟩, true⟩] : List PowerCuboid) = some 62322 :=
    sumTails_cons _ _ _ 0 62322 62322 cov_n20 s6 rfl
  have s4 : sumTails (covGo 17) ([⟨⟨⟨6, 18, 8⟩, ⟨-20, -6, -3⟩⟩, true⟩,
   ⟨⟨⟨22, 18, 8⟩, ⟨-20, -8, -13⟩⟩, true⟩,
   ⟨⟨⟨27, 18, 8⟩, ⟨-20, -21, -26⟩⟩, true⟩,
   ⟨⟨⟨27, 18, -1⟩, ⟨-12, 6, -26⟩⟩, true⟩,
   ⟨⟨⟨27, 16, 8⟩, ⟨-18, -21, -7⟩⟩, true⟩,
   ⟨⟨⟨27, 11, 7⟩, ⟨-16, -21, -26⟩⟩, true⟩,
   ⟨⟨⟨-4, 18, 8⟩, ⟨-20, -3, -26⟩⟩, true⟩,
   ⟨⟨⟨27, -7, 8⟩, ⟨18, -20, -3⟩⟩, false⟩,
   ⟨⟨⟨10, 18, 8⟩, ⟨-20, -7, -26⟩⟩, true⟩] : List PowerCuboid) = some 62322 :=
    sumTails_cons _ _ _ 0 62322 62322 cov_n19 s5 rfl
  have s3 : sumTails (covGo 17) ([⟨⟨⟨24, 18, 8⟩, ⟨-20, -21, -21⟩⟩, true⟩,
   ⟨⟨⟨6, 18, 8⟩, ⟨-20, -6, -3⟩⟩, true⟩,
   ⟨⟨⟨22, 18, 8⟩, ⟨-20, -8, -13⟩⟩, true⟩,
   ⟨⟨⟨27, 18, 8⟩, ⟨-20, -21, -26⟩⟩, true⟩,
   ⟨⟨⟨27, 18, -1⟩, ⟨-12, 6, -26⟩⟩, true⟩,
   ⟨⟨⟨27, 16, 8⟩, ⟨-18, -21, -7⟩⟩, true⟩,
   ⟨⟨⟨27, 11, 7⟩, ⟨-16, -21, -26⟩⟩, true⟩,
   ⟨⟨⟨-4, 18, 8⟩, ⟨-20, -3, -26⟩⟩, true⟩,
   ⟨⟨⟨27, -7, 8⟩, ⟨18, -20, -3⟩⟩, false⟩,
   ⟨⟨⟨10, 18, 8⟩, ⟨-20, -7, -26⟩⟩, true⟩] : List PowerCuboid) = some 62322 :=
    sumTails_cons _ _ _ 0 62322 62322 cov_n18 s4 rfl
  have s2 : sumTails (covGo 17) ([⟨⟨⟨27, 18, 8⟩, ⟨2, -21, -23⟩⟩, true⟩,
   ⟨⟨⟨24, 18, 8⟩, ⟨-20, -21, -21⟩⟩, true⟩,
   ⟨⟨⟨6, 18, 8⟩, ⟨-20, -6, -3⟩⟩, true⟩,
   ⟨⟨⟨22, 18, 8⟩, ⟨-20, -8, -13⟩⟩, true⟩,
   ⟨⟨⟨27, 18, 8⟩, ⟨-20, -21, -26⟩⟩, true⟩,
   ⟨⟨⟨27, 18, -1⟩, ⟨-12, 6, -26⟩⟩, true⟩,
   ⟨⟨⟨27, 16, 8⟩, ⟨-18, -21, -7⟩⟩, true⟩,
   ⟨⟨⟨27, 11, 7⟩, ⟨-16, -21, -26⟩⟩, true⟩,
   ⟨⟨⟨-4, 18, 8⟩, ⟨-20, -3, -26⟩⟩, true⟩,
   ⟨⟨⟨27, -7, 8⟩, ⟨18, -20, -3⟩⟩, false⟩,
   ⟨⟨⟨10, 18, 8⟩, ⟨-20, -7, -26⟩⟩, true⟩] : List PowerCuboid) = some 62322 :=
    sumTails_cons _ _ _ 0 62322 62322 cov_n17 s3 rfl
  have s1 : sumTails (covGo 17) ([⟨⟨⟨2, 18, 8⟩, ⟨-20, -3, -24⟩⟩, true⟩,
   ⟨⟨⟨27, 18, 8⟩, ⟨2, -21, -23⟩⟩, true⟩,
   ⟨⟨⟨24, 18, 8⟩, ⟨-20, -21, -21⟩⟩, true⟩,
   ⟨⟨⟨6, 18, 8⟩, ⟨-20, -6, -3⟩⟩, true⟩,
   ⟨⟨⟨22, 18, 8⟩, ⟨-20, -8, -13⟩⟩, true⟩,
   ⟨⟨⟨27, 18, 8⟩, ⟨-20, -21, -26⟩⟩, true⟩,
   ⟨⟨⟨27, 18, -1⟩, ⟨-12, 6, -26⟩⟩, true⟩,
   ⟨⟨⟨27, 16, 8⟩, ⟨-18, -21, -7⟩⟩, true⟩,
   ⟨⟨⟨27, 11, 7⟩, ⟨-16, -21, -26⟩⟩, true⟩,
   ⟨⟨⟨-4, 18, 8⟩, ⟨-20, -3, -26⟩⟩, true⟩,
   ⟨⟨⟨27, -7, 8⟩, ⟨18, -20, -3⟩⟩, false⟩,
   ⟨⟨⟨10, 18, 8⟩, ⟨-20, -7, -26⟩⟩, true⟩] : List PowerCuboid) = some 62322 :=
    sumTails_cons _ _ _ 0 62322 62322 cov_n16 s2 rfl
  have s0 : sumTails (covGo 17) ([⟨⟨⟨8, 18, 0⟩, ⟨-20, -6, -26⟩⟩, true⟩,
   ⟨⟨⟨2, 18, 8⟩, ⟨-20, -3, -24⟩⟩, true⟩,
   ⟨⟨⟨27, 18, 8⟩, ⟨2, -21, -23⟩⟩, true⟩,
   ⟨⟨⟨24, 18, 8⟩, ⟨-20, -21, -21⟩⟩, true⟩,
   ⟨⟨⟨6, 18, 8⟩, ⟨-20, -6, -3⟩⟩, true⟩,
   ⟨⟨⟨22, 18, 8⟩, ⟨-20, -8, -13⟩⟩, true⟩,
   ⟨⟨⟨27, 18, 8⟩, ⟨-20, -21, -26⟩⟩, true⟩,
   ⟨⟨⟨27, 18, -1⟩, ⟨-12, 6, -26⟩⟩, true⟩,
   ⟨⟨⟨27, 16, 8⟩, ⟨-18, -21, -7⟩⟩, true⟩,
   ⟨⟨⟨27, 11, 7⟩, ⟨-16, -21, -26⟩⟩, true⟩,
   ⟨⟨⟨-4, 18, 8⟩, ⟨-20, -3, -26⟩⟩, true⟩,
   ⟨⟨⟨27, -7, 8⟩, ⟨18, -20, -3⟩⟩, false⟩,
   ⟨⟨⟨10, 18, 8⟩, ⟨-20, -7, -26⟩⟩, true⟩] : List PowerCuboid) = some 62322 :=
    sumTails_cons _ _ _ 0 62322 62322 cov_n3 s1 rfl
  rw [covGo_succ, ks_n28, s0]
  decide

/-- Leaf evaluation of the embedded recursion (768 nodes). -/
theorem cov_n30 :
    covGo 17 ⟨⟨⟨2, 18, 0⟩, ⟨-20, -3, -24⟩⟩, true⟩
    ([⟨⟨⟨8, 18, 0⟩, ⟨2, -6, -23⟩⟩, true⟩,
   ⟨⟨⟨8, 18, 0⟩, ⟨-20, -6, -21⟩⟩, true⟩,
   ⟨⟨⟨6, 18, 0⟩, ⟨-20, -6, -3⟩⟩, true⟩,
   ⟨⟨⟨8, 18, 0⟩, ⟨-20, -6, -13⟩⟩, true⟩,
   ⟨⟨⟨8, 18, 0⟩, ⟨-20, -6, -26⟩⟩, true⟩,
   ⟨⟨⟨8, 18, -1⟩, ⟨-12, 6, -26⟩⟩, true⟩,
   ⟨⟨⟨8, 16, 0⟩, ⟨-18, -6, -7⟩⟩, true⟩,
   ⟨⟨⟨8, 11, 0⟩, ⟨-16, -6, -26⟩⟩, true⟩,
   ⟨⟨⟨-4, 18, 0⟩, ⟨-20, -3, -26⟩⟩, true⟩,
   ⟨⟨⟨8, 18, 0⟩, ⟨-20, -6, -26⟩⟩, true⟩] : List PowerCuboid) = some 0 := by decide!

/-- Leaf evaluation of the embedded recursion (256 nodes). -/
theorem cov_n31 :
    covGo 17 ⟨⟨⟨8, 18, 0⟩, ⟨2, -6, -23⟩⟩, true⟩
    ([⟨⟨⟨8, 18, 0⟩, ⟨-20, -6, -21⟩⟩, true⟩,
   ⟨⟨⟨6, 18, 0⟩, ⟨-20, -6, -3⟩⟩, true⟩,
   ⟨⟨⟨8, 18, 0⟩, ⟨-20, -6, -13⟩⟩, true⟩,
   ⟨⟨⟨8, 18, 0⟩, ⟨-20, -6, -26⟩⟩, true⟩,
   ⟨⟨⟨8, 18, -1⟩, ⟨-12, 6, -26⟩⟩, true⟩,
   ⟨⟨⟨8, 16, 0⟩, ⟨-18, -6, -7⟩⟩, true⟩,
   ⟨⟨⟨8, 11, 0⟩, ⟨-16, -6, -26⟩⟩, true⟩,
   ⟨⟨⟨-4, 18, 0⟩, ⟨-20, -3, -26⟩⟩, true⟩,
   ⟨⟨⟨8, 18, 0⟩, ⟨-20, -6, -26⟩⟩, true⟩] : List PowerCuboid) = some 0 := by decide!

/-- Leaf evaluation of the embedded recursion (256 nodes). -/
theorem cov_n32 :
    covGo 17 ⟨⟨⟨8, 18, 0⟩, ⟨-20, -6, -21⟩⟩, true⟩
    ([⟨⟨⟨6, 18, 0⟩, ⟨-20, -6, -3⟩⟩, true⟩,
   ⟨⟨⟨8, 18, 0⟩, ⟨-20, -6, -13⟩⟩, true⟩,
   ⟨⟨⟨8, 18, 0⟩, ⟨-20, -6, -26⟩⟩, true⟩,
   ⟨⟨⟨8, 18, -1⟩, ⟨-12, 6, -26⟩⟩, true⟩,
   ⟨⟨⟨8, 16, 0⟩, ⟨-18, -6, -7⟩⟩, true⟩,
   ⟨⟨⟨8, 11, 0⟩, ⟨-16, -6, -26⟩⟩, true⟩,
   ⟨⟨⟨-4, 18, 0⟩, ⟨-20, -3, -26⟩⟩, true⟩,
   ⟨⟨⟨8, 18, 0⟩, ⟨-20, -6, -26⟩⟩, true⟩] : List PowerCuboid) = some 0 := by decide!

/-- Leaf evaluation of the embedded recursion (128 nodes). -/
theorem cov_n33 :
    covGo 17 ⟨⟨⟨6, 18, 0⟩, ⟨-20, -6, -3⟩⟩, true⟩
    ([⟨⟨⟨8, 18, 0⟩, ⟨-20, -6, -13⟩⟩, true⟩,
   ⟨⟨⟨8, 18, 0⟩, ⟨-20, -6, -26⟩⟩, true⟩,
   ⟨⟨⟨8, 18, -1⟩, ⟨-12, 6, -26⟩⟩, true⟩,
   ⟨⟨⟨8, 16, 0⟩, ⟨-18, -6, -7⟩⟩, true⟩,
   ⟨⟨⟨8, 11, 0⟩, ⟨-16, -6, -26⟩⟩, true⟩,
   ⟨⟨⟨-4, 18, 0⟩, ⟨-20, -3, -26⟩⟩, true⟩,
   ⟨⟨⟨8, 18, 0⟩, ⟨-20, -6, -26⟩⟩, true⟩] : List PowerCuboid) = some 0 := by decide!

/-- Leaf evaluation of the embedded recursion (64 nodes). -/
theorem cov_n34 :
    covGo 17 ⟨⟨⟨8, 18, 0⟩, ⟨-20, -6, -13⟩⟩, true⟩
    ([⟨⟨⟨8, 18, 0⟩, ⟨-20, -6, -26⟩⟩, true⟩,
   ⟨⟨⟨8, 18, -1⟩, ⟨-12, 6, -26⟩⟩, true⟩,
   ⟨⟨⟨8, 16, 0⟩, ⟨-18, -6, -7⟩⟩, true⟩,
   ⟨⟨⟨8, 11, 0⟩, ⟨-16, -6, -26⟩⟩, true⟩,
   ⟨⟨⟨-4, 18, 0⟩, ⟨-20, -3, -26⟩⟩, true⟩,
   ⟨⟨⟨8, 18, 0⟩, ⟨-20, -6, -26⟩⟩, true⟩] : List PowerCuboid) = some 0 := by decide!

/-- Leaf evaluation of the embedded recursion (32 nodes). -/
theorem cov_n35 :
    covGo 17 ⟨⟨⟨8, 18, 0⟩, ⟨-20, -6, -26⟩⟩, true⟩
    ([⟨⟨⟨8, 18, -1⟩, ⟨-12, 6, -26⟩⟩, true⟩,
   ⟨⟨⟨8, 16, 0⟩, ⟨-18, -6, -7⟩⟩, true⟩,
   ⟨⟨⟨8, 11, 0⟩, ⟨-16, -6, -26⟩⟩, true⟩,
   ⟨⟨⟨-4, 18, 0⟩, ⟨-20, -3, -26⟩⟩, true⟩,
   ⟨⟨⟨8, 18, 0⟩, ⟨-20, -6, -26⟩⟩, true⟩] : List PowerCuboid) = some 0 := by decide!

/-- Leaf evaluation of the embedded recursion (16 nodes). -/
theorem cov_n36 :
    covGo 17 ⟨⟨⟨8, 18, -1⟩, ⟨-12, 6, -26⟩⟩, true⟩
    ([⟨⟨⟨8, 16, 0⟩, ⟨-18, -6, -7⟩⟩, true⟩,
   ⟨⟨⟨8, 11, 0⟩, ⟨-16, -6, -26⟩⟩, true⟩,
   ⟨⟨⟨-4, 18, 0⟩, ⟨-20, -3, -26⟩⟩, true⟩,
   ⟨⟨⟨8, 18, 0⟩, ⟨-20, -6, -26⟩⟩, true⟩] : List PowerCuboid) = some 0 := by decide!

/-- Leaf evaluation of the embedded recursion (8 nodes). -/
theorem cov_n37 :
    covGo 17 ⟨⟨⟨8, 16, 0⟩, ⟨-18, -6, -7⟩⟩, true⟩
    ([⟨⟨⟨8, 11, 0⟩, ⟨-16, -6, -26⟩⟩, true⟩,
   ⟨⟨⟨-4, 18, 0⟩, ⟨-20, -3, -26⟩⟩, true⟩,
   ⟨⟨⟨8, 18, 0⟩, ⟨-20, -6, -26⟩⟩, true⟩] : List PowerCuboid) = some 0 := by decide!

/-- Leaf evaluation of the embedded recursion (4 nodes). -/
theorem cov_n38 :
    covGo 17 ⟨⟨⟨8, 11, 0⟩, ⟨-16, -6, -26⟩⟩, true⟩
    ([⟨⟨⟨-4, 18, 0⟩, ⟨-20, -3, -26⟩⟩, true⟩,
   ⟨⟨⟨8, 18, 0⟩, ⟨-20, -6, -26⟩⟩, true⟩] : List PowerCuboid) = some 0 := by decide!

/-- Leaf evaluation of the embedded recursion (2 nodes). -/
theorem cov_n39 :
    covGo 17 ⟨⟨⟨-4, 18, 0⟩, ⟨-20, -3, -26⟩⟩, true⟩
    ([⟨⟨⟨8, 18, 0⟩, ⟨-20, -6, -26⟩⟩, true⟩] : List PowerCuboid) = some 0 := by decide!

/-- Leaf evaluation of the embedded recursion (1 nodes). -/
theorem cov_n40 :
    covGo 17 ⟨⟨⟨8, 18, 0⟩, ⟨-20, -6, -26⟩⟩, true⟩
    ([] : List PowerCuboid) = some 17472 := by decide!

/-- The conflict list of the node above, evaluated. -/
theorem ks_n41 :
    List.filterMap (fun c => PowerCuboid.intersect ⟨⟨⟨8, 18, 0⟩, ⟨-20, -6, -26⟩⟩, true⟩ c)
    ([⟨⟨⟨2, 18, 8⟩, ⟨-20, -3, -24⟩⟩, true⟩,
   ⟨⟨⟨27, 18, 8⟩, ⟨2, -21, -23⟩⟩, true⟩,
   ⟨⟨⟨24, 18, 8⟩, ⟨-20, -21, -21⟩⟩, true⟩,
   ⟨⟨⟨6, 18, 8⟩, ⟨-20, -6, -3⟩⟩, true⟩,
   ⟨⟨⟨22, 18, 8⟩, ⟨-20, -8, -13⟩⟩, true⟩,
   ⟨⟨⟨27, 18, 8⟩, ⟨-20, -21, -26⟩⟩, true⟩,
   ⟨⟨⟨27, 18, -1⟩, ⟨-12, 6, -26⟩⟩, true⟩,
   ⟨⟨⟨27, 16, 8⟩, ⟨-18, -21, -7⟩⟩, true⟩,
   ⟨⟨⟨27, 11, 7⟩, ⟨-16, -21, -26⟩⟩, true⟩,
   ⟨⟨⟨-4, 18, 8⟩, ⟨-20, -3, -26⟩⟩, true⟩,
   ⟨⟨⟨27, -7, 8⟩, ⟨18, -20, -3⟩⟩, false⟩,
   ⟨⟨⟨10, 18, 8⟩, ⟨-20, -7, -26⟩⟩, true⟩] : List PowerCuboid) = ([⟨⟨⟨2, 18, 0⟩, ⟨-20, -3, -24⟩⟩, true⟩,
   ⟨⟨⟨8, 18, 0⟩, ⟨2, -6, -23⟩⟩, true⟩,
   ⟨⟨⟨8, 18, 0⟩, ⟨-20, -6, -21⟩⟩, true⟩,
   ⟨⟨⟨6, 18, 0⟩, ⟨-20, -6, -3⟩⟩, true⟩,
   ⟨⟨⟨8, 18, 0⟩, ⟨-20, -6, -13⟩⟩, true⟩,
   ⟨⟨⟨8, 18, 0⟩, ⟨-20, -6, -26⟩⟩, true⟩,
   ⟨⟨⟨8, 18, -1⟩, ⟨-12, 6, -26⟩⟩, true⟩,
   ⟨⟨⟨8, 16, 0⟩, ⟨-18, -6, -7⟩⟩, true⟩,
   ⟨⟨⟨8, 11, 0⟩, ⟨-16, -6, -26⟩⟩, true⟩,
   ⟨⟨⟨-4, 18, 0⟩, ⟨-20, -3, -26⟩⟩, true⟩,
   ⟨⟨⟨8, 18, 0⟩, ⟨-20, -6, -26⟩⟩, true⟩] : List PowerCuboid) := by decide!

/-- Split evaluation of the embedded recursion (1536 nodes in total),
assembled from the conflict list and the net contributions of its
members. -/
theorem cov_n29 :
    covGo 18 ⟨⟨⟨8, 18, 0⟩, ⟨-20, -6, -26⟩⟩, true⟩
    ([⟨⟨⟨2, 18, 8⟩, ⟨-20, -3, -24⟩⟩, true⟩,
   ⟨⟨⟨27, 18, 8⟩, ⟨2, -21, -23⟩⟩, true⟩,
   ⟨⟨⟨24, 18, 8⟩, ⟨-20, -21, -21⟩⟩, true⟩,
   ⟨⟨⟨6, 18, 8⟩, ⟨-20, -6, -3⟩⟩, true⟩,
   ⟨⟨⟨22, 18, 8⟩, ⟨-20, -8, -13⟩⟩, true⟩,
   ⟨⟨⟨27, 18, 8⟩, ⟨-20, -21, -26⟩⟩, true⟩,
   ⟨⟨⟨27, 18, -1⟩, ⟨-12, 6, -26⟩⟩, true⟩,
   ⟨⟨⟨27, 16, 8⟩, ⟨-18, -21, -7⟩⟩, true⟩,
   ⟨⟨⟨27, 11, 7⟩, ⟨-16, -21, -26⟩⟩, true⟩,
   ⟨⟨⟨-4, 18, 8⟩, ⟨-20, -3, -26⟩⟩, true⟩,
   ⟨⟨⟨27, -7, 8⟩, ⟨18, -20, -3⟩⟩, false⟩,
   ⟨⟨⟨10, 18, 8⟩, ⟨-20, -7, -26⟩⟩, true⟩] : List PowerCuboid) = some 0 := by
  have s11 : sumTails (covGo 17) ([] : List PowerCuboid) = some 0 := rfl
  have s10 : sumTails (covGo 17) ([⟨⟨⟨8, 18, 0⟩, ⟨-20, -6, -26⟩⟩, true⟩] : List PowerCuboid) = some 17472 :=
    sumTails_cons _ _ _ 17472 0 17472 cov_n40 s11 rfl
  have s9 : sumTails (covGo 17) ([⟨⟨⟨-4, 18, 0⟩, ⟨-20, -3, -26⟩⟩, true⟩,
   ⟨⟨⟨8, 18, 0⟩, ⟨-20, -6, -26⟩⟩, true⟩] : List PowerCuboid) = some 17472 :=
    sumTails_cons _ _ _ 0 17472 17472 cov_n39 s10 rfl
  have s8 : sumTails (covGo 17) ([⟨⟨⟨8, 11, 0⟩, ⟨-16, -6, -26⟩⟩, true⟩,
   ⟨⟨⟨-4, 18, 0⟩, ⟨-20, -3, -26⟩⟩, true⟩,
   ⟨⟨⟨8, 18, 0⟩, ⟨-20, -6, -26⟩⟩, true⟩] : List PowerCuboid) = some 17472 :=
    sumTails_cons _ _ _ 0 17472 17472 cov_n38 s9 rfl
  have s7 : sumTails (covGo 17) ([⟨⟨⟨8, 16, 0⟩, ⟨-18, -6, -7⟩⟩, true⟩,
   ⟨⟨⟨8, 11, 0⟩, ⟨-16, -6, -26⟩⟩, true⟩,
   ⟨⟨⟨-4, 18, 0⟩, ⟨-20, -3, -26⟩⟩, true⟩,
   ⟨⟨⟨8, 18, 0⟩, ⟨-20, -6, -26⟩⟩, true⟩] : List PowerCuboid) = some 17472 :=
    sumTails_cons _ _ _ 0 17472 17472 cov_n37 s8 rfl
  have s6 : sumTails (covGo 17) ([⟨⟨⟨8, 18, -1⟩, ⟨-12, 6, -26⟩⟩, true⟩,
   ⟨⟨⟨8, 16, 0⟩, ⟨-18, -6, -7⟩⟩, true⟩,
   ⟨⟨⟨8, 11, 0⟩, ⟨-16, -6, -26⟩⟩, true⟩,
   ⟨⟨⟨-4, 18, 0⟩, ⟨-20, -3, -26⟩⟩, true⟩,
   ⟨⟨⟨8, 18, 0⟩, ⟨-20, -6, -26⟩⟩, true⟩] : List PowerCuboid) = some 17472 :=
    sumTails_cons _ _ _ 0 17472 17472 cov_n36 s7 rfl
  have s5 : sumTails (covGo 17) ([⟨⟨⟨8, 18, 0⟩, ⟨-20, -6, -26⟩⟩, true⟩,
   ⟨⟨⟨8, 18, -1⟩, ⟨-12, 6, -26⟩⟩, true⟩,
   ⟨⟨⟨8, 16, 0⟩, ⟨-18, -6, -7⟩⟩, true⟩,
   ⟨⟨⟨8, 11, 0⟩, ⟨-16, -6, -26⟩⟩, true⟩,
   ⟨⟨⟨-4, 18, 0⟩, ⟨-20, -3, -26⟩⟩, true⟩,
   ⟨⟨⟨8, 18, 0⟩, ⟨-20, -6, -26⟩⟩, true⟩] : List PowerCuboid) = some 17472 :=
    sumTails_cons _ _ _ 0 17472 17472 cov_n35 s6 rfl
  have s4 : sumTails (covGo 17) ([⟨⟨⟨8, 18, 0⟩, ⟨-20, -6, -13⟩⟩, true⟩,
   ⟨⟨⟨8, 18, 0⟩, ⟨-20, -6, -26⟩⟩, true⟩,
   ⟨⟨⟨8, 18, -1⟩, ⟨-12, 6, -26⟩⟩, true⟩,
   ⟨⟨⟨8, 16, 0⟩, ⟨-18, -6, -7⟩⟩, true⟩,
   ⟨⟨⟨8, 11, 0⟩, ⟨-16, -6, -26⟩⟩, true⟩,
   ⟨⟨⟨-4, 18, 0⟩, ⟨-20, -3, -26⟩⟩, true⟩,
   ⟨⟨⟨8, 18, 0⟩, ⟨-20, -6, -26⟩⟩, true⟩] : List PowerCuboid) = some 17472 :=
    sumTails_cons _ _ _ 0 17472 17472 cov_n34 s5 rfl
  have s3 : sumTails (covGo 17) ([⟨⟨⟨6, 18, 0⟩, ⟨-20, -6, -3⟩⟩, true⟩,
   ⟨⟨⟨8, 18, 0⟩, ⟨-20, -6, -13⟩⟩, true⟩,
   ⟨⟨⟨8, 18, 0⟩, ⟨-20, -6, -26⟩⟩, true⟩,
   ⟨⟨⟨8, 18, -1⟩, ⟨-12, 6, -26⟩⟩, true⟩,
   ⟨⟨⟨8, 16, 0⟩, ⟨-18, -6, -7⟩⟩, true⟩,
   ⟨⟨⟨8, 11, 0⟩, ⟨-16, -6, -26⟩⟩, true⟩,
   ⟨⟨⟨-4, 18, 0⟩, ⟨-20, -3, -26⟩⟩, true⟩,
   ⟨⟨⟨8, 18, 0⟩, ⟨-20, -6, -26⟩⟩, true⟩] : List PowerCuboid) = some 17472 :=
    sumTails_cons _ _ _ 0 17472 17472 cov_n33 s4 rfl
  have s2 : sumTails (covGo 17) ([⟨⟨⟨8, 18, 0⟩, ⟨-20, -6, -21⟩⟩, true⟩,
   ⟨⟨⟨6, 18, 0⟩, ⟨-20, -6, -3⟩⟩, true⟩,
   ⟨⟨⟨8, 18, 0⟩, ⟨-20, -6, -13⟩⟩, true⟩,
   ⟨⟨⟨8, 18, 0⟩, ⟨-20, -6, -26⟩⟩, true⟩,
   ⟨⟨⟨8, 18, -1⟩, ⟨-12, 6, -26⟩⟩, true⟩,
   ⟨⟨⟨8, 16, 0⟩, ⟨-18, -6, -7⟩⟩, true⟩,
   ⟨⟨⟨8, 11, 0⟩, ⟨-16, -6, -26⟩⟩, true⟩,
   ⟨⟨⟨-4, 18, 0⟩, ⟨-20, -3, -26⟩⟩, true⟩,
   ⟨⟨⟨8, 18, 0⟩, ⟨-20, -6, -26⟩⟩, true⟩] : List PowerCuboid) = some 17472 :=
    sumTails_cons _ _ _ 0 17472 17472 cov_n32 s3 rfl
  have s1 : sumTails (covGo 17) ([⟨⟨⟨8, 18, 0⟩, ⟨2, -6, -23⟩⟩, true⟩,
   ⟨⟨⟨8, 18, 0⟩, ⟨-20, -6, -21⟩⟩, true⟩,
   ⟨⟨⟨6, 18, 0⟩, ⟨-20, -6, -3⟩⟩, true⟩,
   ⟨⟨⟨8, 18, 0⟩, ⟨-20, -6, -13⟩⟩, true⟩,
   ⟨⟨⟨8, 18, 0⟩, ⟨-20, -6, -26⟩⟩, true⟩,
   ⟨⟨⟨8, 18, -1⟩, ⟨-12, 6, -26⟩⟩, true⟩,
   ⟨⟨⟨8, 16, 0⟩, ⟨-18, -6, -7⟩⟩, true⟩,
   ⟨⟨⟨8, 11, 0⟩, ⟨-16, -6, -26⟩⟩, true⟩,
   ⟨⟨⟨-4, 18, 0⟩, ⟨-20, -3, -26⟩⟩, true⟩,
   ⟨⟨⟨8, 18, 0⟩, ⟨-20, -6, -26⟩⟩, true⟩] : List PowerCuboid) = some 17472 :=
    sumTails_cons _ _ _ 0 17472 17472 cov_n31 s2 rfl
  have s0 : sumTails (covGo 17) ([⟨⟨⟨2, 18, 0⟩, ⟨-20, -3, -24⟩⟩, true⟩,
   ⟨⟨⟨8, 18, 0⟩, ⟨2, -6, -23⟩⟩, true⟩,
   ⟨⟨⟨8, 18, 0⟩, ⟨-20, -6, -21⟩⟩, true⟩,
   ⟨⟨⟨6, 18, 0⟩, ⟨-20, -6, -3⟩⟩, true⟩,
   ⟨⟨⟨8, 18, 0⟩, ⟨-20, -6, -13⟩⟩, true⟩,
   ⟨⟨⟨8, 18, 0⟩, ⟨-20, -6, -26⟩⟩, true⟩,
   ⟨⟨⟨8, 18, -1⟩, ⟨-12, 6, -26⟩⟩, true⟩,
   ⟨⟨⟨8, 16, 0⟩, ⟨-18, -6, -7⟩⟩, true⟩,
   ⟨⟨⟨8, 11, 0⟩, ⟨-16, -6, -26⟩⟩, true⟩,
   ⟨⟨⟨-4, 18, 0⟩, ⟨-20, -3, -26⟩⟩, true⟩,
   ⟨⟨⟨8, 18, 0⟩, ⟨-20, -6, -26⟩⟩, true⟩] : List PowerCuboid) = some 17472 :=
    sumTails_cons _ _ _ 0 17472 17472 cov_n30 s1 rfl
  rw [covGo_succ, ks_n41, s0]
  decide

/-- Leaf evaluation of the embedded recursion (768 nodes). -/
theorem cov_n42 :
    covGo 18 ⟨⟨⟨2, 18, 8⟩, ⟨-20, -3, -24⟩⟩, true⟩
    ([⟨⟨⟨27, 18, 8⟩, ⟨2, -21, -23⟩⟩, true⟩,
   ⟨⟨⟨24, 18, 8⟩, ⟨-20, -21, -21⟩⟩, true⟩,
   ⟨⟨⟨6, 18, 8⟩, ⟨-20, -6, -3⟩⟩, true⟩,
   ⟨⟨⟨22, 18, 8⟩, ⟨-20, -8, -13⟩⟩, true⟩,
   ⟨⟨⟨27, 18, 8⟩, ⟨-20, -21, -26⟩⟩, true⟩,
   ⟨⟨⟨27, 18, -1⟩, ⟨-12, 6, -26⟩⟩, true⟩,
   ⟨⟨⟨27, 16, 8⟩, ⟨-18, -21, -7⟩⟩, true⟩,
   ⟨⟨⟨27, 11, 7⟩, ⟨-16, -21, -26⟩⟩, true⟩,
   ⟨⟨⟨-4, 18, 8⟩, ⟨-20, -3, -26⟩⟩, true⟩,
   ⟨⟨⟨27, -7, 8⟩, ⟨18, -20, -3⟩⟩, false⟩,
   ⟨⟨⟨10, 18, 8⟩, ⟨-20, -7, -26⟩⟩, true⟩] : List PowerCuboid) = some 0 := by decide!

/-- Leaf evaluation of the embedded recursion (288 nodes). -/
theorem cov_n43 :
    covGo 18 ⟨⟨⟨27, 18, 8⟩, ⟨2, -21, -23⟩⟩, true⟩
    ([⟨⟨⟨24, 18, 8⟩, ⟨-20, -21, -21⟩⟩, true⟩,
   ⟨⟨⟨6, 18, 8⟩, ⟨-20, -6, -3⟩⟩, true⟩,
   ⟨⟨⟨22, 18, 8⟩, ⟨-20, -8, -13⟩⟩, true⟩,
   ⟨⟨⟨27, 18, 8⟩, ⟨-20, -21, -26⟩⟩, true⟩,
   ⟨⟨⟨27, 18, -1⟩, ⟨-12, 6, -26⟩⟩, true⟩,
   ⟨⟨⟨27, 16, 8⟩, ⟨-18, -21, -7⟩⟩, true⟩,
   ⟨⟨⟨27, 11, 7⟩, ⟨-16, -21, -26⟩⟩, true⟩,
   ⟨⟨⟨-4, 18, 8⟩, ⟨-20, -3, -26⟩⟩, true⟩,
   ⟨⟨⟨27, -7, 8⟩, ⟨18, -20, -3⟩⟩, false⟩,
   ⟨⟨⟨10, 18, 8⟩, ⟨-20, -7, -26⟩⟩, true⟩] : List PowerCuboid) = some 0 := by decide!

/-- Leaf evaluation of the embedded recursion (272 nodes). -/
theorem cov_n44 :
    covGo 18 ⟨⟨⟨24, 18, 8⟩, ⟨-20, -21, -21⟩⟩, true⟩
    ([⟨⟨⟨6, 18, 8⟩, ⟨-20, -6, -3⟩⟩, true⟩,
   ⟨⟨⟨22, 18, 8⟩, ⟨-20, -8, -13⟩⟩, true⟩,
   ⟨⟨⟨27, 18, 8⟩, ⟨-20, -21, -26⟩⟩, true⟩,
   ⟨⟨⟨27, 18, -1⟩, ⟨-12, 6, -26⟩⟩, true⟩,
   ⟨⟨⟨27, 16, 8⟩, ⟨-18, -21, -7⟩⟩, true⟩,
   ⟨⟨⟨27, 11, 7⟩, ⟨-16, -21, -26⟩⟩, true⟩,
   ⟨⟨⟨-4, 18, 8⟩, ⟨-20, -3, -26⟩⟩, true⟩,
   ⟨⟨⟨27, -7, 8⟩, ⟨18, -20, -3⟩⟩, false⟩,
   ⟨⟨⟨10, 18, 8⟩, ⟨-20, -7, -26⟩⟩, true⟩] : List PowerCuboid) = some 0 := by decide!

/-- Leaf evaluation of the embedded recursion (128 nodes). -/
theorem cov_n45 :
    covGo 18 ⟨⟨⟨6, 18, 8⟩, ⟨-20, -6, -3⟩⟩, true⟩
    ([⟨⟨⟨22, 18, 8⟩, ⟨-20, -8, -13⟩⟩, true⟩,
   ⟨⟨⟨27, 18, 8⟩, ⟨-20, -21, -26⟩⟩, true⟩,
   ⟨⟨⟨27, 18, -1⟩, ⟨-12, 6, -26⟩⟩, true⟩,
   ⟨⟨⟨27, 16, 8⟩, ⟨-18, -21, -7⟩⟩, true⟩,
   ⟨⟨⟨27, 11, 7⟩, ⟨-16, -21, -26⟩⟩, true⟩,
   ⟨⟨⟨-4, 18, 8⟩, ⟨-20, -3, -26⟩⟩, true⟩,
   ⟨⟨⟨27, -7, 8⟩, ⟨18, -20, -3⟩⟩, false⟩,
   ⟨⟨⟨10, 18, 8⟩, ⟨-20, -7, -26⟩⟩, true⟩] : List PowerCuboid) = some 0 := by decide!

/-- Leaf evaluation of the embedded recursion (72 nodes). -/
theorem cov_n46 :
    covGo 18 ⟨⟨⟨22, 18, 8⟩, ⟨-20, -8, -13⟩⟩, true⟩
    ([⟨⟨⟨27, 18, 8⟩, ⟨-20, -21, -26⟩⟩, true⟩,
   ⟨⟨⟨27, 18, -1⟩, ⟨-12, 6, -26⟩⟩, true⟩,
   ⟨⟨⟨27, 16, 8⟩, ⟨-18, -21, -7⟩⟩, true⟩,
   ⟨⟨⟨27, 11, 7⟩, ⟨-16, -21, -26⟩⟩, true⟩,
   ⟨⟨⟨-4, 18, 8⟩, ⟨-20, -3, -26⟩⟩, true⟩,
   ⟨⟨⟨27, -7, 8⟩, ⟨18, -20, -3⟩⟩, false⟩,
   ⟨⟨⟨10, 18, 8⟩, ⟨-20, -7, -26⟩⟩, true⟩] : List PowerCuboid) = some 0 := by decide!

/-- Leaf evaluation of the embedded recursion (36 nodes). -/
theorem cov_n47 :
    covGo 18 ⟨⟨⟨27, 18, 8⟩, ⟨-20, -21, -26⟩⟩, true⟩
    ([⟨⟨⟨27, 18, -1⟩, ⟨-12, 6, -26⟩⟩, true⟩,
   ⟨⟨⟨27, 16, 8⟩, ⟨-18, -21, -7⟩⟩, true⟩,
   ⟨⟨⟨27, 11, 7⟩, ⟨-16, -21, -26⟩⟩, true⟩,
   ⟨⟨⟨-4, 18, 8⟩, ⟨-20, -3, -26⟩⟩, true⟩,
   ⟨⟨⟨27, -7, 8⟩, ⟨18, -20, -3⟩⟩, false⟩,
   ⟨⟨⟨10, 18, 8⟩, ⟨-20, -7, -26⟩⟩, true⟩] : List PowerCuboid) = some 1790 := by decide!

/-- Leaf evaluation of the embedded recursion (16 nodes). -/
theorem cov_n48 :
    covGo 18 ⟨⟨⟨27, 18, -1⟩, ⟨-12, 6, -26⟩⟩, true⟩
    ([⟨⟨⟨27, 16, 8⟩, ⟨-18, -21, -7⟩⟩, true⟩,
   ⟨⟨⟨27, 11, 7⟩, ⟨-16, -21, -26⟩⟩, true⟩,
   ⟨⟨⟨-4, 18, 8⟩, ⟨-20, -3, -26⟩⟩, true⟩,
   ⟨⟨⟨27, -7, 8⟩, ⟨18, -20, -3⟩⟩, false⟩,
   ⟨⟨⟨10, 18, 8⟩, ⟨-20, -7, -26⟩⟩, true⟩] : List PowerCuboid) = some 2465 := by decide!

/-- Leaf evaluation of the embedded recursion (10 nodes). -/
theorem cov_n49 :
    covGo 18 ⟨⟨⟨27, 16, 8⟩, ⟨-18, -21, -7⟩⟩, true⟩
    ([⟨⟨⟨27, 11, 7⟩, ⟨-16, -21, -26⟩⟩, true⟩,
   ⟨⟨⟨-4, 18, 8⟩, ⟨-20, -3, -26⟩⟩, true⟩,
   ⟨⟨⟨27, -7, 8⟩, ⟨18, -20, -3⟩⟩, false⟩,
   ⟨⟨⟨10, 18, 8⟩, ⟨-20, -7, -26⟩⟩, true⟩] : List PowerCuboid) = some 2486 := by decide!

/-- Leaf evaluation of the embedded recursion (5 nodes). -/
theorem cov_n50 :
    covGo 18 ⟨⟨⟨27, 11, 7⟩, ⟨-16, -21, -26⟩⟩, true⟩
    ([⟨⟨⟨-4, 18, 8⟩, ⟨-20, -3, -26⟩⟩, true⟩,
   ⟨⟨⟨27, -7, 8⟩, ⟨18, -20, -3⟩⟩, false⟩,
   ⟨⟨⟨10, 18, 8⟩, ⟨-20, -7, -26⟩⟩, true⟩] : List PowerCuboid) = some 28794 := by decide!

/-- Leaf evaluation of the embedded recursion (2 nodes). -/
theorem cov_n51 :
    covGo 18 ⟨⟨⟨-4, 18, 8⟩, ⟨-20, -3, -26⟩⟩, true⟩
    ([⟨⟨⟨27, -7, 8⟩, ⟨18, -20, -3⟩⟩, false⟩,
   ⟨⟨⟨10, 18, 8⟩, ⟨-20, -7, -26⟩⟩, true⟩] : List PowerCuboid) = some 0 := by decide!

/-- Leaf evaluation of the embedded recursion (1 nodes). -/
theorem cov_n52 :
    covGo 18 ⟨⟨⟨27, -7, 8⟩, ⟨18, -20, -3⟩⟩, false⟩
    ([⟨⟨⟨10, 18, 8⟩, ⟨-20, -7, -26⟩⟩, true⟩] : List PowerCuboid) = some 1287 := by decide!

/-- Leaf evaluation of the embedded recursion (1 nodes). -/
theorem cov_n53 :
    covGo 18 ⟨⟨⟨10, 18, 8⟩, ⟨-20, -7, -26⟩⟩, true⟩
    ([] : List PowerCuboid) = some 25500 := by decide!

/-- The conflict list of the node above, evaluated. -/
theorem ks_n54 :
    List.filterMap (fun c => PowerCuboid.intersect ⟨⟨⟨27, 18, 8⟩, ⟨-20, -21, -26⟩⟩, true⟩ c)
    ([⟨⟨⟨27, 18, 8⟩, ⟨-20, -29, -38⟩⟩, true⟩,
   ⟨⟨⟨8, 18, 0⟩, ⟨-20, -6, -47⟩⟩, true⟩,
   ⟨⟨⟨2, 18, 8⟩, ⟨-20, -3, -24⟩⟩, true⟩,
   ⟨⟨⟨27, 18, 8⟩, ⟨2, -22, -23⟩⟩, true⟩,
   ⟨⟨⟨24, 18, 8⟩, ⟨-20, -28, -21⟩⟩, true⟩,
   ⟨⟨⟨6, 18, 8⟩, ⟨-20, -6, -3⟩⟩, true⟩,
   ⟨⟨⟨22, 18, 8⟩, ⟨-20, -8, -13⟩⟩, true⟩,
   ⟨⟨⟨27, 18, 8⟩, ⟨-20, -27, -29⟩⟩, true⟩,
   ⟨⟨⟨27, 18, -1⟩, ⟨-12, 6, -47⟩⟩, true⟩,
   ⟨⟨⟨27, 16, 8⟩, ⟨-18, -33, -7⟩⟩, true⟩,
   ⟨⟨⟨27, 11, 7⟩, ⟨-16, -36, -47⟩⟩, true⟩,
   ⟨⟨⟨-4, 18, 8⟩, ⟨-20, -3, -29⟩⟩, true⟩,
   ⟨⟨⟨27, -7, 8⟩, ⟨18, -20, -3⟩⟩, false⟩,
   ⟨⟨⟨10, 18, 8⟩, ⟨-20, -7, -33⟩⟩, true⟩] : List PowerCuboid) = ([⟨⟨⟨27, 18, 8⟩, ⟨-20, -21, -26⟩⟩, true⟩,
   ⟨⟨⟨8, 18, 0⟩, ⟨-20, -6, -26⟩⟩, true⟩,
   ⟨⟨⟨2, 18, 8⟩, ⟨-20, -3, -24⟩⟩, true⟩,
   ⟨⟨⟨27, 18, 8⟩, ⟨2, -21, -23⟩⟩, true⟩,
   ⟨⟨⟨24, 18, 8⟩, ⟨-20, -21, -21⟩⟩, true⟩,
   ⟨⟨⟨6, 18, 8⟩, ⟨-20, -6, -3⟩⟩, true⟩,
   ⟨⟨⟨22, 18, 8⟩, ⟨-20, -8, -13⟩⟩, true⟩,
   ⟨⟨⟨27, 18, 8⟩, ⟨-20, -21, -26⟩⟩, true⟩,
   ⟨⟨⟨27, 18, -1⟩, ⟨-12, 6, -26⟩⟩, true⟩,
   ⟨⟨⟨27, 16, 8⟩, ⟨-18, -21, -7⟩⟩, true⟩,
   ⟨⟨⟨27, 11, 7⟩, ⟨-16, -21, -26⟩⟩, true⟩,
   ⟨⟨⟨-4, 18, 8⟩, ⟨-20, -3, -26⟩⟩, true⟩,
   ⟨⟨⟨27, -7, 8⟩, ⟨18, -20, -3⟩⟩, false⟩,
   ⟨⟨⟨10, 18, 8⟩, ⟨-20, -7, -26⟩⟩, true⟩] : List PowerCuboid) := by decide!

/-- Split evaluation of the embedded recursion (6272 nodes in total),
assembled from the conflict list and the net contributions of its
members. -/
theorem cov_n1 :
    covGo 19 ⟨⟨⟨27, 18, 8⟩, ⟨-20, -21, -26⟩⟩, true⟩
    ([⟨⟨⟨27, 18, 8⟩, ⟨-20, -29, -38⟩⟩, true⟩,
   ⟨⟨⟨8, 18, 0⟩, ⟨-20, -6, -47⟩⟩, true⟩,
   ⟨⟨⟨2, 18, 8⟩, ⟨-20, -3, -24⟩⟩, true⟩,
   ⟨⟨⟨27, 18, 8⟩, ⟨2, -22, -23⟩⟩, true⟩,
   ⟨⟨⟨24, 18, 8⟩, ⟨-20, -28, -21⟩⟩, true⟩,
   ⟨⟨⟨6, 18, 8⟩, ⟨-20, -6, -3⟩⟩, true⟩,
   ⟨⟨⟨22, 18, 8⟩, ⟨-20, -8, -13⟩⟩, true⟩,
   ⟨⟨⟨27, 18, 8⟩, ⟨-20, -27, -29⟩⟩, true⟩,
   ⟨⟨⟨27, 18, -1⟩, ⟨-12, 6, -47⟩⟩, true⟩,
   ⟨⟨⟨27, 16, 8⟩, ⟨-18, -33, -7⟩⟩, true⟩,
   ⟨⟨⟨27, 11, 7⟩, ⟨-16, -36, -47⟩⟩, true⟩,
   ⟨⟨⟨-4, 18, 8⟩, ⟨-20, -3, -29⟩⟩, true⟩,
   ⟨⟨⟨27, -7, 8⟩, ⟨18, -20, -3⟩⟩, false⟩,
   ⟨⟨⟨10, 18, 8⟩, ⟨-20, -7, -33⟩⟩, true⟩] : List PowerCuboid) = some 0 := by
  have s14 : sumTails (covGo 18) ([] : List PowerCuboid) = some 0 := rfl
  have s13 : sumTails (covGo 18) ([⟨⟨⟨10, 18, 8⟩, ⟨-20, -7, -26⟩⟩, true⟩] : List PowerCuboid) = some 25500 :=
    sumTails_cons _ _ _ 25500 0 25500 cov_n53 s14 rfl
  have s12 : sumTails (covGo 18) ([⟨⟨⟨27, -7, 8⟩, ⟨18, -20, -3⟩⟩, false⟩,
   ⟨⟨⟨10, 18, 8⟩, ⟨-20, -7, -26⟩⟩, true⟩] : List PowerCuboid) = some 26787 :=
    sumTails_cons _ _ _ 1287 25500 26787 cov_n52 s13 rfl
  have s11 : sumTails (covGo 18) ([⟨⟨⟨-4, 18, 8⟩, ⟨-20, -3, -26⟩⟩, true⟩,
   ⟨⟨⟨27, -7, 8⟩, ⟨18, -20, -3⟩⟩, false⟩,
   ⟨⟨⟨10, 18, 8⟩, ⟨-20, -7, -26⟩⟩, true⟩] : List PowerCuboid) = some 26787 :=
    sumTails_cons _ _ _ 0 26787 26787 cov_n51 s12 rfl
  have s10 : sumTails (covGo 18) ([⟨⟨⟨27, 11, 7⟩, ⟨-16, -21, -26⟩⟩, true⟩,
   ⟨⟨⟨-4, 18, 8⟩, ⟨-20, -3, -26⟩⟩, true⟩,
   ⟨⟨⟨27, -7, 8⟩, ⟨18, -20, -3⟩⟩, false⟩,
   ⟨⟨⟨10, 18, 8⟩, ⟨-20, -7, -26⟩⟩, true⟩] : List PowerCuboid) = some 55581 :=
    sumTails_cons _ _ _ 28794 26787 55581 cov_n50 s11 rfl
  have s9 : sumTails (covGo 18) ([⟨⟨⟨27, 16, 8⟩, ⟨-18, -21, -7⟩⟩, true⟩,
   ⟨⟨⟨27, 11, 7⟩, ⟨-16, -21, -26⟩⟩, true⟩,
   ⟨⟨⟨-4, 18, 8⟩, ⟨-20, -3, -26⟩⟩, true⟩,
   ⟨⟨⟨27, -7, 8⟩, ⟨18, -20, -3⟩⟩, false⟩,
   ⟨⟨⟨10, 18, 8⟩, ⟨-20, -7, -26⟩⟩, true⟩] : List PowerCuboid) = some 58067 :=
    sumTails_cons _ _ _ 2486 55581 58067 cov_n49 s10 rfl
  have s8 : sumTails (covGo 18) ([⟨⟨⟨27, 18, -1⟩, ⟨-12, 6, -26⟩⟩, true⟩,
   ⟨⟨⟨27, 16, 8⟩, ⟨-18, -21, -7⟩⟩, true⟩,
   ⟨⟨⟨27, 11, 7⟩, ⟨-16, -21, -26⟩⟩, true⟩,
   ⟨⟨⟨-4, 18, 8⟩, ⟨-20, -3, -26⟩⟩, true⟩,
   ⟨⟨⟨27, -7, 8⟩, ⟨18, -20, -3⟩⟩, false⟩,
   ⟨⟨⟨10, 18, 8⟩, ⟨-20, -7, -26⟩⟩, true⟩] : List PowerCuboid) = some 60532 :=
    sumTails_cons _ _ _ 2465 58067 60532 cov_n48 s9 rfl
  have s7 : sumTails (covGo 18) ([⟨⟨⟨27, 18, 8⟩, ⟨-20, -21, -26⟩⟩, true⟩,
   ⟨⟨⟨27, 18, -1⟩, ⟨-12, 6, -26⟩⟩, true⟩,
   ⟨⟨⟨27, 16, 8⟩, ⟨-18, -21, -7⟩⟩, true⟩,
   ⟨⟨⟨27, 11, 7⟩, ⟨-16, -21, -26⟩⟩, true⟩,
   ⟨⟨⟨-4, 18, 8⟩, ⟨-20, -3, -26⟩⟩, true⟩,
   ⟨⟨⟨27, -7, 8⟩, ⟨18, -20, -3⟩⟩, false⟩,
   ⟨⟨⟨10, 18, 8⟩, ⟨-20, -7, -26⟩⟩, true⟩] : List PowerCuboid) = some 62322 :=
    sumTails_cons _ _ _ 1790 60532 62322 cov_n47 s8 rfl
  have s6 : sumTails (covGo 18) ([⟨⟨⟨22, 18, 8⟩, ⟨-20, -8, -13⟩⟩, true⟩,
   ⟨⟨⟨27, 18, 8⟩, ⟨-20, -21, -26⟩⟩, true⟩,
   ⟨⟨⟨27, 18, -1⟩, ⟨-12, 6, -26⟩⟩, true⟩,
   ⟨⟨⟨27, 16, 8⟩, ⟨-18, -21, -7⟩⟩, true⟩,
   ⟨⟨⟨27, 11, 7⟩, ⟨-16, -21, -26⟩⟩, true⟩,
   ⟨⟨⟨-4, 18, 8⟩, ⟨-20, -3, -26⟩⟩, true⟩,
   ⟨⟨⟨27, -7, 8⟩, ⟨18, -20, -3⟩⟩, false⟩,
   ⟨⟨⟨10, 18, 8⟩, ⟨-20, -7, -26⟩⟩, true⟩] : List PowerCuboid) = some 62322 :=
    sumTails_cons _ _ _ 0 62322 62322 cov_n46 s7 rfl
  have s5 : sumTails (covGo 18) ([⟨⟨⟨6, 18, 8⟩, ⟨-20, -6, -3⟩⟩, true⟩,
   ⟨⟨⟨22, 18, 8⟩, ⟨-20, -8, -13⟩⟩, true⟩,
   ⟨⟨⟨27, 18, 8⟩, ⟨-20, -21, -26⟩⟩, true⟩,
   ⟨⟨⟨27, 18, -1⟩, ⟨-12, 6, -26⟩⟩, true⟩,
   ⟨⟨⟨27, 16, 8⟩, ⟨-18, -21, -7⟩⟩, true⟩,
   ⟨⟨⟨27, 11, 7⟩, ⟨-16, -21, -26⟩⟩, true⟩,
   ⟨⟨⟨-4, 18, 8⟩, ⟨-20, -3, -26⟩⟩, true⟩,
   ⟨⟨⟨27, -7, 8⟩, ⟨18, -20, -3⟩⟩, false⟩,
   ⟨⟨⟨10, 18, 8⟩, ⟨-20, -7, -26⟩⟩, true⟩] : List PowerCuboid) = some 62322 :=
    sumTails_cons _ _ _ 0 62322 62322 cov_n45 s6 rfl
  have s4 : sumTails (covGo 18) ([⟨⟨⟨24, 18, 8⟩, ⟨-20, -21, -21⟩⟩, true⟩,
   ⟨⟨⟨6, 18, 8⟩, ⟨-20, -6, -3⟩⟩, true⟩,
   ⟨⟨⟨22, 18, 8⟩, ⟨-20, -8, -13⟩⟩, true⟩,
   ⟨⟨⟨27, 18, 8⟩, ⟨-20, -21, -26⟩⟩, true⟩,
   ⟨⟨⟨27, 18, -1⟩, ⟨-12, 6, -26⟩⟩, true⟩,
   ⟨⟨⟨27, 16, 8⟩, ⟨-18, -21, -7⟩⟩, true⟩,
   ⟨⟨⟨27, 11, 7⟩, ⟨-16, -21, -26⟩⟩, true⟩,
   ⟨⟨⟨-4, 18, 8⟩, ⟨-20, -3, -26⟩⟩, true⟩,
   ⟨⟨⟨27, -7, 8⟩, ⟨18, -20, -3⟩⟩, false⟩,
   ⟨⟨⟨10, 18, 8⟩, ⟨-20, -7, -26⟩⟩, true⟩] : List PowerCuboid) = some 62322 :=
    sumTails_cons _ _ _ 0 62322 62322 cov_n44 s5 rfl
  have s3 : sumTails (covGo 18) ([⟨⟨⟨27, 18, 8⟩, ⟨2, -21, -23⟩⟩, true⟩,
   ⟨⟨⟨24, 18, 8⟩, ⟨-20, -21, -21⟩⟩, true⟩,
   ⟨⟨⟨6, 18, 8⟩, ⟨-20, -6, -3⟩⟩, true⟩,
   ⟨⟨⟨22, 18, 8⟩, ⟨-20, -8, -13⟩⟩, true⟩,
   ⟨⟨⟨27, 18, 8⟩, ⟨-20, -21, -26⟩⟩, true⟩,
   ⟨⟨⟨27, 18, -1⟩, ⟨-12, 6, -26⟩⟩, true⟩,
   ⟨⟨⟨27, 16, 8⟩, ⟨-18, -21, -7⟩⟩, true⟩,
   ⟨⟨⟨27, 11, 7⟩, ⟨-16, -21, -26⟩⟩, true⟩,
   ⟨⟨⟨-4, 18, 8⟩, ⟨-20, -3, -26⟩⟩, true⟩,
   ⟨⟨⟨27, -7, 8⟩, ⟨18, -20, -3⟩⟩, false⟩,
   ⟨⟨⟨10, 18, 8⟩, ⟨-20, -7, -26⟩⟩, true⟩] : List PowerCuboid) = some 62322 :=
    sumTails_cons _ _ _ 0 62322 62322 cov_n43 s4 rfl
  have s2 : sumTails (covGo 18) ([⟨⟨⟨2, 18, 8⟩, ⟨-20, -3, -24⟩⟩, true⟩,
   ⟨⟨⟨27, 18, 8⟩, ⟨2, -21, -23⟩⟩, true⟩,
   ⟨⟨⟨24, 18, 8⟩, ⟨-20, -21, -21⟩⟩, true⟩,
   ⟨⟨⟨6, 18, 8⟩, ⟨-20, -6, -3⟩⟩, true⟩,
   ⟨⟨⟨22, 18, 8⟩, ⟨-20, -8, -13⟩⟩, true⟩,
   ⟨⟨⟨27, 18, 8⟩, ⟨-20, -21, -26⟩⟩, true⟩,
   ⟨⟨⟨27, 18, -1⟩, ⟨-12, 6, -26⟩⟩, true⟩,
   ⟨⟨⟨27, 16, 8⟩, ⟨-18, -21, -7⟩⟩, true⟩,
   ⟨⟨⟨27, 11, 7⟩, ⟨-16, -21, -26⟩⟩, true⟩,
   ⟨⟨⟨-4, 18, 8⟩, ⟨-20, -3, -26⟩⟩, true⟩,
   ⟨⟨⟨27, -7, 8⟩, ⟨18, -20, -3⟩⟩, false⟩,
   ⟨⟨⟨10, 18, 8⟩, ⟨-20, -7, -26⟩⟩, true⟩] : List PowerCuboid) = some 62322 :=
    sumTails_cons _ _ _ 0 62322 62322 cov_n42 s3 rfl
  have s1 : sumTails (covGo 18) ([⟨⟨⟨8, 18, 0⟩, ⟨-20, -6, -26⟩⟩, true⟩,
   ⟨⟨⟨2, 18, 8⟩, ⟨-20, -3, -24⟩⟩, true⟩,
   ⟨⟨⟨27, 18, 8⟩, ⟨2, -21, -23⟩⟩, true⟩,
   ⟨⟨⟨24, 18, 8⟩, ⟨-20, -21, -21⟩⟩, true⟩,
   ⟨⟨⟨6, 18, 8⟩, ⟨-20, -6, -3⟩⟩, true⟩,
   ⟨⟨⟨22, 18, 8⟩, ⟨-20, -8, -13⟩⟩, true⟩,
   ⟨⟨⟨27, 18, 8⟩, ⟨-20, -21, -26⟩⟩, true⟩,
   ⟨⟨⟨27, 18, -1⟩, ⟨-12, 6, -26⟩⟩, true⟩,
   ⟨⟨⟨27, 16, 8⟩, ⟨-18, -21, -7⟩⟩, true⟩,
   ⟨⟨⟨27, 11, 7⟩, ⟨-16, -21, -26⟩⟩, true⟩,
   ⟨⟨⟨-4, 18, 8⟩, ⟨-20, -3, -26⟩⟩, true⟩,
   ⟨⟨⟨27, -7, 8⟩, ⟨18, -20, -3⟩⟩, false⟩,
   ⟨⟨⟨10, 18, 8⟩, ⟨-20, -7, -26⟩⟩, true⟩] : List PowerCuboid) = some 62322 :=
    sumTails_cons _ _ _ 0 62322 62322 cov_n29 s2 rfl
  have s0 : sumTails (covGo 18) ([⟨⟨⟨27, 18, 8⟩, ⟨-20, -21, -26⟩⟩, true⟩,
   ⟨⟨⟨8, 18, 0⟩, ⟨-20, -6, -26⟩⟩, true⟩,
   ⟨⟨⟨2, 18, 8⟩, ⟨-20, -3, -24⟩⟩, true⟩,
   ⟨⟨⟨27, 18, 8⟩, ⟨2, -21, -23⟩⟩, true⟩,
   ⟨⟨⟨24, 18, 8⟩, ⟨-20, -21, -21⟩⟩, true⟩,
   ⟨⟨⟨6, 18, 8⟩, ⟨-20, -6, -3⟩⟩, true⟩,
   ⟨⟨⟨22, 18, 8⟩, ⟨-20, -8, -13⟩⟩, true⟩,
   ⟨⟨⟨27, 18, 8⟩, ⟨-20, -21, -26⟩⟩, true⟩,
   ⟨⟨⟨27, 18, -1⟩, ⟨-12, 6, -26⟩⟩, true⟩,
   ⟨⟨⟨27, 16, 8⟩, ⟨-18, -21, -7⟩⟩, true⟩,
   ⟨⟨⟨27, 11, 7⟩, ⟨-16, -21, -26⟩⟩, true⟩,
   ⟨⟨⟨-4, 18, 8⟩, ⟨-20, -3, -26⟩⟩, true⟩,
   ⟨⟨⟨27, -7, 8⟩, ⟨18, -20, -3⟩⟩, false⟩,
   ⟨⟨⟨10, 18, 8⟩, ⟨-20, -7, -26⟩⟩, true⟩] : List PowerCuboid) = some 62322 :=
    sumTails_cons _ _ _ 0 62322 62322 cov_n2 s1 rfl
  rw [covGo_succ, ks_n54, s0]
  decide

/-- Leaf evaluation of the embedded recursion (768 nodes). -/
theorem cov_n57 :
    covGo 17 ⟨⟨⟨2, 18, 0⟩, ⟨-20, -3, -24⟩⟩, true⟩
    ([⟨⟨⟨8, 18, 0⟩, ⟨2, -6, -23⟩⟩, true⟩,
   ⟨⟨⟨8, 18, 0⟩, ⟨-20, -6, -21⟩⟩, true⟩,
   ⟨⟨⟨6, 18, 0⟩, ⟨-20, -6, -3⟩⟩, true⟩,
   ⟨⟨⟨8, 18, 0⟩, ⟨-20, -6, -13⟩⟩, true⟩,
   ⟨⟨⟨8, 18, 0⟩, ⟨-20, -6, -29⟩⟩, true⟩,
   ⟨⟨⟨8, 18, -1⟩, ⟨-12, 6, -38⟩⟩, true⟩,
   ⟨⟨⟨8, 16, 0⟩, ⟨-18, -6, -7⟩⟩, true⟩,
   ⟨⟨⟨8, 11, 0⟩, ⟨-16, -6, -38⟩⟩, true⟩,
   ⟨⟨⟨-4, 18, 0⟩, ⟨-20, -3, -29⟩⟩, true⟩,
   ⟨⟨⟨8, 18, 0⟩, ⟨-20, -6, -33⟩⟩, true⟩] : List PowerCuboid) = some 0 := by decide!

/-- Leaf evaluation of the embedded recursion (256 nodes). -/
theorem cov_n58 :
    covGo 17 ⟨⟨⟨8, 18, 0⟩, ⟨2, -6, -23⟩⟩, true⟩
    ([⟨⟨⟨8, 18, 0⟩, ⟨-20, -6, -21⟩⟩, true⟩,
   ⟨⟨⟨6, 18, 0⟩, ⟨-20, -6, -3⟩⟩, true⟩,
   ⟨⟨⟨8, 18, 0⟩, ⟨-20, -6, -13⟩⟩, true⟩,
   ⟨⟨⟨8, 18, 0⟩, ⟨-20, -6, -29⟩⟩, true⟩,
   ⟨⟨⟨8, 18, -1⟩, ⟨-12, 6, -38⟩⟩, true⟩,
   ⟨⟨⟨8, 16, 0⟩, ⟨-18, -6, -7⟩⟩, true⟩,
   ⟨⟨⟨8, 11, 0⟩, ⟨-16, -6, -38⟩⟩, true⟩,
   ⟨⟨⟨-4, 18, 0⟩, ⟨-20, -3, -29⟩⟩, true⟩,
   ⟨⟨⟨8, 18, 0⟩, ⟨-20, -6, -33⟩⟩, true⟩] : List PowerCuboid) = some 0 := by decide!

/-- Leaf evaluation of the embedded recursion (256 nodes). -/
theorem cov_n59 :
    covGo 17 ⟨⟨⟨8, 18, 0⟩, ⟨-20, -6, -21⟩⟩, true⟩
    ([⟨⟨⟨6, 18, 0⟩, ⟨-20, -6, -3⟩⟩, true⟩,
   ⟨⟨⟨8, 18, 0⟩, ⟨-20, -6, -13⟩⟩, true⟩,
   ⟨⟨⟨8, 18, 0⟩, ⟨-20, -6, -29⟩⟩, true⟩,
   ⟨⟨⟨8, 18, -1⟩, ⟨-12, 6, -38⟩⟩, true⟩,
   ⟨⟨⟨8, 16, 0⟩, ⟨-18, -6, -7⟩⟩, true⟩,
   ⟨⟨⟨8, 11, 0⟩, ⟨-16, -6, -38⟩⟩, true⟩,
   ⟨⟨⟨-4, 18, 0⟩, ⟨-20, -3, -29⟩⟩, true⟩,
   ⟨⟨⟨8, 18, 0⟩, ⟨-20, -6, -33⟩⟩, true⟩] : List PowerCuboid) = some 0 := by decide!

/-- Leaf evaluation of the embedded recursion (128 nodes). -/
theorem cov_n60 :
    covGo 17 ⟨⟨⟨6, 18, 0⟩, ⟨-20, -6, -3⟩⟩, true⟩
    ([⟨⟨⟨8, 18, 0⟩, ⟨-20, -6, -13⟩⟩, true⟩,
   ⟨⟨⟨8, 18, 0⟩, ⟨-20, -6, -29⟩⟩, true⟩,
   ⟨⟨⟨8, 18, -1⟩, ⟨-12, 6, -38⟩⟩, true⟩,
   ⟨⟨⟨8, 16, 0⟩, ⟨-18, -6, -7⟩⟩, true⟩,
   ⟨⟨⟨8, 11, 0⟩, ⟨-16, -6, -38⟩⟩, true⟩,
   ⟨⟨⟨-4, 18, 0⟩, ⟨-20, -3, -29⟩⟩, true⟩,
   ⟨⟨⟨8, 18, 0⟩, ⟨-20, -6, -33⟩⟩, true⟩] : List PowerCuboid) = some 0 := by decide!

/-- Leaf evaluation of the embedded recursion (64 nodes). -/
theorem cov_n61 :
    covGo 17 ⟨⟨⟨8, 18, 0⟩, ⟨-20, -6, -13⟩⟩, true⟩
    ([⟨⟨⟨8, 18, 0⟩, ⟨-20, -6, -29⟩⟩, true⟩,
   ⟨⟨⟨8, 18, -1⟩, ⟨-12, 6, -38⟩⟩, true⟩,
   ⟨⟨⟨8, 16, 0⟩, ⟨-18, -6, -7⟩⟩, true⟩,
   ⟨⟨⟨8, 11, 0⟩, ⟨-16, -6, -38⟩⟩, true⟩,
   ⟨⟨⟨-4, 18, 0⟩, ⟨-20, -3, -29⟩⟩, true⟩,
   ⟨⟨⟨8, 18, 0⟩, ⟨-20, -6, -33⟩⟩, true⟩] : List PowerCuboid) = some 0 := by decide!

/-- Leaf evaluation of the embedded recursion (32 nodes). -/
theorem cov_n62 :
    covGo 17 ⟨⟨⟨8, 18, 0⟩, ⟨-20, -6, -29⟩⟩, true⟩
    ([⟨⟨⟨8, 18, -1⟩, ⟨-12, 6, -38⟩⟩, true⟩,
   ⟨⟨⟨8, 16, 0⟩, ⟨-18, -6, -7⟩⟩, true⟩,
   ⟨⟨⟨8, 11, 0⟩, ⟨-16, -6, -38⟩⟩, true⟩,
   ⟨⟨⟨-4, 18, 0⟩, ⟨-20, -3, -29⟩⟩, true⟩,
   ⟨⟨⟨8, 18, 0⟩, ⟨-20, -6, -33⟩⟩, true⟩] : List PowerCuboid) = some 0 := by decide!

/-- Leaf evaluation of the embedded recursion (16 nodes). -/
theorem cov_n63 :
    covGo 17 ⟨⟨⟨8, 18, -1⟩, ⟨-12, 6, -38⟩⟩, true⟩
    ([⟨⟨⟨8, 16, 0⟩, ⟨-18, -6, -7⟩⟩, true⟩,
   ⟨⟨⟨8, 11, 0⟩, ⟨-16, -6, -38⟩⟩, true⟩,
   ⟨⟨⟨-4, 18, 0⟩, ⟨-20, -3, -29⟩⟩, true⟩,
   ⟨⟨⟨8, 18, 0⟩, ⟨-20, -6, -33⟩⟩, true⟩] : List PowerCuboid) = some 700 := by decide!

/-- Leaf evaluation of the embedded recursion (8 nodes). -/
theorem cov_n64 :
    covGo 17 ⟨⟨⟨8, 16, 0⟩, ⟨-18, -6, -7⟩⟩, true⟩
    ([⟨⟨⟨8, 11, 0⟩, ⟨-16, -6, -38⟩⟩, true⟩,
   ⟨⟨⟨-4, 18, 0⟩, ⟨-20, -3, -29⟩⟩, true⟩,
   ⟨⟨⟨8, 18, 0⟩, ⟨-20, -6, -33⟩⟩, true⟩] : List PowerCuboid) = some 0 := by decide!

/-- Leaf evaluation of the embedded recursion (4 nodes). -/
theorem cov_n65 :
    covGo 17 ⟨⟨⟨8, 11, 0⟩, ⟨-16, -6, -38⟩⟩, true⟩
    ([⟨⟨⟨-4, 18, 0⟩, ⟨-20, -3, -29⟩⟩, true⟩,
   ⟨⟨⟨8, 18, 0⟩, ⟨-20, -6, -33⟩⟩, true⟩] : List PowerCuboid) = some 2040 := by decide!

/-- Leaf evaluation of the embedded recursion (2 nodes). -/
theorem cov_n66 :
    covGo 17 ⟨⟨⟨-4, 18, 0⟩, ⟨-20, -3, -29⟩⟩, true⟩
    ([⟨⟨⟨8, 18, 0⟩, ⟨-20, -6, -33⟩⟩, true⟩] : List PowerCuboid) = some 0 := by decide!

/-- Leaf evaluation of the embedded recursion (1 nodes). -/
theorem cov_n67 :
    covGo 17 ⟨⟨⟨8, 18, 0⟩, ⟨-20, -6, -33⟩⟩, true⟩
    ([] : List PowerCuboid) = some 22176 := by decide!

/-- The conflict list of the node above, evaluated. -/
theorem ks_n68 :
    List.filterMap (fun c => PowerCuboid.intersect ⟨⟨⟨8, 18, 0⟩, ⟨-20, -6, -38⟩⟩, true⟩ c)
    ([⟨⟨⟨2, 18, 8⟩, ⟨-20, -3, -24⟩⟩, true⟩,
   ⟨⟨⟨27, 18, 8⟩, ⟨2, -22, -23⟩⟩, true⟩,
   ⟨⟨⟨24, 18, 8⟩, ⟨-20, -28, -21⟩⟩, true⟩,
   ⟨⟨⟨6, 18, 8⟩, ⟨-20, -6, -3⟩⟩, true⟩,
   ⟨⟨⟨22, 18, 8⟩, ⟨-20, -8, -13⟩⟩, true⟩,
   ⟨⟨⟨27, 18, 8⟩, ⟨-20, -27, -29⟩⟩, true⟩,
   ⟨⟨⟨27, 18, -1⟩, ⟨-12, 6, -38⟩⟩, true⟩,
   ⟨⟨⟨27, 16, 8⟩, ⟨-18, -29, -7⟩⟩, true⟩,
   ⟨⟨⟨27, 11, 7⟩, ⟨-16, -29, -38⟩⟩, true⟩,
   ⟨⟨⟨-4, 18, 8⟩, ⟨-20, -3, -29⟩⟩, true⟩,
   ⟨⟨⟨27, -7, 8⟩, ⟨18, -20, -3⟩⟩, false⟩,
   ⟨⟨⟨10, 18, 8⟩, ⟨-20, -7, -33⟩⟩, true⟩] : List PowerCuboid) = ([⟨⟨⟨2, 18, 0⟩, ⟨-20, -3, -24⟩⟩, true⟩,
   ⟨⟨⟨8, 18, 0⟩, ⟨2, -6, -23⟩⟩, true⟩,
   ⟨⟨⟨8, 18, 0⟩, ⟨-20, -6, -21⟩⟩, true⟩,
   ⟨⟨⟨6, 18, 0⟩, ⟨-20, -6, -3⟩⟩, true⟩,
   ⟨⟨⟨8, 18, 0⟩, ⟨-20, -6, -13⟩⟩, true⟩,
   ⟨⟨⟨8, 18, 0⟩, ⟨-20, -6, -29⟩⟩, true⟩,
   ⟨⟨⟨8, 18, -1⟩, ⟨-12, 6, -38⟩⟩, true⟩,
   ⟨⟨⟨8, 16, 0⟩, ⟨-18, -6, -7⟩⟩, true⟩,
   ⟨⟨⟨8, 11, 0⟩, ⟨-16, -6, -38⟩⟩, true⟩,
   ⟨⟨⟨-4, 18, 0⟩, ⟨-20, -3, -29⟩⟩, true⟩,
   ⟨⟨⟨8, 18, 0⟩, ⟨-20, -6, -33⟩⟩, true⟩] : List PowerCuboid) := by decide!

/-- Split evaluation of the embedded recursion (1536 nodes in total),
assembled from the conflict list and the net contributions of its
members. -/
theorem cov_n56 :
    covGo 18 ⟨⟨⟨8, 18, 0⟩, ⟨-20, -6, -38⟩⟩, true⟩
    ([⟨⟨⟨2, 18, 8⟩, ⟨-20, -3, -24⟩⟩, true⟩,
   ⟨⟨⟨27, 18, 8⟩, ⟨2, -22, -23⟩⟩, true⟩,
   ⟨⟨⟨24, 18, 8⟩, ⟨-20, -28, -21⟩⟩, true⟩,
   ⟨⟨⟨6, 18, 8⟩, ⟨-20, -6, -3⟩⟩, true⟩,
   ⟨⟨⟨22, 18, 8⟩, ⟨-20, -8, -13⟩⟩, true⟩,
   ⟨⟨⟨27, 18, 8⟩, ⟨-20, -27, -29⟩⟩, true⟩,
   ⟨⟨⟨27, 18, -1⟩, ⟨-12, 6, -38⟩⟩, true⟩,
   ⟨⟨⟨27, 16, 8⟩, ⟨-18, -29, -7⟩⟩, true⟩,
   ⟨⟨⟨27, 11, 7⟩, ⟨-16, -29, -38⟩⟩, true⟩,
   ⟨⟨⟨-4, 18, 8⟩, ⟨-20, -3, -29⟩⟩, true⟩,
   ⟨⟨⟨27, -7, 8⟩, ⟨18, -20, -3⟩⟩, false⟩,
   ⟨⟨⟨10, 18, 8⟩, ⟨-20, -7, -33⟩⟩, true⟩] : List PowerCuboid) = some 620 := by
  have s11 : sumTails (covGo 17) ([] : List PowerCuboid) = some 0 := rfl
  have s10 : sumTails (covGo 17) ([⟨⟨⟨8, 18, 0⟩, ⟨-20, -6, -33⟩⟩, true⟩] : List PowerCuboid) = some 22176 :=
    sumTails_cons _ _ _ 22176 0 22176 cov_n67 s11 rfl
  have s9 : sumTails (covGo 17) ([⟨⟨⟨-4, 18, 0⟩, ⟨-20, -3, -29⟩⟩, true⟩,
   ⟨⟨⟨8, 18, 0⟩, ⟨-20, -6, -33⟩⟩, true⟩] : List PowerCuboid) = some 22176 :=
    sumTails_cons _ _ _ 0 22176 22176 cov_n66 s10 rfl
  have s8 : sumTails (covGo 17) ([⟨⟨⟨8, 11, 0⟩, ⟨-16, -6, -38⟩⟩, true⟩,
   ⟨⟨⟨-4, 18, 0⟩, ⟨-20, -3, -29⟩⟩, true⟩,
   ⟨⟨⟨8, 18, 0⟩, ⟨-20, -6, -33⟩⟩, true⟩] : List PowerCuboid) = some 24216 :=
    sumTails_cons _ _ _ 2040 22176 24216 cov_n65 s9 rfl
  have s7 : sumTails (covGo 17) ([⟨⟨⟨8, 16, 0⟩, ⟨-18, -6, -7⟩⟩, true⟩,
   ⟨⟨⟨8, 11, 0⟩, ⟨-16, -6, -38⟩⟩, true⟩,
   ⟨⟨⟨-4, 18, 0⟩, ⟨-20, -3, -29⟩⟩, true⟩,
   ⟨⟨⟨8, 18, 0⟩, ⟨-20, -6, -33⟩⟩, true⟩] : List PowerCuboid) = some 24216 :=
    sumTails_cons _ _ _ 0 24216 24216 cov_n64 s8 rfl
  have s6 : sumTails (covGo 17) ([⟨⟨⟨8, 18, -1⟩, ⟨-12, 6, -38⟩⟩, true⟩,
   ⟨⟨⟨8, 16, 0⟩, ⟨-18, -6, -7⟩⟩, true⟩,
   ⟨⟨⟨8, 11, 0⟩, ⟨-16, -6, -38⟩⟩, true⟩,
   ⟨⟨⟨-4, 18, 0⟩, ⟨-20, -3, -29⟩⟩, true⟩,
   ⟨⟨⟨8, 18, 0⟩, ⟨-20, -6, -33⟩⟩, true⟩] : List PowerCuboid) = some 24916 :=
    sumTails_cons _ _ _ 700 24216 24916 cov_n63 s7 rfl
  have s5 : sumTails (covGo 17) ([⟨⟨⟨8, 18, 0⟩, ⟨-20, -6, -29⟩⟩, true⟩,
   ⟨⟨⟨8, 18, -1⟩, ⟨-12, 6, -38⟩⟩, true⟩,
   ⟨⟨⟨8, 16, 0⟩, ⟨-18, -6, -7⟩⟩, true⟩,
   ⟨⟨⟨8, 11, 0⟩, ⟨-16, -6, -38⟩⟩, true⟩,
   ⟨⟨⟨-4, 18, 0⟩, ⟨-20, -3, -29⟩⟩, true⟩,
   ⟨⟨⟨8, 18, 0⟩, ⟨-20, -6, -33⟩⟩, true⟩] : List PowerCuboid) = some 24916 :=
    sumTails_cons _ _ _ 0 24916 24916 cov_n62 s6 rfl
  have s4 : sumTails (covGo 17) ([⟨⟨⟨8, 18, 0⟩, ⟨-20, -6, -13⟩⟩, true⟩,
   ⟨⟨⟨8, 18, 0⟩, ⟨-20, -6, -29⟩⟩, true⟩,
   ⟨⟨⟨8, 18, -1⟩, ⟨-12, 6, -38⟩⟩, true⟩,
   ⟨⟨⟨8, 16, 0⟩, ⟨-18, -6, -7⟩⟩, true⟩,
   ⟨⟨⟨8, 11, 0⟩, ⟨-16, -6, -38⟩⟩, true⟩,
   ⟨⟨⟨-4, 18, 0⟩, ⟨-20, -3, -29⟩⟩, true⟩,
   ⟨⟨⟨8, 18, 0⟩, ⟨-20, -6, -33⟩⟩, true⟩] : List PowerCuboid) = some 24916 :=
    sumTails_cons _ _ _ 0 24916 24916 cov_n61 s5 rfl
  have s3 : sumTails (covGo 17) ([⟨⟨⟨6, 18, 0⟩, ⟨-20, -6, -3⟩⟩, true⟩,
   ⟨⟨⟨8, 18, 0⟩, ⟨-20, -6, -13⟩⟩, true⟩,
   ⟨⟨⟨8, 18, 0⟩, ⟨-20, -6, -29⟩⟩, true⟩,
   ⟨⟨⟨8, 18, -1⟩, ⟨-12, 6, -38⟩⟩, true⟩,
   ⟨⟨⟨8, 16, 0⟩, ⟨-18, -6, -7⟩⟩, true⟩,
   ⟨⟨⟨8, 11, 0⟩, ⟨-16, -6, -38⟩⟩, true⟩,
   ⟨⟨⟨-4, 18, 0⟩, ⟨-20, -3, -29⟩⟩, true⟩,
   ⟨⟨⟨8, 18, 0⟩, ⟨-20, -6, -33⟩⟩, true⟩] : List PowerCuboid) = some 24916 :=
    sumTails_cons _ _ _ 0 24916 24916 cov_n60 s4 rfl
  have s2 : sumTails (covGo 17) ([⟨⟨⟨8, 18, 0⟩, ⟨-20, -6, -21⟩⟩, true⟩,
   ⟨⟨⟨6, 18, 0⟩, ⟨-20, -6, -3⟩⟩, true⟩,
   ⟨⟨⟨8, 18, 0⟩, ⟨-20, -6, -13⟩⟩, true⟩,
   ⟨⟨⟨8, 18, 0⟩, ⟨-20, -6, -29⟩⟩, true⟩,
   ⟨⟨⟨8, 18, -1⟩, ⟨-12, 6, -38⟩⟩, true⟩,
   ⟨⟨⟨8, 16, 0⟩, ⟨-18, -6, -7⟩⟩, true⟩,
   ⟨⟨⟨8, 11, 0⟩, ⟨-16, -6, -38⟩⟩, true⟩,
   ⟨⟨⟨-4, 18, 0⟩, ⟨-20, -3, -29⟩⟩, true⟩,
   ⟨⟨⟨8, 18, 0⟩, ⟨-20, -6, -33⟩⟩, true⟩] : List PowerCuboid) = some 24916 :=
    sumTails_cons _ _ _ 0 24916 24916 cov_n59 s3 rfl
  have s1 : sumTails (covGo 17) ([⟨⟨⟨8, 18, 0⟩, ⟨2, -6, -23⟩⟩, true⟩,
   ⟨⟨⟨8, 18, 0⟩, ⟨-20, -6, -21⟩⟩, true⟩,
   ⟨⟨⟨6, 18, 0⟩, ⟨-20, -6, -3⟩⟩, true⟩,
   ⟨⟨⟨8, 18, 0⟩, ⟨-20, -6, -13⟩⟩, true⟩,
   ⟨⟨⟨8, 18, 0⟩, ⟨-20, -6, -29⟩⟩, true⟩,
   ⟨⟨⟨8, 18, -1⟩, ⟨-12, 6, -38⟩⟩, true⟩,
   ⟨⟨⟨8, 16, 0⟩, ⟨-18, -6, -7⟩⟩, true⟩,
   ⟨⟨⟨8, 11, 0⟩, ⟨-16, -6, -38⟩⟩, true⟩,
   ⟨⟨⟨-4, 18, 0⟩, ⟨-20, -3, -29⟩⟩, true⟩,
   ⟨⟨⟨8, 18, 0⟩, ⟨-20, -6, -33⟩⟩, true⟩] : List PowerCuboid) = some 24916 :=
    sumTails_cons _ _ _ 0 24916 24916 cov_n58 s2 rfl
  have s0 : sumTails (covGo 17) ([⟨⟨⟨2, 18, 0⟩, ⟨-20, -3, -24⟩⟩, true⟩,
   ⟨⟨⟨8, 18, 0⟩, ⟨2, -6, -23⟩⟩, true⟩,
   ⟨⟨⟨8, 18, 0⟩, ⟨-20, -6, -21⟩⟩, true⟩,
   ⟨⟨⟨6, 18, 0⟩, ⟨-20, -6, -3⟩⟩, true⟩,
   ⟨⟨⟨8, 18, 0⟩, ⟨-20, -6, -13⟩⟩, true⟩,
   ⟨⟨⟨8, 18, 0⟩, ⟨-20, -6, -29⟩⟩, true⟩,
   ⟨⟨⟨8, 18, -1⟩, ⟨-12, 6, -38⟩⟩, true⟩,
   ⟨⟨⟨8, 16, 0⟩, ⟨-18, -6, -7⟩⟩, true⟩,
   ⟨⟨⟨8, 11, 0⟩, ⟨-16, -6, -38⟩⟩, true⟩,
   ⟨⟨⟨-4, 18, 0⟩, ⟨-20, -3, -29⟩⟩, true⟩,
   ⟨⟨⟨8, 18, 0⟩, ⟨-20, -6, -33⟩⟩, true⟩] : List PowerCuboid) = some 24916 :=
    sumTails_cons _ _ _ 0 24916 24916 cov_n57 s1 rfl
  rw [covGo_succ, ks_n68, s0]
  decide

/-- Leaf evaluation of the embedded recursion (768 nodes). -/
theorem cov_n69 :
    covGo 18 ⟨⟨⟨2, 18, 8⟩, ⟨-20, -3, -24⟩⟩, true⟩
    ([⟨⟨⟨27, 18, 8⟩, ⟨2, -22, -23⟩⟩, true⟩,
   ⟨⟨⟨24, 18, 8⟩, ⟨-20, -28, -21⟩⟩, true⟩,
   ⟨⟨⟨6, 18, 8⟩, ⟨-20, -6, -3⟩⟩, true⟩,
   ⟨⟨⟨22, 18, 8⟩, ⟨-20, -8, -13⟩⟩, true⟩,
   ⟨⟨⟨27, 18, 8⟩, ⟨-20, -27, -29⟩⟩, true⟩,
   ⟨⟨⟨27, 18, -1⟩, ⟨-12, 6, -38⟩⟩, true⟩,
   ⟨⟨⟨27, 16, 8⟩, ⟨-18, -29, -7⟩⟩, true⟩,
   ⟨⟨⟨27, 11, 7⟩, ⟨-16, -29, -38⟩⟩, true⟩,
   ⟨⟨⟨-4, 18, 8⟩, ⟨-20, -3, -29⟩⟩, true⟩,
   ⟨⟨⟨27, -7, 8⟩, ⟨18, -20, -3⟩⟩, false⟩,
   ⟨⟨⟨10, 18, 8⟩, ⟨-20, -7, -33⟩⟩, true⟩] : List PowerCuboid) = some 0 := by decide!

/-- Leaf evaluation of the embedded recursion (288 nodes). -/
theorem cov_n70 :
    covGo 18 ⟨⟨⟨27, 18, 8⟩, ⟨2, -22, -23⟩⟩, true⟩
    ([⟨⟨⟨24, 18, 8⟩, ⟨-20, -28, -21⟩⟩, true⟩,
   ⟨⟨⟨6, 18, 8⟩, ⟨-20, -6, -3⟩⟩, true⟩,
   ⟨⟨⟨22, 18, 8⟩, ⟨-20, -8, -13⟩⟩, true⟩,
   ⟨⟨⟨27, 18, 8⟩, ⟨-20, -27, -29⟩⟩, true⟩,
   ⟨⟨⟨27, 18, -1⟩, ⟨-12, 6, -38⟩⟩, true⟩,
   ⟨⟨⟨27, 16, 8⟩, ⟨-18, -29, -7⟩⟩, true⟩,
   ⟨⟨⟨27, 11, 7⟩, ⟨-16, -29, -38⟩⟩, true⟩,
   ⟨⟨⟨-4, 18, 8⟩, ⟨-20, -3, -29⟩⟩, true⟩,
   ⟨⟨⟨27, -7, 8⟩, ⟨18, -20, -3⟩⟩, false⟩,
   ⟨⟨⟨10, 18, 8⟩, ⟨-20, -7, -33⟩⟩, true⟩] : List PowerCuboid) = some 0 := by decide!

/-- Leaf evaluation of the embedded recursion (272 nodes). -/
theorem cov_n71 :
    covGo 18 ⟨⟨⟨24, 18, 8⟩, ⟨-20, -28, -21⟩⟩, true⟩
    ([⟨⟨⟨6, 18, 8⟩, ⟨-20, -6, -3⟩⟩, true⟩,
   ⟨⟨⟨22, 18, 8⟩, ⟨-20, -8, -13⟩⟩, true⟩,
   ⟨⟨⟨27, 18, 8⟩, ⟨-20, -27, -29⟩⟩, true⟩,
   ⟨⟨⟨27, 18, -1⟩, ⟨-12, 6, -38⟩⟩, true⟩,
   ⟨⟨⟨27, 16, 8⟩, ⟨-18, -29, -7⟩⟩, true⟩,
   ⟨⟨⟨27, 11, 7⟩, ⟨-16, -29, -38⟩⟩, true⟩,
   ⟨⟨⟨-4, 18, 8⟩, ⟨-20, -3, -29⟩⟩, true⟩,
   ⟨⟨⟨27, -7, 8⟩, ⟨18, -20, -3⟩⟩, false⟩,
   ⟨⟨⟨10, 18, 8⟩, ⟨-20, -7, -33⟩⟩, true⟩] : List PowerCuboid) = some 86 := by decide!

/-- Leaf evaluation of the embedded recursion (128 nodes). -/
theorem cov_n72 :
    covGo 18 ⟨⟨⟨6, 18, 8⟩, ⟨-20, -6, -3⟩⟩, true⟩
    ([⟨⟨⟨22, 18, 8⟩, ⟨-20, -8, -13⟩⟩, true⟩,
   ⟨⟨⟨27, 18, 8⟩, ⟨-20, -27, -29⟩⟩, true⟩,
   ⟨⟨⟨27, 18, -1⟩, ⟨-12, 6, -38⟩⟩, true⟩,
   ⟨⟨⟨27, 16, 8⟩, ⟨-18, -29, -7⟩⟩, true⟩,
   ⟨⟨⟨27, 11, 7⟩, ⟨-16, -29, -38⟩⟩, true⟩,
   ⟨⟨⟨-4, 18, 8⟩, ⟨-20, -3, -29⟩⟩, true⟩,
   ⟨⟨⟨27, -7, 8⟩, ⟨18, -20, -3⟩⟩, false⟩,
   ⟨⟨⟨10, 18, 8⟩, ⟨-20, -7, -33⟩⟩, true⟩] : List PowerCuboid) = some 0 := by decide!

/-- Leaf evaluation of the embedded recursion (72 nodes). -/
theorem cov_n73 :
    covGo 18 ⟨⟨⟨22, 18, 8⟩, ⟨-20, -8, -13⟩⟩, true⟩
    ([⟨⟨⟨27, 18, 8⟩, ⟨-20, -27, -29⟩⟩, true⟩,
   ⟨⟨⟨27, 18, -1⟩, ⟨-12, 6, -38⟩⟩, true⟩,
   ⟨⟨⟨27, 16, 8⟩, ⟨-18, -29, -7⟩⟩, true⟩,
   ⟨⟨⟨27, 11, 7⟩, ⟨-16, -29, -38⟩⟩, true⟩,
   ⟨⟨⟨-4, 18, 8⟩, ⟨-20, -3, -29⟩⟩, true⟩,
   ⟨⟨⟨27, -7, 8⟩, ⟨18, -20, -3⟩⟩, false⟩,
   ⟨⟨⟨10, 18, 8⟩, ⟨-20, -7, -33⟩⟩, true⟩] : List PowerCuboid) = some 0 := by decide!

/-- Leaf evaluation of the embedded recursion (36 nodes). -/
theorem cov_n74 :
    covGo 18 ⟨⟨⟨27, 18, 8⟩, ⟨-20, -27, -29⟩⟩, true⟩
    ([⟨⟨⟨27, 18, -1⟩, ⟨-12, 6, -38⟩⟩, true⟩,
   ⟨⟨⟨27, 16, 8⟩, ⟨-18, -29, -7⟩⟩, true⟩,
   ⟨⟨⟨27, 11, 7⟩, ⟨-16, -29, -38⟩⟩, true⟩,
   ⟨⟨⟨-4, 18, 8⟩, ⟨-20, -3, -29⟩⟩, true⟩,
   ⟨⟨⟨27, -7, 8⟩, ⟨18, -20, -3⟩⟩, false⟩,
   ⟨⟨⟨10, 18, 8⟩, ⟨-20, -7, -33⟩⟩, true⟩] : List PowerCuboid) = some 2666 := by decide!

/-- Leaf evaluation of the embedded recursion (16 nodes). -/
theorem cov_n75 :
    covGo 18 ⟨⟨⟨27, 18, -1⟩, ⟨-12, 6, -38⟩⟩, true⟩
    ([⟨⟨⟨27, 16, 8⟩, ⟨-18, -29, -7⟩⟩, true⟩,
   ⟨⟨⟨27, 11, 7⟩, ⟨-16, -29, -38⟩⟩, true⟩,
   ⟨⟨⟨-4, 18, 8⟩, ⟨-20, -3, -29⟩⟩, true⟩,
   ⟨⟨⟨27, -7, 8⟩, ⟨18, -20, -3⟩⟩, false⟩,
   ⟨⟨⟨10, 18, 8⟩, ⟨-20, -7, -33⟩⟩, true⟩] : List PowerCuboid) = some 4663 := by decide!

/-- Leaf evaluation of the embedded recursion (10 nodes). -/
theorem cov_n76 :
    covGo 18 ⟨⟨⟨27, 16, 8⟩, ⟨-18, -29, -7⟩⟩, true⟩
    ([⟨⟨⟨27, 11, 7⟩, ⟨-16, -29, -38⟩⟩, true⟩,
   ⟨⟨⟨-4, 18, 8⟩, ⟨-20, -3, -29⟩⟩, true⟩,
   ⟨⟨⟨27, -7, 8⟩, ⟨18, -20, -3⟩⟩, false⟩,
   ⟨⟨⟨10, 18, 8⟩, ⟨-20, -7, -33⟩⟩, true⟩] : List PowerCuboid) = some 3070 := by decide!

/-- Leaf evaluation of the embedded recursion (5 nodes). -/
theorem cov_n77 :
    covGo 18 ⟨⟨⟨27, 11, 7⟩, ⟨-16, -29, -38⟩⟩, true⟩
    ([⟨⟨⟨-4, 18, 8⟩, ⟨-20, -3, -29⟩⟩, true⟩,
   ⟨⟨⟨27, -7, 8⟩, ⟨18, -20, -3⟩⟩, false⟩,
   ⟨⟨⟨10, 18, 8⟩, ⟨-20, -7, -33⟩⟩, true⟩] : List PowerCuboid) = some 57510 := by decide!

/-- Leaf evaluation of the embedded recursion (2 nodes). -/
theorem cov_n78 :
    covGo 18 ⟨⟨⟨-4, 18, 8⟩, ⟨-20, -3, -29⟩⟩, true⟩
    ([⟨⟨⟨27, -7, 8⟩, ⟨18, -20, -3⟩⟩, false⟩,
   ⟨⟨⟨10, 18, 8⟩, ⟨-20, -7, -33⟩⟩, true⟩] : List PowerCuboid) = some 0 := by decide!

/-- Leaf evaluation of the embedded recursion (1 nodes). -/
theorem cov_n79 :
    covGo 18 ⟨⟨⟨27, -7, 8⟩, ⟨18, -20, -3⟩⟩, false⟩
    ([⟨⟨⟨10, 18, 8⟩, ⟨-20, -7, -33⟩⟩, true⟩] : List PowerCuboid) = some 1287 := by decide!

/-- Leaf evaluation of the embedded recursion (1 nodes). -/
theorem cov_n80 :
    covGo 18 ⟨⟨⟨10, 18, 8⟩, ⟨-20, -7, -33⟩⟩, true⟩
    ([] : List PowerCuboid) = some 30750 := by decide!

/-- The conflict list of the node above, evaluated. -/
theorem ks_n81 :
    List.filterMap (fun c => PowerCuboid.intersect ⟨⟨⟨27, 18, 8⟩, ⟨-20, -29, -38⟩⟩, true⟩ c)
    ([⟨⟨⟨8, 18, 0⟩, ⟨-20, -6, -47⟩⟩, true⟩,
   ⟨⟨⟨2, 18, 8⟩, ⟨-20, -3, -24⟩⟩, true⟩,
   ⟨⟨⟨27, 18, 8⟩, ⟨2, -22, -23⟩⟩, true⟩,
   ⟨⟨⟨24, 18, 8⟩, ⟨-20, -28, -21⟩⟩, true⟩,
   ⟨⟨⟨6, 18, 8⟩, ⟨-20, -6, -3⟩⟩, true⟩,
   ⟨⟨⟨22, 18, 8⟩, ⟨-20, -8, -13⟩⟩, true⟩,
   ⟨⟨⟨27, 18, 8⟩, ⟨-20, -27, -29⟩⟩, true⟩,
   ⟨⟨⟨27, 18, -1⟩, ⟨-12, 6, -47⟩⟩, true⟩,
   ⟨⟨⟨27, 16, 8⟩, ⟨-18, -33, -7⟩⟩, true⟩,
   ⟨⟨⟨27, 11, 7⟩, ⟨-16, -36, -47⟩⟩, true⟩,
   ⟨⟨⟨-4, 18, 8⟩, ⟨-20, -3, -29⟩⟩, true⟩,
   ⟨⟨⟨27, -7, 8⟩, ⟨18, -20, -3⟩⟩, false⟩,
   ⟨⟨⟨10, 18, 8⟩, ⟨-20, -7, -33⟩⟩, true⟩] : List PowerCuboid) = ([⟨⟨⟨8, 18, 0⟩, ⟨-20, -6, -38⟩⟩, true⟩,
   ⟨⟨⟨2, 18, 8⟩, ⟨-20, -3, -24⟩⟩, true⟩,
   ⟨⟨⟨27, 18, 8⟩, ⟨2, -22, -23⟩⟩, true⟩,
   ⟨⟨⟨24, 18, 8⟩, ⟨-20, -28, -21⟩⟩, true⟩,
   ⟨⟨⟨6, 18, 8⟩, ⟨-20, -6, -3⟩⟩, true⟩,
   ⟨⟨⟨22, 18, 8⟩, ⟨-20, -8, -13⟩⟩, true⟩,
   ⟨⟨⟨27, 18, 8⟩, ⟨-20, -27, -29⟩⟩, true⟩,
   ⟨⟨⟨27, 18, -1⟩, ⟨-12, 6, -38⟩⟩, true⟩,
   ⟨⟨⟨27, 16, 8⟩, ⟨-18, -29, -7⟩⟩, true⟩,
   ⟨⟨⟨27, 11, 7⟩, ⟨-16, -29, -38⟩⟩, true⟩,
   ⟨⟨⟨-4, 18, 8⟩, ⟨-20, -3, -29⟩⟩, true⟩,
   ⟨⟨⟨27, -7, 8⟩, ⟨18, -20, -3⟩⟩, false⟩,
   ⟨⟨⟨10, 18, 8⟩, ⟨-20, -7, -33⟩⟩, true⟩] : List PowerCuboid) := by decide!

/-- Split evaluation of the embedded recursion (3136 nodes in total),
assembled from the conflict list and the net contributions of its
members. -/
theorem cov_n55 :
    covGo 19 ⟨⟨⟨27, 18, 8⟩, ⟨-20, -29, -38⟩⟩, true⟩
    ([⟨⟨⟨8, 18, 0⟩, ⟨-20, -6, -47⟩⟩, true⟩,
   ⟨⟨⟨2, 18, 8⟩, ⟨-20, -3, -24⟩⟩, true⟩,
   ⟨⟨⟨27, 18, 8⟩, ⟨2, -22, -23⟩⟩, true⟩,
   ⟨⟨⟨24, 18, 8⟩, ⟨-20, -28, -21⟩⟩, true⟩,
   ⟨⟨⟨6, 18, 8⟩, ⟨-20, -6, -3⟩⟩, true⟩,
   ⟨⟨⟨22, 18, 8⟩, ⟨-20, -8, -13⟩⟩, true⟩,
   ⟨⟨⟨27, 18, 8⟩, ⟨-20, -27, -29⟩⟩, true⟩,
   ⟨⟨⟨27, 18, -1⟩, ⟨-12, 6, -47⟩⟩, true⟩,
   ⟨⟨⟨27, 16, 8⟩, ⟨-18, -33, -7⟩⟩, true⟩,
   ⟨⟨⟨27, 11, 7⟩, ⟨-16, -36, -47⟩⟩, true⟩,
   ⟨⟨⟨-4, 18, 8⟩, ⟨-20, -3, -29⟩⟩, true⟩,
   ⟨⟨⟨27, -7, 8⟩, ⟨18, -20, -3⟩⟩, false⟩,
   ⟨⟨⟨10, 18, 8⟩, ⟨-20, -7, -33⟩⟩, true⟩] : List PowerCuboid) = some 962 := by
  have s13 : sumTails (covGo 18) ([] : List PowerCuboid) = some 0 := rfl
  have s12 : sumTails (covGo 18) ([⟨⟨⟨10, 18, 8⟩, ⟨-20, -7, -33⟩⟩, true⟩] : List PowerCuboid) = some 30750 :=
    sumTails_cons _ _ _ 30750 0 30750 cov_n80 s13 rfl
  have s11 : sumTails (covGo 18) ([⟨⟨⟨27, -7, 8⟩, ⟨18, -20, -3⟩⟩, false⟩,
   ⟨⟨⟨10, 18, 8⟩, ⟨-20, -7, -33⟩⟩, true⟩] : List PowerCuboid) = some 32037 :=
    sumTails_cons _ _ _ 1287 30750 32037 cov_n79 s12 rfl
  have s10 : sumTails (covGo 18) ([⟨⟨⟨-4, 18, 8⟩, ⟨-20, -3, -29⟩⟩, true⟩,
   ⟨⟨⟨27, -7, 8⟩, ⟨18, -20, -3⟩⟩, false⟩,
   ⟨⟨⟨10, 18, 8⟩, ⟨-20, -7, -33⟩⟩, true⟩] : List PowerCuboid) = some 32037 :=
    sumTails_cons _ _ _ 0 32037 32037 cov_n78 s11 rfl
  have s9 : sumTails (covGo 18) ([⟨⟨⟨27, 11, 7⟩, ⟨-16, -29, -38⟩⟩, true⟩,
   ⟨⟨⟨-4, 18, 8⟩, ⟨-20, -3, -29⟩⟩, true⟩,
   ⟨⟨⟨27, -7, 8⟩, ⟨18, -20, -3⟩⟩, false⟩,
   ⟨⟨⟨10, 18, 8⟩, ⟨-20, -7, -33⟩⟩, true⟩] : List PowerCuboid) = some 89547 :=
    sumTails_cons _ _ _ 57510 32037 89547 cov_n77 s10 rfl
  have s8 : sumTails (covGo 18) ([⟨⟨⟨27, 16, 8⟩, ⟨-18, -29, -7⟩⟩, true⟩,
   ⟨⟨⟨27, 11, 7⟩, ⟨-16, -29, -38⟩⟩, true⟩,
   ⟨⟨⟨-4, 18, 8⟩, ⟨-20, -3, -29⟩⟩, true⟩,
   ⟨⟨⟨27, -7, 8⟩, ⟨18, -20, -3⟩⟩, false⟩,
   ⟨⟨⟨10, 18, 8⟩, ⟨-20, -7, -33⟩⟩, true⟩] : List PowerCuboid) = some 92617 :=
    sumTails_cons _ _ _ 3070 89547 92617 cov_n76 s9 rfl
  have s7 : sumTails (covGo 18) ([⟨⟨⟨27, 18, -1⟩, ⟨-12, 6, -38⟩⟩, true⟩,
   ⟨⟨⟨27, 16, 8⟩, ⟨-18, -29, -7⟩⟩, true⟩,
   ⟨⟨⟨27, 11, 7⟩, ⟨-16, -29, -38⟩⟩, true⟩,
   ⟨⟨⟨-4, 18, 8⟩, ⟨-20, -3, -29⟩⟩, true⟩,
   ⟨⟨⟨27, -7, 8⟩, ⟨18, -20, -3⟩⟩, false⟩,
   ⟨⟨⟨10, 18, 8⟩, ⟨-20, -7, -33⟩⟩, true⟩] : List PowerCuboid) = some 97280 :=
    sumTails_cons _ _ _ 4663 92617 97280 cov_n75 s8 rfl
  have s6 : sumTails (covGo 18) ([⟨⟨⟨27, 18, 8⟩, ⟨-20, -27, -29⟩⟩, true⟩,
   ⟨⟨⟨27, 18, -1⟩, ⟨-12, 6, -38⟩⟩, true⟩,
   ⟨⟨⟨27, 16, 8⟩, ⟨-18, -29, -7⟩⟩, true⟩,
   ⟨⟨⟨27, 11, 7⟩, ⟨-16, -29, -38⟩⟩, true⟩,
   ⟨⟨⟨-4, 18, 8⟩, ⟨-20, -3, -29⟩⟩, true⟩,
   ⟨⟨⟨27, -7, 8⟩, ⟨18, -20, -3⟩⟩, false⟩,
   ⟨⟨⟨10, 18, 8⟩, ⟨-20, -7, -33⟩⟩, true⟩] : List PowerCuboid) = some 99946 :=
    sumTails_cons _ _ _ 2666 97280 99946 cov_n74 s7 rfl
  have s5 : sumTails (covGo 18) ([⟨⟨⟨22, 18, 8⟩, ⟨-20, -8, -13⟩⟩, true⟩,
   ⟨⟨⟨27, 18, 8⟩, ⟨-20, -27, -29⟩⟩, true⟩,
   ⟨⟨⟨27, 18, -1⟩, ⟨-12, 6, -38⟩⟩, true⟩,
   ⟨⟨⟨27, 16, 8⟩, ⟨-18, -29, -7⟩⟩, true⟩,
   ⟨⟨⟨27, 11, 7⟩, ⟨-16, -29, -38⟩⟩, true⟩,
   ⟨⟨⟨-4, 18, 8⟩, ⟨-20, -3, -29⟩⟩, true⟩,
   ⟨⟨⟨27, -7, 8⟩, ⟨18, -20, -3⟩⟩, false⟩,
   ⟨⟨⟨10, 18, 8⟩, ⟨-20, -7, -33⟩⟩, true⟩] : List PowerCuboid) = some 99946 :=
    sumTails_cons _ _ _ 0 99946 99946 cov_n73 s6 rfl
  have s4 : sumTails (covGo 18) ([⟨⟨⟨6, 18, 8⟩, ⟨-20, -6, -3⟩⟩, true⟩,
   ⟨⟨⟨22, 18, 8⟩, ⟨-20, -8, -13⟩⟩, true⟩,
   ⟨⟨⟨27, 18, 8⟩, ⟨-20, -27, -29⟩⟩, true⟩,
   ⟨⟨⟨27, 18, -1⟩, ⟨-12, 6, -38⟩⟩, true⟩,
   ⟨⟨⟨27, 16, 8⟩, ⟨-18, -29, -7⟩⟩, true⟩,
   ⟨⟨⟨27, 11, 7⟩, ⟨-16, -29, -38⟩⟩, true⟩,
   ⟨⟨⟨-4, 18, 8⟩, ⟨-20, -3, -29⟩⟩, true⟩,
   ⟨⟨⟨27, -7, 8⟩, ⟨18, -20, -3⟩⟩, false⟩,
   ⟨⟨⟨10, 18, 8⟩, ⟨-20, -7, -33⟩⟩, true⟩] : List PowerCuboid) = some 99946 :=
    sumTails_cons _ _ _ 0 99946 99946 cov_n72 s5 rfl
  have s3 : sumTails (covGo 18) ([⟨⟨⟨24, 18, 8⟩, ⟨-20, -28, -21⟩⟩, true⟩,
   ⟨⟨⟨6, 18, 8⟩, ⟨-20, -6, -3⟩⟩, true⟩,
   ⟨⟨⟨22, 18, 8⟩, ⟨-20, -8, -13⟩⟩, true⟩,
   ⟨⟨⟨27, 18, 8⟩, ⟨-20, -27, -29⟩⟩, true⟩,
   ⟨⟨⟨27, 18, -1⟩, ⟨-12, 6, -38⟩⟩, true⟩,
   ⟨⟨⟨27, 16, 8⟩, ⟨-18, -29, -7⟩⟩, true⟩,
   ⟨⟨⟨27, 11, 7⟩, ⟨-16, -29, -38⟩⟩, true⟩,
   ⟨⟨⟨-4, 18, 8⟩, ⟨-20, -3, -29⟩⟩, true⟩,
   ⟨⟨⟨27, -7, 8⟩, ⟨18, -20, -3⟩⟩, false⟩,
   ⟨⟨⟨10, 18, 8⟩, ⟨-20, -7, -33⟩⟩, true⟩] : List PowerCuboid) = some 100032 :=
    sumTails_cons _ _ _ 86 99946 100032 cov_n71 s4 rfl
  have s2 : sumTails (covGo 18) ([⟨⟨⟨27, 18, 8⟩, ⟨2, -22, -23⟩⟩, true⟩,
   ⟨⟨⟨24, 18, 8⟩, ⟨-20, -28, -21⟩⟩, true⟩,
   ⟨⟨⟨6, 18, 8⟩, ⟨-20, -6, -3⟩⟩, true⟩,
   ⟨⟨⟨22, 18, 8⟩, ⟨-20, -8, -13⟩⟩, true⟩,
   ⟨⟨⟨27, 18, 8⟩, ⟨-20, -27, -29⟩⟩, true⟩,
   ⟨⟨⟨27, 18, -1⟩, ⟨-12, 6, -38⟩⟩, true⟩,
   ⟨⟨⟨27, 16, 8⟩, ⟨-18, -29, -7⟩⟩, true⟩,
   ⟨⟨⟨27, 11, 7⟩, ⟨-16, -29, -38⟩⟩, true⟩,
   ⟨⟨⟨-4, 18, 8⟩, ⟨-20, -3, -29⟩⟩, true⟩,
   ⟨⟨⟨27, -7, 8⟩, ⟨18, -20, -3⟩⟩, false⟩,
   ⟨⟨⟨10, 18, 8⟩, ⟨-20, -7, -33⟩⟩, true⟩] : List PowerCuboid) = some 100032 :=
    sumTails_cons _ _ _ 0 100032 100032 cov_n70 s3 rfl
  have s1 : sumTails (covGo 18) ([⟨⟨⟨2, 18, 8⟩, ⟨-20, -3, -24⟩⟩, true⟩,
   ⟨⟨⟨27, 18, 8⟩, ⟨2, -22, -23⟩⟩, true⟩,
   ⟨⟨⟨24, 18, 8⟩, ⟨-20, -28, -21⟩⟩, true⟩,
   ⟨⟨⟨6, 18, 8⟩, ⟨-20, -6, -3⟩⟩, true⟩,
   ⟨⟨⟨22, 18, 8⟩, ⟨-20, -8, -13⟩⟩, true⟩,
   ⟨⟨⟨27, 18, 8⟩, ⟨-20, -27, -29⟩⟩, true⟩,
   ⟨⟨⟨27, 18, -1⟩, ⟨-12, 6, -38⟩⟩, true⟩,
   ⟨⟨⟨27, 16, 8⟩, ⟨-18, -29, -7⟩⟩, true⟩,
   ⟨⟨⟨27, 11, 7⟩, ⟨-16, -29, -38⟩⟩, true⟩,
   ⟨⟨⟨-4, 18, 8⟩, ⟨-20, -3, -29⟩⟩, true⟩,
   ⟨⟨⟨27, -7, 8⟩, ⟨18, -20, -3⟩⟩, false⟩,
   ⟨⟨⟨10, 18, 8⟩, ⟨-20, -7, -33⟩⟩, true⟩] : List PowerCuboid) = some 100032 :=
    sumTails_cons _ _ _ 0 100032 100032 cov_n69 s2 rfl
  have s0 : sumTails (covGo 18) ([⟨⟨⟨8, 18, 0⟩, ⟨-20, -6, -38⟩⟩, true⟩,
   ⟨⟨⟨2, 18, 8⟩, ⟨-20, -3, -24⟩⟩, true⟩,
   ⟨⟨⟨27, 18, 8⟩, ⟨2, -22, -23⟩⟩, true⟩,
   ⟨⟨⟨24, 18, 8⟩, ⟨-20, -28, -21⟩⟩, true⟩,
   ⟨⟨⟨6, 18, 8⟩, ⟨-20, -6, -3⟩⟩, true⟩,
   ⟨⟨⟨22, 18, 8⟩, ⟨-20, -8, -13⟩⟩, true⟩,
   ⟨⟨⟨27, 18, 8⟩, ⟨-20, -27, -29⟩⟩, true⟩,
   ⟨⟨⟨27, 18, -1⟩, ⟨-12, 6, -38⟩⟩, true⟩,
   ⟨⟨⟨27, 16, 8⟩, ⟨-18, -29, -7⟩⟩, true⟩,
   ⟨⟨⟨27, 11, 7⟩, ⟨-16, -29, -38⟩⟩, true⟩,
   ⟨⟨⟨-4, 18, 8⟩, ⟨-20, -3, -29⟩⟩, true⟩,
   ⟨⟨⟨27, -7, 8⟩, ⟨18, -20, -3⟩⟩, false⟩,
   ⟨⟨⟨10, 18, 8⟩, ⟨-20, -7, -33⟩⟩, true⟩] : List PowerCuboid) = some 100652 :=
    sumTails_cons _ _ _ 620 100032 100652 cov_n56 s1 rfl
  rw [covGo_succ, ks_n81, s0]
  decide

/-- Leaf evaluation of the embedded recursion (768 nodes). -/
theorem cov_n83 :
    covGo 18 ⟨⟨⟨2, 18, 0⟩, ⟨-20, -3, -24⟩⟩, true⟩
    ([⟨⟨⟨8, 18, 0⟩, ⟨2, -6, -23⟩⟩, true⟩,
   ⟨⟨⟨8, 18, 0⟩, ⟨-20, -6, -21⟩⟩, true⟩,
   ⟨⟨⟨6, 18, 0⟩, ⟨-20, -6, -3⟩⟩, true⟩,
   ⟨⟨⟨8, 18, 0⟩, ⟨-20, -6, -13⟩⟩, true⟩,
   ⟨⟨⟨8, 18, 0⟩, ⟨-20, -6, -29⟩⟩, true⟩,
   ⟨⟨⟨8, 18, -1⟩, ⟨-12, 6, -47⟩⟩, true⟩,
   ⟨⟨⟨8, 16, 0⟩, ⟨-18, -6, -7⟩⟩, true⟩,
   ⟨⟨⟨8, 11, 0⟩, ⟨-16, -6, -47⟩⟩, true⟩,
   ⟨⟨⟨-4, 18, 0⟩, ⟨-20, -3, -29⟩⟩, true⟩,
   ⟨⟨⟨8, 18, 0⟩, ⟨-20, -6, -33⟩⟩, true⟩] : List PowerCuboid) = some 0 := by decide!

/-- Leaf evaluation of the embedded recursion (256 nodes). -/
theorem cov_n84 :
    covGo 18 ⟨⟨⟨8, 18, 0⟩, ⟨2, -6, -23⟩⟩, true⟩
    ([⟨⟨⟨8, 18, 0⟩, ⟨-20, -6, -21⟩⟩, true⟩,
   ⟨⟨⟨6, 18, 0⟩, ⟨-20, -6, -3⟩⟩, true⟩,
   ⟨⟨⟨8, 18, 0⟩, ⟨-20, -6, -13⟩⟩, true⟩,
   ⟨⟨⟨8, 18, 0⟩, ⟨-20, -6, -29⟩⟩, true⟩,
   ⟨⟨⟨8, 18, -1⟩, ⟨-12, 6, -47⟩⟩, true⟩,
   ⟨⟨⟨8, 16, 0⟩, ⟨-18, -6, -7⟩⟩, true⟩,
   ⟨⟨⟨8, 11, 0⟩, ⟨-16, -6, -47⟩⟩, true⟩,
   ⟨⟨⟨-4, 18, 0⟩, ⟨-20, -3, -29⟩⟩, true⟩,
   ⟨⟨⟨8, 18, 0⟩, ⟨-20, -6, -33⟩⟩, true⟩] : List PowerCuboid) = some 0 := by decide!

/-- Leaf evaluation of the embedded recursion (256 nodes). -/
theorem cov_n85 :
    covGo 18 ⟨⟨⟨8, 18, 0⟩, ⟨-20, -6, -21⟩⟩, true⟩
    ([⟨⟨⟨6, 18, 0⟩, ⟨-20, -6, -3⟩⟩, true⟩,
   ⟨⟨⟨8, 18, 0⟩, ⟨-20, -6, -13⟩⟩, true⟩,
   ⟨⟨⟨8, 18, 0⟩, ⟨-20, -6, -29⟩⟩, true⟩,
   ⟨⟨⟨8, 18, -1⟩, ⟨-12, 6, -47⟩⟩, true⟩,
   ⟨⟨⟨8, 16, 0⟩, ⟨-18, -6, -7⟩⟩, true⟩,
   ⟨⟨⟨8, 11, 0⟩, ⟨-16, -6, -47⟩⟩, true⟩,
   ⟨⟨⟨-4, 18, 0⟩, ⟨-20, -3, -29⟩⟩, true⟩,
   ⟨⟨⟨8, 18, 0⟩, ⟨-20, -6, -33⟩⟩, true⟩] : List PowerCuboid) = some 0 := by decide!

/-- Leaf evaluation of the embedded recursion (128 nodes). -/
theorem cov_n86 :
    covGo 18 ⟨⟨⟨6, 18, 0⟩, ⟨-20, -6, -3⟩⟩, true⟩
    ([⟨⟨⟨8, 18, 0⟩, ⟨-20, -6, -13⟩⟩, true⟩,
   ⟨⟨⟨8, 18, 0⟩, ⟨-20, -6, -29⟩⟩, true⟩,
   ⟨⟨⟨8, 18, -1⟩, ⟨-12, 6, -47⟩⟩, true⟩,
   ⟨⟨⟨8, 16, 0⟩, ⟨-18, -6, -7⟩⟩, true⟩,
   ⟨⟨⟨8, 11, 0⟩, ⟨-16, -6, -47⟩⟩, true⟩,
   ⟨⟨⟨-4, 18, 0⟩, ⟨-20, -3, -29⟩⟩, true⟩,
   ⟨⟨⟨8, 18, 0⟩, ⟨-20, -6, -33⟩⟩, true⟩] : List PowerCuboid) = some 0 := by decide!

/-- Leaf evaluation of the embedded recursion (64 nodes). -/
theorem cov_n87 :
    covGo 18 ⟨⟨⟨8, 18, 0⟩, ⟨-20, -6, -13⟩⟩, true⟩
    ([⟨⟨⟨8, 18, 0⟩, ⟨-20, -6, -29⟩⟩, true⟩,
   ⟨⟨⟨8, 18, -1⟩, ⟨-12, 6, -47⟩⟩, true⟩,
   ⟨⟨⟨8, 16, 0⟩, ⟨-18, -6, -7⟩⟩, true⟩,
   ⟨⟨⟨8, 11, 0⟩, ⟨-16, -6, -47⟩⟩, true⟩,
   ⟨⟨⟨-4, 18, 0⟩, ⟨-20, -3, -29⟩⟩, true⟩,
   ⟨⟨⟨8, 18, 0⟩, ⟨-20, -6, -33⟩⟩, true⟩] : List PowerCuboid) = some 0 := by decide!

/-- Leaf evaluation of the embedded recursion (32 nodes). -/
theorem cov_n88 :
    covGo 18 ⟨⟨⟨8, 18, 0⟩, ⟨-20, -6, -29⟩⟩, true⟩
    ([⟨⟨⟨8, 18, -1⟩, ⟨-12, 6, -47⟩⟩, true⟩,
   ⟨⟨⟨8, 16, 0⟩, ⟨-18, -6, -7⟩⟩, true⟩,
   ⟨⟨⟨8, 11, 0⟩, ⟨-16, -6, -47⟩⟩, true⟩,
   ⟨⟨⟨-4, 18, 0⟩, ⟨-20, -3, -29⟩⟩, true⟩,
   ⟨⟨⟨8, 18, 0⟩, ⟨-20, -6, -33⟩⟩, true⟩] : List PowerCuboid) = some 0 := by decide!

/-- Leaf evaluation of the embedded recursion (16 nodes). -/
theorem cov_n89 :
    covGo 18 ⟨⟨⟨8, 18, -1⟩, ⟨-12, 6, -47⟩⟩, true⟩
    ([⟨⟨⟨8, 16, 0⟩, ⟨-18, -6, -7⟩⟩, true⟩,
   ⟨⟨⟨8, 11, 0⟩, ⟨-16, -6, -47⟩⟩, true⟩,
   ⟨⟨⟨-4, 18, 0⟩, ⟨-20, -3, -29⟩⟩, true⟩,
   ⟨⟨⟨8, 18, 0⟩, ⟨-20, -6, -33⟩⟩, true⟩] : List PowerCuboid) = some 1960 := by decide!

/-- Leaf evaluation of the embedded recursion (8 nodes). -/
theorem cov_n90 :
    covGo 18 ⟨⟨⟨8, 16, 0⟩, ⟨-18, -6, -7⟩⟩, true⟩
    ([⟨⟨⟨8, 11, 0⟩, ⟨-16, -6, -47⟩⟩, true⟩,
   ⟨⟨⟨-4, 18, 0⟩, ⟨-20, -3, -29⟩⟩, true⟩,
   ⟨⟨⟨8, 18, 0⟩, ⟨-20, -6, -33⟩⟩, true⟩] : List PowerCuboid) = some 0 := by decide!

/-- Leaf evaluation of the embedded recursion (4 nodes). -/
theorem cov_n91 :
    covGo 18 ⟨⟨⟨8, 11, 0⟩, ⟨-16, -6, -47⟩⟩, true⟩
    ([⟨⟨⟨-4, 18, 0⟩, ⟨-20, -3, -29⟩⟩, true⟩,
   ⟨⟨⟨8, 18, 0⟩, ⟨-20, -6, -33⟩⟩, true⟩] : List PowerCuboid) = some 5712 := by decide!

/-- Leaf evaluation of the embedded recursion (2 nodes). -/
theorem cov_n92 :
    covGo 18 ⟨⟨⟨-4, 18, 0⟩, ⟨-20, -3, -29⟩⟩, true⟩
    ([⟨⟨⟨8, 18, 0⟩, ⟨-20, -6, -33⟩⟩, true⟩] : List PowerCuboid) = some 0 := by decide!

/-- Leaf evaluation of the embedded recursion (1 nodes). -/
theorem cov_n93 :
    covGo 18 ⟨⟨⟨8, 18, 0⟩, ⟨-20, -6, -33⟩⟩, true⟩
    ([] : List PowerCuboid) = some 22176 := by decide!

/-- The conflict list of the node above, evaluated. -/
theorem ks_n94 :
    List.filterMap (fun c => PowerCuboid.intersect ⟨⟨⟨8, 18, 0⟩, ⟨-20, -6, -47⟩⟩, true⟩ c)
    ([⟨⟨⟨2, 18, 8⟩, ⟨-20, -3, -24⟩⟩, true⟩,
   ⟨⟨⟨27, 18, 8⟩, ⟨2, -22, -23⟩⟩, true⟩,
   ⟨⟨⟨24, 18, 8⟩, ⟨-20, -28, -21⟩⟩, true⟩,
   ⟨⟨⟨6, 18, 8⟩, ⟨-20, -6, -3⟩⟩, true⟩,
   ⟨⟨⟨22, 18, 8⟩, ⟨-20, -8, -13⟩⟩, true⟩,
   ⟨⟨⟨27, 18, 8⟩, ⟨-20, -27, -29⟩⟩, true⟩,
   ⟨⟨⟨27, 18, -1⟩, ⟨-12, 6, -47⟩⟩, true⟩,
   ⟨⟨⟨27, 16, 8⟩, ⟨-18, -33, -7⟩⟩, true⟩,
   ⟨⟨⟨27, 11, 7⟩, ⟨-16, -36, -47⟩⟩, true⟩,
   ⟨⟨⟨-4, 18, 8⟩, ⟨-20, -3, -29⟩⟩, true⟩,
   ⟨⟨⟨27, -7, 8⟩, ⟨18, -20, -3⟩⟩, false⟩,
   ⟨⟨⟨10, 18, 8⟩, ⟨-20, -7, -33⟩⟩, true⟩] : List PowerCuboid) = ([⟨⟨⟨2, 18, 0⟩, ⟨-20, -3, -24⟩⟩, true⟩,
   ⟨⟨⟨8, 18, 0⟩, ⟨2, -6, -23⟩⟩, true⟩,
   ⟨⟨⟨8, 18, 0⟩, ⟨-20, -6, -21⟩⟩, true⟩,
   ⟨⟨⟨6, 18, 0⟩, ⟨-20, -6, -3⟩⟩, true⟩,
   ⟨⟨⟨8, 18, 0⟩, ⟨-20, -6, -13⟩⟩, true⟩,
   ⟨⟨⟨8, 18, 0⟩, ⟨-20, -6, -29⟩⟩, true⟩,
   ⟨⟨⟨8, 18, -1⟩, ⟨-12, 6, -47⟩⟩, true⟩,
   ⟨⟨⟨8, 16, 0⟩, ⟨-18, -6, -7⟩⟩, true⟩,
   ⟨⟨⟨8, 11, 0⟩, ⟨-16, -6, -47⟩⟩, true⟩,
   ⟨⟨⟨-4, 18, 0⟩, ⟨-20, -3, -29⟩⟩, true⟩,
   ⟨⟨⟨8, 18, 0⟩, ⟨-20, -6, -33⟩⟩, true⟩] : List PowerCuboid) := by decide!

/-- Split evaluation of the embedded recursion (1536 nodes in total),
assembled from the conflict list and the net contributions of its
members. -/
theorem cov_n82 :
    covGo 19 ⟨⟨⟨8, 18, 0⟩, ⟨-20, -6, -47⟩⟩, true⟩
    ([⟨⟨⟨2, 18, 8⟩, ⟨-20, -3, -24⟩⟩, true⟩,
   ⟨⟨⟨27, 18, 8⟩, ⟨2, -22, -23⟩⟩, true⟩,
   ⟨⟨⟨24, 18, 8⟩, ⟨-20, -28, -21⟩⟩, true⟩,
   ⟨⟨⟨6, 18, 8⟩, ⟨-20, -6, -3⟩⟩, true⟩,
   ⟨⟨⟨22, 18, 8⟩, ⟨-20, -8, -13⟩⟩, true⟩,
   ⟨⟨⟨27, 18, 8⟩, ⟨-20, -27, -29⟩⟩, true⟩,
   ⟨⟨⟨27, 18, -1⟩, ⟨-12, 6, -47⟩⟩, true⟩,
   ⟨⟨⟨27, 16, 8⟩, ⟨-18, -33, -7⟩⟩, true⟩,
   ⟨⟨⟨27, 11, 7⟩, ⟨-16, -36, -47⟩⟩, true⟩,
   ⟨⟨⟨-4, 18, 8⟩, ⟨-20, -3, -29⟩⟩, true⟩,
   ⟨⟨⟨27, -7, 8⟩, ⟨18, -20, -3⟩⟩, false⟩,
   ⟨⟨⟨10, 18, 8⟩, ⟨-20, -7, -33⟩⟩, true⟩] : List PowerCuboid) = some 1736 := by
  have s11 : sumTails (covGo 18) ([] : List PowerCuboid) = some 0 := rfl
  have s10 : sumTails (covGo 18) ([⟨⟨⟨8, 18, 0⟩, ⟨-20, -6, -33⟩⟩, true⟩] : List PowerCuboid) = some 22176 :=
    sumTails_cons _ _ _ 22176 0 22176 cov_n93 s11 rfl
  have s9 : sumTails (covGo 18) ([⟨⟨⟨-4, 18, 0⟩, ⟨-20, -3, -29⟩⟩, true⟩,
   ⟨⟨⟨8, 18, 0⟩, ⟨-20, -6, -33⟩⟩, true⟩] : List PowerCuboid) = some 22176 :=
    sumTails_cons _ _ _ 0 22176 22176 cov_n92 s10 rfl
  have s8 : sumTails (covGo 18) ([⟨⟨⟨8, 11, 0⟩, ⟨-16, -6, -47⟩⟩, true⟩,
   ⟨⟨⟨-4, 18, 0⟩, ⟨-20, -3, -29⟩⟩, true⟩,
   ⟨⟨⟨8, 18, 0⟩, ⟨-20, -6, -33⟩⟩, true⟩] : List PowerCuboid) = some 27888 :=
    sumTails_cons _ _ _ 5712 22176 27888 cov_n91 s9 rfl
  have s7 : sumTails (covGo 18) ([⟨⟨⟨8, 16, 0⟩, ⟨-18, -6, -7⟩⟩, true⟩,
   ⟨⟨⟨8, 11, 0⟩, ⟨-16, -6, -47⟩⟩, true⟩,
   ⟨⟨⟨-4, 18, 0⟩, ⟨-20, -3, -29⟩⟩, true⟩,
   ⟨⟨⟨8, 18, 0⟩, ⟨-20, -6, -33⟩⟩, true⟩] : List PowerCuboid) = some 27888 :=
    sumTails_cons _ _ _ 0 27888 27888 cov_n90 s8 rfl
  have s6 : sumTails (covGo 18) ([⟨⟨⟨8, 18, -1⟩, ⟨-12, 6, -47⟩⟩, true⟩,
   ⟨⟨⟨8, 16, 0⟩, ⟨-18, -6, -7⟩⟩, true⟩,
   ⟨⟨⟨8, 11, 0⟩, ⟨-16, -6, -47⟩⟩, true⟩,
   ⟨⟨⟨-4, 18, 0⟩, ⟨-20, -3, -29⟩⟩, true⟩,
   ⟨⟨⟨8, 18, 0⟩, ⟨-20, -6, -33⟩⟩, true⟩] : List PowerCuboid) = some 29848 :=
    sumTails_cons _ _ _ 1960 27888 29848 cov_n89 s7 rfl
  have s5 : sumTails (covGo 18) ([⟨⟨⟨8, 18, 0⟩, ⟨-20, -6, -29⟩⟩, true⟩,
   ⟨⟨⟨8, 18, -1⟩, ⟨-12, 6, -47⟩⟩, true⟩,
   ⟨⟨⟨8, 16, 0⟩, ⟨-18, -6, -7⟩⟩, true⟩,
   ⟨⟨⟨8, 11, 0⟩, ⟨-16, -6, -47⟩⟩, true⟩,
   ⟨⟨⟨-4, 18, 0⟩, ⟨-20, -3, -29⟩⟩, true⟩,
   ⟨⟨⟨8, 18, 0⟩, ⟨-20, -6, -33⟩⟩, true⟩] : List PowerCuboid) = some 29848 :=
    sumTails_cons _ _ _ 0 29848 29848 cov_n88 s6 rfl
  have s4 : sumTails (covGo 18) ([⟨⟨⟨8, 18, 0⟩, ⟨-20, -6, -13⟩⟩, true⟩,
   ⟨⟨⟨8, 18, 0⟩, ⟨-20, -6, -29⟩⟩, true⟩,
   ⟨⟨⟨8, 18, -1⟩, ⟨-12, 6, -47⟩⟩, true⟩,
   ⟨⟨⟨8, 16, 0⟩, ⟨-18, -6, -7⟩⟩, true⟩,
   ⟨⟨⟨8, 11, 0⟩, ⟨-16, -6, -47⟩⟩, true⟩,
   ⟨⟨⟨-4, 18, 0⟩, ⟨-20, -3, -29⟩⟩, true⟩,
   ⟨⟨⟨8, 18, 0⟩, ⟨-20, -6, -33⟩⟩, true⟩] : List PowerCuboid) = some 29848 :=
    sumTails_cons _ _ _ 0 29848 29848 cov_n87 s5 rfl
  have s3 : sumTails (covGo 18) ([⟨⟨⟨6, 18, 0⟩, ⟨-20, -6, -3⟩⟩, true⟩,
   ⟨⟨⟨8, 18, 0⟩, ⟨-20, -6, -13⟩⟩, true⟩,
   ⟨⟨⟨8, 18, 0⟩, ⟨-20, -6, -29⟩⟩, true⟩,
   ⟨⟨⟨8, 18, -1⟩, ⟨-12, 6, -47⟩⟩, true⟩,
   ⟨⟨⟨8, 16, 0⟩, ⟨-18, -6, -7⟩⟩, true⟩,
   ⟨⟨⟨8, 11, 0⟩, ⟨-16, -6, -47⟩⟩, true⟩,
   ⟨⟨⟨-4, 18, 0⟩, ⟨-20, -3, -29⟩⟩, true⟩,
   ⟨⟨⟨8, 18, 0⟩, ⟨-20, -6, -33⟩⟩, true⟩] : List PowerCuboid) = some 29848 :=
    sumTails_cons _ _ _ 0 29848 29848 cov_n86 s4 rfl
  have s2 : sumTails (covGo 18) ([⟨⟨⟨8, 18, 0⟩, ⟨-20, -6, -21⟩⟩, true⟩,
   ⟨⟨⟨6, 18, 0⟩, ⟨-20, -6, -3⟩⟩, true⟩,
   ⟨⟨⟨8, 18, 0⟩, ⟨-20, -6, -13⟩⟩, true⟩,
   ⟨⟨⟨8, 18, 0⟩, ⟨-20, -6, -29⟩⟩, true⟩,
   ⟨⟨⟨8, 18, -1⟩, ⟨-12, 6, -47⟩⟩, true⟩,
   ⟨⟨⟨8, 16, 0⟩, ⟨-18, -6, -7⟩⟩, true⟩,
   ⟨⟨⟨8, 11, 0⟩, ⟨-16, -6, -47⟩⟩, true⟩,
   ⟨⟨⟨-4, 18, 0⟩, ⟨-20, -3, -29⟩⟩, true⟩,
   ⟨⟨⟨8, 18, 0⟩, ⟨-20, -6, -33⟩⟩, true⟩] : List PowerCuboid) = some 29848 :=
    sumTails_cons _ _ _ 0 29848 29848 cov_n85 s3 rfl
  have s1 : sumTails (covGo 18) ([⟨⟨⟨8, 18, 0⟩, ⟨2, -6, -23⟩⟩, true⟩,
   ⟨⟨⟨8, 18, 0⟩, ⟨-20, -6, -21⟩⟩, true⟩,
   ⟨⟨⟨6, 18, 0⟩, ⟨-20, -6, -3⟩⟩, true⟩,
   ⟨⟨⟨8, 18, 0⟩, ⟨-20, -6, -13⟩⟩, true⟩,
   ⟨⟨⟨8, 18, 0⟩, ⟨-20, -6, -29⟩⟩, true⟩,
   ⟨⟨⟨8, 18, -1⟩, ⟨-12, 6, -47⟩⟩, true⟩,
   ⟨⟨⟨8, 16, 0⟩, ⟨-18, -6, -7⟩⟩, true⟩,
   ⟨⟨⟨8, 11, 0⟩, ⟨-16, -6, -47⟩⟩, true⟩,
   ⟨⟨⟨-4, 18, 0⟩, ⟨-20, -3, -29⟩⟩, true⟩,
   ⟨⟨⟨8, 18, 0⟩, ⟨-20, -6, -33⟩⟩, true⟩] : List PowerCuboid) = some 29848 :=
    sumTails_cons _ _ _ 0 29848 29848 cov_n84 s2 rfl
  have s0 : sumTails (covGo 18) ([⟨⟨⟨2, 18, 0⟩, ⟨-20, -3, -24⟩⟩, true⟩,
   ⟨⟨⟨8, 18, 0⟩, ⟨2, -6, -23⟩⟩, true⟩,
   ⟨⟨⟨8, 18, 0⟩, ⟨-20, -6, -21⟩⟩, true⟩,
   ⟨⟨⟨6, 18, 0⟩, ⟨-20, -6, -3⟩⟩, true⟩,
   ⟨⟨⟨8, 18, 0⟩, ⟨-20, -6, -13⟩⟩, true⟩,
   ⟨⟨⟨8, 18, 0⟩, ⟨-20, -6, -29⟩⟩, true⟩,
   ⟨⟨⟨8, 18, -1⟩, ⟨-12, 6, -47⟩⟩, true⟩,
   ⟨⟨⟨8, 16, 0⟩, ⟨-18, -6, -7⟩⟩, true⟩,
   ⟨⟨⟨8, 11, 0⟩, ⟨-16, -6, -47⟩⟩, true⟩,
   ⟨⟨⟨-4, 18, 0⟩, ⟨-20, -3, -29⟩⟩, true⟩,
   ⟨⟨⟨8, 18, 0⟩, ⟨-20, -6, -33⟩⟩, true⟩] : List PowerCuboid) = some 29848 :=
    sumTails_cons _ _ _ 0 29848 29848 cov_n83 s1 rfl
  rw [covGo_succ, ks_n94, s0]
  decide

/-- Leaf evaluation of the embedded recursion (768 nodes). -/
theorem cov_n95 :
    covGo 19 ⟨⟨⟨2, 18, 8⟩, ⟨-20, -3, -24⟩⟩, true⟩
    ([⟨⟨⟨27, 18, 8⟩, ⟨2, -22, -23⟩⟩, true⟩,
   ⟨⟨⟨24, 18, 8⟩, ⟨-20, -28, -21⟩⟩, true⟩,
   ⟨⟨⟨6, 18, 8⟩, ⟨-20, -6, -3⟩⟩, true⟩,
   ⟨⟨⟨22, 18, 8⟩, ⟨-20, -8, -13⟩⟩, true⟩,
   ⟨⟨⟨27, 18, 8⟩, ⟨-20, -27, -29⟩⟩, true⟩,
   ⟨⟨⟨27, 18, -1⟩, ⟨-12, 6, -47⟩⟩, true⟩,
   ⟨⟨⟨27, 16, 8⟩, ⟨-18, -33, -7⟩⟩, true⟩,
   ⟨⟨⟨27, 11, 7⟩, ⟨-16, -36, -47⟩⟩, true⟩,
   ⟨⟨⟨-4, 18, 8⟩, ⟨-20, -3, -29⟩⟩, true⟩,
   ⟨⟨⟨27, -7, 8⟩, ⟨18, -20, -3⟩⟩, false⟩,
   ⟨⟨⟨10, 18, 8⟩, ⟨-20, -7, -33⟩⟩, true⟩] : List PowerCuboid) = some 0 := by decide!

/-- Leaf evaluation of the embedded recursion (288 nodes). -/
theorem cov_n96 :
    covGo 19 ⟨⟨⟨27, 18, 8⟩, ⟨2, -22, -23⟩⟩, true⟩
    ([⟨⟨⟨24, 18, 8⟩, ⟨-20, -28, -21⟩⟩, true⟩,
   ⟨⟨⟨6, 18, 8⟩, ⟨-20, -6, -3⟩⟩, true⟩,
   ⟨⟨⟨22, 18, 8⟩, ⟨-20, -8, -13⟩⟩, true⟩,
   ⟨⟨⟨27, 18, 8⟩, ⟨-20, -27, -29⟩⟩, true⟩,
   ⟨⟨⟨27, 18, -1⟩, ⟨-12, 6, -47⟩⟩, true⟩,
   ⟨⟨⟨27, 16, 8⟩, ⟨-18, -33, -7⟩⟩, true⟩,
   ⟨⟨⟨27, 11, 7⟩, ⟨-16, -36, -47⟩⟩, true⟩,
   ⟨⟨⟨-4, 18, 8⟩, ⟨-20, -3, -29⟩⟩, true⟩,
   ⟨⟨⟨27, -7, 8⟩, ⟨18, -20, -3⟩⟩, false⟩,
   ⟨⟨⟨10, 18, 8⟩, ⟨-20, -7, -33⟩⟩, true⟩] : List PowerCuboid) = some 0 := by decide!

/-- Leaf evaluation of the embedded recursion (272 nodes). -/
theorem cov_n97 :
    covGo 19 ⟨⟨⟨24, 18, 8⟩, ⟨-20, -28, -21⟩⟩, true⟩
    ([⟨⟨⟨6, 18, 8⟩, ⟨-20, -6, -3⟩⟩, true⟩,
   ⟨⟨⟨22, 18, 8⟩, ⟨-20, -8, -13⟩⟩, true⟩,
   ⟨⟨⟨27, 18, 8⟩, ⟨-20, -27, -29⟩⟩, true⟩,
   ⟨⟨⟨27, 18, -1⟩, ⟨-12, 6, -47⟩⟩, true⟩,
   ⟨⟨⟨27, 16, 8⟩, ⟨-18, -33, -7⟩⟩, true⟩,
   ⟨⟨⟨27, 11, 7⟩, ⟨-16, -36, -47⟩⟩, true⟩,
   ⟨⟨⟨-4, 18, 8⟩, ⟨-20, -3, -29⟩⟩, true⟩,
   ⟨⟨⟨27, -7, 8⟩, ⟨18, -20, -3⟩⟩, false⟩,
   ⟨⟨⟨10, 18, 8⟩, ⟨-20, -7, -33⟩⟩, true⟩] : List PowerCuboid) = some 86 := by decide!

/-- Leaf evaluation of the embedded recursion (128 nodes). -/
theorem cov_n98 :
    covGo 19 ⟨⟨⟨6, 18, 8⟩, ⟨-20, -6, -3⟩⟩, true⟩
    ([⟨⟨⟨22, 18, 8⟩, ⟨-20, -8, -13⟩⟩, true⟩,
   ⟨⟨⟨27, 18, 8⟩, ⟨-20, -27, -29⟩⟩, true⟩,
   ⟨⟨⟨27, 18, -1⟩, ⟨-12, 6, -47⟩⟩, true⟩,
   ⟨⟨⟨27, 16, 8⟩, ⟨-18, -33, -7⟩⟩, true⟩,
   ⟨⟨⟨27, 11, 7⟩, ⟨-16, -36, -47⟩⟩, true⟩,
   ⟨⟨⟨-4, 18, 8⟩, ⟨-20, -3, -29⟩⟩, true⟩,
   ⟨⟨⟨27, -7, 8⟩, ⟨18, -20, -3⟩⟩, false⟩,
   ⟨⟨⟨10, 18, 8⟩, ⟨-20, -7, -33⟩⟩, true⟩] : List PowerCuboid) = some 0 := by decide!

/-- Leaf evaluation of the embedded recursion (72 nodes). -/
theorem cov_n99 :
    covGo 19 ⟨⟨⟨22, 18, 8⟩, ⟨-20, -8, -13⟩⟩, true⟩
    ([⟨⟨⟨27, 18, 8⟩, ⟨-20, -27, -29⟩⟩, true⟩,
   ⟨⟨⟨27, 18, -1⟩, ⟨-12, 6, -47⟩⟩, true⟩,
   ⟨⟨⟨27, 16, 8⟩, ⟨-18, -33, -7⟩⟩, true⟩,
   ⟨⟨⟨27, 11, 7⟩, ⟨-16, -36, -47⟩⟩, true⟩,
   ⟨⟨⟨-4, 18, 8⟩, ⟨-20, -3, -29⟩⟩, true⟩,
   ⟨⟨⟨27, -7, 8⟩, ⟨18, -20, -3⟩⟩, false⟩,
   ⟨⟨⟨10, 18, 8⟩, ⟨-20, -7, -33⟩⟩, true⟩] : List PowerCuboid) = some 0 := by decide!

/-- Leaf evaluation of the embedded recursion (36 nodes). -/
theorem cov_n100 :
    covGo 19 ⟨⟨⟨27, 18, 8⟩, ⟨-20, -27, -29⟩⟩, true⟩
    ([⟨⟨⟨27, 18, -1⟩, ⟨-12, 6, -47⟩⟩, true⟩,
   ⟨⟨⟨27, 16, 8⟩, ⟨-18, -33, -7⟩⟩, true⟩,
   ⟨⟨⟨27, 11, 7⟩, ⟨-16, -36, -47⟩⟩, true⟩,
   ⟨⟨⟨-4, 18, 8⟩, ⟨-20, -3, -29⟩⟩, true⟩,
   ⟨⟨⟨27, -7, 8⟩, ⟨18, -20, -3⟩⟩, false⟩,
   ⟨⟨⟨10, 18, 8⟩, ⟨-20, -7, -33⟩⟩, true⟩] : List PowerCuboid) = some 2666 := by decide!

/-- Leaf evaluation of the embedded recursion (16 nodes). -/
theorem cov_n101 :
    covGo 19 ⟨⟨⟨27, 18, -1⟩, ⟨-12, 6, -47⟩⟩, true⟩
    ([⟨⟨⟨27, 16, 8⟩, ⟨-18, -33, -7⟩⟩, true⟩,
   ⟨⟨⟨27, 11, 7⟩, ⟨-16, -36, -47⟩⟩, true⟩,
   ⟨⟨⟨-4, 18, 8⟩, ⟨-20, -3, -29⟩⟩, true⟩,
   ⟨⟨⟨27, -7, 8⟩, ⟨18, -20, -3⟩⟩, false⟩,
   ⟨⟨⟨10, 18, 8⟩, ⟨-20, -7, -33⟩⟩, true⟩] : List PowerCuboid) = some 7120 := by decide!

/-- Leaf evaluation of the embedded recursion (10 nodes). -/
theorem cov_n102 :
    covGo 19 ⟨⟨⟨27, 16, 8⟩, ⟨-18, -33, -7⟩⟩, true⟩
    ([⟨⟨⟨27, 11, 7⟩, ⟨-16, -36, -47⟩⟩, true⟩,
   ⟨⟨⟨-4, 18, 8⟩, ⟨-20, -3, -29⟩⟩, true⟩,
   ⟨⟨⟨27, -7, 8⟩, ⟨18, -20, -3⟩⟩, false⟩,
   ⟨⟨⟨10, 18, 8⟩, ⟨-20, -7, -33⟩⟩, true⟩] : List PowerCuboid) = some 3362 := by decide!

/-- Leaf evaluation of the embedded recursion (5 nodes). -/
theorem cov_n103 :
    covGo 19 ⟨⟨⟨27, 11, 7⟩, ⟨-16, -36, -47⟩⟩, true⟩
    ([⟨⟨⟨-4, 18, 8⟩, ⟨-20, -3, -29⟩⟩, true⟩,
   ⟨⟨⟨27, -7, 8⟩, ⟨18, -20, -3⟩⟩, false⟩,
   ⟨⟨⟨10, 18, 8⟩, ⟨-20, -7, -33⟩⟩, true⟩] : List PowerCuboid) = some 89244 := by decide!

/-- Leaf evaluation of the embedded recursion (2 nodes). -/
theorem cov_n104 :
    covGo 19 ⟨⟨⟨-4, 18, 8⟩, ⟨-20, -3, -29⟩⟩, true⟩
    ([⟨⟨⟨27, -7, 8⟩, ⟨18, -20, -3⟩⟩, false⟩,
   ⟨⟨⟨10, 18, 8⟩, ⟨-20, -7, -33⟩⟩, true⟩] : List PowerCuboid) = some 0 := by decide!

/-- Leaf evaluation of the embedded recursion (1 nodes). -/
theorem cov_n105 :
    covGo 19 ⟨⟨⟨27, -7, 8⟩, ⟨18, -20, -3⟩⟩, false⟩
    ([⟨⟨⟨10, 18, 8⟩, ⟨-20, -7, -33⟩⟩, true⟩] : List PowerCuboid) = some 1287 := by decide!

/-- Leaf evaluation of the embedded recursion (1 nodes). -/
theorem cov_n106 :
    covGo 19 ⟨⟨⟨10, 18, 8⟩, ⟨-20, -7, -33⟩⟩, true⟩
    ([] : List PowerCuboid) = some 30750 := by decide!

/-- The conflict list of the node above, evaluated. -/
theorem ks_n107 :
    List.filterMap (fun c => PowerCuboid.intersect ⟨⟨⟨27, 18, 8⟩, ⟨-20, -36, -47⟩⟩, true⟩ c)
    ([⟨⟨⟨34, 24, 29⟩, ⟨-20, -21, -26⟩⟩, true⟩,
   ⟨⟨⟨29, 24, 17⟩, ⟨-22, -29, -38⟩⟩, true⟩,
   ⟨⟨⟨8, 47, 0⟩, ⟨-46, -6, -50⟩⟩, true⟩,
   ⟨⟨⟨2, 47, 29⟩, ⟨-49, -3, -24⟩⟩, true⟩,
   ⟨⟨⟨48, 23, 28⟩, ⟨2, -22, -23⟩⟩, true⟩,
   ⟨⟨⟨24, 27, 30⟩, ⟨-27, -28, -21⟩⟩, true⟩,
   ⟨⟨⟨6, 48, 45⟩, ⟨-39, -6, -3⟩⟩, true⟩,
   ⟨⟨⟨22, 44, 35⟩, ⟨-30, -8, -13⟩⟩, true⟩,
   ⟨⟨⟨27, 21, 20⟩, ⟨-22, -27, -29⟩⟩, true⟩,
   ⟨⟨⟨-31, 42, -36⟩, ⟨-48, 26, -47⟩⟩, false⟩,
   ⟨⟨⟨36, 51, -1⟩, ⟨-12, 6, -50⟩⟩, true⟩,
   ⟨⟨⟨-31, -15, -4⟩, ⟨-48, -32, -15⟩⟩, false⟩,
   ⟨⟨⟨27, 16, 47⟩, ⟨-18, -33, -7⟩⟩, true⟩,
   ⟨⟨⟨-21, -27, 42⟩, ⟨-40, -38, 23⟩⟩, false⟩,
   ⟨⟨⟨36, 11, 7⟩, ⟨-16, -41, -47⟩⟩, true⟩,
   ⟨⟨⟨-22, 31, 4⟩, ⟨-32, 11, -14⟩⟩, false⟩,
   ⟨⟨⟨-4, 46, 19⟩, ⟨-49, -3, -29⟩⟩, true⟩,
   ⟨⟨⟨31, -7, 14⟩, ⟨18, -20, -3⟩⟩, false⟩,
   ⟨⟨⟨10, 44, 16⟩, ⟨-41, -7, -33⟩⟩, true⟩] : List PowerCuboid) = ([⟨⟨⟨27, 18, 8⟩, ⟨-20, -21, -26⟩⟩, true⟩,
   ⟨⟨⟨27, 18, 8⟩, ⟨-20, -29, -38⟩⟩, true⟩,
   ⟨⟨⟨8, 18, 0⟩, ⟨-20, -6, -47⟩⟩, true⟩,
   ⟨⟨⟨2, 18, 8⟩, ⟨-20, -3, -24⟩⟩, true⟩,
   ⟨⟨⟨27, 18, 8⟩, ⟨2, -22, -23⟩⟩, true⟩,
   ⟨⟨⟨24, 18, 8⟩, ⟨-20, -28, -21⟩⟩, true⟩,
   ⟨⟨⟨6, 18, 8⟩, ⟨-20, -6, -3⟩⟩, true⟩,
   ⟨⟨⟨22, 18, 8⟩, ⟨-20, -8, -13⟩⟩, true⟩,
   ⟨⟨⟨27, 18, 8⟩, ⟨-20, -27, -29⟩⟩, true⟩,
   ⟨⟨⟨27, 18, -1⟩, ⟨-12, 6, -47⟩⟩, true⟩,
   ⟨⟨⟨27, 16, 8⟩, ⟨-18, -33, -7⟩⟩, true⟩,
   ⟨⟨⟨27, 11, 7⟩, ⟨-16, -36, -47⟩⟩, true⟩,
   ⟨⟨⟨-4, 18, 8⟩, ⟨-20, -3, -29⟩⟩, true⟩,
   ⟨⟨⟨27, -7, 8⟩, ⟨18, -20, -3⟩⟩, false⟩,
   ⟨⟨⟨10, 18, 8⟩, ⟨-20, -7, -33⟩⟩, true⟩] : List PowerCuboid) := by decide!

/-- Split evaluation of the embedded recursion (12544 nodes in total),
assembled from the conflict list and the net contributions of its
members. -/
theorem cov_n0 :
    covGo 20 ⟨⟨⟨27, 18, 8⟩, ⟨-20, -36, -47⟩⟩, true⟩
    ([⟨⟨⟨34, 24, 29⟩, ⟨-20, -21, -26⟩⟩, true⟩,
   ⟨⟨⟨29, 24, 17⟩, ⟨-22, -29, -38⟩⟩, true⟩,
   ⟨⟨⟨8, 47, 0⟩, ⟨-46, -6, -50⟩⟩, true⟩,
   ⟨⟨⟨2, 47, 29⟩, ⟨-49, -3, -24⟩⟩, true⟩,
   ⟨⟨⟨48, 23, 28⟩, ⟨2, -22, -23⟩⟩, true⟩,
   ⟨⟨⟨24, 27, 30⟩, ⟨-27, -28, -21⟩⟩, true⟩,
   ⟨⟨⟨6, 48, 45⟩, ⟨-39, -6, -3⟩⟩, true⟩,
   ⟨⟨⟨22, 44, 35⟩, ⟨-30, -8, -13⟩⟩, true⟩,
   ⟨⟨⟨27, 21, 20⟩, ⟨-22, -27, -29⟩⟩, true⟩,
   ⟨⟨⟨-31, 42, -36⟩, ⟨-48, 26, -47⟩⟩, false⟩,
   ⟨⟨⟨36, 51, -1⟩, ⟨-12, 6, -50⟩⟩, true⟩,
   ⟨⟨⟨-31, -15, -4⟩, ⟨-48, -32, -15⟩⟩, false⟩,
   ⟨⟨⟨27, 16, 47⟩, ⟨-18, -33, -7⟩⟩, true⟩,
   ⟨⟨⟨-21, -27, 42⟩, ⟨-40, -38, 23⟩⟩, false⟩,
   ⟨⟨⟨36, 11, 7⟩, ⟨-16, -41, -47⟩⟩, true⟩,
   ⟨⟨⟨-22, 31, 4⟩, ⟨-32, 11, -14⟩⟩, false⟩,
   ⟨⟨⟨-4, 46, 19⟩, ⟨-49, -3, -29⟩⟩, true⟩,
   ⟨⟨⟨31, -7, 14⟩, ⟨18, -20, -3⟩⟩, false⟩,
   ⟨⟨⟨10, 44, 16⟩, ⟨-41, -7, -33⟩⟩, true⟩] : List PowerCuboid) = some 2377 := by
  have s15 : sumTails (covGo 19) ([] : List PowerCuboid) = some 0 := rfl
  have s14 : sumTails (covGo 19) ([⟨⟨⟨10, 18, 8⟩, ⟨-20, -7, -33⟩⟩, true⟩] : List PowerCuboid) = some 30750 :=
    sumTails_cons _ _ _ 30750 0 30750 cov_n106 s15 rfl
  have s13 : sumTails (covGo 19) ([⟨⟨⟨27, -7, 8⟩, ⟨18, -20, -3⟩⟩, false⟩,
   ⟨⟨⟨10, 18, 8⟩, ⟨-20, -7, -33⟩⟩, true⟩] : List PowerCuboid) = some 32037 :=
    sumTails_cons _ _ _ 1287 30750 32037 cov_n105 s14 rfl
  have s12 : sumTails (covGo 19) ([⟨⟨⟨-4, 18, 8⟩, ⟨-20, -3, -29⟩⟩, true⟩,
   ⟨⟨⟨27, -7, 8⟩, ⟨18, -20, -3⟩⟩, false⟩,
   ⟨⟨⟨10, 18, 8⟩, ⟨-20, -7, -33⟩⟩, true⟩] : List PowerCuboid) = some 32037 :=
    sumTails_cons _ _ _ 0 32037 32037 cov_n104 s13 rfl
  have s11 : sumTails (covGo 19) ([⟨⟨⟨27, 11, 7⟩, ⟨-16, -36, -47⟩⟩, true⟩,
   ⟨⟨⟨-4, 18, 8⟩, ⟨-20, -3, -29⟩⟩, true⟩,
   ⟨⟨⟨27, -7, 8⟩, ⟨18, -20, -3⟩⟩, false⟩,
   ⟨⟨⟨10, 18, 8⟩, ⟨-20, -7, -33⟩⟩, true⟩] : List PowerCuboid) = some 121281 :=
    sumTails_cons _ _ _ 89244 32037 121281 cov_n103 s12 rfl
  have s10 : sumTails (covGo 19) ([⟨⟨⟨27, 16, 8⟩, ⟨-18, -33, -7⟩⟩, true⟩,
   ⟨⟨⟨27, 11, 7⟩, ⟨-16, -36, -47⟩⟩, true⟩,
   ⟨⟨⟨-4, 18, 8⟩, ⟨-20, -3, -29⟩⟩, true⟩,
   ⟨⟨⟨27, -7, 8⟩, ⟨18, -20, -3⟩⟩, false⟩,
   ⟨⟨⟨10, 18, 8⟩, ⟨-20, -7, -33⟩⟩, true⟩] : List PowerCuboid) = some 124643 :=
    sumTails_cons _ _ _ 3362 121281 124643 cov_n102 s11 rfl
  have s9 : sumTails (covGo 19) ([⟨⟨⟨27, 18, -1⟩, ⟨-12, 6, -47⟩⟩, true⟩,
   ⟨⟨⟨27, 16, 8⟩, ⟨-18, -33, -7⟩⟩, true⟩,
   ⟨⟨⟨27, 11, 7⟩, ⟨-16, -36, -47⟩⟩, true⟩,
   ⟨⟨⟨-4, 18, 8⟩, ⟨-20, -3, -29⟩⟩, true⟩,
   ⟨⟨⟨27, -7, 8⟩, ⟨18, -20, -3⟩⟩, false⟩,
   ⟨⟨⟨10, 18, 8⟩, ⟨-20, -7, -33⟩⟩, true⟩] : List PowerCuboid) = some 131763 :=
    sumTails_cons _ _ _ 7120 124643 131763 cov_n101 s10 rfl
  have s8 : sumTails (covGo 19) ([⟨⟨⟨27, 18, 8⟩, ⟨-20, -27, -29⟩⟩, true⟩,
   ⟨⟨⟨27, 18, -1⟩, ⟨-12, 6, -47⟩⟩, true⟩,
   ⟨⟨⟨27, 16, 8⟩, ⟨-18, -33, -7⟩⟩, true⟩,
   ⟨⟨⟨27, 11, 7⟩, ⟨-16, -36, -47⟩⟩, true⟩,
   ⟨⟨⟨-4, 18, 8⟩, ⟨-20, -3, -29⟩⟩, true⟩,
   ⟨⟨⟨27, -7, 8⟩, ⟨18, -20, -3⟩⟩, false⟩,
   ⟨⟨⟨10, 18, 8⟩, ⟨-20, -7, -33⟩⟩, true⟩] : List PowerCuboid) = some 134429 :=
    sumTails_cons _ _ _ 2666 131763 134429 cov_n100 s9 rfl
  have s7 : sumTails (covGo 19) ([⟨⟨⟨22, 18, 8⟩, ⟨-20, -8, -13⟩⟩, true⟩,
   ⟨⟨⟨27, 18, 8⟩, ⟨-20, -27, -29⟩⟩, true⟩,
   ⟨⟨⟨27, 18, -1⟩, ⟨-12, 6, -47⟩⟩, true⟩,
   ⟨⟨⟨27, 16, 8⟩, ⟨-18, -33, -7⟩⟩, true⟩,
   ⟨⟨⟨27, 11, 7⟩, ⟨-16, -36, -47⟩⟩, true⟩,
   ⟨⟨⟨-4, 18, 8⟩, ⟨-20, -3, -29⟩⟩, true⟩,
   ⟨⟨⟨27, -7, 8⟩, ⟨18, -20, -3⟩⟩, false⟩,
   ⟨⟨⟨10, 18, 8⟩, ⟨-20, -7, -33⟩⟩, true⟩] : List PowerCuboid) = some 134429 :=
    sumTails_cons _ _ _ 0 134429 134429 cov_n99 s8 rfl
  have s6 : sumTails (covGo 19) ([⟨⟨⟨6, 18, 8⟩, ⟨-20, -6, -3⟩⟩, true⟩,
   ⟨⟨⟨22, 18, 8⟩, ⟨-20, -8, -13⟩⟩, true⟩,
   ⟨⟨⟨27, 18, 8⟩, ⟨-20, -27, -29⟩⟩, true⟩,
   ⟨⟨⟨27, 18, -1⟩, ⟨-12, 6, -47⟩⟩, true⟩,
   ⟨⟨⟨27, 16, 8⟩, ⟨-18, -33, -7⟩⟩, true⟩,
   ⟨⟨⟨27, 11, 7⟩, ⟨-16, -36, -47⟩⟩, true⟩,
   ⟨⟨⟨-4, 18, 8⟩, ⟨-20, -3, -29⟩⟩, true⟩,
   ⟨⟨⟨27, -7, 8⟩, ⟨18, -20, -3⟩⟩, false⟩,
   ⟨⟨⟨10, 18, 8⟩, ⟨-20, -7, -33⟩⟩, true⟩] : List PowerCuboid) = some 134429 :=
    sumTails_cons _ _ _ 0 134429 134429 cov_n98 s7 rfl
  have s5 : sumTails (covGo 19) ([⟨⟨⟨24, 18, 8⟩, ⟨-20, -28, -21⟩⟩, true⟩,
   ⟨⟨⟨6, 18, 8⟩, ⟨-20, -6, -3⟩⟩, true⟩,
   ⟨⟨⟨22, 18, 8⟩, ⟨-20, -8, -13⟩⟩, true⟩,
   ⟨⟨⟨27, 18, 8⟩, ⟨-20, -27, -29⟩⟩, true⟩,
   ⟨⟨⟨27, 18, -1⟩, ⟨-12, 6, -47⟩⟩, true⟩,
   ⟨⟨⟨27, 16, 8⟩, ⟨-18, -33, -7⟩⟩, true⟩,
   ⟨⟨⟨27, 11, 7⟩, ⟨-16, -36, -47⟩⟩, true⟩,
   ⟨⟨⟨-4, 18, 8⟩, ⟨-20, -3, -29⟩⟩, true⟩,
   ⟨⟨⟨27, -7, 8⟩, ⟨18, -20, -3⟩⟩, false⟩,
   ⟨⟨⟨10, 18, 8⟩, ⟨-20, -7, -33⟩⟩, true⟩] : List PowerCuboid) = some 134515 :=
    sumTails_cons _ _ _ 86 134429 134515 cov_n97 s6 rfl
  have s4 : sumTails (covGo 19) ([⟨⟨⟨27, 18, 8⟩, ⟨2, -22, -23⟩⟩, true⟩,
   ⟨⟨⟨24, 18, 8⟩, ⟨-20, -28, -21⟩⟩, true⟩,
   ⟨⟨⟨6, 18, 8⟩, ⟨-20, -6, -3⟩⟩, true⟩,
   ⟨⟨⟨22, 18, 8⟩, ⟨-20, -8, -13⟩⟩, true⟩,
   ⟨⟨⟨27, 18, 8⟩, ⟨-20, -27, -29⟩⟩, true⟩,
   ⟨⟨⟨27, 18, -1⟩, ⟨-12, 6, -47⟩⟩, true⟩,
   ⟨⟨⟨27, 16, 8⟩, ⟨-18, -33, -7⟩⟩, true⟩,
   ⟨⟨⟨27, 11, 7⟩, ⟨-16, -36, -47⟩⟩, true⟩,
   ⟨⟨⟨-4, 18, 8⟩, ⟨-20, -3, -29⟩⟩, true⟩,
   ⟨⟨⟨27, -7, 8⟩, ⟨18, -20, -3⟩⟩, false⟩,
   ⟨⟨⟨10, 18, 8⟩, ⟨-20, -7, -33⟩⟩, true⟩] : List PowerCuboid) = some 134515 :=
    sumTails_cons _ _ _ 0 134515 134515 cov_n96 s5 rfl
  have s3 : sumTails (covGo 19) ([⟨⟨⟨2, 18, 8⟩, ⟨-20, -3, -24⟩⟩, true⟩,
   ⟨⟨⟨27, 18, 8⟩, ⟨2, -22, -23⟩⟩, true⟩,
   ⟨⟨⟨24, 18, 8⟩, ⟨-20, -28, -21⟩⟩, true⟩,
   ⟨⟨⟨6, 18, 8⟩, ⟨-20, -6, -3⟩⟩, true⟩,
   ⟨⟨⟨22, 18, 8⟩, ⟨-20, -8, -13⟩⟩, true⟩,
   ⟨⟨⟨27, 18, 8⟩, ⟨-20, -27, -29⟩⟩, true⟩,
   ⟨⟨⟨27, 18, -1⟩, ⟨-12, 6, -47⟩⟩, true⟩,
   ⟨⟨⟨27, 16, 8⟩, ⟨-18, -33, -7⟩⟩, true⟩,
   ⟨⟨⟨27, 11, 7⟩, ⟨-16, -36, -47⟩⟩, true⟩,
   ⟨⟨⟨-4, 18, 8⟩, ⟨-20, -3, -29⟩⟩, true⟩,
   ⟨⟨⟨27, -7, 8⟩, ⟨18, -20, -3⟩⟩, false⟩,
   ⟨⟨⟨10, 18, 8⟩, ⟨-20, -7, -33⟩⟩, true⟩] : List PowerCuboid) = some 134515 :=
    sumTails_cons _ _ _ 0 134515 134515 cov_n95 s4 rfl
  have s2 : sumTails (covGo 19) ([⟨⟨⟨8, 18, 0⟩, ⟨-20, -6, -47⟩⟩, true⟩,
   ⟨⟨⟨2, 18, 8⟩, ⟨-20, -3, -24⟩⟩, true⟩,
   ⟨⟨⟨27, 18, 8⟩, ⟨2, -22, -23⟩⟩, true⟩,
   ⟨⟨⟨24, 18, 8⟩, ⟨-20, -28, -21⟩⟩, true⟩,
   ⟨⟨⟨6, 18, 8⟩, ⟨-20, -6, -3⟩⟩, true⟩,
   ⟨⟨⟨22, 18, 8⟩, ⟨-20, -8, -13⟩⟩, true⟩,
   ⟨⟨⟨27, 18, 8⟩, ⟨-20, -27, -29⟩⟩, true⟩,
   ⟨⟨⟨27, 18, -1⟩, ⟨-12, 6, -47⟩⟩, true⟩,
   ⟨⟨⟨27, 16, 8⟩, ⟨-18, -33, -7⟩⟩, true⟩,
   ⟨⟨⟨27, 11, 7⟩, ⟨-16, -36, -47⟩⟩, true⟩,
   ⟨⟨⟨-4, 18, 8⟩, ⟨-20, -3, -29⟩⟩, true⟩,
   ⟨⟨⟨27, -7, 8⟩, ⟨18, -20, -3⟩⟩, false⟩,
   ⟨⟨⟨10, 18, 8⟩, ⟨-20, -7, -33⟩⟩, true⟩] : List PowerCuboid) = some 136251 :=
    sumTails_cons _ _ _ 1736 134515 136251 cov_n82 s3 rfl
  have s1 : sumTails (covGo 19) ([⟨⟨⟨27, 18, 8⟩, ⟨-20, -29, -38⟩⟩, true⟩,
   ⟨⟨⟨8, 18, 0⟩, ⟨-20, -6, -47⟩⟩, true⟩,
   ⟨⟨⟨2, 18, 8⟩, ⟨-20, -3, -24⟩⟩, true⟩,
   ⟨⟨⟨27, 18, 8⟩, ⟨2, -22, -23⟩⟩, true⟩,
   ⟨⟨⟨24, 18, 8⟩, ⟨-20, -28, -21⟩⟩, true⟩,
   ⟨⟨⟨6, 18, 8⟩, ⟨-20, -6, -3⟩⟩, true⟩,
   ⟨⟨⟨22, 18, 8⟩, ⟨-20, -8, -13⟩⟩, true⟩,
   ⟨⟨⟨27, 18, 8⟩, ⟨-20, -27, -29⟩⟩, true⟩,
   ⟨⟨⟨27, 18, -1⟩, ⟨-12, 6, -47⟩⟩, true⟩,
   ⟨⟨⟨27, 16, 8⟩, ⟨-18, -33, -7⟩⟩, true⟩,
   ⟨⟨⟨27, 11, 7⟩, ⟨-16, -36, -47⟩⟩, true⟩,
   ⟨⟨⟨-4, 18, 8⟩, ⟨-20, -3, -29⟩⟩, true⟩,
   ⟨⟨⟨27, -7, 8⟩, ⟨18, -20, -3⟩⟩, false⟩,
   ⟨⟨⟨10, 18, 8⟩, ⟨-20, -7, -33⟩⟩, true⟩] : List PowerCuboid) = some 137213 :=
    sumTails_cons _ _ _ 962 136251 137213 cov_n55 s2 rfl
  have s0 : sumTails (covGo 19) ([⟨⟨⟨27, 18, 8⟩, ⟨-20, -21, -26⟩⟩, true⟩,
   ⟨⟨⟨27, 18, 8⟩, ⟨-20, -29, -38⟩⟩, true⟩,
   ⟨⟨⟨8, 18, 0⟩, ⟨-20, -6, -47⟩⟩, true⟩,
   ⟨⟨⟨2, 18, 8⟩, ⟨-20, -3, -24⟩⟩, true⟩,
   ⟨⟨⟨27, 18, 8⟩, ⟨2, -22, -23⟩⟩, true⟩,
   ⟨⟨⟨24, 18, 8⟩, ⟨-20, -28, -21⟩⟩, true⟩,
   ⟨⟨⟨6, 18, 8⟩, ⟨-20, -6, -3⟩⟩, true⟩,
   ⟨⟨⟨22, 18, 8⟩, ⟨-20, -8, -13⟩⟩, true⟩,
   ⟨⟨⟨27, 18, 8⟩, ⟨-20, -27, -29⟩⟩, true⟩,
   ⟨⟨⟨27, 18, -1⟩, ⟨-12, 6, -47⟩⟩, true⟩,
   ⟨⟨⟨27, 16, 8⟩, ⟨-18, -33, -7⟩⟩, true⟩,
   ⟨⟨⟨27, 11, 7⟩, ⟨-16, -36, -47⟩⟩, true⟩,
   ⟨⟨⟨-4, 18, 8⟩, ⟨-20, -3, -29⟩⟩, true⟩,
   ⟨⟨⟨27, -7, 8⟩, ⟨18, -20, -3⟩⟩, false⟩,
   ⟨⟨⟨10, 18, 8⟩, ⟨-20, -7, -33⟩⟩, true⟩] : List PowerCuboid) = some 137213 :=
    sumTails_cons _ _ _ 0 137213 137213 cov_n1 s1 rfl
  rw [covGo_succ, ks_n107, s0]
  decide

/-- Net contribution of instruction 0 of the filtered reference
input against its suffix. -/
theorem instr_n0 :
    computeOnVolume ⟨⟨⟨27, 18, 8⟩, ⟨-20, -36, -47⟩⟩, true⟩
    ([⟨⟨⟨34, 24, 29⟩, ⟨-20, -21, -26⟩⟩, true⟩,
   ⟨⟨⟨29, 24, 17⟩, ⟨-22, -29, -38⟩⟩, true⟩,
   ⟨⟨⟨8, 47, 0⟩, ⟨-46, -6, -50⟩⟩, true⟩,
   ⟨⟨⟨2, 47, 29⟩, ⟨-49, -3, -24⟩⟩, true⟩,
   ⟨⟨⟨48, 23, 28⟩, ⟨2, -22, -23⟩⟩, true⟩,
   ⟨⟨⟨24, 27, 30⟩, ⟨-27, -28, -21⟩⟩, true⟩,
   ⟨⟨⟨6, 48, 45⟩, ⟨-39, -6, -3⟩⟩, true⟩,
   ⟨⟨⟨22, 44, 35⟩, ⟨-30, -8, -13⟩⟩, true⟩,
   ⟨⟨⟨27, 21, 20⟩, ⟨-22, -27, -29⟩⟩, true⟩,
   ⟨⟨⟨-31, 42, -36⟩, ⟨-48, 26, -47⟩⟩, false⟩,
   ⟨⟨⟨36, 51, -1⟩, ⟨-12, 6, -50⟩⟩, true⟩,
   ⟨⟨⟨-31, -15, -4⟩, ⟨-48, -32, -15⟩⟩, false⟩,
   ⟨⟨⟨27, 16, 47⟩, ⟨-18, -33, -7⟩⟩, true⟩,
   ⟨⟨⟨-21, -27, 42⟩, ⟨-40, -38, 23⟩⟩, false⟩,
   ⟨⟨⟨36, 11, 7⟩, ⟨-16, -41, -47⟩⟩, true⟩,
   ⟨⟨⟨-22, 31, 4⟩, ⟨-32, 11, -14⟩⟩, false⟩,
   ⟨⟨⟨-4, 46, 19⟩, ⟨-49, -3, -29⟩⟩, true⟩,
   ⟨⟨⟨31, -7, 14⟩, ⟨18, -20, -3⟩⟩, false⟩,
   ⟨⟨⟨10, 44, 16⟩, ⟨-41, -7, -33⟩⟩, true⟩] : List PowerCuboid) = some 2377 := by
  show covGo 20 ⟨⟨⟨27, 18, 8⟩, ⟨-20, -36, -47⟩⟩, true⟩
    ([⟨⟨⟨34, 24, 29⟩, ⟨-20, -21, -26⟩⟩, true⟩,
   ⟨⟨⟨29, 24, 17⟩, ⟨-22, -29, -38⟩⟩, true⟩,
   ⟨⟨⟨8, 47, 0⟩, ⟨-46, -6, -50⟩⟩, true⟩,
   ⟨⟨⟨2, 47, 29⟩, ⟨-49, -3, -24⟩⟩, true⟩,
   ⟨⟨⟨48, 23, 28⟩, ⟨2, -22, -23⟩⟩, true⟩,
   ⟨⟨⟨24, 27, 30⟩, ⟨-27, -28, -21⟩⟩, true⟩,
   ⟨⟨⟨6, 48, 45⟩, ⟨-39, -6, -3⟩⟩, true⟩,
   ⟨⟨⟨22, 44, 35⟩, ⟨-30, -8, -13⟩⟩, true⟩,
   ⟨⟨⟨27, 21, 20⟩, ⟨-22, -27, -29⟩⟩, true⟩,
   ⟨⟨⟨-31, 42, -36⟩, ⟨-48, 26, -47⟩⟩, false⟩,
   ⟨⟨⟨36, 51, -1⟩, ⟨-12, 6, -50⟩⟩, true⟩,
   ⟨⟨⟨-31, -15, -4⟩, ⟨-48, -32, -15⟩⟩, false⟩,
   ⟨⟨⟨27, 16, 47⟩, ⟨-18, -33, -7⟩⟩, true⟩,
   ⟨⟨⟨-21, -27, 42⟩, ⟨-40, -38, 23⟩⟩, false⟩,
   ⟨⟨⟨36, 11, 7⟩, ⟨-16, -41, -47⟩⟩, true⟩,
   ⟨⟨⟨-22, 31, 4⟩, ⟨-32, 11, -14⟩⟩, false⟩,
   ⟨⟨⟨-4, 46, 19⟩, ⟨-49, -3, -29⟩⟩, true⟩,
   ⟨⟨⟨31, -7, 14⟩, ⟨18, -20, -3⟩⟩, false⟩,
   ⟨⟨⟨10, 44, 16⟩, ⟨-41, -7, -33⟩⟩, true⟩] : List PowerCuboid) = some 2377
  exact cov_n0

/-- Leaf evaluation of the embedded recursion (768 nodes). -/
theorem cov_n111 :
    covGo 16 ⟨⟨⟨2, 24, 0⟩, ⟨-20, -3, -24⟩⟩, true⟩
    ([⟨⟨⟨8, 23, 0⟩, ⟨2, -6, -23⟩⟩, true⟩,
   ⟨⟨⟨8, 24, 0⟩, ⟨-20, -6, -21⟩⟩, true⟩,
   ⟨⟨⟨6, 24, 0⟩, ⟨-20, -6, -3⟩⟩, true⟩,
   ⟨⟨⟨8, 24, 0⟩, ⟨-20, -6, -13⟩⟩, true⟩,
   ⟨⟨⟨8, 21, 0⟩, ⟨-20, -6, -26⟩⟩, true⟩,
   ⟨⟨⟨8, 24, -1⟩, ⟨-12, 6, -26⟩⟩, true⟩,
   ⟨⟨⟨8, 16, 0⟩, ⟨-18, -6, -7⟩⟩, true⟩,
   ⟨⟨⟨8, 11, 0⟩, ⟨-16, -6, -26⟩⟩, true⟩,
   ⟨⟨⟨-4, 24, 0⟩, ⟨-20, -3, -26⟩⟩, true⟩,
   ⟨⟨⟨8, 24, 0⟩, ⟨-20, -6, -26⟩⟩, true⟩] : List PowerCuboid) = some 0 := by decide!

/-- Leaf evaluation of the embedded recursion (256 nodes). -/
theorem cov_n112 :
    covGo 16 ⟨⟨⟨8, 23, 0⟩, ⟨2, -6, -23⟩⟩, true⟩
    ([⟨⟨⟨8, 24, 0⟩, ⟨-20, -6, -21⟩⟩, true⟩,
   ⟨⟨⟨6, 24, 0⟩, ⟨-20, -6, -3⟩⟩, true⟩,
   ⟨⟨⟨8, 24, 0⟩, ⟨-20, -6, -13⟩⟩, true⟩,
   ⟨⟨⟨8, 21, 0⟩, ⟨-20, -6, -26⟩⟩, true⟩,
   ⟨⟨⟨8, 24, -1⟩, ⟨-12, 6, -26⟩⟩, true⟩,
   ⟨⟨⟨8, 16, 0⟩, ⟨-18, -6, -7⟩⟩, true⟩,
   ⟨⟨⟨8, 11, 0⟩, ⟨-16, -6, -26⟩⟩, true⟩,
   ⟨⟨⟨-4, 24, 0⟩, ⟨-20, -3, -26⟩⟩, true⟩,
   ⟨⟨⟨8, 24, 0⟩, ⟨-20, -6, -26⟩⟩, true⟩] : List PowerCuboid) = some 0 := by decide!

/-- Leaf evaluation of the embedded recursion (256 nodes). -/
theorem cov_n113 :
    covGo 16 ⟨⟨⟨8, 24, 0⟩, ⟨-20, -6, -21⟩⟩, true⟩
    ([⟨⟨⟨6, 24, 0⟩, ⟨-20, -6, -3⟩⟩, true⟩,
   ⟨⟨⟨8, 24, 0⟩, ⟨-20, -6, -13⟩⟩, true⟩,
   ⟨⟨⟨8, 21, 0⟩, ⟨-20, -6, -26⟩⟩, true⟩,
   ⟨⟨⟨8, 24, -1⟩, ⟨-12, 6, -26⟩⟩, true⟩,
   ⟨⟨⟨8, 16, 0⟩, ⟨-18, -6, -7⟩⟩, true⟩,
   ⟨⟨⟨8, 11, 0⟩, ⟨-16, -6, -26⟩⟩, true⟩,
   ⟨⟨⟨-4, 24, 0⟩, ⟨-20, -3, -26⟩⟩, true⟩,
   ⟨⟨⟨8, 24, 0⟩, ⟨-20, -6, -26⟩⟩, true⟩] : List PowerCuboid) = some 0 := by decide!

/-- Leaf evaluation of the embedded recursion (128 nodes). -/
theorem cov_n114 :
    covGo 16 ⟨⟨⟨6, 24, 0⟩, ⟨-20, -6, -3⟩⟩, true⟩
    ([⟨⟨⟨8, 24, 0⟩, ⟨-20, -6, -13⟩⟩, true⟩,
   ⟨⟨⟨8, 21, 0⟩, ⟨-20, -6, -26⟩⟩, true⟩,
   ⟨⟨⟨8, 24, -1⟩, ⟨-12, 6, -26⟩⟩, true⟩,
   ⟨⟨⟨8, 16, 0⟩, ⟨-18, -6, -7⟩⟩, true⟩,
   ⟨⟨⟨8, 11, 0⟩, ⟨-16, -6, -26⟩⟩, true⟩,
   ⟨⟨⟨-4, 24, 0⟩, ⟨-20, -3, -26⟩⟩, true⟩,
   ⟨⟨⟨8, 24, 0⟩, ⟨-20, -6, -26⟩⟩, true⟩] : List PowerCuboid) = some 0 := by decide!

/-- Leaf evaluation of the embedded recursion (64 nodes). -/
theorem cov_n115 :
    covGo 16 ⟨⟨⟨8, 24, 0⟩, ⟨-20, -6, -13⟩⟩, true⟩
    ([⟨⟨⟨8, 21, 0⟩, ⟨-20, -6, -26⟩⟩, true⟩,
   ⟨⟨⟨8, 24, -1⟩, ⟨-12, 6, -26⟩⟩, true⟩,
   ⟨⟨⟨8, 16, 0⟩, ⟨-18, -6, -7⟩⟩, true⟩,
   ⟨⟨⟨8, 11, 0⟩, ⟨-16, -6, -26⟩⟩, true⟩,
   ⟨⟨⟨-4, 24, 0⟩, ⟨-20, -3, -26⟩⟩, true⟩,
   ⟨⟨⟨8, 24, 0⟩, ⟨-20, -6, -26⟩⟩, true⟩] : List PowerCuboid) = some 0 := by decide!

/-- Leaf evaluation of the embedded recursion (32 nodes). -/
theorem cov_n116 :
    covGo 16 ⟨⟨⟨8, 21, 0⟩, ⟨-20, -6, -26⟩⟩, true⟩
    ([⟨⟨⟨8, 24, -1⟩, ⟨-12, 6, -26⟩⟩, true⟩,
   ⟨⟨⟨8, 16, 0⟩, ⟨-18, -6, -7⟩⟩, true⟩,
   ⟨⟨⟨8, 11, 0⟩, ⟨-16, -6, -26⟩⟩, true⟩,
   ⟨⟨⟨-4, 24, 0⟩, ⟨-20, -3, -26⟩⟩, true⟩,
   ⟨⟨⟨8, 24, 0⟩, ⟨-20, -6, -26⟩⟩, true⟩] : List PowerCuboid) = some 0 := by decide!

/-- Leaf evaluation of the embedded recursion (16 nodes). -/
theorem cov_n117 :
    covGo 16 ⟨⟨⟨8, 24, -1⟩, ⟨-12, 6, -26⟩⟩, true⟩
    ([⟨⟨⟨8, 16, 0⟩, ⟨-18, -6, -7⟩⟩, true⟩,
   ⟨⟨⟨8, 11, 0⟩, ⟨-16, -6, -26⟩⟩, true⟩,
   ⟨⟨⟨-4, 24, 0⟩, ⟨-20, -3, -26⟩⟩, true⟩,
   ⟨⟨⟨8, 24, 0⟩, ⟨-20, -6, -26⟩⟩, true⟩] : List PowerCuboid) = some 0 := by decide!

/-- Leaf evaluation of the embedded recursion (8 nodes). -/
theorem cov_n118 :
    covGo 16 ⟨⟨⟨8, 16, 0⟩, ⟨-18, -6, -7⟩⟩, true⟩
    ([⟨⟨⟨8, 11, 0⟩, ⟨-16, -6, -26⟩⟩, true⟩,
   ⟨⟨⟨-4, 24, 0⟩, ⟨-20, -3, -26⟩⟩, true⟩,
   ⟨⟨⟨8, 24, 0⟩, ⟨-20, -6, -26⟩⟩, true⟩] : List PowerCuboid) = some 0 := by decide!

/-- Leaf evaluation of the embedded recursion (4 nodes). -/
theorem cov_n119 :
    covGo 16 ⟨⟨⟨8, 11, 0⟩, ⟨-16, -6, -26⟩⟩, true⟩
    ([⟨⟨⟨-4, 24, 0⟩, ⟨-20, -3, -26⟩⟩, true⟩,
   ⟨⟨⟨8, 24, 0⟩, ⟨-20, -6, -26⟩⟩, true⟩] : List PowerCuboid) = some 0 := by decide!

/-- Leaf evaluation of the embedded recursion (2 nodes). -/
theorem cov_n120 :
    covGo 16 ⟨⟨⟨-4, 24, 0⟩, ⟨-20, -3, -26⟩⟩, true⟩
    ([⟨⟨⟨8, 24, 0⟩, ⟨-20, -6, -26⟩⟩, true⟩] : List PowerCuboid) = some 0 := by decide!

/-- Leaf evaluation of the embedded recursion (1 nodes). -/
theorem cov_n121 :
    covGo 16 ⟨⟨⟨8, 24, 0⟩, ⟨-20, -6, -26⟩⟩, true⟩
    ([] : List PowerCuboid) = some 21840 := by decide!

/-- The conflict list of the node above, evaluated. -/
theorem ks_n122 :
    List.filterMap (fun c => PowerCuboid.intersect ⟨⟨⟨8, 24, 0⟩, ⟨-20, -6, -26⟩⟩, true⟩ c)
    ([⟨⟨⟨2, 24, 17⟩, ⟨-20, -3, -24⟩⟩, true⟩,
   ⟨⟨⟨29, 23, 17⟩, ⟨2, -21, -23⟩⟩, true⟩,
   ⟨⟨⟨24, 24, 17⟩, ⟨-20, -21, -21⟩⟩, true⟩,
   ⟨⟨⟨6, 24, 17⟩, ⟨-20, -6, -3⟩⟩, true⟩,
   ⟨⟨⟨22, 24, 17⟩, ⟨-20, -8, -13⟩⟩, true⟩,
   ⟨⟨⟨27, 21, 17⟩, ⟨-20, -21, -26⟩⟩, true⟩,
   ⟨⟨⟨29, 24, -1⟩, ⟨-12, 6, -26⟩⟩, true⟩,
   ⟨⟨⟨27, 16, 17⟩, ⟨-18, -21, -7⟩⟩, true⟩,
   ⟨⟨⟨29, 11, 7⟩, ⟨-16, -21, -26⟩⟩, true⟩,
   ⟨⟨⟨-4, 24, 17⟩, ⟨-20, -3, -26⟩⟩, true⟩,
   ⟨⟨⟨29, -7, 14⟩, ⟨18, -20, -3⟩⟩, false⟩,
   ⟨⟨⟨10, 24, 16⟩, ⟨-20, -7, -26⟩⟩, true⟩] : List PowerCuboid) = ([⟨⟨⟨2, 24, 0⟩, ⟨-20, -3, -24⟩⟩, true⟩,
   ⟨⟨⟨8, 23, 0⟩, ⟨2, -6, -23⟩⟩, true⟩,
   ⟨⟨⟨8, 24, 0⟩, ⟨-20, -6, -21⟩⟩, true⟩,
   ⟨⟨⟨6, 24, 0⟩, ⟨-20, -6, -3⟩⟩, true⟩,
   ⟨⟨⟨8, 24, 0⟩, ⟨-20, -6, -13⟩⟩, true⟩,
   ⟨⟨⟨8, 21, 0⟩, ⟨-20, -6, -26⟩⟩, true⟩,
   ⟨⟨⟨8, 24, -1⟩, ⟨-12, 6, -26⟩⟩, true⟩,
   ⟨⟨⟨8, 16, 0⟩, ⟨-18, -6, -7⟩⟩, true⟩,
   ⟨⟨⟨8, 11, 0⟩, ⟨-16, -6, -26⟩⟩, true⟩,
   ⟨⟨⟨-4, 24, 0⟩, ⟨-20, -3, -26⟩⟩, true⟩,
   ⟨⟨⟨8, 24, 0⟩, ⟨-20, -6, -26⟩⟩, true⟩] : List PowerCuboid) := by decide!

/-- Split evaluation of the embedded recursion (1536 nodes in total),
assembled from the conflict list and the net contributions of its
members. -/
theorem cov_n110 :
    covGo 17 ⟨⟨⟨8, 24, 0⟩, ⟨-20, -6, -26⟩⟩, true⟩
    ([⟨⟨⟨2, 24, 17⟩, ⟨-20, -3, -24⟩⟩, true⟩,
   ⟨⟨⟨29, 23, 17⟩, ⟨2, -21, -23⟩⟩, true⟩,
   ⟨⟨⟨24, 24, 17⟩, ⟨-20, -21, -21⟩⟩, true⟩,
   ⟨⟨⟨6, 24, 17⟩, ⟨-20, -6, -3⟩⟩, true⟩,
   ⟨⟨⟨22, 24, 17⟩, ⟨-20, -8, -13⟩⟩, true⟩,
   ⟨⟨⟨27, 21, 17⟩, ⟨-20, -21, -26⟩⟩, true⟩,
   ⟨⟨⟨29, 24, -1⟩, ⟨-12, 6, -26⟩⟩, true⟩,
   ⟨⟨⟨27, 16, 17⟩, ⟨-18, -21, -7⟩⟩, true⟩,
   ⟨⟨⟨29, 11, 7⟩, ⟨-16, -21, -26⟩⟩, true⟩,
   ⟨⟨⟨-4, 24, 17⟩, ⟨-20, -3, -26⟩⟩, true⟩,
   ⟨⟨⟨29, -7, 14⟩, ⟨18, -20, -3⟩⟩, false⟩,
   ⟨⟨⟨10, 24, 16⟩, ⟨-20, -7, -26⟩⟩, true⟩] : List PowerCuboid) = some 0 := by
  have s11 : sumTails (covGo 16) ([] : List PowerCuboid) = some 0 := rfl
  have s10 : sumTails (covGo 16) ([⟨⟨⟨8, 24, 0⟩, ⟨-20, -6, -26⟩⟩, true⟩] : List PowerCuboid) = some 21840 :=
    sumTails_cons _ _ _ 21840 0 21840 cov_n121 s11 rfl
  have s9 : sumTails (covGo 16) ([⟨⟨⟨-4, 24, 0⟩, ⟨-20, -3, -26⟩⟩, true⟩,
   ⟨⟨⟨8, 24, 0⟩, ⟨-20, -6, -26⟩⟩, true⟩] : List PowerCuboid) = some 21840 :=
    sumTails_cons _ _ _ 0 21840 21840 cov_n120 s10 rfl
  have s8 : sumTails (covGo 16) ([⟨⟨⟨8, 11, 0⟩, ⟨-16, -6, -26⟩⟩, true⟩,
   ⟨⟨⟨-4, 24, 0⟩, ⟨-20, -3, -26⟩⟩, true⟩,
   ⟨⟨⟨8, 24, 0⟩, ⟨-20, -6, -26⟩⟩, true⟩] : List PowerCuboid) = some 21840 :=
    sumTails_cons _ _ _ 0 21840 21840 cov_n119 s9 rfl
  have s7 : sumTails (covGo 16) ([⟨⟨⟨8, 16, 0⟩, ⟨-18, -6, -7⟩⟩, true⟩,
   ⟨⟨⟨8, 11, 0⟩, ⟨-16, -6, -26⟩⟩, true⟩,
   ⟨⟨⟨-4, 24, 0⟩, ⟨-20, -3, -26⟩⟩, true⟩,
   ⟨⟨⟨8, 24, 0⟩, ⟨-20, -6, -26⟩⟩, true⟩] : List PowerCuboid) = some 21840 :=
    sumTails_cons _ _ _ 0 21840 21840 cov_n118 s8 rfl
  have s6 : sumTails (covGo 16) ([⟨⟨⟨8, 24, -1⟩, ⟨-12, 6, -26⟩⟩, true⟩,
   ⟨⟨⟨8, 16, 0⟩, ⟨-18, -6, -7⟩⟩, true⟩,
   ⟨⟨⟨8, 11, 0⟩, ⟨-16, -6, -26⟩⟩, true⟩,
   ⟨⟨⟨-4, 24, 0⟩, ⟨-20, -3, -26⟩⟩, true⟩,
   ⟨⟨⟨8, 24, 0⟩, ⟨-20, -6, -26⟩⟩, true⟩] : List PowerCuboid) = some 21840 :=
    sumTails_cons _ _ _ 0 21840 21840 cov_n117 s7 rfl
  have s5 : sumTails (covGo 16) ([⟨⟨⟨8, 21, 0⟩, ⟨-20, -6, -26⟩⟩, true⟩,
   ⟨⟨⟨8, 24, -1⟩, ⟨-12, 6, -26⟩⟩, true⟩,
   ⟨⟨⟨8, 16, 0⟩, ⟨-18, -6, -7⟩⟩, true⟩,
   ⟨⟨⟨8, 11, 0⟩, ⟨-16, -6, -26⟩⟩, true⟩,
   ⟨⟨⟨-4, 24, 0⟩, ⟨-20, -3, -26⟩⟩, true⟩,
   ⟨⟨⟨8, 24, 0⟩, ⟨-20, -6, -26⟩⟩, true⟩] : List PowerCuboid) = some 21840 :=
    sumTails_cons _ _ _ 0 21840 21840 cov_n116 s6 rfl
  have s4 : sumTails (covGo 16) ([⟨⟨⟨8, 24, 0⟩, ⟨-20, -6, -13⟩⟩, true⟩,
   ⟨⟨⟨8, 21, 0⟩, ⟨-20, -6, -26⟩⟩, true⟩,
   ⟨⟨⟨8, 24, -1⟩, ⟨-12, 6, -26⟩⟩, true⟩,
   ⟨⟨⟨8, 16, 0⟩, ⟨-18, -6, -7⟩⟩, true⟩,
   ⟨⟨⟨8, 11, 0⟩, ⟨-16, -6, -26⟩⟩, true⟩,
   ⟨⟨⟨-4, 24, 0⟩, ⟨-20, -3, -26⟩⟩, true⟩,
   ⟨⟨⟨8, 24, 0⟩, ⟨-20, -6, -26⟩⟩, true⟩] : List PowerCuboid) = some 21840 :=
    sumTails_cons _ _ _ 0 21840 21840 cov_n115 s5 rfl
  have s3 : sumTails (covGo 16) ([⟨⟨⟨6, 24, 0⟩, ⟨-20, -6, -3⟩⟩, true⟩,
   ⟨⟨⟨8, 24, 0⟩, ⟨-20, -6, -13⟩⟩, true⟩,
   ⟨⟨⟨8, 21, 0⟩, ⟨-20, -6, -26⟩⟩, true⟩,
   ⟨⟨⟨8, 24, -1⟩, ⟨-12, 6, -26⟩⟩, true⟩,
   ⟨⟨⟨8, 16, 0⟩, ⟨-18, -6, -7⟩⟩, true⟩,
   ⟨⟨⟨8, 11, 0⟩, ⟨-16, -6, -26⟩⟩, true⟩,
   ⟨⟨⟨-4, 24, 0⟩, ⟨-20, -3, -26⟩⟩, true⟩,
   ⟨⟨⟨8, 24, 0⟩, ⟨-20, -6, -26⟩⟩, true⟩] : List PowerCuboid) = some 21840 :=
    sumTails_cons _ _ _ 0 21840 21840 cov_n114 s4 rfl
  have s2 : sumTails (covGo 16) ([⟨⟨⟨8, 24, 0⟩, ⟨-20, -6, -21⟩⟩, true⟩,
   ⟨⟨⟨6, 24, 0⟩, ⟨-20, -6, -3⟩⟩, true⟩,
   ⟨⟨⟨8, 24, 0⟩, ⟨-20, -6, -13⟩⟩, true⟩,
   ⟨⟨⟨8, 21, 0⟩, ⟨-20, -6, -26⟩⟩, true⟩,
   ⟨⟨⟨8, 24, -1⟩, ⟨-12, 6, -26⟩⟩, true⟩,
   ⟨⟨⟨8, 16, 0⟩, ⟨-18, -6, -7⟩⟩, true⟩,
   ⟨⟨⟨8, 11, 0⟩, ⟨-16, -6, -26⟩⟩, true⟩,
   ⟨⟨⟨-4, 24, 0⟩, ⟨-20, -3, -26⟩⟩, true⟩,
   ⟨⟨⟨8, 24, 0⟩, ⟨-20, -6, -26⟩⟩, true⟩] : List PowerCuboid) = some 21840 :=
    sumTails_cons _ _ _ 0 21840 21840 cov_n113 s3 rfl
  have s1 : sumTails (covGo 16) ([⟨⟨⟨8, 23, 0⟩, ⟨2, -6, -23⟩⟩, true⟩,
   ⟨⟨⟨8, 24, 0⟩, ⟨-20, -6, -21⟩⟩, true⟩,
   ⟨⟨⟨6, 24, 0⟩, ⟨-20, -6, -3⟩⟩, true⟩,
   ⟨⟨⟨8, 24, 0⟩, ⟨-20, -6, -13⟩⟩, true⟩,
   ⟨⟨⟨8, 21, 0⟩, ⟨-20, -6, -26⟩⟩, true⟩,
   ⟨⟨⟨8, 24, -1⟩, ⟨-12, 6, -26⟩⟩, true⟩,
   ⟨⟨⟨8, 16, 0⟩, ⟨-18, -6, -7⟩⟩, true⟩,
   ⟨⟨⟨8, 11, 0⟩, ⟨-16, -6, -26⟩⟩, true⟩,
   ⟨⟨⟨-4, 24, 0⟩, ⟨-20, -3, -26⟩⟩, true⟩,
   ⟨⟨⟨8, 24, 0⟩, ⟨-20, -6, -26⟩⟩, true⟩] : List PowerCuboid) = some 21840 :=
    sumTails_cons _ _ _ 0 21840 21840 cov_n112 s2 rfl
  have s0 : sumTails (covGo 16) ([⟨⟨⟨2, 24, 0⟩, ⟨-20, -3, -24⟩⟩, true⟩,
   ⟨⟨⟨8, 23, 0⟩, ⟨2, -6, -23⟩⟩, true⟩,
   ⟨⟨⟨8, 24, 0⟩, ⟨-20, -6, -21⟩⟩, true⟩,
   ⟨⟨⟨6, 24, 0⟩, ⟨-20, -6, -3⟩⟩, true⟩,
   ⟨⟨⟨8, 24, 0⟩, ⟨-20, -6, -13⟩⟩, true⟩,
   ⟨⟨⟨8, 21, 0⟩, ⟨-20, -6, -26⟩⟩, true⟩,
   ⟨⟨⟨8, 24, -1⟩, ⟨-12, 6, -26⟩⟩, true⟩,
   ⟨⟨⟨8, 16, 0⟩, ⟨-18, -6, -7⟩⟩, true⟩,
   ⟨⟨⟨8, 11, 0⟩, ⟨-16, -6, -26⟩⟩, true⟩,
   ⟨⟨⟨-4, 24, 0⟩, ⟨-20, -3, -26⟩⟩, true⟩,
   ⟨⟨⟨8, 24, 0⟩, ⟨-20, -6, -26⟩⟩, true⟩] : List PowerCuboid) = some 21840 :=
    sumTails_cons _ _ _ 0 21840 21840 cov_n111 s1 rfl
  rw [covGo_succ, ks_n122, s0]
  decide

/-- Leaf evaluation of the embedded recursion (768 nodes). -/
theorem cov_n123 :
    covGo 17 ⟨⟨⟨2, 24, 17⟩, ⟨-20, -3, -24⟩⟩, true⟩
    ([⟨⟨⟨29, 23, 17⟩, ⟨2, -21, -23⟩⟩, true⟩,
   ⟨⟨⟨24, 24, 17⟩, ⟨-20, -21, -21⟩⟩, true⟩,
   ⟨⟨⟨6, 24, 17⟩, ⟨-20, -6, -3⟩⟩, true⟩,
   ⟨⟨⟨22, 24, 17⟩, ⟨-20, -8, -13⟩⟩, true⟩,
   ⟨⟨⟨27, 21, 17⟩, ⟨-20, -21, -26⟩⟩, true⟩,
   ⟨⟨⟨29, 24, -1⟩, ⟨-12, 6, -26⟩⟩, true⟩,
   ⟨⟨⟨27, 16, 17⟩, ⟨-18, -21, -7⟩⟩, true⟩,
   ⟨⟨⟨29, 11, 7⟩, ⟨-16, -21, -26⟩⟩, true⟩,
   ⟨⟨⟨-4, 24, 17⟩, ⟨-20, -3, -26⟩⟩, true⟩,
   ⟨⟨⟨29, -7, 14⟩, ⟨18, -20, -3⟩⟩, false⟩,
   ⟨⟨⟨10, 24, 16⟩, ⟨-20, -7, -26⟩⟩, true⟩] : List PowerCuboid) = some 0 := by decide!

/-- Leaf evaluation of the embedded recursion (288 nodes). -/
theorem cov_n124 :
    covGo 17 ⟨⟨⟨29, 23, 17⟩, ⟨2, -21, -23⟩⟩, true⟩
    ([⟨⟨⟨24, 24, 17⟩, ⟨-20, -21, -21⟩⟩, true⟩,
   ⟨⟨⟨6, 24, 17⟩, ⟨-20, -6, -3⟩⟩, true⟩,
   ⟨⟨⟨22, 24, 17⟩, ⟨-20, -8, -13⟩⟩, true⟩,
   ⟨⟨⟨27, 21, 17⟩, ⟨-20, -21, -26⟩⟩, true⟩,
   ⟨⟨⟨29, 24, -1⟩, ⟨-12, 6, -26⟩⟩, true⟩,
   ⟨⟨⟨27, 16, 17⟩, ⟨-18, -21, -7⟩⟩, true⟩,
   ⟨⟨⟨29, 11, 7⟩, ⟨-16, -21, -26⟩⟩, true⟩,
   ⟨⟨⟨-4, 24, 17⟩, ⟨-20, -3, -26⟩⟩, true⟩,
   ⟨⟨⟨29, -7, 14⟩, ⟨18, -20, -3⟩⟩, false⟩,
   ⟨⟨⟨10, 24, 16⟩, ⟨-20, -7, -26⟩⟩, true⟩] : List PowerCuboid) = some 998 := by decide!

/-- Leaf evaluation of the embedded recursion (272 nodes). -/
theorem cov_n125 :
    covGo 17 ⟨⟨⟨24, 24, 17⟩, ⟨-20, -21, -21⟩⟩, true⟩
    ([⟨⟨⟨6, 24, 17⟩, ⟨-20, -6, -3⟩⟩, true⟩,
   ⟨⟨⟨22, 24, 17⟩, ⟨-20, -8, -13⟩⟩, true⟩,
   ⟨⟨⟨27, 21, 17⟩, ⟨-20, -21, -26⟩⟩, true⟩,
   ⟨⟨⟨29, 24, -1⟩, ⟨-12, 6, -26⟩⟩, true⟩,
   ⟨⟨⟨27, 16, 17⟩, ⟨-18, -21, -7⟩⟩, true⟩,
   ⟨⟨⟨29, 11, 7⟩, ⟨-16, -21, -26⟩⟩, true⟩,
   ⟨⟨⟨-4, 24, 17⟩, ⟨-20, -3, -26⟩⟩, true⟩,
   ⟨⟨⟨29, -7, 14⟩, ⟨18, -20, -3⟩⟩, false⟩,
   ⟨⟨⟨10, 24, 16⟩, ⟨-20, -7, -26⟩⟩, true⟩] : List PowerCuboid) = some 108 := by decide!

/-- Leaf evaluation of the embedded recursion (128 nodes). -/
theorem cov_n126 :
    covGo 17 ⟨⟨⟨6, 24, 17⟩, ⟨-20, -6, -3⟩⟩, true⟩
    ([⟨⟨⟨22, 24, 17⟩, ⟨-20, -8, -13⟩⟩, true⟩,
   ⟨⟨⟨27, 21, 17⟩, ⟨-20, -21, -26⟩⟩, true⟩,
   ⟨⟨⟨29, 24, -1⟩, ⟨-12, 6, -26⟩⟩, true⟩,
   ⟨⟨⟨27, 16, 17⟩, ⟨-18, -21, -7⟩⟩, true⟩,
   ⟨⟨⟨29, 11, 7⟩, ⟨-16, -21, -26⟩⟩, true⟩,
   ⟨⟨⟨-4, 24, 17⟩, ⟨-20, -3, -26⟩⟩, true⟩,
   ⟨⟨⟨29, -7, 14⟩, ⟨18, -20, -3⟩⟩, false⟩,
   ⟨⟨⟨10, 24, 16⟩, ⟨-20, -7, -26⟩⟩, true⟩] : List PowerCuboid) = some 0 := by decide!

/-- Leaf evaluation of the embedded recursion (72 nodes). -/
theorem cov_n127 :
    covGo 17 ⟨⟨⟨22, 24, 17⟩, ⟨-20, -8, -13⟩⟩, true⟩
    ([⟨⟨⟨27, 21, 17⟩, ⟨-20, -21, -26⟩⟩, true⟩,
   ⟨⟨⟨29, 24, -1⟩, ⟨-12, 6, -26⟩⟩, true⟩,
   ⟨⟨⟨27, 16, 17⟩, ⟨-18, -21, -7⟩⟩, true⟩,
   ⟨⟨⟨29, 11, 7⟩, ⟨-16, -21, -26⟩⟩, true⟩,
   ⟨⟨⟨-4, 24, 17⟩, ⟨-20, -3, -26⟩⟩, true⟩,
   ⟨⟨⟨29, -7, 14⟩, ⟨18, -20, -3⟩⟩, false⟩,
   ⟨⟨⟨10, 24, 16⟩, ⟨-20, -7, -26⟩⟩, true⟩] : List PowerCuboid) = some 690 := by decide!

/-- Leaf evaluation of the embedded recursion (36 nodes). -/
theorem cov_n128 :
    covGo 17 ⟨⟨⟨27, 21, 17⟩, ⟨-20, -21, -26⟩⟩, true⟩
    ([⟨⟨⟨29, 24, -1⟩, ⟨-12, 6, -26⟩⟩, true⟩,
   ⟨⟨⟨27, 16, 17⟩, ⟨-18, -21, -7⟩⟩, true⟩,
   ⟨⟨⟨29, 11, 7⟩, ⟨-16, -21, -26⟩⟩, true⟩,
   ⟨⟨⟨-4, 24, 17⟩, ⟨-20, -3, -26⟩⟩, true⟩,
   ⟨⟨⟨29, -7, 14⟩, ⟨18, -20, -3⟩⟩, false⟩,
   ⟨⟨⟨10, 24, 16⟩, ⟨-20, -7, -26⟩⟩, true⟩] : List PowerCuboid) = some 3344 := by decide!

/-- Leaf evaluation of the embedded recursion (16 nodes). -/
theorem cov_n129 :
    covGo 17 ⟨⟨⟨29, 24, -1⟩, ⟨-12, 6, -26⟩⟩, true⟩
    ([⟨⟨⟨27, 16, 17⟩, ⟨-18, -21, -7⟩⟩, true⟩,
   ⟨⟨⟨29, 11, 7⟩, ⟨-16, -21, -26⟩⟩, true⟩,
   ⟨⟨⟨-4, 24, 17⟩, ⟨-20, -3, -26⟩⟩, true⟩,
   ⟨⟨⟨29, -7, 14⟩, ⟨18, -20, -3⟩⟩, false⟩,
   ⟨⟨⟨10, 24, 16⟩, ⟨-20, -7, -26⟩⟩, true⟩] : List PowerCuboid) = some 5665 := by decide!

/-- Leaf evaluation of the embedded recursion (10 nodes). -/
theorem cov_n130 :
    covGo 17 ⟨⟨⟨27, 16, 17⟩, ⟨-18, -21, -7⟩⟩, true⟩
    ([⟨⟨⟨29, 11, 7⟩, ⟨-16, -21, -26⟩⟩, true⟩,
   ⟨⟨⟨-4, 24, 17⟩, ⟨-20, -3, -26⟩⟩, true⟩,
   ⟨⟨⟨29, -7, 14⟩, ⟨18, -20, -3⟩⟩, false⟩,
   ⟨⟨⟨10, 24, 16⟩, ⟨-20, -7, -26⟩⟩, true⟩] : List PowerCuboid) = some 11351 := by decide!

/-- Leaf evaluation of the embedded recursion (5 nodes). -/
theorem cov_n131 :
    covGo 17 ⟨⟨⟨29, 11, 7⟩, ⟨-16, -21, -26⟩⟩, true⟩
    ([⟨⟨⟨-4, 24, 17⟩, ⟨-20, -3, -26⟩⟩, true⟩,
   ⟨⟨⟨29, -7, 14⟩, ⟨18, -20, -3⟩⟩, false⟩,
   ⟨⟨⟨10, 24, 16⟩, ⟨-20, -7, -26⟩⟩, true⟩] : List PowerCuboid) = some 30646 := by decide!

/-- Leaf evaluation of the embedded recursion (2 nodes). -/
theorem cov_n132 :
    covGo 17 ⟨⟨⟨-4, 24, 17⟩, ⟨-20, -3, -26⟩⟩, true⟩
    ([⟨⟨⟨29, -7, 14⟩, ⟨18, -20, -3⟩⟩, false⟩,
   ⟨⟨⟨10, 24, 16⟩, ⟨-20, -7, -26⟩⟩, true⟩] : List PowerCuboid) = some 432 := by decide!

/-- Leaf evaluation of the embedded recursion (1 nodes). -/
theorem cov_n133 :
    covGo 17 ⟨⟨⟨29, -7, 14⟩, ⟨18, -20, -3⟩⟩, false⟩
    ([⟨⟨⟨10, 24, 16⟩, ⟨-20, -7, -26⟩⟩, true⟩] : List PowerCuboid) = some 2431 := by decide!

/-- Leaf evaluation of the embedded recursion (1 nodes). -/
theorem cov_n134 :
    covGo 17 ⟨⟨⟨10, 24, 16⟩, ⟨-20, -7, -26⟩⟩, true⟩
    ([] : List PowerCuboid) = some 39060 := by decide!

/-- The conflict list of the node above, evaluated. -/
theorem ks_n135 :
    List.filterMap (fun c => PowerCuboid.intersect ⟨⟨⟨29, 24, 17⟩, ⟨-20, -21, -26⟩⟩, true⟩ c)
    ([⟨⟨⟨8, 24, 0⟩, ⟨-20, -6, -26⟩⟩, true⟩,
   ⟨⟨⟨2, 24, 29⟩, ⟨-20, -3, -24⟩⟩, true⟩,
   ⟨⟨⟨34, 23, 28⟩, ⟨2, -21, -23⟩⟩, true⟩,
   ⟨⟨⟨24, 24, 29⟩, ⟨-20, -21, -21⟩⟩, true⟩,
   ⟨⟨⟨6, 24, 29⟩, ⟨-20, -6, -3⟩⟩, true⟩,
   ⟨⟨⟨22, 24, 29⟩, ⟨-20, -8, -13⟩⟩, true⟩,
   ⟨⟨⟨27, 21, 20⟩, ⟨-20, -21, -26⟩⟩, true⟩,
   ⟨⟨⟨34, 24, -1⟩, ⟨-12, 6, -26⟩⟩, true⟩,
   ⟨⟨⟨27, 16, 29⟩, ⟨-18, -21, -7⟩⟩, true⟩,
   ⟨⟨⟨34, 11, 7⟩, ⟨-16, -21, -26⟩⟩, true⟩,
   ⟨⟨⟨-4, 24, 19⟩, ⟨-20, -3, -26⟩⟩, true⟩,
   ⟨⟨⟨31, -7, 14⟩, ⟨18, -20, -3⟩⟩, false⟩,
   ⟨⟨⟨10, 24, 16⟩, ⟨-20, -7, -26⟩⟩, true⟩] : List PowerCuboid) = ([⟨⟨⟨8, 24, 0⟩, ⟨-20, -6, -26⟩⟩, true⟩,
   ⟨⟨⟨2, 24, 17⟩, ⟨-20, -3, -24⟩⟩, true⟩,
   ⟨⟨⟨29, 23, 17⟩, ⟨2, -21, -23⟩⟩, true⟩,
   ⟨⟨⟨24, 24, 17⟩, ⟨-20, -21, -21⟩⟩, true⟩,
   ⟨⟨⟨6, 24, 17⟩, ⟨-20, -6, -3⟩⟩, true⟩,
   ⟨⟨⟨22, 24, 17⟩, ⟨-20, -8, -13⟩⟩, true⟩,
   ⟨⟨⟨27, 21, 17⟩, ⟨-20, -21, -26⟩⟩, true⟩,
   ⟨⟨⟨29, 24, -1⟩, ⟨-12, 6, -26⟩⟩, true⟩,
   ⟨⟨⟨27, 16, 17⟩, ⟨-18, -21, -7⟩⟩, true⟩,
   ⟨⟨⟨29, 11, 7⟩, ⟨-16, -21, -26⟩⟩, true⟩,
   ⟨⟨⟨-4, 24, 17⟩, ⟨-20, -3, -26⟩⟩, true⟩,
   ⟨⟨⟨29, -7, 14⟩, ⟨18, -20, -3⟩⟩, false⟩,
   ⟨⟨⟨10, 24, 16⟩, ⟨-20, -7, -26⟩⟩, true⟩] : List PowerCuboid) := by decide!

/-- Split evaluation of the embedded recursion (3136 nodes in total),
assembled from the conflict list and the net contributions of its
members. -/
theorem cov_n109 :
    covGo 18 ⟨⟨⟨29, 24, 17⟩, ⟨-20, -21, -26⟩⟩, true⟩
    ([⟨⟨⟨8, 24, 0⟩, ⟨-20, -6, -26⟩⟩, true⟩,
   ⟨⟨⟨2, 24, 29⟩, ⟨-20, -3, -24⟩⟩, true⟩,
   ⟨⟨⟨34, 23, 28⟩, ⟨2, -21, -23⟩⟩, true⟩,
   ⟨⟨⟨24, 24, 29⟩, ⟨-20, -21, -21⟩⟩, true⟩,
   ⟨⟨⟨6, 24, 29⟩, ⟨-20, -6, -3⟩⟩, true⟩,
   ⟨⟨⟨22, 24, 29⟩, ⟨-20, -8, -13⟩⟩, true⟩,
   ⟨⟨⟨27, 21, 20⟩, ⟨-20, -21, -26⟩⟩, true⟩,
   ⟨⟨⟨34, 24, -1⟩, ⟨-12, 6, -26⟩⟩, true⟩,
   ⟨⟨⟨27, 16, 29⟩, ⟨-18, -21, -7⟩⟩, true⟩,
   ⟨⟨⟨34, 11, 7⟩, ⟨-16, -21, -26⟩⟩, true⟩,
   ⟨⟨⟨-4, 24, 19⟩, ⟨-20, -3, -26⟩⟩, true⟩,
   ⟨⟨⟨31, -7, 14⟩, ⟨18, -20, -3⟩⟩, false⟩,
   ⟨⟨⟨10, 24, 16⟩, ⟨-20, -7, -26⟩⟩, true⟩] : List PowerCuboid) = some 90 := by
  have s13 : sumTails (covGo 17) ([] : List PowerCuboid) = some 0 := rfl
  have s12 : sumTails (covGo 17) ([⟨⟨⟨10, 24, 16⟩, ⟨-20, -7, -26⟩⟩, true⟩] : List PowerCuboid) = some 39060 :=
    sumTails_cons _ _ _ 39060 0 39060 cov_n134 s13 rfl
  have s11 : sumTails (covGo 17) ([⟨⟨⟨29, -7, 14⟩, ⟨18, -20, -3⟩⟩, false⟩,
   ⟨⟨⟨10, 24, 16⟩, ⟨-20, -7, -26⟩⟩, true⟩] : List PowerCuboid) = some 41491 :=
    sumTails_cons _ _ _ 2431 39060 41491 cov_n133 s12 rfl
  have s10 : sumTails (covGo 17) ([⟨⟨⟨-4, 24, 17⟩, ⟨-20, -3, -26⟩⟩, true⟩,
   ⟨⟨⟨29, -7, 14⟩, ⟨18, -20, -3⟩⟩, false⟩,
   ⟨⟨⟨10, 24, 16⟩, ⟨-20, -7, -26⟩⟩, true⟩] : List PowerCuboid) = some 41923 :=
    sumTails_cons _ _ _ 432 41491 41923 cov_n132 s11 rfl
  have s9 : sumTails (covGo 17) ([⟨⟨⟨29, 11, 7⟩, ⟨-16, -21, -26⟩⟩, true⟩,
   ⟨⟨⟨-4, 24, 17⟩, ⟨-20, -3, -26⟩⟩, true⟩,
   ⟨⟨⟨29, -7, 14⟩, ⟨18, -20, -3⟩⟩, false⟩,
   ⟨⟨⟨10, 24, 16⟩, ⟨-20, -7, -26⟩⟩, true⟩] : List PowerCuboid) = some 72569 :=
    sumTails_cons _ _ _ 30646 41923 72569 cov_n131 s10 rfl
  have s8 : sumTails (covGo 17) ([⟨⟨⟨27, 16, 17⟩, ⟨-18, -21, -7⟩⟩, true⟩,
   ⟨⟨⟨29, 11, 7⟩, ⟨-16, -21, -26⟩⟩, true⟩,
   ⟨⟨⟨-4, 24, 17⟩, ⟨-20, -3, -26⟩⟩, true⟩,
   ⟨⟨⟨29, -7, 14⟩, ⟨18, -20, -3⟩⟩, false⟩,
   ⟨⟨⟨10, 24, 16⟩, ⟨-20, -7, -26⟩⟩, true⟩] : List PowerCuboid) = some 83920 :=
    sumTails_cons _ _ _ 11351 72569 83920 cov_n130 s9 rfl
  have s7 : sumTails (covGo 17) ([⟨⟨⟨29, 24, -1⟩, ⟨-12, 6, -26⟩⟩, true⟩,
   ⟨⟨⟨27, 16, 17⟩, ⟨-18, -21, -7⟩⟩, true⟩,
   ⟨⟨⟨29, 11, 7⟩, ⟨-16, -21, -26⟩⟩, true⟩,
   ⟨⟨⟨-4, 24, 17⟩, ⟨-20, -3, -26⟩⟩, true⟩,
   ⟨⟨⟨29, -7, 14⟩, ⟨18, -20, -3⟩⟩, false⟩,
   ⟨⟨⟨10, 24, 16⟩, ⟨-20, -7, -26⟩⟩, true⟩] : List PowerCuboid) = some 89585 :=
    sumTails_cons _ _ _ 5665 83920 89585 cov_n129 s8 rfl
  have s6 : sumTails (covGo 17) ([⟨⟨⟨27, 21, 17⟩, ⟨-20, -21, -26⟩⟩, true⟩,
   ⟨⟨⟨29, 24, -1⟩, ⟨-12, 6, -26⟩⟩, true⟩,
   ⟨⟨⟨27, 16, 17⟩, ⟨-18, -21, -7⟩⟩, true⟩,
   ⟨⟨⟨29, 11, 7⟩, ⟨-16, -21, -26⟩⟩, true⟩,
   ⟨⟨⟨-4, 24, 17⟩, ⟨-20, -3, -26⟩⟩, true⟩,
   ⟨⟨⟨29, -7, 14⟩, ⟨18, -20, -3⟩⟩, false⟩,
   ⟨⟨⟨10, 24, 16⟩, ⟨-20, -7, -26⟩⟩, true⟩] : List PowerCuboid) = some 92929 :=
    sumTails_cons _ _ _ 3344 89585 92929 cov_n128 s7 rfl
  have s5 : sumTails (covGo 17) ([⟨⟨⟨22, 24, 17⟩, ⟨-20, -8, -13⟩⟩, true⟩,
   ⟨⟨⟨27, 21, 17⟩, ⟨-20, -21, -26⟩⟩, true⟩,
   ⟨⟨⟨29, 24, -1⟩, ⟨-12, 6, -26⟩⟩, true⟩,
   ⟨⟨⟨27, 16, 17⟩, ⟨-18, -21, -7⟩⟩, true⟩,
   ⟨⟨⟨29, 11, 7⟩, ⟨-16, -21, -26⟩⟩, true⟩,
   ⟨⟨⟨-4, 24, 17⟩, ⟨-20, -3, -26⟩⟩, true⟩,
   ⟨⟨⟨29, -7, 14⟩, ⟨18, -20, -3⟩⟩, false⟩,
   ⟨⟨⟨10, 24, 16⟩, ⟨-20, -7, -26⟩⟩, true⟩] : List PowerCuboid) = some 93619 :=
    sumTails_cons _ _ _ 690 92929 93619 cov_n127 s6 rfl
  have s4 : sumTails (covGo 17) ([⟨⟨⟨6, 24, 17⟩, ⟨-20, -6, -3⟩⟩, true⟩,
   ⟨⟨⟨22, 24, 17⟩, ⟨-20, -8, -13⟩⟩, true⟩,
   ⟨⟨⟨27, 21, 17⟩, ⟨-20, -21, -26⟩⟩, true⟩,
   ⟨⟨⟨29, 24, -1⟩, ⟨-12, 6, -26⟩⟩, true⟩,
   ⟨⟨⟨27, 16, 17⟩, ⟨-18, -21, -7⟩⟩, true⟩,
   ⟨⟨⟨29, 11, 7⟩, ⟨-16, -21, -26⟩⟩, true⟩,
   ⟨⟨⟨-4, 24, 17⟩, ⟨-20, -3, -26⟩⟩, true⟩,
   ⟨⟨⟨29, -7, 14⟩, ⟨18, -20, -3⟩⟩, false⟩,
   ⟨⟨⟨10, 24, 16⟩, ⟨-20, -7, -26⟩⟩, true⟩] : List PowerCuboid) = some 93619 :=
    sumTails_cons _ _ _ 0 93619 93619 cov_n126 s5 rfl
  have s3 : sumTails (covGo 17) ([⟨⟨⟨24, 24, 17⟩, ⟨-20, -21, -21⟩⟩, true⟩,
   ⟨⟨⟨6, 24, 17⟩, ⟨-20, -6, -3⟩⟩, true⟩,
   ⟨⟨⟨22, 24, 17⟩, ⟨-20, -8, -13⟩⟩, true⟩,
   ⟨⟨⟨27, 21, 17⟩, ⟨-20, -21, -26⟩⟩, true⟩,
   ⟨⟨⟨29, 24, -1⟩, ⟨-12, 6, -26⟩⟩, true⟩,
   ⟨⟨⟨27, 16, 17⟩, ⟨-18, -21, -7⟩⟩, true⟩,
   ⟨⟨⟨29, 11, 7⟩, ⟨-16, -21, -26⟩⟩, true⟩,
   ⟨⟨⟨-4, 24, 17⟩, ⟨-20, -3, -26⟩⟩, true⟩,
   ⟨⟨⟨29, -7, 14⟩, ⟨18, -20, -3⟩⟩, false⟩,
   ⟨⟨⟨10, 24, 16⟩, ⟨-20, -7, -26⟩⟩, true⟩] : List PowerCuboid) = some 93727 :=
    sumTails_cons _ _ _ 108 93619 93727 cov_n125 s4 rfl
  have s2 : sumTails (covGo 17) ([⟨⟨⟨29, 23, 17⟩, ⟨2, -21, -23⟩⟩, true⟩,
   ⟨⟨⟨24, 24, 17⟩, ⟨-20, -21, -21⟩⟩, true⟩,
   ⟨⟨⟨6, 24, 17⟩, ⟨-20, -6, -3⟩⟩, true⟩,
   ⟨⟨⟨22, 24, 17⟩, ⟨-20, -8, -13⟩⟩, true⟩,
   ⟨⟨⟨27, 21, 17⟩, ⟨-20, -21, -26⟩⟩, true⟩,
   ⟨⟨⟨29, 24, -1⟩, ⟨-12, 6, -26⟩⟩, true⟩,
   ⟨⟨⟨27, 16, 17⟩, ⟨-18, -21, -7⟩⟩, true⟩,
   ⟨⟨⟨29, 11, 7⟩, ⟨-16, -21, -26⟩⟩, true⟩,
   ⟨⟨⟨-4, 24, 17⟩, ⟨-20, -3, -26⟩⟩, true⟩,
   ⟨⟨⟨29, -7, 14⟩, ⟨18, -20, -3⟩⟩, false⟩,
   ⟨⟨⟨10, 24, 16⟩, ⟨-20, -7, -26⟩⟩, true⟩] : List PowerCuboid) = some 94725 :=
    sumTails_cons _ _ _ 998 93727 94725 cov_n124 s3 rfl
  have s1 : sumTails (covGo 17) ([⟨⟨⟨2, 24, 17⟩, ⟨-20, -3, -24⟩⟩, true⟩,
   ⟨⟨⟨29, 23, 17⟩, ⟨2, -21, -23⟩⟩, true⟩,
   ⟨⟨⟨24, 24, 17⟩, ⟨-20, -21, -21⟩⟩, true⟩,
   ⟨⟨⟨6, 24, 17⟩, ⟨-20, -6, -3⟩⟩, true⟩,
   ⟨⟨⟨22, 24, 17⟩, ⟨-20, -8, -13⟩⟩, true⟩,
   ⟨⟨⟨27, 21, 17⟩, ⟨-20, -21, -26⟩⟩, true⟩,
   ⟨⟨⟨29, 24, -1⟩, ⟨-12, 6, -26⟩⟩, true⟩,
   ⟨⟨⟨27, 16, 17⟩, ⟨-18, -21, -7⟩⟩, true⟩,
   ⟨⟨⟨29, 11, 7⟩, ⟨-16, -21, -26⟩⟩, true⟩,
   ⟨⟨⟨-4, 24, 17⟩, ⟨-20, -3, -26⟩⟩, true⟩,
   ⟨⟨⟨29, -7, 14⟩, ⟨18, -20, -3⟩⟩, false⟩,
   ⟨⟨⟨10, 24, 16⟩, ⟨-20, -7, -26⟩⟩, true⟩] : List PowerCuboid) = some 94725 :=
    sumTails_cons _ _ _ 0 94725 94725 cov_n123 s2 rfl
  have s0 : sumTails (covGo 17) ([⟨⟨⟨8, 24, 0⟩, ⟨-20, -6, -26⟩⟩, true⟩,
   ⟨⟨⟨2, 24, 17⟩, ⟨-20, -3, -24⟩⟩, true⟩,
   ⟨⟨⟨29, 23, 17⟩, ⟨2, -21, -23⟩⟩, true⟩,
   ⟨⟨⟨24, 24, 17⟩, ⟨-20, -21, -21⟩⟩, true⟩,
   ⟨⟨⟨6, 24, 17⟩, ⟨-20, -6, -3⟩⟩, true⟩,
   ⟨⟨⟨22, 24, 17⟩, ⟨-20, -8, -13⟩⟩, true⟩,
   ⟨⟨⟨27, 21, 17⟩, ⟨-20, -21, -26⟩⟩, true⟩,
   ⟨⟨⟨29, 24, -1⟩, ⟨-12, 6, -26⟩⟩, true⟩,
   ⟨⟨⟨27, 16, 17⟩, ⟨-18, -21, -7⟩⟩, true⟩,
   ⟨⟨⟨29, 11, 7⟩, ⟨-16, -21, -26⟩⟩, true⟩,
   ⟨⟨⟨-4, 24, 17⟩, ⟨-20, -3, -26⟩⟩, true⟩,
   ⟨⟨⟨29, -7, 14⟩, ⟨18, -20, -3⟩⟩, false⟩,
   ⟨⟨⟨10, 24, 16⟩, ⟨-20, -7, -26⟩⟩, true⟩] : List PowerCuboid) = some 94725 :=
    sumTails_cons _ _ _ 0 94725 94725 cov_n110 s1 rfl
  rw [covGo_succ, ks_n135, s0]
  decide

/-- Leaf evaluation of the embedded recursion (768 nodes). -/
theorem cov_n137 :
    covGo 17 ⟨⟨⟨2, 24, 0⟩, ⟨-20, -3, -24⟩⟩, true⟩
    ([⟨⟨⟨8, 23, 0⟩, ⟨2, -6, -23⟩⟩, true⟩,
   ⟨⟨⟨8, 24, 0⟩, ⟨-20, -6, -21⟩⟩, true⟩,
   ⟨⟨⟨6, 24, 0⟩, ⟨-20, -6, -3⟩⟩, true⟩,
   ⟨⟨⟨8, 24, 0⟩, ⟨-20, -6, -13⟩⟩, true⟩,
   ⟨⟨⟨8, 21, 0⟩, ⟨-20, -6, -26⟩⟩, true⟩,
   ⟨⟨⟨8, 24, -1⟩, ⟨-12, 6, -26⟩⟩, true⟩,
   ⟨⟨⟨8, 16, 0⟩, ⟨-18, -6, -7⟩⟩, true⟩,
   ⟨⟨⟨8, 11, 0⟩, ⟨-16, -6, -26⟩⟩, true⟩,
   ⟨⟨⟨-4, 24, 0⟩, ⟨-20, -3, -26⟩⟩, true⟩,
   ⟨⟨⟨8, 24, 0⟩, ⟨-20, -6, -26⟩⟩, true⟩] : List PowerCuboid) = some 0 := by decide!

/-- Leaf evaluation of the embedded recursion (256 nodes). -/
theorem cov_n138 :
    covGo 17 ⟨⟨⟨8, 23, 0⟩, ⟨2, -6, -23⟩⟩, true⟩
    ([⟨⟨⟨8, 24, 0⟩, ⟨-20, -6, -21⟩⟩, true⟩,
   ⟨⟨⟨6, 24, 0⟩, ⟨-20, -6, -3⟩⟩, true⟩,
   ⟨⟨⟨8, 24, 0⟩, ⟨-20, -6, -13⟩⟩, true⟩,
   ⟨⟨⟨8, 21, 0⟩, ⟨-20, -6, -26⟩⟩, true⟩,
   ⟨⟨⟨8, 24, -1⟩, ⟨-12, 6, -26⟩⟩, true⟩,
   ⟨⟨⟨8, 16, 0⟩, ⟨-18, -6, -7⟩⟩, true⟩,
   ⟨⟨⟨8, 11, 0⟩, ⟨-16, -6, -26⟩⟩, true⟩,
   ⟨⟨⟨-4, 24, 0⟩, ⟨-20, -3, -26⟩⟩, true⟩,
   ⟨⟨⟨8, 24, 0⟩, ⟨-20, -6, -26⟩⟩, true⟩] : List PowerCuboid) = some 0 := by decide!

/-- Leaf evaluation of the embedded recursion (256 nodes). -/
theorem cov_n139 :
    covGo 17 ⟨⟨⟨8, 24, 0⟩, ⟨-20, -6, -21⟩⟩, true⟩
    ([⟨⟨⟨6, 24, 0⟩, ⟨-20, -6, -3⟩⟩, true⟩,
   ⟨⟨⟨8, 24, 0⟩, ⟨-20, -6, -13⟩⟩, true⟩,
   ⟨⟨⟨8, 21, 0⟩, ⟨-20, -6, -26⟩⟩, true⟩,
   ⟨⟨⟨8, 24, -1⟩, ⟨-12, 6, -26⟩⟩, true⟩,
   ⟨⟨⟨8, 16, 0⟩, ⟨-18, -6, -7⟩⟩, true⟩,
   ⟨⟨⟨8, 11, 0⟩, ⟨-16, -6, -26⟩⟩, true⟩,
   ⟨⟨⟨-4, 24, 0⟩, ⟨-20, -3, -26⟩⟩, true⟩,
   ⟨⟨⟨8, 24, 0⟩, ⟨-20, -6, -26⟩⟩, true⟩] : List PowerCuboid) = some 0 := by decide!

/-- Leaf evaluation of the embedded recursion (128 nodes). -/
theorem cov_n140 :
    covGo 17 ⟨⟨⟨6, 24, 0⟩, ⟨-20, -6, -3⟩⟩, true⟩
    ([⟨⟨⟨8, 24, 0⟩, ⟨-20, -6, -13⟩⟩, true⟩,
   ⟨⟨⟨8, 21, 0⟩, ⟨-20, -6, -26⟩⟩, true⟩,
   ⟨⟨⟨8, 24, -1⟩, ⟨-12, 6, -26⟩⟩, true⟩,
   ⟨⟨⟨8, 16, 0⟩, ⟨-18, -6, -7⟩⟩, true⟩,
   ⟨⟨⟨8, 11, 0⟩, ⟨-16, -6, -26⟩⟩, true⟩,
   ⟨⟨⟨-4, 24, 0⟩, ⟨-20, -3, -26⟩⟩, true⟩,
   ⟨⟨⟨8, 24, 0⟩, ⟨-20, -6, -26⟩⟩, true⟩] : List PowerCuboid) = some 0 := by decide!

/-- Leaf evaluation of the embedded recursion (64 nodes). -/
theorem cov_n141 :
    covGo 17 ⟨⟨⟨8, 24, 0⟩, ⟨-20, -6, -13⟩⟩, true⟩
    ([⟨⟨⟨8, 21, 0⟩, ⟨-20, -6, -26⟩⟩, true⟩,
   ⟨⟨⟨8, 24, -1⟩, ⟨-12, 6, -26⟩⟩, true⟩,
   ⟨⟨⟨8, 16, 0⟩, ⟨-18, -6, -7⟩⟩, true⟩,
   ⟨⟨⟨8, 11, 0⟩, ⟨-16, -6, -26⟩⟩, true⟩,
   ⟨⟨⟨-4, 24, 0⟩, ⟨-20, -3, -26⟩⟩, true⟩,
   ⟨⟨⟨8, 24, 0⟩, ⟨-20, -6, -26⟩⟩, true⟩] : List PowerCuboid) = some 0 := by decide!

/-- Leaf evaluation of the embedded recursion (32 nodes). -/
theorem cov_n142 :
    covGo 17 ⟨⟨⟨8, 21, 0⟩, ⟨-20, -6, -26⟩⟩, true⟩
    ([⟨⟨⟨8, 24, -1⟩, ⟨-12, 6, -26⟩⟩, true⟩,
   ⟨⟨⟨8, 16, 0⟩, ⟨-18, -6, -7⟩⟩, true⟩,
   ⟨⟨⟨8, 11, 0⟩, ⟨-16, -6, -26⟩⟩, true⟩,
   ⟨⟨⟨-4, 24, 0⟩, ⟨-20, -3, -26⟩⟩, true⟩,
   ⟨⟨⟨8, 24, 0⟩, ⟨-20, -6, -26⟩⟩, true⟩] : List PowerCuboid) = some 0 := by decide!

/-- Leaf evaluation of the embedded recursion (16 nodes). -/
theorem cov_n143 :
    covGo 17 ⟨⟨⟨8, 24, -1⟩, ⟨-12, 6, -26⟩⟩, true⟩
    ([⟨⟨⟨8, 16, 0⟩, ⟨-18, -6, -7⟩⟩, true⟩,
   ⟨⟨⟨8, 11, 0⟩, ⟨-16, -6, -26⟩⟩, true⟩,
   ⟨⟨⟨-4, 24, 0⟩, ⟨-20, -3, -26⟩⟩, true⟩,
   ⟨⟨⟨8, 24, 0⟩, ⟨-20, -6, -26⟩⟩, true⟩] : List PowerCuboid) = some 0 := by decide!

/-- Leaf evaluation of the embedded recursion (8 nodes). -/
theorem cov_n144 :
    covGo 17 ⟨⟨⟨8, 16, 0⟩, ⟨-18, -6, -7⟩⟩, true⟩
    ([⟨⟨⟨8, 11, 0⟩, ⟨-16, -6, -26⟩⟩, true⟩,
   ⟨⟨⟨-4, 24, 0⟩, ⟨-20, -3, -26⟩⟩, true⟩,
   ⟨⟨⟨8, 24, 0⟩, ⟨-20, -6, -26⟩⟩, true⟩] : List PowerCuboid) = some 0 := by decide!

/-- Leaf evaluation of the embedded recursion (4 nodes). -/
theorem cov_n145 :
    covGo 17 ⟨⟨⟨8, 11, 0⟩, ⟨-16, -6, -26⟩⟩, true⟩
    ([⟨⟨⟨-4, 24, 0⟩, ⟨-20, -3, -26⟩⟩, true⟩,
   ⟨⟨⟨8, 24, 0⟩, ⟨-20, -6, -26⟩⟩, true⟩] : List PowerCuboid) = some 0 := by decide!

/-- Leaf evaluation of the embedded recursion (2 nodes). -/
theorem cov_n146 :
    covGo 17 ⟨⟨⟨-4, 24, 0⟩, ⟨-20, -3, -26⟩⟩, true⟩
    ([⟨⟨⟨8, 24, 0⟩, ⟨-20, -6, -26⟩⟩, true⟩] : List PowerCuboid) = some 0 := by decide!

/-- Leaf evaluation of the embedded recursion (1 nodes). -/
theorem cov_n147 :
    covGo 17 ⟨⟨⟨8, 24, 0⟩, ⟨-20, -6, -26⟩⟩, true⟩
    ([] : List PowerCuboid) = some 21840 := by decide!

/-- The conflict list of the node above, evaluated. -/
theorem ks_n148 :
    List.filterMap (fun c => PowerCuboid.intersect ⟨⟨⟨8, 24, 0⟩, ⟨-20, -6, -26⟩⟩, true⟩ c)
    ([⟨⟨⟨2, 24, 29⟩, ⟨-20, -3, -24⟩⟩, true⟩,
   ⟨⟨⟨34, 23, 28⟩, ⟨2, -21, -23⟩⟩, true⟩,
   ⟨⟨⟨24, 24, 29⟩, ⟨-20, -21, -21⟩⟩, true⟩,
   ⟨⟨⟨6, 24, 29⟩, ⟨-20, -6, -3⟩⟩, true⟩,
   ⟨⟨⟨22, 24, 29⟩, ⟨-20, -8, -13⟩⟩, true⟩,
   ⟨⟨⟨27, 21, 20⟩, ⟨-20, -21, -26⟩⟩, true⟩,
   ⟨⟨⟨34, 24, -1⟩, ⟨-12, 6, -26⟩⟩, true⟩,
   ⟨⟨⟨27, 16, 29⟩, ⟨-18, -21, -7⟩⟩, true⟩,
   ⟨⟨⟨34, 11, 7⟩, ⟨-16, -21, -26⟩⟩, true⟩,
   ⟨⟨⟨-4, 24, 19⟩, ⟨-20, -3, -26⟩⟩, true⟩,
   ⟨⟨⟨31, -7, 14⟩, ⟨18, -20, -3⟩⟩, false⟩,
   ⟨⟨⟨10, 24, 16⟩, ⟨-20, -7, -26⟩⟩, true⟩] : List PowerCuboid) = ([⟨⟨⟨2, 24, 0⟩, ⟨-20, -3, -24⟩⟩, true⟩,
   ⟨⟨⟨8, 23, 0⟩, ⟨2, -6, -23⟩⟩, true⟩,
   ⟨⟨⟨8, 24, 0⟩, ⟨-20, -6, -21⟩⟩, true⟩,
   ⟨⟨⟨6, 24, 0⟩, ⟨-20, -6, -3⟩⟩, true⟩,
   ⟨⟨⟨8, 24, 0⟩, ⟨-20, -6, -13⟩⟩, true⟩,
   ⟨⟨⟨8, 21, 0⟩, ⟨-20, -6, -26⟩⟩, true⟩,
   ⟨⟨⟨8, 24, -1⟩, ⟨-12, 6, -26⟩⟩, true⟩,
   ⟨⟨⟨8, 16, 0⟩, ⟨-18, -6, -7⟩⟩, true⟩,
   ⟨⟨⟨8, 11, 0⟩, ⟨-16, -6, -26⟩⟩, true⟩,
   ⟨⟨⟨-4, 24, 0⟩, ⟨-20, -3, -26⟩⟩, true⟩,
   ⟨⟨⟨8, 24, 0⟩, ⟨-20, -6, -26⟩⟩, true⟩] : List PowerCuboid) := by decide!

/-- Split evaluation of the embedded recursion (1536 nodes in total),
assembled from the conflict list and the net contributions of its
members. -/
theorem cov_n136 :
    covGo 18 ⟨⟨⟨8, 24, 0⟩, ⟨-20, -6, -26⟩⟩, true⟩
    ([⟨⟨⟨2, 24, 29⟩, ⟨-20, -3, -24⟩⟩, true⟩,
   ⟨⟨⟨34, 23, 28⟩, ⟨2, -21, -23⟩⟩, true⟩,
   ⟨⟨⟨24, 24, 29⟩, ⟨-20, -21, -21⟩⟩, true⟩,
   ⟨⟨⟨6, 24, 29⟩, ⟨-20, -6, -3⟩⟩, true⟩,
   ⟨⟨⟨22, 24, 29⟩, ⟨-20, -8, -13⟩⟩, true⟩,
   ⟨⟨⟨27, 21, 20⟩, ⟨-20, -21, -26⟩⟩, true⟩,
   ⟨⟨⟨34, 24, -1⟩, ⟨-12, 6, -26⟩⟩, true⟩,
   ⟨⟨⟨27, 16, 29⟩, ⟨-18, -21, -7⟩⟩, true⟩,
   ⟨⟨⟨34, 11, 7⟩, ⟨-16, -21, -26⟩⟩, true⟩,
   ⟨⟨⟨-4, 24, 19⟩, ⟨-20, -3, -26⟩⟩, true⟩,
   ⟨⟨⟨31, -7, 14⟩, ⟨18, -20, -3⟩⟩, false⟩,
   ⟨⟨⟨10, 24, 16⟩, ⟨-20, -7, -26⟩⟩, true⟩] : List PowerCuboid) = some 0 := by
  have s11 : sumTails (covGo 17) ([] : List PowerCuboid) = some 0 := rfl
  have s10 : sumTails (covGo 17) ([⟨⟨⟨8, 24, 0⟩, ⟨-20, -6, -26⟩⟩, true⟩] : List PowerCuboid) = some 21840 :=
    sumTails_cons _ _ _ 21840 0 21840 cov_n147 s11 rfl
  have s9 : sumTails (covGo 17) ([⟨⟨⟨-4, 24, 0⟩, ⟨-20, -3, -26⟩⟩, true⟩,
   ⟨⟨⟨8, 24, 0⟩, ⟨-20, -6, -26⟩⟩, true⟩] : List PowerCuboid) = some 21840 :=
    sumTails_cons _ _ _ 0 21840 21840 cov_n146 s10 rfl
  have s8 : sumTails (covGo 17) ([⟨⟨⟨8, 11, 0⟩, ⟨-16, -6, -26⟩⟩, true⟩,
   ⟨⟨⟨-4, 24, 0⟩, ⟨-20, -3, -26⟩⟩, true⟩,
   ⟨⟨⟨8, 24, 0⟩, ⟨-20, -6, -26⟩⟩, true⟩] : List PowerCuboid) = some 21840 :=
    sumTails_cons _ _ _ 0 21840 21840 cov_n145 s9 rfl
  have s7 : sumTails (covGo 17) ([⟨⟨⟨8, 16, 0⟩, ⟨-18, -6, -7⟩⟩, true⟩,
   ⟨⟨⟨8, 11, 0⟩, ⟨-16, -6, -26⟩⟩, true⟩,
   ⟨⟨⟨-4, 24, 0⟩, ⟨-20, -3, -26⟩⟩, true⟩,
   ⟨⟨⟨8, 24, 0⟩, ⟨-20, -6, -26⟩⟩, true⟩] : List PowerCuboid) = some 21840 :=
    sumTails_cons _ _ _ 0 21840 21840 cov_n144 s8 rfl
  have s6 : sumTails (covGo 17) ([⟨⟨⟨8, 24, -1⟩, ⟨-12, 6, -26⟩⟩, true⟩,
   ⟨⟨⟨8, 16, 0⟩, ⟨-18, -6, -7⟩⟩, true⟩,
   ⟨⟨⟨8, 11, 0⟩, ⟨-16, -6, -26⟩⟩, true⟩,
   ⟨⟨⟨-4, 24, 0⟩, ⟨-20, -3, -26⟩⟩, true⟩,
   ⟨⟨⟨8, 24, 0⟩, ⟨-20, -6, -26⟩⟩, true⟩] : List PowerCuboid) = some 21840 :=
    sumTails_cons _ _ _ 0 21840 21840 cov_n143 s7 rfl
  have s5 : sumTails (covGo 17) ([⟨⟨⟨8, 21, 0⟩, ⟨-20, -6, -26⟩⟩, true⟩,
   ⟨⟨⟨8, 24, -1⟩, ⟨-12, 6, -26⟩⟩, true⟩,
   ⟨⟨⟨8, 16, 0⟩, ⟨-18, -6, -7⟩⟩, true⟩,
   ⟨⟨⟨8, 11, 0⟩, ⟨-16, -6, -26⟩⟩, true⟩,
   ⟨⟨⟨-4, 24, 0⟩, ⟨-20, -3, -26⟩⟩, true⟩,
   ⟨⟨⟨8, 24, 0⟩, ⟨-20, -6, -26⟩⟩, true⟩] : List PowerCuboid) = some 21840 :=
    sumTails_cons _ _ _ 0 21840 21840 cov_n142 s6 rfl
  have s4 : sumTails (covGo 17) ([⟨⟨⟨8, 24, 0⟩, ⟨-20, -6, -13⟩⟩, true⟩,
   ⟨⟨⟨8, 21, 0⟩, ⟨-20, -6, -26⟩⟩, true⟩,
   ⟨⟨⟨8, 24, -1⟩, ⟨-12, 6, -26⟩⟩, true⟩,
   ⟨⟨⟨8, 16, 0⟩, ⟨-18, -6, -7⟩⟩, true⟩,
   ⟨⟨⟨8, 11, 0⟩, ⟨-16, -6, -26⟩⟩, true⟩,
   ⟨⟨⟨-4, 24, 0⟩, ⟨-20, -3, -26⟩⟩, true⟩,
   ⟨⟨⟨8, 24, 0⟩, ⟨-20, -6, -26⟩⟩, true⟩] : List PowerCuboid) = some 21840 :=
    sumTails_cons _ _ _ 0 21840 21840 cov_n141 s5 rfl
  have s3 : sumTails (covGo 17) ([⟨⟨⟨6, 24, 0⟩, ⟨-20, -6, -3⟩⟩, true⟩,
   ⟨⟨⟨8, 24, 0⟩, ⟨-20, -6, -13⟩⟩, true⟩,
   ⟨⟨⟨8, 21, 0⟩, ⟨-20, -6, -26⟩⟩, true⟩,
   ⟨⟨⟨8, 24, -1⟩, ⟨-12, 6, -26⟩⟩, true⟩,
   ⟨⟨⟨8, 16, 0⟩, ⟨-18, -6, -7⟩⟩, true⟩,
   ⟨⟨⟨8, 11, 0⟩, ⟨-16, -6, -26⟩⟩, true⟩,
   ⟨⟨⟨-4, 24, 0⟩, ⟨-20, -3, -26⟩⟩, true⟩,
   ⟨⟨⟨8, 24, 0⟩, ⟨-20, -6, -26⟩⟩, true⟩] : List PowerCuboid) = some 21840 :=
    sumTails_cons _ _ _ 0 21840 21840 cov_n140 s4 rfl
  have s2 : sumTails (covGo 17) ([⟨⟨⟨8, 24, 0⟩, ⟨-20, -6, -21⟩⟩, true⟩,
   ⟨⟨⟨6, 24, 0⟩, ⟨-20, -6, -3⟩⟩, true⟩,
   ⟨⟨⟨8, 24, 0⟩, ⟨-20, -6, -13⟩⟩, true⟩,
   ⟨⟨⟨8, 21, 0⟩, ⟨-20, -6, -26⟩⟩, true⟩,
   ⟨⟨⟨8, 24, -1⟩, ⟨-12, 6, -26⟩⟩, true⟩,
   ⟨⟨⟨8, 16, 0⟩, ⟨-18, -6, -7⟩⟩, true⟩,
   ⟨⟨⟨8, 11, 0⟩, ⟨-16, -6, -26⟩⟩, true⟩,
   ⟨⟨⟨-4, 24, 0⟩, ⟨-20, -3, -26⟩⟩, true⟩,
   ⟨⟨⟨8, 24, 0⟩, ⟨-20, -6, -26⟩⟩, true⟩] : List PowerCuboid) = some 21840 :=
    sumTails_cons _ _ _ 0 21840 21840 cov_n139 s3 rfl
  have s1 : sumTails (covGo 17) ([⟨⟨⟨8, 23, 0⟩, ⟨2, -6, -23⟩⟩, true⟩,
   ⟨⟨⟨8, 24, 0⟩, ⟨-20, -6, -21⟩⟩, true⟩,
   ⟨⟨⟨6, 24, 0⟩, ⟨-20, -6, -3⟩⟩, true⟩,
   ⟨⟨⟨8, 24, 0⟩, ⟨-20, -6, -13⟩⟩, true⟩,
   ⟨⟨⟨8, 21, 0⟩, ⟨-20, -6, -26⟩⟩, true⟩,
   ⟨⟨⟨8, 24, -1⟩, ⟨-12, 6, -26⟩⟩, true⟩,
   ⟨⟨⟨8, 16, 0⟩, ⟨-18, -6, -7⟩⟩, true⟩,
   ⟨⟨⟨8, 11, 0⟩, ⟨-16, -6, -26⟩⟩, true⟩,
   ⟨⟨⟨-4, 24, 0⟩, ⟨-20, -3, -26⟩⟩, true⟩,
   ⟨⟨⟨8, 24, 0⟩, ⟨-20, -6, -26⟩⟩, true⟩] : List PowerCuboid) = some 21840 :=
    sumTails_cons _ _ _ 0 21840 21840 cov_n138 s2 rfl
  have s0 : sumTails (covGo 17) ([⟨⟨⟨2, 24, 0⟩, ⟨-20, -3, -24⟩⟩, true⟩,
   ⟨⟨⟨8, 23, 0⟩, ⟨2, -6, -23⟩⟩, true⟩,
   ⟨⟨⟨8, 24, 0⟩, ⟨-20, -6, -21⟩⟩, true⟩,
   ⟨⟨⟨6, 24, 0⟩, ⟨-20, -6, -3⟩⟩, true⟩,
   ⟨⟨⟨8, 24, 0⟩, ⟨-20, -6, -13⟩⟩, true⟩,
   ⟨⟨⟨8, 21, 0⟩, ⟨-20, -6, -26⟩⟩, true⟩,
   ⟨⟨⟨8, 24, -1⟩, ⟨-12, 6, -26⟩⟩, true⟩,
   ⟨⟨⟨8, 16, 0⟩, ⟨-18, -6, -7⟩⟩, true⟩,
   ⟨⟨⟨8, 11, 0⟩, ⟨-16, -6, -26⟩⟩, true⟩,
   ⟨⟨⟨-4, 24, 0⟩, ⟨-20, -3, -26⟩⟩, true⟩,
   ⟨⟨⟨8, 24, 0⟩, ⟨-20, -6, -26⟩⟩, true⟩] : List PowerCuboid) = some 21840 :=
    sumTails_cons _ _ _ 0 21840 21840 cov_n137 s1 rfl
  rw [covGo_succ, ks_n148, s0]
  decide

/-- Leaf evaluation of the embedded recursion (768 nodes). -/
theorem cov_n149 :
    covGo 18 ⟨⟨⟨2, 24, 29⟩, ⟨-20, -3, -24⟩⟩, true⟩
    ([⟨⟨⟨34, 23, 28⟩, ⟨2, -21, -23⟩⟩, true⟩,
   ⟨⟨⟨24, 24, 29⟩, ⟨-20, -21, -21⟩⟩, true⟩,
   ⟨⟨⟨6, 24, 29⟩, ⟨-20, -6, -3⟩⟩, true⟩,
   ⟨⟨⟨22, 24, 29⟩, ⟨-20, -8, -13⟩⟩, true⟩,
   ⟨⟨⟨27, 21, 20⟩, ⟨-20, -21, -26⟩⟩, true⟩,
   ⟨⟨⟨34, 24, -1⟩, ⟨-12, 6, -26⟩⟩, true⟩,
   ⟨⟨⟨27, 16, 29⟩, ⟨-18, -21, -7⟩⟩, true⟩,
   ⟨⟨⟨34, 11, 7⟩, ⟨-16, -21, -26⟩⟩, true⟩,
   ⟨⟨⟨-4, 24, 19⟩, ⟨-20, -3, -26⟩⟩, true⟩,
   ⟨⟨⟨31, -7, 14⟩, ⟨18, -20, -3⟩⟩, false⟩,
   ⟨⟨⟨10, 24, 16⟩, ⟨-20, -7, -26⟩⟩, true⟩] : List PowerCuboid) = some 0 := by decide!

/-- Leaf evaluation of the embedded recursion (288 nodes). -/
theorem cov_n150 :
    covGo 18 ⟨⟨⟨34, 23, 28⟩, ⟨2, -21, -23⟩⟩, true⟩
    ([⟨⟨⟨24, 24, 29⟩, ⟨-20, -21, -21⟩⟩, true⟩,
   ⟨⟨⟨6, 24, 29⟩, ⟨-20, -6, -3⟩⟩, true⟩,
   ⟨⟨⟨22, 24, 29⟩, ⟨-20, -8, -13⟩⟩, true⟩,
   ⟨⟨⟨27, 21, 20⟩, ⟨-20, -21, -26⟩⟩, true⟩,
   ⟨⟨⟨34, 24, -1⟩, ⟨-12, 6, -26⟩⟩, true⟩,
   ⟨⟨⟨27, 16, 29⟩, ⟨-18, -21, -7⟩⟩, true⟩,
   ⟨⟨⟨34, 11, 7⟩, ⟨-16, -21, -26⟩⟩, true⟩,
   ⟨⟨⟨-4, 24, 19⟩, ⟨-20, -3, -26⟩⟩, true⟩,
   ⟨⟨⟨31, -7, 14⟩, ⟨18, -20, -3⟩⟩, false⟩,
   ⟨⟨⟨10, 24, 16⟩, ⟨-20, -7, -26⟩⟩, true⟩] : List PowerCuboid) = some 7070 := by decide!

/-- Leaf evaluation of the embedded recursion (272 nodes). -/
theorem cov_n151 :
    covGo 18 ⟨⟨⟨24, 24, 29⟩, ⟨-20, -21, -21⟩⟩, true⟩
    ([⟨⟨⟨6, 24, 29⟩, ⟨-20, -6, -3⟩⟩, true⟩,
   ⟨⟨⟨22, 24, 29⟩, ⟨-20, -8, -13⟩⟩, true⟩,
   ⟨⟨⟨27, 21, 20⟩, ⟨-20, -21, -26⟩⟩, true⟩,
   ⟨⟨⟨34, 24, -1⟩, ⟨-12, 6, -26⟩⟩, true⟩,
   ⟨⟨⟨27, 16, 29⟩, ⟨-18, -21, -7⟩⟩, true⟩,
   ⟨⟨⟨34, 11, 7⟩, ⟨-16, -21, -26⟩⟩, true⟩,
   ⟨⟨⟨-4, 24, 19⟩, ⟨-20, -3, -26⟩⟩, true⟩,
   ⟨⟨⟨31, -7, 14⟩, ⟨18, -20, -3⟩⟩, false⟩,
   ⟨⟨⟨10, 24, 16⟩, ⟨-20, -7, -26⟩⟩, true⟩] : List PowerCuboid) = some 504 := by decide!

/-- Leaf evaluation of the embedded recursion (128 nodes). -/
theorem cov_n152 :
    covGo 18 ⟨⟨⟨6, 24, 29⟩, ⟨-20, -6, -3⟩⟩, true⟩
    ([⟨⟨⟨22, 24, 29⟩, ⟨-20, -8, -13⟩⟩, true⟩,
   ⟨⟨⟨27, 21, 20⟩, ⟨-20, -21, -26⟩⟩, true⟩,
   ⟨⟨⟨34, 24, -1⟩, ⟨-12, 6, -26⟩⟩, true⟩,
   ⟨⟨⟨27, 16, 29⟩, ⟨-18, -21, -7⟩⟩, true⟩,
   ⟨⟨⟨34, 11, 7⟩, ⟨-16, -21, -26⟩⟩, true⟩,
   ⟨⟨⟨-4, 24, 19⟩, ⟨-20, -3, -26⟩⟩, true⟩,
   ⟨⟨⟨31, -7, 14⟩, ⟨18, -20, -3⟩⟩, false⟩,
   ⟨⟨⟨10, 24, 16⟩, ⟨-20, -7, -26⟩⟩, true⟩] : List PowerCuboid) = some 0 := by decide!

/-- Leaf evaluation of the embedded recursion (72 nodes). -/
theorem cov_n153 :
    covGo 18 ⟨⟨⟨22, 24, 29⟩, ⟨-20, -8, -13⟩⟩, true⟩
    ([⟨⟨⟨27, 21, 20⟩, ⟨-20, -21, -26⟩⟩, true⟩,
   ⟨⟨⟨34, 24, -1⟩, ⟨-12, 6, -26⟩⟩, true⟩,
   ⟨⟨⟨27, 16, 29⟩, ⟨-18, -21, -7⟩⟩, true⟩,
   ⟨⟨⟨34, 11, 7⟩, ⟨-16, -21, -26⟩⟩, true⟩,
   ⟨⟨⟨-4, 24, 19⟩, ⟨-20, -3, -26⟩⟩, true⟩,
   ⟨⟨⟨31, -7, 14⟩, ⟨18, -20, -3⟩⟩, false⟩,
   ⟨⟨⟨10, 24, 16⟩, ⟨-20, -7, -26⟩⟩, true⟩] : List PowerCuboid) = some 4428 := by decide!

/-- Leaf evaluation of the embedded recursion (36 nodes). -/
theorem cov_n154 :
    covGo 18 ⟨⟨⟨27, 21, 20⟩, ⟨-20, -21, -26⟩⟩, true⟩
    ([⟨⟨⟨34, 24, -1⟩, ⟨-12, 6, -26⟩⟩, true⟩,
   ⟨⟨⟨27, 16, 29⟩, ⟨-18, -21, -7⟩⟩, true⟩,
   ⟨⟨⟨34, 11, 7⟩, ⟨-16, -21, -26⟩⟩, true⟩,
   ⟨⟨⟨-4, 24, 19⟩, ⟨-20, -3, -26⟩⟩, true⟩,
   ⟨⟨⟨31, -7, 14⟩, ⟨18, -20, -3⟩⟩, false⟩,
   ⟨⟨⟨10, 24, 16⟩, ⟨-20, -7, -26⟩⟩, true⟩] : List PowerCuboid) = some 4035 := by decide!

/-- Leaf evaluation of the embedded recursion (16 nodes). -/
theorem cov_n155 :
    covGo 18 ⟨⟨⟨34, 24, -1⟩, ⟨-12, 6, -26⟩⟩, true⟩
    ([⟨⟨⟨27, 16, 29⟩, ⟨-18, -21, -7⟩⟩, true⟩,
   ⟨⟨⟨34, 11, 7⟩, ⟨-16, -21, -26⟩⟩, true⟩,
   ⟨⟨⟨-4, 24, 19⟩, ⟨-20, -3, -26⟩⟩, true⟩,
   ⟨⟨⟨31, -7, 14⟩, ⟨18, -20, -3⟩⟩, false⟩,
   ⟨⟨⟨10, 24, 16⟩, ⟨-20, -7, -26⟩⟩, true⟩] : List PowerCuboid) = some 7290 := by decide!

/-- Leaf evaluation of the embedded recursion (10 nodes). -/
theorem cov_n156 :
    covGo 18 ⟨⟨⟨27, 16, 29⟩, ⟨-18, -21, -7⟩⟩, true⟩
    ([⟨⟨⟨34, 11, 7⟩, ⟨-16, -21, -26⟩⟩, true⟩,
   ⟨⟨⟨-4, 24, 19⟩, ⟨-20, -3, -26⟩⟩, true⟩,
   ⟨⟨⟨31, -7, 14⟩, ⟨18, -20, -3⟩⟩, false⟩,
   ⟨⟨⟨10, 24, 16⟩, ⟨-20, -7, -26⟩⟩, true⟩] : List PowerCuboid) = some 30799 := by decide!

/-- Leaf evaluation of the embedded recursion (5 nodes). -/
theorem cov_n157 :
    covGo 18 ⟨⟨⟨34, 11, 7⟩, ⟨-16, -21, -26⟩⟩, true⟩
    ([⟨⟨⟨-4, 24, 19⟩, ⟨-20, -3, -26⟩⟩, true⟩,
   ⟨⟨⟨31, -7, 14⟩, ⟨18, -20, -3⟩⟩, false⟩,
   ⟨⟨⟨10, 24, 16⟩, ⟨-20, -7, -26⟩⟩, true⟩] : List PowerCuboid) = some 35666 := by decide!

/-- Leaf evaluation of the embedded recursion (2 nodes). -/
theorem cov_n158 :
    covGo 18 ⟨⟨⟨-4, 24, 19⟩, ⟨-20, -3, -26⟩⟩, true⟩
    ([⟨⟨⟨31, -7, 14⟩, ⟨18, -20, -3⟩⟩, false⟩,
   ⟨⟨⟨10, 24, 16⟩, ⟨-20, -7, -26⟩⟩, true⟩] : List PowerCuboid) = some 1296 := by decide!

/-- Leaf evaluation of the embedded recursion (1 nodes). -/
theorem cov_n159 :
    covGo 18 ⟨⟨⟨31, -7, 14⟩, ⟨18, -20, -3⟩⟩, false⟩
    ([⟨⟨⟨10, 24, 16⟩, ⟨-20, -7, -26⟩⟩, true⟩] : List PowerCuboid) = some 2873 := by decide!

/-- Leaf evaluation of the embedded recursion (1 nodes). -/
theorem cov_n160 :
    covGo 18 ⟨⟨⟨10, 24, 16⟩, ⟨-20, -7, -26⟩⟩, true⟩
    ([] : List PowerCuboid) = some 39060 := by decide!

/-- The conflict list of the node above, evaluated. -/
theorem ks_n161 :
    List.filterMap (fun c => PowerCuboid.intersect ⟨⟨⟨34, 24, 29⟩, ⟨-20, -21, -26⟩⟩, true⟩ c)
    ([⟨⟨⟨29, 24, 17⟩, ⟨-22, -29, -38⟩⟩, true⟩,
   ⟨⟨⟨8, 47, 0⟩, ⟨-46, -6, -50⟩⟩, true⟩,
   ⟨⟨⟨2, 47, 29⟩, ⟨-49, -3, -24⟩⟩, true⟩,
   ⟨⟨⟨48, 23, 28⟩, ⟨2, -22, -23⟩⟩, true⟩,
   ⟨⟨⟨24, 27, 30⟩, ⟨-27, -28, -21⟩⟩, true⟩,
   ⟨⟨⟨6, 48, 45⟩, ⟨-39, -6, -3⟩⟩, true⟩,
   ⟨⟨⟨22, 44, 35⟩, ⟨-30, -8, -13⟩⟩, true⟩,
   ⟨⟨⟨27, 21, 20⟩, ⟨-22, -27, -29⟩⟩, true⟩,
   ⟨⟨⟨-31, 42, -36⟩, ⟨-48, 26, -47⟩⟩, false⟩,
   ⟨⟨⟨36, 51, -1⟩, ⟨-12, 6, -50⟩⟩, true⟩,
   ⟨⟨⟨-31, -15, -4⟩, ⟨-48, -32, -15⟩⟩, false⟩,
   ⟨⟨⟨27, 16, 47⟩, ⟨-18, -33, -7⟩⟩, true⟩,
   ⟨⟨⟨-21, -27, 42⟩, ⟨-40, -38, 23⟩⟩, false⟩,
   ⟨⟨⟨36, 11, 7⟩, ⟨-16, -41, -47⟩⟩, true⟩,
   ⟨⟨⟨-22, 31, 4⟩, ⟨-32, 11, -14⟩⟩, false⟩,
   ⟨⟨⟨-4, 46, 19⟩, ⟨-49, -3, -29⟩⟩, true⟩,
   ⟨⟨⟨31, -7, 14⟩, ⟨18, -20, -3⟩⟩, false⟩,
   ⟨⟨⟨10, 44, 16⟩, ⟨-41, -7, -33⟩⟩, true⟩] : List PowerCuboid) = ([⟨⟨⟨29, 24, 17⟩, ⟨-20, -21, -26⟩⟩, true⟩,
   ⟨⟨⟨8, 24, 0⟩, ⟨-20, -6, -26⟩⟩, true⟩,
   ⟨⟨⟨2, 24, 29⟩, ⟨-20, -3, -24⟩⟩, true⟩,
   ⟨⟨⟨34, 23, 28⟩, ⟨2, -21, -23⟩⟩, true⟩,
   ⟨⟨⟨24, 24, 29⟩, ⟨-20, -21, -21⟩⟩, true⟩,
   ⟨⟨⟨6, 24, 29⟩, ⟨-20, -6, -3⟩⟩, true⟩,
   ⟨⟨⟨22, 24, 29⟩, ⟨-20, -8, -13⟩⟩, true⟩,
   ⟨⟨⟨27, 21, 20⟩, ⟨-20, -21, -26⟩⟩, true⟩,
   ⟨⟨⟨34, 24, -1⟩, ⟨-12, 6, -26⟩⟩, true⟩,
   ⟨⟨⟨27, 16, 29⟩, ⟨-18, -21, -7⟩⟩, true⟩,
   ⟨⟨⟨34, 11, 7⟩, ⟨-16, -21, -26⟩⟩, true⟩,
   ⟨⟨⟨-4, 24, 19⟩, ⟨-20, -3, -26⟩⟩, true⟩,
   ⟨⟨⟨31, -7, 14⟩, ⟨18, -20, -3⟩⟩, false⟩,
   ⟨⟨⟨10, 24, 16⟩, ⟨-20, -7, -26⟩⟩, true⟩] : List PowerCuboid) := by decide!

/-- Split evaluation of the embedded recursion (6272 nodes in total),
assembled from the conflict list and the net contributions of its
members. -/
theorem cov_n108 :
    covGo 19 ⟨⟨⟨34, 24, 29⟩, ⟨-20, -21, -26⟩⟩, true⟩
    ([⟨⟨⟨29, 24, 17⟩, ⟨-22, -29, -38⟩⟩, true⟩,
   ⟨⟨⟨8, 47, 0⟩, ⟨-46, -6, -50⟩⟩, true⟩,
   ⟨⟨⟨2, 47, 29⟩, ⟨-49, -3, -24⟩⟩, true⟩,
   ⟨⟨⟨48, 23, 28⟩, ⟨2, -22, -23⟩⟩, true⟩,
   ⟨⟨⟨24, 27, 30⟩, ⟨-27, -28, -21⟩⟩, true⟩,
   ⟨⟨⟨6, 48, 45⟩, ⟨-39, -6, -3⟩⟩, true⟩,
   ⟨⟨⟨22, 44, 35⟩, ⟨-30, -8, -13⟩⟩, true⟩,
   ⟨⟨⟨27, 21, 20⟩, ⟨-22, -27, -29⟩⟩, true⟩,
   ⟨⟨⟨-31, 42, -36⟩, ⟨-48, 26, -47⟩⟩, false⟩,
   ⟨⟨⟨36, 51, -1⟩, ⟨-12, 6, -50⟩⟩, true⟩,
   ⟨⟨⟨-31, -15, -4⟩, ⟨-48, -32, -15⟩⟩, false⟩,
   ⟨⟨⟨27, 16, 47⟩, ⟨-18, -33, -7⟩⟩, true⟩,
   ⟨⟨⟨-21, -27, 42⟩, ⟨-40, -38, 23⟩⟩, false⟩,
   ⟨⟨⟨36, 11, 7⟩, ⟨-16, -41, -47⟩⟩, true⟩,
   ⟨⟨⟨-22, 31, 4⟩, ⟨-32, 11, -14⟩⟩, false⟩,
   ⟨⟨⟨-4, 46, 19⟩, ⟨-49, -3, -29⟩⟩, true⟩,
   ⟨⟨⟨31, -7, 14⟩, ⟨18, -20, -3⟩⟩, false⟩,
   ⟨⟨⟨10, 44, 16⟩, ⟨-41, -7, -33⟩⟩, true⟩] : List PowerCuboid) = some 539 := by
  have s14 : sumTails (covGo 18) ([] : List PowerCuboid) = some 0 := rfl
  have s13 : sumTails (covGo 18) ([⟨⟨⟨10, 24, 16⟩, ⟨-20, -7, -26⟩⟩, true⟩] : List PowerCuboid) = some 39060 :=
    sumTails_cons _ _ _ 39060 0 39060 cov_n160 s14 rfl
  have s12 : sumTails (covGo 18) ([⟨⟨⟨31, -7, 14⟩, ⟨18, -20, -3⟩⟩, false⟩,
   ⟨⟨⟨10, 24, 16⟩, ⟨-20, -7, -26⟩⟩, true⟩] : List PowerCuboid) = some 41933 :=
    sumTails_cons _ _ _ 2873 39060 41933 cov_n159 s13 rfl
  have s11 : sumTails (covGo 18) ([⟨⟨⟨-4, 24, 19⟩, ⟨-20, -3, -26⟩⟩, true⟩,
   ⟨⟨⟨31, -7, 14⟩, ⟨18, -20, -3⟩⟩, false⟩,
   ⟨⟨⟨10, 24, 16⟩, ⟨-20, -7, -26⟩⟩, true⟩] : List PowerCuboid) = some 43229 :=
    sumTails_cons _ _ _ 1296 41933 43229 cov_n158 s12 rfl
  have s10 : sumTails (covGo 18) ([⟨⟨⟨34, 11, 7⟩, ⟨-16, -21, -26⟩⟩, true⟩,
   ⟨⟨⟨-4, 24, 19⟩, ⟨-20, -3, -26⟩⟩, true⟩,
   ⟨⟨⟨31, -7, 14⟩, ⟨18, -20, -3⟩⟩, false⟩,
   ⟨⟨⟨10, 24, 16⟩, ⟨-20, -7, -26⟩⟩, true⟩] : List PowerCuboid) = some 78895 :=
    sumTails_cons _ _ _ 35666 43229 78895 cov_n157 s11 rfl
  have s9 : sumTails (covGo 18) ([⟨⟨⟨27, 16, 29⟩, ⟨-18, -21, -7⟩⟩, true⟩,
   ⟨⟨⟨34, 11, 7⟩, ⟨-16, -21, -26⟩⟩, true⟩,
   ⟨⟨⟨-4, 24, 19⟩, ⟨-20, -3, -26⟩⟩, true⟩,
   ⟨⟨⟨31, -7, 14⟩, ⟨18, -20, -3⟩⟩, false⟩,
   ⟨⟨⟨10, 24, 16⟩, ⟨-20, -7, -26⟩⟩, true⟩] : List PowerCuboid) = some 109694 :=
    sumTails_cons _ _ _ 30799 78895 109694 cov_n156 s10 rfl
  have s8 : sumTails (covGo 18) ([⟨⟨⟨34, 24, -1⟩, ⟨-12, 6, -26⟩⟩, true⟩,
   ⟨⟨⟨27, 16, 29⟩, ⟨-18, -21, -7⟩⟩, true⟩,
   ⟨⟨⟨34, 11, 7⟩, ⟨-16, -21, -26⟩⟩, true⟩,
   ⟨⟨⟨-4, 24, 19⟩, ⟨-20, -3, -26⟩⟩, true⟩,
   ⟨⟨⟨31, -7, 14⟩, ⟨18, -20, -3⟩⟩, false⟩,
   ⟨⟨⟨10, 24, 16⟩, ⟨-20, -7, -26⟩⟩, true⟩] : List PowerCuboid) = some 116984 :=
    sumTails_cons _ _ _ 7290 109694 116984 cov_n155 s9 rfl
  have s7 : sumTails (covGo 18) ([⟨⟨⟨27, 21, 20⟩, ⟨-20, -21, -26⟩⟩, true⟩,
   ⟨⟨⟨34, 24, -1⟩, ⟨-12, 6, -26⟩⟩, true⟩,
   ⟨⟨⟨27, 16, 29⟩, ⟨-18, -21, -7⟩⟩, true⟩,
   ⟨⟨⟨34, 11, 7⟩, ⟨-16, -21, -26⟩⟩, true⟩,
   ⟨⟨⟨-4, 24, 19⟩, ⟨-20, -3, -26⟩⟩, true⟩,
   ⟨⟨⟨31, -7, 14⟩, ⟨18, -20, -3⟩⟩, false⟩,
   ⟨⟨⟨10, 24, 16⟩, ⟨-20, -7, -26⟩⟩, true⟩] : List PowerCuboid) = some 121019 :=
    sumTails_cons _ _ _ 4035 116984 121019 cov_n154 s8 rfl
  have s6 : sumTails (covGo 18) ([⟨⟨⟨22, 24, 29⟩, ⟨-20, -8, -13⟩⟩, true⟩,
   ⟨⟨⟨27, 21, 20⟩, ⟨-20, -21, -26⟩⟩, true⟩,
   ⟨⟨⟨34, 24, -1⟩, ⟨-12, 6, -26⟩⟩, true⟩,
   ⟨⟨⟨27, 16, 29⟩, ⟨-18, -21, -7⟩⟩, true⟩,
   ⟨⟨⟨34, 11, 7⟩, ⟨-16, -21, -26⟩⟩, true⟩,
   ⟨⟨⟨-4, 24, 19⟩, ⟨-20, -3, -26⟩⟩, true⟩,
   ⟨⟨⟨31, -7, 14⟩, ⟨18, -20, -3⟩⟩, false⟩,
   ⟨⟨⟨10, 24, 16⟩, ⟨-20, -7, -26⟩⟩, true⟩] : List PowerCuboid) = some 125447 :=
    sumTails_cons _ _ _ 4428 121019 125447 cov_n153 s7 rfl
  have s5 : sumTails (covGo 18) ([⟨⟨⟨6, 24, 29⟩, ⟨-20, -6, -3⟩⟩, true⟩,
   ⟨⟨⟨22, 24, 29⟩, ⟨-20, -8, -13⟩⟩, true⟩,
   ⟨⟨⟨27, 21, 20⟩, ⟨-20, -21, -26⟩⟩, true⟩,
   ⟨⟨⟨34, 24, -1⟩, ⟨-12, 6, -26⟩⟩, true⟩,
   ⟨⟨⟨27, 16, 29⟩, ⟨-18, -21, -7⟩⟩, true⟩,
   ⟨⟨⟨34, 11, 7⟩, ⟨-16, -21, -26⟩⟩, true⟩,
   ⟨⟨⟨-4, 24, 19⟩, ⟨-20, -3, -26⟩⟩, true⟩,
   ⟨⟨⟨31, -7, 14⟩, ⟨18, -20, -3⟩⟩, false⟩,
   ⟨⟨⟨10, 24, 16⟩, ⟨-20, -7, -26⟩⟩, true⟩] : List PowerCuboid) = some 125447 :=
    sumTails_cons _ _ _ 0 125447 125447 cov_n152 s6 rfl
  have s4 : sumTails (covGo 18) ([⟨⟨⟨24, 24, 29⟩, ⟨-20, -21, -21⟩⟩, true⟩,
   ⟨⟨⟨6, 24, 29⟩, ⟨-20, -6, -3⟩⟩, true⟩,
   ⟨⟨⟨22, 24, 29⟩, ⟨-20, -8, -13⟩⟩, true⟩,
   ⟨⟨⟨27, 21, 20⟩, ⟨-20, -21, -26⟩⟩, true⟩,
   ⟨⟨⟨34, 24, -1⟩, ⟨-12, 6, -26⟩⟩, true⟩,
   ⟨⟨⟨27, 16, 29⟩, ⟨-18, -21, -7⟩⟩, true⟩,
   ⟨⟨⟨34, 11, 7⟩, ⟨-16, -21, -26⟩⟩, true⟩,
   ⟨⟨⟨-4, 24, 19⟩, ⟨-20, -3, -26⟩⟩, true⟩,
   ⟨⟨⟨31, -7, 14⟩, ⟨18, -20, -3⟩⟩, false⟩,
   ⟨⟨⟨10, 24, 16⟩, ⟨-20, -7, -26⟩⟩, true⟩] : List PowerCuboid) = some 125951 :=
    sumTails_cons _ _ _ 504 125447 125951 cov_n151 s5 rfl
  have s3 : sumTails (covGo 18) ([⟨⟨⟨34, 23, 28⟩, ⟨2, -21, -23⟩⟩, true⟩,
   ⟨⟨⟨24, 24, 29⟩, ⟨-20, -21, -21⟩⟩, true⟩,
   ⟨⟨⟨6, 24, 29⟩, ⟨-20, -6, -3⟩⟩, true⟩,
   ⟨⟨⟨22, 24, 29⟩, ⟨-20, -8, -13⟩⟩, true⟩,
   ⟨⟨⟨27, 21, 20⟩, ⟨-20, -21, -26⟩⟩, true⟩,
   ⟨⟨⟨34, 24, -1⟩, ⟨-12, 6, -26⟩⟩, true⟩,
   ⟨⟨⟨27, 16, 29⟩, ⟨-18, -21, -7⟩⟩, true⟩,
   ⟨⟨⟨34, 11, 7⟩, ⟨-16, -21, -26⟩⟩, true⟩,
   ⟨⟨⟨-4, 24, 19⟩, ⟨-20, -3, -26⟩⟩, true⟩,
   ⟨⟨⟨31, -7, 14⟩, ⟨18, -20, -3⟩⟩, false⟩,
   ⟨⟨⟨10, 24, 16⟩, ⟨-20, -7, -26⟩⟩, true⟩] : List PowerCuboid) = some 133021 :=
    sumTails_cons _ _ _ 7070 125951 133021 cov_n150 s4 rfl
  have s2 : sumTails (covGo 18) ([⟨⟨⟨2, 24, 29⟩, ⟨-20, -3, -24⟩⟩, true⟩,
   ⟨⟨⟨34, 23, 28⟩, ⟨2, -21, -23⟩⟩, true⟩,
   ⟨⟨⟨24, 24, 29⟩, ⟨-20, -21, -21⟩⟩, true⟩,
   ⟨⟨⟨6, 24, 29⟩, ⟨-20, -6, -3⟩⟩, true⟩,
   ⟨⟨⟨22, 24, 29⟩, ⟨-20, -8, -13⟩⟩, true⟩,
   ⟨⟨⟨27, 21, 20⟩, ⟨-20, -21, -26⟩⟩, true⟩,
   ⟨⟨⟨34, 24, -1⟩, ⟨-12, 6, -26⟩⟩, true⟩,
   ⟨⟨⟨27, 16, 29⟩, ⟨-18, -21, -7⟩⟩, true⟩,
   ⟨⟨⟨34, 11, 7⟩, ⟨-16, -21, -26⟩⟩, true⟩,
   ⟨⟨⟨-4, 24, 19⟩, ⟨-20, -3, -26⟩⟩, true⟩,
   ⟨⟨⟨31, -7, 14⟩, ⟨18, -20, -3⟩⟩, false⟩,
   ⟨⟨⟨10, 24, 16⟩, ⟨-20, -7, -26⟩⟩, true⟩] : List PowerCuboid) = some 133021 :=
    sumTails_cons _ _ _ 0 133021 133021 cov_n149 s3 rfl
  have s1 : sumTails (covGo 18) ([⟨⟨⟨8, 24, 0⟩, ⟨-20, -6, -26⟩⟩, true⟩,
   ⟨⟨⟨2, 24, 29⟩, ⟨-20, -3, -24⟩⟩, true⟩,
   ⟨⟨⟨34, 23, 28⟩, ⟨2, -21, -23⟩⟩, true⟩,
   ⟨⟨⟨24, 24, 29⟩, ⟨-20, -21, -21⟩⟩, true⟩,
   ⟨⟨⟨6, 24, 29⟩, ⟨-20, -6, -3⟩⟩, true⟩,
   ⟨⟨⟨22, 24, 29⟩, ⟨-20, -8, -13⟩⟩, true⟩,
   ⟨⟨⟨27, 21, 20⟩, ⟨-20, -21, -26⟩⟩, true⟩,
   ⟨⟨⟨34, 24, -1⟩, ⟨-12, 6, -26⟩⟩, true⟩,
   ⟨⟨⟨27, 16, 29⟩, ⟨-18, -21, -7⟩⟩, true⟩,
   ⟨⟨⟨34, 11, 7⟩, ⟨-16, -21, -26⟩⟩, true⟩,
   ⟨⟨⟨-4, 24, 19⟩, ⟨-20, -3, -26⟩⟩, true⟩,
   ⟨⟨⟨31, -7, 14⟩, ⟨18, -20, -3⟩⟩, false⟩,
   ⟨⟨⟨10, 24, 16⟩, ⟨-20, -7, -26⟩⟩, true⟩] : List PowerCuboid) = some 133021 :=
    sumTails_cons _ _ _ 0 133021 133021 cov_n136 s2 rfl
  have s0 : sumTails (covGo 18) ([⟨⟨⟨29, 24, 17⟩, ⟨-20, -21, -26⟩⟩, true⟩,
   ⟨⟨⟨8, 24, 0⟩, ⟨-20, -6, -26⟩⟩, true⟩,
   ⟨⟨⟨2, 24, 29⟩, ⟨-20, -3, -24⟩⟩, true⟩,
   ⟨⟨⟨34, 23, 28⟩, ⟨2, -21, -23⟩⟩, true⟩,
   ⟨⟨⟨24, 24, 29⟩, ⟨-20, -21, -21⟩⟩, true⟩,
   ⟨⟨⟨6, 24, 29⟩, ⟨-20, -6, -3⟩⟩, true⟩,
   ⟨⟨⟨22, 24, 29⟩, ⟨-20, -8, -13⟩⟩, true⟩,
   ⟨⟨⟨27, 21, 20⟩, ⟨-20, -21, -26⟩⟩, true⟩,
   ⟨⟨⟨34, 24, -1⟩, ⟨-12, 6, -26⟩⟩, true⟩,
   ⟨⟨⟨27, 16, 29⟩, ⟨-18, -21, -7⟩⟩, true⟩,
   ⟨⟨⟨34, 11, 7⟩, ⟨-16, -21, -26⟩⟩, true⟩,
   ⟨⟨⟨-4, 24, 19⟩, ⟨-20, -3, -26⟩⟩, true⟩,
   ⟨⟨⟨31, -7, 14⟩, ⟨18, -20, -3⟩⟩, false⟩,
   ⟨⟨⟨10, 24, 16⟩, ⟨-20, -7, -26⟩⟩, true⟩] : List PowerCuboid) = some 133111 :=
    sumTails_cons _ _ _ 90 133021 133111 cov_n109 s1 rfl
  rw [covGo_succ, ks_n161, s0]
  decide

/-- Net contribution of instruction 1 of the filtered reference
input against its suffix. -/
theorem instr_n1 :
    computeOnVolume ⟨⟨⟨34, 24, 29⟩, ⟨-20, -21, -26⟩⟩, true⟩
    ([⟨⟨⟨29, 24, 17⟩, ⟨-22, -29, -38⟩⟩, true⟩,
   ⟨⟨⟨8, 47, 0⟩, ⟨-46, -6, -50⟩⟩, true⟩,
   ⟨⟨⟨2, 47, 29⟩, ⟨-49, -3, -24⟩⟩, true⟩,
   ⟨⟨⟨48, 23, 28⟩, ⟨2, -22, -23⟩⟩, true⟩,
   ⟨⟨⟨24, 27, 30⟩, ⟨-27, -28, -21⟩⟩, true⟩,
   ⟨⟨⟨6, 48, 45⟩, ⟨-39, -6, -3⟩⟩, true⟩,
   ⟨⟨⟨22, 44, 35⟩, ⟨-30, -8, -13⟩⟩, true⟩,
   ⟨⟨⟨27, 21, 20⟩, ⟨-22, -27, -29⟩⟩, true⟩,
   ⟨⟨⟨-31, 42, -36⟩, ⟨-48, 26, -47⟩⟩, false⟩,
   ⟨⟨⟨36, 51, -1⟩, ⟨-12, 6, -50⟩⟩, true⟩,
   ⟨⟨⟨-31, -15, -4⟩, ⟨-48, -32, -15⟩⟩, false⟩,
   ⟨⟨⟨27, 16, 47⟩, ⟨-18, -33, -7⟩⟩, true⟩,
   ⟨⟨⟨-21, -27, 42⟩, ⟨-40, -38, 23⟩⟩, false⟩,
   ⟨⟨⟨36, 11, 7⟩, ⟨-16, -41, -47⟩⟩, true⟩,
   ⟨⟨⟨-22, 31, 4⟩, ⟨-32, 11, -14⟩⟩, false⟩,
   ⟨⟨⟨-4, 46, 19⟩, ⟨-49, -3, -29⟩⟩, true⟩,
   ⟨⟨⟨31, -7, 14⟩, ⟨18, -20, -3⟩⟩, false⟩,
   ⟨⟨⟨10, 44, 16⟩, ⟨-41, -7, -33⟩⟩, true⟩] : List PowerCuboid) = some 539 := by
  show covGo 19 ⟨⟨⟨34, 24, 29⟩, ⟨-20, -21, -26⟩⟩, true⟩
    ([⟨⟨⟨29, 24, 17⟩, ⟨-22, -29, -38⟩⟩, true⟩,
   ⟨⟨⟨8, 47, 0⟩, ⟨-46, -6, -50⟩⟩, true⟩,
   ⟨⟨⟨2, 47, 29⟩, ⟨-49, -3, -24⟩⟩, true⟩,
   ⟨⟨⟨48, 23, 28⟩, ⟨2, -22, -23⟩⟩, true⟩,
   ⟨⟨⟨24, 27, 30⟩, ⟨-27, -28, -21⟩⟩, true⟩,
   ⟨⟨⟨6, 48, 45⟩, ⟨-39, -6, -3⟩⟩, true⟩,
   ⟨⟨⟨22, 44, 35⟩, ⟨-30, -8, -13⟩⟩, true⟩,
   ⟨⟨⟨27, 21, 20⟩, ⟨-22, -27, -29⟩⟩, true⟩,
   ⟨⟨⟨-31, 42, -36⟩, ⟨-48, 26, -47⟩⟩, false⟩,
   ⟨⟨⟨36, 51, -1⟩, ⟨-12, 6, -50⟩⟩, true⟩,
   ⟨⟨⟨-31, -15, -4⟩, ⟨-48, -32, -15⟩⟩, false⟩,
   ⟨⟨⟨27, 16, 47⟩, ⟨-18, -33, -7⟩⟩, true⟩,
   ⟨⟨⟨-21, -27, 42⟩, ⟨-40, -38, 23⟩⟩, false⟩,
   ⟨⟨⟨36, 11, 7⟩, ⟨-16, -41, -47⟩⟩, true⟩,
   ⟨⟨⟨-22, 31, 4⟩, ⟨-32, 11, -14⟩⟩, false⟩,
   ⟨⟨⟨-4, 46, 19⟩, ⟨-49, -3, -29⟩⟩, true⟩,
   ⟨⟨⟨31, -7, 14⟩, ⟨18, -20, -3⟩⟩, false⟩,
   ⟨⟨⟨10, 44, 16⟩, ⟨-41, -7, -33⟩⟩, true⟩] : List PowerCuboid) = some 539
  exact cov_n108

/-- Leaf evaluation of the embedded recursion (832 nodes). -/
theorem cov_n164 :
    covGo 16 ⟨⟨⟨2, 24, 0⟩, ⟨-22, -3, -24⟩⟩, true⟩
    ([⟨⟨⟨8, 23, 0⟩, ⟨2, -6, -23⟩⟩, true⟩,
   ⟨⟨⟨8, 24, 0⟩, ⟨-22, -6, -21⟩⟩, true⟩,
   ⟨⟨⟨6, 24, 0⟩, ⟨-22, -6, -3⟩⟩, true⟩,
   ⟨⟨⟨8, 24, 0⟩, ⟨-22, -6, -13⟩⟩, true⟩,
   ⟨⟨⟨8, 21, 0⟩, ⟨-22, -6, -29⟩⟩, true⟩,
   ⟨⟨⟨8, 24, -1⟩, ⟨-12, 6, -38⟩⟩, true⟩,
   ⟨⟨⟨8, 16, 0⟩, ⟨-18, -6, -7⟩⟩, true⟩,
   ⟨⟨⟨8, 11, 0⟩, ⟨-16, -6, -38⟩⟩, true⟩,
   ⟨⟨⟨-22, 24, 0⟩, ⟨-22, 11, -14⟩⟩, false⟩,
   ⟨⟨⟨-4, 24, 0⟩, ⟨-22, -3, -29⟩⟩, true⟩,
   ⟨⟨⟨8, 24, 0⟩, ⟨-22, -6, -33⟩⟩, true⟩] : List PowerCuboid) = some 0 := by decide!

/-- Leaf evaluation of the embedded recursion (256 nodes). -/
theorem cov_n165 :
    covGo 16 ⟨⟨⟨8, 23, 0⟩, ⟨2, -6, -23⟩⟩, true⟩
    ([⟨⟨⟨8, 24, 0⟩, ⟨-22, -6, -21⟩⟩, true⟩,
   ⟨⟨⟨6, 24, 0⟩, ⟨-22, -6, -3⟩⟩, true⟩,
   ⟨⟨⟨8, 24, 0⟩, ⟨-22, -6, -13⟩⟩, true⟩,
   ⟨⟨⟨8, 21, 0⟩, ⟨-22, -6, -29⟩⟩, true⟩,
   ⟨⟨⟨8, 24, -1⟩, ⟨-12, 6, -38⟩⟩, true⟩,
   ⟨⟨⟨8, 16, 0⟩, ⟨-18, -6, -7⟩⟩, true⟩,
   ⟨⟨⟨8, 11, 0⟩, ⟨-16, -6, -38⟩⟩, true⟩,
   ⟨⟨⟨-22, 24, 0⟩, ⟨-22, 11, -14⟩⟩, false⟩,
   ⟨⟨⟨-4, 24, 0⟩, ⟨-22, -3, -29⟩⟩, true⟩,
   ⟨⟨⟨8, 24, 0⟩, ⟨-22, -6, -33⟩⟩, true⟩] : List PowerCuboid) = some 0 := by decide!

/-- Leaf evaluation of the embedded recursion (288 nodes). -/
theorem cov_n166 :
    covGo 16 ⟨⟨⟨8, 24, 0⟩, ⟨-22, -6, -21⟩⟩, true⟩
    ([⟨⟨⟨6, 24, 0⟩, ⟨-22, -6, -3⟩⟩, true⟩,
   ⟨⟨⟨8, 24, 0⟩, ⟨-22, -6, -13⟩⟩, true⟩,
   ⟨⟨⟨8, 21, 0⟩, ⟨-22, -6, -29⟩⟩, true⟩,
   ⟨⟨⟨8, 24, -1⟩, ⟨-12, 6, -38⟩⟩, true⟩,
   ⟨⟨⟨8, 16, 0⟩, ⟨-18, -6, -7⟩⟩, true⟩,
   ⟨⟨⟨8, 11, 0⟩, ⟨-16, -6, -38⟩⟩, true⟩,
   ⟨⟨⟨-22, 24, 0⟩, ⟨-22, 11, -14⟩⟩, false⟩,
   ⟨⟨⟨-4, 24, 0⟩, ⟨-22, -3, -29⟩⟩, true⟩,
   ⟨⟨⟨8, 24, 0⟩, ⟨-22, -6, -33⟩⟩, true⟩] : List PowerCuboid) = some 0 := by decide!

/-- Leaf evaluation of the embedded recursion (144 nodes). -/
theorem cov_n167 :
    covGo 16 ⟨⟨⟨6, 24, 0⟩, ⟨-22, -6, -3⟩⟩, true⟩
    ([⟨⟨⟨8, 24, 0⟩, ⟨-22, -6, -13⟩⟩, true⟩,
   ⟨⟨⟨8, 21, 0⟩, ⟨-22, -6, -29⟩⟩, true⟩,
   ⟨⟨⟨8, 24, -1⟩, ⟨-12, 6, -38⟩⟩, true⟩,
   ⟨⟨⟨8, 16, 0⟩, ⟨-18, -6, -7⟩⟩, true⟩,
   ⟨⟨⟨8, 11, 0⟩, ⟨-16, -6, -38⟩⟩, true⟩,
   ⟨⟨⟨-22, 24, 0⟩, ⟨-22, 11, -14⟩⟩, false⟩,
   ⟨⟨⟨-4, 24, 0⟩, ⟨-22, -3, -29⟩⟩, true⟩,
   ⟨⟨⟨8, 24, 0⟩, ⟨-22, -6, -33⟩⟩, true⟩] : List PowerCuboid) = some 0 := by decide!

/-- Leaf evaluation of the embedded recursion (72 nodes). -/
theorem cov_n168 :
    covGo 16 ⟨⟨⟨8, 24, 0⟩, ⟨-22, -6, -13⟩⟩, true⟩
    ([⟨⟨⟨8, 21, 0⟩, ⟨-22, -6, -29⟩⟩, true⟩,
   ⟨⟨⟨8, 24, -1⟩, ⟨-12, 6, -38⟩⟩, true⟩,
   ⟨⟨⟨8, 16, 0⟩, ⟨-18, -6, -7⟩⟩, true⟩,
   ⟨⟨⟨8, 11, 0⟩, ⟨-16, -6, -38⟩⟩, true⟩,
   ⟨⟨⟨-22, 24, 0⟩, ⟨-22, 11, -14⟩⟩, false⟩,
   ⟨⟨⟨-4, 24, 0⟩, ⟨-22, -3, -29⟩⟩, true⟩,
   ⟨⟨⟨8, 24, 0⟩, ⟨-22, -6, -33⟩⟩, true⟩] : List PowerCuboid) = some 0 := by decide!

/-- Leaf evaluation of the embedded recursion (36 nodes). -/
theorem cov_n169 :
    covGo 16 ⟨⟨⟨8, 21, 0⟩, ⟨-22, -6, -29⟩⟩, true⟩
    ([⟨⟨⟨8, 24, -1⟩, ⟨-12, 6, -38⟩⟩, true⟩,
   ⟨⟨⟨8, 16, 0⟩, ⟨-18, -6, -7⟩⟩, true⟩,
   ⟨⟨⟨8, 11, 0⟩, ⟨-16, -6, -38⟩⟩, true⟩,
   ⟨⟨⟨-22, 24, 0⟩, ⟨-22, 11, -14⟩⟩, false⟩,
   ⟨⟨⟨-4, 24, 0⟩, ⟨-22, -3, -29⟩⟩, true⟩,
   ⟨⟨⟨8, 24, 0⟩, ⟨-22, -6, -33⟩⟩, true⟩] : List PowerCuboid) = some 0 := by decide!

/-- Leaf evaluation of the embedded recursion (16 nodes). -/
theorem cov_n170 :
    covGo 16 ⟨⟨⟨8, 24, -1⟩, ⟨-12, 6, -38⟩⟩, true⟩
    ([⟨⟨⟨8, 16, 0⟩, ⟨-18, -6, -7⟩⟩, true⟩,
   ⟨⟨⟨8, 11, 0⟩, ⟨-16, -6, -38⟩⟩, true⟩,
   ⟨⟨⟨-22, 24, 0⟩, ⟨-22, 11, -14⟩⟩, false⟩,
   ⟨⟨⟨-4, 24, 0⟩, ⟨-22, -3, -29⟩⟩, true⟩,
   ⟨⟨⟨8, 24, 0⟩, ⟨-22, -6, -33⟩⟩, true⟩] : List PowerCuboid) = some 1300 := by decide!

/-- Leaf evaluation of the embedded recursion (8 nodes). -/
theorem cov_n171 :
    covGo 16 ⟨⟨⟨8, 16, 0⟩, ⟨-18, -6, -7⟩⟩, true⟩
    ([⟨⟨⟨8, 11, 0⟩, ⟨-16, -6, -38⟩⟩, true⟩,
   ⟨⟨⟨-22, 24, 0⟩, ⟨-22, 11, -14⟩⟩, false⟩,
   ⟨⟨⟨-4, 24, 0⟩, ⟨-22, -3, -29⟩⟩, true⟩,
   ⟨⟨⟨8, 24, 0⟩, ⟨-22, -6, -33⟩⟩, true⟩] : List PowerCuboid) = some 0 := by decide!

/-- Leaf evaluation of the embedded recursion (4 nodes). -/
theorem cov_n172 :
    covGo 16 ⟨⟨⟨8, 11, 0⟩, ⟨-16, -6, -38⟩⟩, true⟩
    ([⟨⟨⟨-22, 24, 0⟩, ⟨-22, 11, -14⟩⟩, false⟩,
   ⟨⟨⟨-4, 24, 0⟩, ⟨-22, -3, -29⟩⟩, true⟩,
   ⟨⟨⟨8, 24, 0⟩, ⟨-22, -6, -33⟩⟩, true⟩] : List PowerCuboid) = some 2040 := by decide!

/-- Leaf evaluation of the embedded recursion (4 nodes). -/
theorem cov_n173 :
    covGo 16 ⟨⟨⟨-22, 24, 0⟩, ⟨-22, 11, -14⟩⟩, false⟩
    ([⟨⟨⟨-4, 24, 0⟩, ⟨-22, -3, -29⟩⟩, true⟩,
   ⟨⟨⟨8, 24, 0⟩, ⟨-22, -6, -33⟩⟩, true⟩] : List PowerCuboid) = some 0 := by decide!

/-- Leaf evaluation of the embedded recursion (2 nodes). -/
theorem cov_n174 :
    covGo 16 ⟨⟨⟨-4, 24, 0⟩, ⟨-22, -3, -29⟩⟩, true⟩
    ([⟨⟨⟨8, 24, 0⟩, ⟨-22, -6, -33⟩⟩, true⟩] : List PowerCuboid) = some 0 := by decide!

/-- Leaf evaluation of the embedded recursion (1 nodes). -/
theorem cov_n175 :
    covGo 16 ⟨⟨⟨8, 24, 0⟩, ⟨-22, -6, -33⟩⟩, true⟩
    ([] : List PowerCuboid) = some 29700 := by decide!

/-- The conflict list of the node above, evaluated. -/
theorem ks_n176 :
    List.filterMap (fun c => PowerCuboid.intersect ⟨⟨⟨8, 24, 0⟩, ⟨-22, -6, -38⟩⟩, true⟩ c)
    ([⟨⟨⟨2, 24, 17⟩, ⟨-22, -3, -24⟩⟩, true⟩,
   ⟨⟨⟨29, 23, 17⟩, ⟨2, -22, -23⟩⟩, true⟩,
   ⟨⟨⟨24, 24, 17⟩, ⟨-22, -28, -21⟩⟩, true⟩,
   ⟨⟨⟨6, 24, 17⟩, ⟨-22, -6, -3⟩⟩, true⟩,
   ⟨⟨⟨22, 24, 17⟩, ⟨-22, -8, -13⟩⟩, true⟩,
   ⟨⟨⟨27, 21, 17⟩, ⟨-22, -27, -29⟩⟩, true⟩,
   ⟨⟨⟨29, 24, -1⟩, ⟨-12, 6, -38⟩⟩, true⟩,
   ⟨⟨⟨27, 16, 17⟩, ⟨-18, -29, -7⟩⟩, true⟩,
   ⟨⟨⟨29, 11, 7⟩, ⟨-16, -29, -38⟩⟩, true⟩,
   ⟨⟨⟨-22, 24, 4⟩, ⟨-22, 11, -14⟩⟩, false⟩,
   ⟨⟨⟨-4, 24, 17⟩, ⟨-22, -3, -29⟩⟩, true⟩,
   ⟨⟨⟨29, -7, 14⟩, ⟨18, -20, -3⟩⟩, false⟩,
   ⟨⟨⟨10, 24, 16⟩, ⟨-22, -7, -33⟩⟩, true⟩] : List PowerCuboid) = ([⟨⟨⟨2, 24, 0⟩, ⟨-22, -3, -24⟩⟩, true⟩,
   ⟨⟨⟨8, 23, 0⟩, ⟨2, -6, -23⟩⟩, true⟩,
   ⟨⟨⟨8, 24, 0⟩, ⟨-22, -6, -21⟩⟩, true⟩,
   ⟨⟨⟨6, 24, 0⟩, ⟨-22, -6, -3⟩⟩, true⟩,
   ⟨⟨⟨8, 24, 0⟩, ⟨-22, -6, -13⟩⟩, true⟩,
   ⟨⟨⟨8, 21, 0⟩, ⟨-22, -6, -29⟩⟩, true⟩,
   ⟨⟨⟨8, 24, -1⟩, ⟨-12, 6, -38⟩⟩, true⟩,
   ⟨⟨⟨8, 16, 0⟩, ⟨-18, -6, -7⟩⟩, true⟩,
   ⟨⟨⟨8, 11, 0⟩, ⟨-16, -6, -38⟩⟩, true⟩,
   ⟨⟨⟨-22, 24, 0⟩, ⟨-22, 11, -14⟩⟩, false⟩,
   ⟨⟨⟨-4, 24, 0⟩, ⟨-22, -3, -29⟩⟩, true⟩,
   ⟨⟨⟨8, 24, 0⟩, ⟨-22, -6, -33⟩⟩, true⟩] : List PowerCuboid) := by decide!

/-- Split evaluation of the embedded recursion (1664 nodes in total),
assembled from the conflict list and the net contributions of its
members. -/
theorem cov_n163 :
    covGo 17 ⟨⟨⟨8, 24, 0⟩, ⟨-22, -6, -38⟩⟩, true⟩
    ([⟨⟨⟨2, 24, 17⟩, ⟨-22, -3, -24⟩⟩, true⟩,
   ⟨⟨⟨29, 23, 17⟩, ⟨2, -22, -23⟩⟩, true⟩,
   ⟨⟨⟨24, 24, 17⟩, ⟨-22, -28, -21⟩⟩, true⟩,
   ⟨⟨⟨6, 24, 17⟩, ⟨-22, -6, -3⟩⟩, true⟩,
   ⟨⟨⟨22, 24, 17⟩, ⟨-22, -8, -13⟩⟩, true⟩,
   ⟨⟨⟨27, 21, 17⟩, ⟨-22, -27, -29⟩⟩, true⟩,
   ⟨⟨⟨29, 24, -1⟩, ⟨-12, 6, -38⟩⟩, true⟩,
   ⟨⟨⟨27, 16, 17⟩, ⟨-18, -29, -7⟩⟩, true⟩,
   ⟨⟨⟨29, 11, 7⟩, ⟨-16, -29, -38⟩⟩, true⟩,
   ⟨⟨⟨-22, 24, 4⟩, ⟨-22, 11, -14⟩⟩, false⟩,
   ⟨⟨⟨-4, 24, 17⟩, ⟨-22, -3, -29⟩⟩, true⟩,
   ⟨⟨⟨29, -7, 14⟩, ⟨18, -20, -3⟩⟩, false⟩,
   ⟨⟨⟨10, 24, 16⟩, ⟨-22, -7, -33⟩⟩, true⟩] : List PowerCuboid) = some 1160 := by
  have s12 : sumTails (covGo 16) ([] : List PowerCuboid) = some 0 := rfl
  have s11 : sumTails (covGo 16) ([⟨⟨⟨8, 24, 0⟩, ⟨-22, -6, -33⟩⟩, true⟩] : List PowerCuboid) = some 29700 :=
    sumTails_cons _ _ _ 29700 0 29700 cov_n175 s12 rfl
  have s10 : sumTails (covGo 16) ([⟨⟨⟨-4, 24, 0⟩, ⟨-22, -3, -29⟩⟩, true⟩,
   ⟨⟨⟨8, 24, 0⟩, ⟨-22, -6, -33⟩⟩, true⟩] : List PowerCuboid) = some 29700 :=
    sumTails_cons _ _ _ 0 29700 29700 cov_n174 s11 rfl
  have s9 : sumTails (covGo 16) ([⟨⟨⟨-22, 24, 0⟩, ⟨-22, 11, -14⟩⟩, false⟩,
   ⟨⟨⟨-4, 24, 0⟩, ⟨-22, -3, -29⟩⟩, true⟩,
   ⟨⟨⟨8, 24, 0⟩, ⟨-22, -6, -33⟩⟩, true⟩] : List PowerCuboid) = some 29700 :=
    sumTails_cons _ _ _ 0 29700 29700 cov_n173 s10 rfl
  have s8 : sumTails (covGo 16) ([⟨⟨⟨8, 11, 0⟩, ⟨-16, -6, -38⟩⟩, true⟩,
   ⟨⟨⟨-22, 24, 0⟩, ⟨-22, 11, -14⟩⟩, false⟩,
   ⟨⟨⟨-4, 24, 0⟩, ⟨-22, -3, -29⟩⟩, true⟩,
   ⟨⟨⟨8, 24, 0⟩, ⟨-22, -6, -33⟩⟩, true⟩] : List PowerCuboid) = some 31740 :=
    sumTails_cons _ _ _ 2040 29700 31740 cov_n172 s9 rfl
  have s7 : sumTails (covGo 16) ([⟨⟨⟨8, 16, 0⟩, ⟨-18, -6, -7⟩⟩, true⟩,
   ⟨⟨⟨8, 11, 0⟩, ⟨-16, -6, -38⟩⟩, true⟩,
   ⟨⟨⟨-22, 24, 0⟩, ⟨-22, 11, -14⟩⟩, false⟩,
   ⟨⟨⟨-4, 24, 0⟩, ⟨-22, -3, -29⟩⟩, true⟩,
   ⟨⟨⟨8, 24, 0⟩, ⟨-22, -6, -33⟩⟩, true⟩] : List PowerCuboid) = some 31740 :=
    sumTails_cons _ _ _ 0 31740 31740 cov_n171 s8 rfl
  have s6 : sumTails (covGo 16) ([⟨⟨⟨8, 24, -1⟩, ⟨-12, 6, -38⟩⟩, true⟩,
   ⟨⟨⟨8, 16, 0⟩, ⟨-18, -6, -7⟩⟩, true⟩,
   ⟨⟨⟨8, 11, 0⟩, ⟨-16, -6, -38⟩⟩, true⟩,
   ⟨⟨⟨-22, 24, 0⟩, ⟨-22, 11, -14⟩⟩, false⟩,
   ⟨⟨⟨-4, 24, 0⟩, ⟨-22, -3, -29⟩⟩, true⟩,
   ⟨⟨⟨8, 24, 0⟩, ⟨-22, -6, -33⟩⟩, true⟩] : List PowerCuboid) = some 33040 :=
    sumTails_cons _ _ _ 1300 31740 33040 cov_n170 s7 rfl
  have s5 : sumTails (covGo 16) ([⟨⟨⟨8, 21, 0⟩, ⟨-22, -6, -29⟩⟩, true⟩,
   ⟨⟨⟨8, 24, -1⟩, ⟨-12, 6, -38⟩⟩, true⟩,
   ⟨⟨⟨8, 16, 0⟩, ⟨-18, -6, -7⟩⟩, true⟩,
   ⟨⟨⟨8, 11, 0⟩, ⟨-16, -6, -38⟩⟩, true⟩,
   ⟨⟨⟨-22, 24, 0⟩, ⟨-22, 11, -14⟩⟩, false⟩,
   ⟨⟨⟨-4, 24, 0⟩, ⟨-22, -3, -29⟩⟩, true⟩,
   ⟨⟨⟨8, 24, 0⟩, ⟨-22, -6, -33⟩⟩, true⟩] : List PowerCuboid) = some 33040 :=
    sumTails_cons _ _ _ 0 33040 33040 cov_n169 s6 rfl
  have s4 : sumTails (covGo 16) ([⟨⟨⟨8, 24, 0⟩, ⟨-22, -6, -13⟩⟩, true⟩,
   ⟨⟨⟨8, 21, 0⟩, ⟨-22, -6, -29⟩⟩, true⟩,
   ⟨⟨⟨8, 24, -1⟩, ⟨-12, 6, -38⟩⟩, true⟩,
   ⟨⟨⟨8, 16, 0⟩, ⟨-18, -6, -7⟩⟩, true⟩,
   ⟨⟨⟨8, 11, 0⟩, ⟨-16, -6, -38⟩⟩, true⟩,
   ⟨⟨⟨-22, 24, 0⟩, ⟨-22, 11, -14⟩⟩, false⟩,
   ⟨⟨⟨-4, 24, 0⟩, ⟨-22, -3, -29⟩⟩, true⟩,
   ⟨⟨⟨8, 24, 0⟩, ⟨-22, -6, -33⟩⟩, true⟩] : List PowerCuboid) = some 33040 :=
    sumTails_cons _ _ _ 0 33040 33040 cov_n168 s5 rfl
  have s3 : sumTails (covGo 16) ([⟨⟨⟨6, 24, 0⟩, ⟨-22, -6, -3⟩⟩, true⟩,
   ⟨⟨⟨8, 24, 0⟩, ⟨-22, -6, -13⟩⟩, true⟩,
   ⟨⟨⟨8, 21, 0⟩, ⟨-22, -6, -29⟩⟩, true⟩,
   ⟨⟨⟨8, 24, -1⟩, ⟨-12, 6, -38⟩⟩, true⟩,
   ⟨⟨⟨8, 16, 0⟩, ⟨-18, -6, -7⟩⟩, true⟩,
   ⟨⟨⟨8, 11, 0⟩, ⟨-16, -6, -38⟩⟩, true⟩,
   ⟨⟨⟨-22, 24, 0⟩, ⟨-22, 11, -14⟩⟩, false⟩,
   ⟨⟨⟨-4, 24, 0⟩, ⟨-22, -3, -29⟩⟩, true⟩,
   ⟨⟨⟨8, 24, 0⟩, ⟨-22, -6, -33⟩⟩, true⟩] : List PowerCuboid) = some 33040 :=
    sumTails_cons _ _ _ 0 33040 33040 cov_n167 s4 rfl
  have s2 : sumTails (covGo 16) ([⟨⟨⟨8, 24, 0⟩, ⟨-22, -6, -21⟩⟩, true⟩,
   ⟨⟨⟨6, 24, 0⟩, ⟨-22, -6, -3⟩⟩, true⟩,
   ⟨⟨⟨8, 24, 0⟩, ⟨-22, -6, -13⟩⟩, true⟩,
   ⟨⟨⟨8, 21, 0⟩, ⟨-22, -6, -29⟩⟩, true⟩,
   ⟨⟨⟨8, 24, -1⟩, ⟨-12, 6, -38⟩⟩, true⟩,
   ⟨⟨⟨8, 16, 0⟩, ⟨-18, -6, -7⟩⟩, true⟩,
   ⟨⟨⟨8, 11, 0⟩, ⟨-16, -6, -38⟩⟩, true⟩,
   ⟨⟨⟨-22, 24, 0⟩, ⟨-22, 11, -14⟩⟩, false⟩,
   ⟨⟨⟨-4, 24, 0⟩, ⟨-22, -3, -29⟩⟩, true⟩,
   ⟨⟨⟨8, 24, 0⟩, ⟨-22, -6, -33⟩⟩, true⟩] : List PowerCuboid) = some 33040 :=
    sumTails_cons _ _ _ 0 33040 33040 cov_n166 s3 rfl
  have s1 : sumTails (covGo 16) ([⟨⟨⟨8, 23, 0⟩, ⟨2, -6, -23⟩⟩, true⟩,
   ⟨⟨⟨8, 24, 0⟩, ⟨-22, -6, -21⟩⟩, true⟩,
   ⟨⟨⟨6, 24, 0⟩, ⟨-22, -6, -3⟩⟩, true⟩,
   ⟨⟨⟨8, 24, 0⟩, ⟨-22, -6, -13⟩⟩, true⟩,
   ⟨⟨⟨8, 21, 0⟩, ⟨-22, -6, -29⟩⟩, true⟩,
   ⟨⟨⟨8, 24, -1⟩, ⟨-12, 6, -38⟩⟩, true⟩,
   ⟨⟨⟨8, 16, 0⟩, ⟨-18, -6, -7⟩⟩, true⟩,
   ⟨⟨⟨8, 11, 0⟩, ⟨-16, -6, -38⟩⟩, true⟩,
   ⟨⟨⟨-22, 24, 0⟩, ⟨-22, 11, -14⟩⟩, false⟩,
   ⟨⟨⟨-4, 24, 0⟩, ⟨-22, -3, -29⟩⟩, true⟩,
   ⟨⟨⟨8, 24, 0⟩, ⟨-22, -6, -33⟩⟩, true⟩] : List PowerCuboid) = some 33040 :=
    sumTails_cons _ _ _ 0 33040 33040 cov_n165 s2 rfl
  have s0 : sumTails (covGo 16) ([⟨⟨⟨2, 24, 0⟩, ⟨-22, -3, -24⟩⟩, true⟩,
   ⟨⟨⟨8, 23, 0⟩, ⟨2, -6, -23⟩⟩, true⟩,
   ⟨⟨⟨8, 24, 0⟩, ⟨-22, -6, -21⟩⟩, true⟩,
   ⟨⟨⟨6, 24, 0⟩, ⟨-22, -6, -3⟩⟩, true⟩,
   ⟨⟨⟨8, 24, 0⟩, ⟨-22, -6, -13⟩⟩, true⟩,
   ⟨⟨⟨8, 21, 0⟩, ⟨-22, -6, -29⟩⟩, true⟩,
   ⟨⟨⟨8, 24, -1⟩, ⟨-12, 6, -38⟩⟩, true⟩,
   ⟨⟨⟨8, 16, 0⟩, ⟨-18, -6, -7⟩⟩, true⟩,
   ⟨⟨⟨8, 11, 0⟩, ⟨-16, -6, -38⟩⟩, true⟩,
   ⟨⟨⟨-22, 24, 0⟩, ⟨-22, 11, -14⟩⟩, false⟩,
   ⟨⟨⟨-4, 24, 0⟩, ⟨-22, -3, -29⟩⟩, true⟩,
   ⟨⟨⟨8, 24, 0⟩, ⟨-22, -6, -33⟩⟩, true⟩] : List PowerCuboid) = some 33040 :=
    sumTails_cons _ _ _ 0 33040 33040 cov_n164 s1 rfl
  rw [covGo_succ, ks_n176, s0]
  decide

/-- Leaf evaluation of the embedded recursion (832 nodes). -/
theorem cov_n177 :
    covGo 17 ⟨⟨⟨2, 24, 17⟩, ⟨-22, -3, -24⟩⟩, true⟩
    ([⟨⟨⟨29, 23, 17⟩, ⟨2, -22, -23⟩⟩, true⟩,
   ⟨⟨⟨24, 24, 17⟩, ⟨-22, -28, -21⟩⟩, true⟩,
   ⟨⟨⟨6, 24, 17⟩, ⟨-22, -6, -3⟩⟩, true⟩,
   ⟨⟨⟨22, 24, 17⟩, ⟨-22, -8, -13⟩⟩, true⟩,
   ⟨⟨⟨27, 21, 17⟩, ⟨-22, -27, -29⟩⟩, true⟩,
   ⟨⟨⟨29, 24, -1⟩, ⟨-12, 6, -38⟩⟩, true⟩,
   ⟨⟨⟨27, 16, 17⟩, ⟨-18, -29, -7⟩⟩, true⟩,
   ⟨⟨⟨29, 11, 7⟩, ⟨-16, -29, -38⟩⟩, true⟩,
   ⟨⟨⟨-22, 24, 4⟩, ⟨-22, 11, -14⟩⟩, false⟩,
   ⟨⟨⟨-4, 24, 17⟩, ⟨-22, -3, -29⟩⟩, true⟩,
   ⟨⟨⟨29, -7, 14⟩, ⟨18, -20, -3⟩⟩, false⟩,
   ⟨⟨⟨10, 24, 16⟩, ⟨-22, -7, -33⟩⟩, true⟩] : List PowerCuboid) = some 0 := by decide!

/-- Leaf evaluation of the embedded recursion (288 nodes). -/
theorem cov_n178 :
    covGo 17 ⟨⟨⟨29, 23, 17⟩, ⟨2, -22, -23⟩⟩, true⟩
    ([⟨⟨⟨24, 24, 17⟩, ⟨-22, -28, -21⟩⟩, true⟩,
   ⟨⟨⟨6, 24, 17⟩, ⟨-22, -6, -3⟩⟩, true⟩,
   ⟨⟨⟨22, 24, 17⟩, ⟨-22, -8, -13⟩⟩, true⟩,
   ⟨⟨⟨27, 21, 17⟩, ⟨-22, -27, -29⟩⟩, true⟩,
   ⟨⟨⟨29, 24, -1⟩, ⟨-12, 6, -38⟩⟩, true⟩,
   ⟨⟨⟨27, 16, 17⟩, ⟨-18, -29, -7⟩⟩, true⟩,
   ⟨⟨⟨29, 11, 7⟩, ⟨-16, -29, -38⟩⟩, true⟩,
   ⟨⟨⟨-22, 24, 4⟩, ⟨-22, 11, -14⟩⟩, false⟩,
   ⟨⟨⟨-4, 24, 17⟩, ⟨-22, -3, -29⟩⟩, true⟩,
   ⟨⟨⟨29, -7, 14⟩, ⟨18, -20, -3⟩⟩, false⟩,
   ⟨⟨⟨10, 24, 16⟩, ⟨-22, -7, -33⟩⟩, true⟩] : List PowerCuboid) = some 1018 := by decide!

/-- Leaf evaluation of the embedded recursion (304 nodes). -/
theorem cov_n179 :
    covGo 17 ⟨⟨⟨24, 24, 17⟩, ⟨-22, -28, -21⟩⟩, true⟩
    ([⟨⟨⟨6, 24, 17⟩, ⟨-22, -6, -3⟩⟩, true⟩,
   ⟨⟨⟨22, 24, 17⟩, ⟨-22, -8, -13⟩⟩, true⟩,
   ⟨⟨⟨27, 21, 17⟩, ⟨-22, -27, -29⟩⟩, true⟩,
   ⟨⟨⟨29, 24, -1⟩, ⟨-12, 6, -38⟩⟩, true⟩,
   ⟨⟨⟨27, 16, 17⟩, ⟨-18, -29, -7⟩⟩, true⟩,
   ⟨⟨⟨29, 11, 7⟩, ⟨-16, -29, -38⟩⟩, true⟩,
   ⟨⟨⟨-22, 24, 4⟩, ⟨-22, 11, -14⟩⟩, false⟩,
   ⟨⟨⟨-4, 24, 17⟩, ⟨-22, -3, -29⟩⟩, true⟩,
   ⟨⟨⟨29, -7, 14⟩, ⟨18, -20, -3⟩⟩, false⟩,
   ⟨⟨⟨10, 24, 16⟩, ⟨-22, -7, -33⟩⟩, true⟩] : List PowerCuboid) = some 288 := by decide!

/-- Leaf evaluation of the embedded recursion (144 nodes). -/
theorem cov_n180 :
    covGo 17 ⟨⟨⟨6, 24, 17⟩, ⟨-22, -6, -3⟩⟩, true⟩
    ([⟨⟨⟨22, 24, 17⟩, ⟨-22, -8, -13⟩⟩, true⟩,
   ⟨⟨⟨27, 21, 17⟩, ⟨-22, -27, -29⟩⟩, true⟩,
   ⟨⟨⟨29, 24, -1⟩, ⟨-12, 6, -38⟩⟩, true⟩,
   ⟨⟨⟨27, 16, 17⟩, ⟨-18, -29, -7⟩⟩, true⟩,
   ⟨⟨⟨29, 11, 7⟩, ⟨-16, -29, -38⟩⟩, true⟩,
   ⟨⟨⟨-22, 24, 4⟩, ⟨-22, 11, -14⟩⟩, false⟩,
   ⟨⟨⟨-4, 24, 17⟩, ⟨-22, -3, -29⟩⟩, true⟩,
   ⟨⟨⟨29, -7, 14⟩, ⟨18, -20, -3⟩⟩, false⟩,
   ⟨⟨⟨10, 24, 16⟩, ⟨-22, -7, -33⟩⟩, true⟩] : List PowerCuboid) = some 0 := by decide!

/-- Leaf evaluation of the embedded recursion (80 nodes). -/
theorem cov_n181 :
    covGo 17 ⟨⟨⟨22, 24, 17⟩, ⟨-22, -8, -13⟩⟩, true⟩
    ([⟨⟨⟨27, 21, 17⟩, ⟨-22, -27, -29⟩⟩, true⟩,
   ⟨⟨⟨29, 24, -1⟩, ⟨-12, 6, -38⟩⟩, true⟩,
   ⟨⟨⟨27, 16, 17⟩, ⟨-18, -29, -7⟩⟩, true⟩,
   ⟨⟨⟨29, 11, 7⟩, ⟨-16, -29, -38⟩⟩, true⟩,
   ⟨⟨⟨-22, 24, 4⟩, ⟨-22, 11, -14⟩⟩, false⟩,
   ⟨⟨⟨-4, 24, 17⟩, ⟨-22, -3, -29⟩⟩, true⟩,
   ⟨⟨⟨29, -7, 14⟩, ⟨18, -20, -3⟩⟩, false⟩,
   ⟨⟨⟨10, 24, 16⟩, ⟨-22, -7, -33⟩⟩, true⟩] : List PowerCuboid) = some 690 := by decide!

/-- Leaf evaluation of the embedded recursion (40 nodes). -/
theorem cov_n182 :
    covGo 17 ⟨⟨⟨27, 21, 17⟩, ⟨-22, -27, -29⟩⟩, true⟩
    ([⟨⟨⟨29, 24, -1⟩, ⟨-12, 6, -38⟩⟩, true⟩,
   ⟨⟨⟨27, 16, 17⟩, ⟨-18, -29, -7⟩⟩, true⟩,
   ⟨⟨⟨29, 11, 7⟩, ⟨-16, -29, -38⟩⟩, true⟩,
   ⟨⟨⟨-22, 24, 4⟩, ⟨-22, 11, -14⟩⟩, false⟩,
   ⟨⟨⟨-4, 24, 17⟩, ⟨-22, -3, -29⟩⟩, true⟩,
   ⟨⟨⟨29, -7, 14⟩, ⟨18, -20, -3⟩⟩, false⟩,
   ⟨⟨⟨10, 24, 16⟩, ⟨-22, -7, -33⟩⟩, true⟩] : List PowerCuboid) = some 6176 := by decide!

/-- Leaf evaluation of the embedded recursion (16 nodes). -/
theorem cov_n183 :
    covGo 17 ⟨⟨⟨29, 24, -1⟩, ⟨-12, 6, -38⟩⟩, true⟩
    ([⟨⟨⟨27, 16, 17⟩, ⟨-18, -29, -7⟩⟩, true⟩,
   ⟨⟨⟨29, 11, 7⟩, ⟨-16, -29, -38⟩⟩, true⟩,
   ⟨⟨⟨-22, 24, 4⟩, ⟨-22, 11, -14⟩⟩, false⟩,
   ⟨⟨⟨-4, 24, 17⟩, ⟨-22, -3, -29⟩⟩, true⟩,
   ⟨⟨⟨29, -7, 14⟩, ⟨18, -20, -3⟩⟩, false⟩,
   ⟨⟨⟨10, 24, 16⟩, ⟨-22, -7, -33⟩⟩, true⟩] : List PowerCuboid) = some 10059 := by decide!

/-- Leaf evaluation of the embedded recursion (10 nodes). -/
theorem cov_n184 :
    covGo 17 ⟨⟨⟨27, 16, 17⟩, ⟨-18, -29, -7⟩⟩, true⟩
    ([⟨⟨⟨29, 11, 7⟩, ⟨-16, -29, -38⟩⟩, true⟩,
   ⟨⟨⟨-22, 24, 4⟩, ⟨-22, 11, -14⟩⟩, false⟩,
   ⟨⟨⟨-4, 24, 17⟩, ⟨-22, -3, -29⟩⟩, true⟩,
   ⟨⟨⟨29, -7, 14⟩, ⟨18, -20, -3⟩⟩, false⟩,
   ⟨⟨⟨10, 24, 16⟩, ⟨-22, -7, -33⟩⟩, true⟩] : List PowerCuboid) = some 15175 := by decide!

/-- Leaf evaluation of the embedded recursion (5 nodes). -/
theorem cov_n185 :
    covGo 17 ⟨⟨⟨29, 11, 7⟩, ⟨-16, -29, -38⟩⟩, true⟩
    ([⟨⟨⟨-22, 24, 4⟩, ⟨-22, 11, -14⟩⟩, false⟩,
   ⟨⟨⟨-4, 24, 17⟩, ⟨-22, -3, -29⟩⟩, true⟩,
   ⟨⟨⟨29, -7, 14⟩, ⟨18, -20, -3⟩⟩, false⟩,
   ⟨⟨⟨10, 24, 16⟩, ⟨-22, -7, -33⟩⟩, true⟩] : List PowerCuboid) = some 60850 := by decide!

/-- Leaf evaluation of the embedded recursion (4 nodes). -/
theorem cov_n186 :
    covGo 17 ⟨⟨⟨-22, 24, 4⟩, ⟨-22, 11, -14⟩⟩, false⟩
    ([⟨⟨⟨-4, 24, 17⟩, ⟨-22, -3, -29⟩⟩, true⟩,
   ⟨⟨⟨29, -7, 14⟩, ⟨18, -20, -3⟩⟩, false⟩,
   ⟨⟨⟨10, 24, 16⟩, ⟨-22, -7, -33⟩⟩, true⟩] : List PowerCuboid) = some 0 := by decide!

/-- Leaf evaluation of the embedded recursion (2 nodes). -/
theorem cov_n187 :
    covGo 17 ⟨⟨⟨-4, 24, 17⟩, ⟨-22, -3, -29⟩⟩, true⟩
    ([⟨⟨⟨29, -7, 14⟩, ⟨18, -20, -3⟩⟩, false⟩,
   ⟨⟨⟨10, 24, 16⟩, ⟨-22, -7, -33⟩⟩, true⟩] : List PowerCuboid) = some 486 := by decide!

/-- Leaf evaluation of the embedded recursion (1 nodes). -/
theorem cov_n188 :
    covGo 17 ⟨⟨⟨29, -7, 14⟩, ⟨18, -20, -3⟩⟩, false⟩
    ([⟨⟨⟨10, 24, 16⟩, ⟨-22, -7, -33⟩⟩, true⟩] : List PowerCuboid) = some 2431 := by decide!

/-- Leaf evaluation of the embedded recursion (1 nodes). -/
theorem cov_n189 :
    covGo 17 ⟨⟨⟨10, 24, 16⟩, ⟨-22, -7, -33⟩⟩, true⟩
    ([] : List PowerCuboid) = some 48608 := by decide!

/-- The conflict list of the node above, evaluated. -/
theorem ks_n190 :
    List.filterMap (fun c => PowerCuboid.intersect ⟨⟨⟨29, 24, 17⟩, ⟨-22, -29, -38⟩⟩, true⟩ c)
    ([⟨⟨⟨8, 47, 0⟩, ⟨-46, -6, -50⟩⟩, true⟩,
   ⟨⟨⟨2, 47, 29⟩, ⟨-49, -3, -24⟩⟩, true⟩,
   ⟨⟨⟨48, 23, 28⟩, ⟨2, -22, -23⟩⟩, true⟩,
   ⟨⟨⟨24, 27, 30⟩, ⟨-27, -28, -21⟩⟩, true⟩,
   ⟨⟨⟨6, 48, 45⟩, ⟨-39, -6, -3⟩⟩, true⟩,
   ⟨⟨⟨22, 44, 35⟩, ⟨-30, -8, -13⟩⟩, true⟩,
   ⟨⟨⟨27, 21, 20⟩, ⟨-22, -27, -29⟩⟩, true⟩,
   ⟨⟨⟨-31, 42, -36⟩, ⟨-48, 26, -47⟩⟩, false⟩,
   ⟨⟨⟨36, 51, -1⟩, ⟨-12, 6, -50⟩⟩, true⟩,
   ⟨⟨⟨-31, -15, -4⟩, ⟨-48, -32, -15⟩⟩, false⟩,
   ⟨⟨⟨27, 16, 47⟩, ⟨-18, -33, -7⟩⟩, true⟩,
   ⟨⟨⟨-21, -27, 42⟩, ⟨-40, -38, 23⟩⟩, false⟩,
   ⟨⟨⟨36, 11, 7⟩, ⟨-16, -41, -47⟩⟩, true⟩,
   ⟨⟨⟨-22, 31, 4⟩, ⟨-32, 11, -14⟩⟩, false⟩,
   ⟨⟨⟨-4, 46, 19⟩, ⟨-49, -3, -29⟩⟩, true⟩,
   ⟨⟨⟨31, -7, 14⟩, ⟨18, -20, -3⟩⟩, false⟩,
   ⟨⟨⟨10, 44, 16⟩, ⟨-41, -7, -33⟩⟩, true⟩] : List PowerCuboid) = ([⟨⟨⟨8, 24, 0⟩, ⟨-22, -6, -38⟩⟩, true⟩,
   ⟨⟨⟨2, 24, 17⟩, ⟨-22, -3, -24⟩⟩, true⟩,
   ⟨⟨⟨29, 23, 17⟩, ⟨2, -22, -23⟩⟩, true⟩,
   ⟨⟨⟨24, 24, 17⟩, ⟨-22, -28, -21⟩⟩, true⟩,
   ⟨⟨⟨6, 24, 17⟩, ⟨-22, -6, -3⟩⟩, true⟩,
   ⟨⟨⟨22, 24, 17⟩, ⟨-22, -8, -13⟩⟩, true⟩,
   ⟨⟨⟨27, 21, 17⟩, ⟨-22, -27, -29⟩⟩, true⟩,
   ⟨⟨⟨29, 24, -1⟩, ⟨-12, 6, -38⟩⟩, true⟩,
   ⟨⟨⟨27, 16, 17⟩, ⟨-18, -29, -7⟩⟩, true⟩,
   ⟨⟨⟨29, 11, 7⟩, ⟨-16, -29, -38⟩⟩, true⟩,
   ⟨⟨⟨-22, 24, 4⟩, ⟨-22, 11, -14⟩⟩, false⟩,
   ⟨⟨⟨-4, 24, 17⟩, ⟨-22, -3, -29⟩⟩, true⟩,
   ⟨⟨⟨29, -7, 14⟩, ⟨18, -20, -3⟩⟩, false⟩,
   ⟨⟨⟨10, 24, 16⟩, ⟨-22, -7, -33⟩⟩, true⟩] : List PowerCuboid) := by decide!

/-- Split evaluation of the embedded recursion (3392 nodes in total),
assembled from the conflict list and the net contributions of its
members. -/
theorem cov_n162 :
    covGo 18 ⟨⟨⟨29, 24, 17⟩, ⟨-22, -29, -38⟩⟩, true⟩
    ([⟨⟨⟨8, 47, 0⟩, ⟨-46, -6, -50⟩⟩, true⟩,
   ⟨⟨⟨2, 47, 29⟩, ⟨-49, -3, -24⟩⟩, true⟩,
   ⟨⟨⟨48, 23, 28⟩, ⟨2, -22, -23⟩⟩, true⟩,
   ⟨⟨⟨24, 27, 30⟩, ⟨-27, -28, -21⟩⟩, true⟩,
   ⟨⟨⟨6, 48, 45⟩, ⟨-39, -6, -3⟩⟩, true⟩,
   ⟨⟨⟨22, 44, 35⟩, ⟨-30, -8, -13⟩⟩, true⟩,
   ⟨⟨⟨27, 21, 20⟩, ⟨-22, -27, -29⟩⟩, true⟩,
   ⟨⟨⟨-31, 42, -36⟩, ⟨-48, 26, -47⟩⟩, false⟩,
   ⟨⟨⟨36, 51, -1⟩, ⟨-12, 6, -50⟩⟩, true⟩,
   ⟨⟨⟨-31, -15, -4⟩, ⟨-48, -32, -15⟩⟩, false⟩,
   ⟨⟨⟨27, 16, 47⟩, ⟨-18, -33, -7⟩⟩, true⟩,
   ⟨⟨⟨-21, -27, 42⟩, ⟨-40, -38, 23⟩⟩, false⟩,
   ⟨⟨⟨36, 11, 7⟩, ⟨-16, -41, -47⟩⟩, true⟩,
   ⟨⟨⟨-22, 31, 4⟩, ⟨-32, 11, -14⟩⟩, false⟩,
   ⟨⟨⟨-4, 46, 19⟩, ⟨-49, -3, -29⟩⟩, true⟩,
   ⟨⟨⟨31, -7, 14⟩, ⟨18, -20, -3⟩⟩, false⟩,
   ⟨⟨⟨10, 44, 16⟩, ⟨-41, -7, -33⟩⟩, true⟩] : List PowerCuboid) = some 1724 := by
  have s14 : sumTails (covGo 17) ([] : List PowerCuboid) = some 0 := rfl
  have s13 : sumTails (covGo 17) ([⟨⟨⟨10, 24, 16⟩, ⟨-22, -7, -33⟩⟩, true⟩] : List PowerCuboid) = some 48608 :=
    sumTails_cons _ _ _ 48608 0 48608 cov_n189 s14 rfl
  have s12 : sumTails (covGo 17) ([⟨⟨⟨29, -7, 14⟩, ⟨18, -20, -3⟩⟩, false⟩,
   ⟨⟨⟨10, 24, 16⟩, ⟨-22, -7, -33⟩⟩, true⟩] : List PowerCuboid) = some 51039 :=
    sumTails_cons _ _ _ 2431 48608 51039 cov_n188 s13 rfl
  have s11 : sumTails (covGo 17) ([⟨⟨⟨-4, 24, 17⟩, ⟨-22, -3, -29⟩⟩, true⟩,
   ⟨⟨⟨29, -7, 14⟩, ⟨18, -20, -3⟩⟩, false⟩,
   ⟨⟨⟨10, 24, 16⟩, ⟨-22, -7, -33⟩⟩, true⟩] : List PowerCuboid) = some 51525 :=
    sumTails_cons _ _ _ 486 51039 51525 cov_n187 s12 rfl
  have s10 : sumTails (covGo 17) ([⟨⟨⟨-22, 24, 4⟩, ⟨-22, 11, -14⟩⟩, false⟩,
   ⟨⟨⟨-4, 24, 17⟩, ⟨-22, -3, -29⟩⟩, true⟩,
   ⟨⟨⟨29, -7, 14⟩, ⟨18, -20, -3⟩⟩, false⟩,
   ⟨⟨⟨10, 24, 16⟩, ⟨-22, -7, -33⟩⟩, true⟩] : List PowerCuboid) = some 51525 :=
    sumTails_cons _ _ _ 0 51525 51525 cov_n186 s11 rfl
  have s9 : sumTails (covGo 17) ([⟨⟨⟨29, 11, 7⟩, ⟨-16, -29, -38⟩⟩, true⟩,
   ⟨⟨⟨-22, 24, 4⟩, ⟨-22, 11, -14⟩⟩, false⟩,
   ⟨⟨⟨-4, 24, 17⟩, ⟨-22, -3, -29⟩⟩, true⟩,
   ⟨⟨⟨29, -7, 14⟩, ⟨18, -20, -3⟩⟩, false⟩,
   ⟨⟨⟨10, 24, 16⟩, ⟨-22, -7, -33⟩⟩, true⟩] : List PowerCuboid) = some 112375 :=
    sumTails_cons _ _ _ 60850 51525 112375 cov_n185 s10 rfl
  have s8 : sumTails (covGo 17) ([⟨⟨⟨27, 16, 17⟩, ⟨-18, -29, -7⟩⟩, true⟩,
   ⟨⟨⟨29, 11, 7⟩, ⟨-16, -29, -38⟩⟩, true⟩,
   ⟨⟨⟨-22, 24, 4⟩, ⟨-22, 11, -14⟩⟩, false⟩,
   ⟨⟨⟨-4, 24, 17⟩, ⟨-22, -3, -29⟩⟩, true⟩,
   ⟨⟨⟨29, -7, 14⟩, ⟨18, -20, -3⟩⟩, false⟩,
   ⟨⟨⟨10, 24, 16⟩, ⟨-22, -7, -33⟩⟩, true⟩] : List PowerCuboid) = some 127550 :=
    sumTails_cons _ _ _ 15175 112375 127550 cov_n184 s9 rfl
  have s7 : sumTails (covGo 17) ([⟨⟨⟨29, 24, -1⟩, ⟨-12, 6, -38⟩⟩, true⟩,
   ⟨⟨⟨27, 16, 17⟩, ⟨-18, -29, -7⟩⟩, true⟩,
   ⟨⟨⟨29, 11, 7⟩, ⟨-16, -29, -38⟩⟩, true⟩,
   ⟨⟨⟨-22, 24, 4⟩, ⟨-22, 11, -14⟩⟩, false⟩,
   ⟨⟨⟨-4, 24, 17⟩, ⟨-22, -3, -29⟩⟩, true⟩,
   ⟨⟨⟨29, -7, 14⟩, ⟨18, -20, -3⟩⟩, false⟩,
   ⟨⟨⟨10, 24, 16⟩, ⟨-22, -7, -33⟩⟩, true⟩] : List PowerCuboid) = some 137609 :=
    sumTails_cons _ _ _ 10059 127550 137609 cov_n183 s8 rfl
  have s6 : sumTails (covGo 17) ([⟨⟨⟨27, 21, 17⟩, ⟨-22, -27, -29⟩⟩, true⟩,
   ⟨⟨⟨29, 24, -1⟩, ⟨-12, 6, -38⟩⟩, true⟩,
   ⟨⟨⟨27, 16, 17⟩, ⟨-18, -29, -7⟩⟩, true⟩,
   ⟨⟨⟨29, 11, 7⟩, ⟨-16, -29, -38⟩⟩, true⟩,
   ⟨⟨⟨-22, 24, 4⟩, ⟨-22, 11, -14⟩⟩, false⟩,
   ⟨⟨⟨-4, 24, 17⟩, ⟨-22, -3, -29⟩⟩, true⟩,
   ⟨⟨⟨29, -7, 14⟩, ⟨18, -20, -3⟩⟩, false⟩,
   ⟨⟨⟨10, 24, 16⟩, ⟨-22, -7, -33⟩⟩, true⟩] : List PowerCuboid) = some 143785 :=
    sumTails_cons _ _ _ 6176 137609 143785 cov_n182 s7 rfl
  have s5 : sumTails (covGo 17) ([⟨⟨⟨22, 24, 17⟩, ⟨-22, -8, -13⟩⟩, true⟩,
   ⟨⟨⟨27, 21, 17⟩, ⟨-22, -27, -29⟩⟩, true⟩,
   ⟨⟨⟨29, 24, -1⟩, ⟨-12, 6, -38⟩⟩, true⟩,
   ⟨⟨⟨27, 16, 17⟩, ⟨-18, -29, -7⟩⟩, true⟩,
   ⟨⟨⟨29, 11, 7⟩, ⟨-16, -29, -38⟩⟩, true⟩,
   ⟨⟨⟨-22, 24, 4⟩, ⟨-22, 11, -14⟩⟩, false⟩,
   ⟨⟨⟨-4, 24, 17⟩, ⟨-22, -3, -29⟩⟩, true⟩,
   ⟨⟨⟨29, -7, 14⟩, ⟨18, -20, -3⟩⟩, false⟩,
   ⟨⟨⟨10, 24, 16⟩, ⟨-22, -7, -33⟩⟩, true⟩] : List PowerCuboid) = some 144475 :=
    sumTails_cons _ _ _ 690 143785 144475 cov_n181 s6 rfl
  have s4 : sumTails (covGo 17) ([⟨⟨⟨6, 24, 17⟩, ⟨-22, -6, -3⟩⟩, true⟩,
   ⟨⟨⟨22, 24, 17⟩, ⟨-22, -8, -13⟩⟩, true⟩,
   ⟨⟨⟨27, 21, 17⟩, ⟨-22, -27, -29⟩⟩, true⟩,
   ⟨⟨⟨29, 24, -1⟩, ⟨-12, 6, -38⟩⟩, true⟩,
   ⟨⟨⟨27, 16, 17⟩, ⟨-18, -29, -7⟩⟩, true⟩,
   ⟨⟨⟨29, 11, 7⟩, ⟨-16, -29, -38⟩⟩, true⟩,
   ⟨⟨⟨-22, 24, 4⟩, ⟨-22, 11, -14⟩⟩, false⟩,
   ⟨⟨⟨-4, 24, 17⟩, ⟨-22, -3, -29⟩⟩, true⟩,
   ⟨⟨⟨29, -7, 14⟩, ⟨18, -20, -3⟩⟩, false⟩,
   ⟨⟨⟨10, 24, 16⟩, ⟨-22, -7, -33⟩⟩, true⟩] : List PowerCuboid) = some 144475 :=
    sumTails_cons _ _ _ 0 144475 144475 cov_n180 s5 rfl
  have s3 : sumTails (covGo 17) ([⟨⟨⟨24, 24, 17⟩, ⟨-22, -28, -21⟩⟩, true⟩,
   ⟨⟨⟨6, 24, 17⟩, ⟨-22, -6, -3⟩⟩, true⟩,
   ⟨⟨⟨22, 24, 17⟩, ⟨-22, -8, -13⟩⟩, true⟩,
   ⟨⟨⟨27, 21, 17⟩, ⟨-22, -27, -29⟩⟩, true⟩,
   ⟨⟨⟨29, 24, -1⟩, ⟨-12, 6, -38⟩⟩, true⟩,
   ⟨⟨⟨27, 16, 17⟩, ⟨-18, -29, -7⟩⟩, true⟩,
   ⟨⟨⟨29, 11, 7⟩, ⟨-16, -29, -38⟩⟩, true⟩,
   ⟨⟨⟨-22, 24, 4⟩, ⟨-22, 11, -14⟩⟩, false⟩,
   ⟨⟨⟨-4, 24, 17⟩, ⟨-22, -3, -29⟩⟩, true⟩,
   ⟨⟨⟨29, -7, 14⟩, ⟨18, -20, -3⟩⟩, false⟩,
   ⟨⟨⟨10, 24, 16⟩, ⟨-22, -7, -33⟩⟩, true⟩] : List PowerCuboid) = some 144763 :=
    sumTails_cons _ _ _ 288 144475 144763 cov_n179 s4 rfl
  have s2 : sumTails (covGo 17) ([⟨⟨⟨29, 23, 17⟩, ⟨2, -22, -23⟩⟩, true⟩,
   ⟨⟨⟨24, 24, 17⟩, ⟨-22, -28, -21⟩⟩, true⟩,
   ⟨⟨⟨6, 24, 17⟩, ⟨-22, -6, -3⟩⟩, true⟩,
   ⟨⟨⟨22, 24, 17⟩, ⟨-22, -8, -13⟩⟩, true⟩,
   ⟨⟨⟨27, 21, 17⟩, ⟨-22, -27, -29⟩⟩, true⟩,
   ⟨⟨⟨29, 24, -1⟩, ⟨-12, 6, -38⟩⟩, true⟩,
   ⟨⟨⟨27, 16, 17⟩, ⟨-18, -29, -7⟩⟩, true⟩,
   ⟨⟨⟨29, 11, 7⟩, ⟨-16, -29, -38⟩⟩, true⟩,
   ⟨⟨⟨-22, 24, 4⟩, ⟨-22, 11, -14⟩⟩, false⟩,
   ⟨⟨⟨-4, 24, 17⟩, ⟨-22, -3, -29⟩⟩, true⟩,
   ⟨⟨⟨29, -7, 14⟩, ⟨18, -20, -3⟩⟩, false⟩,
   ⟨⟨⟨10, 24, 16⟩, ⟨-22, -7, -33⟩⟩, true⟩] : List PowerCuboid) = some 145781 :=
    sumTails_cons _ _ _ 1018 144763 145781 cov_n178 s3 rfl
  have s1 : sumTails (covGo 17) ([⟨⟨⟨2, 24, 17⟩, ⟨-22, -3, -24⟩⟩, true⟩,
   ⟨⟨⟨29, 23, 17⟩, ⟨2, -22, -23⟩⟩, true⟩,
   ⟨⟨⟨24, 24, 17⟩, ⟨-22, -28, -21⟩⟩, true⟩,
   ⟨⟨⟨6, 24, 17⟩, ⟨-22, -6, -3⟩⟩, true⟩,
   ⟨⟨⟨22, 24, 17⟩, ⟨-22, -8, -13⟩⟩, true⟩,
   ⟨⟨⟨27, 21, 17⟩, ⟨-22, -27, -29⟩⟩, true⟩,
   ⟨⟨⟨29, 24, -1⟩, ⟨-12, 6, -38⟩⟩, true⟩,
   ⟨⟨⟨27, 16, 17⟩, ⟨-18, -29, -7⟩⟩, true⟩,
   ⟨⟨⟨29, 11, 7⟩, ⟨-16, -29, -38⟩⟩, true⟩,
   ⟨⟨⟨-22, 24, 4⟩, ⟨-22, 11, -14⟩⟩, false⟩,
   ⟨⟨⟨-4, 24, 17⟩, ⟨-22, -3, -29⟩⟩, true⟩,
   ⟨⟨⟨29, -7, 14⟩, ⟨18, -20, -3⟩⟩, false⟩,
   ⟨⟨⟨10, 24, 16⟩, ⟨-22, -7, -33⟩⟩, true⟩] : List PowerCuboid) = some 145781 :=
    sumTails_cons _ _ _ 0 145781 145781 cov_n177 s2 rfl
  have s0 : sumTails (covGo 17) ([⟨⟨⟨8, 24, 0⟩, ⟨-22, -6, -38⟩⟩, true⟩,
   ⟨⟨⟨2, 24, 17⟩, ⟨-22, -3, -24⟩⟩, true⟩,
   ⟨⟨⟨29, 23, 17⟩, ⟨2, -22, -23⟩⟩, true⟩,
   ⟨⟨⟨24, 24, 17⟩, ⟨-22, -28, -21⟩⟩, true⟩,
   ⟨⟨⟨6, 24, 17⟩, ⟨-22, -6, -3⟩⟩, true⟩,
   ⟨⟨⟨22, 24, 17⟩, ⟨-22, -8, -13⟩⟩, true⟩,
   ⟨⟨⟨27, 21, 17⟩, ⟨-22, -27, -29⟩⟩, true⟩,
   ⟨⟨⟨29, 24, -1⟩, ⟨-12, 6, -38⟩⟩, true⟩,
   ⟨⟨⟨27, 16, 17⟩, ⟨-18, -29, -7⟩⟩, true⟩,
   ⟨⟨⟨29, 11, 7⟩, ⟨-16, -29, -38⟩⟩, true⟩,
   ⟨⟨⟨-22, 24, 4⟩, ⟨-22, 11, -14⟩⟩, false⟩,
   ⟨⟨⟨-4, 24, 17⟩, ⟨-22, -3, -29⟩⟩, true⟩,
   ⟨⟨⟨29, -7, 14⟩, ⟨18, -20, -3⟩⟩, false⟩,
   ⟨⟨⟨10, 24, 16⟩, ⟨-22, -7, -33⟩⟩, true⟩] : List PowerCuboid) = some 146941 :=
    sumTails_cons _ _ _ 1160 145781 146941 cov_n163 s1 rfl
  rw [covGo_succ, ks_n190, s0]
  decide

/-- Net contribution of instruction 2 of the filtered reference
input against its suffix. -/
theorem instr_n2 :
    computeOnVolume ⟨⟨⟨29, 24, 17⟩, ⟨-22, -29, -38⟩⟩, true⟩
    ([⟨⟨⟨8, 47, 0⟩, ⟨-46, -6, -50⟩⟩, true⟩,
   ⟨⟨⟨2, 47, 29⟩, ⟨-49, -3, -24⟩⟩, true⟩,
   ⟨⟨⟨48, 23, 28⟩, ⟨2, -22, -23⟩⟩, true⟩,
   ⟨⟨⟨24, 27, 30⟩, ⟨-27, -28, -21⟩⟩, true⟩,
   ⟨⟨⟨6, 48, 45⟩, ⟨-39, -6, -3⟩⟩, true⟩,
   ⟨⟨⟨22, 44, 35⟩, ⟨-30, -8, -13⟩⟩, true⟩,
   ⟨⟨⟨27, 21, 20⟩, ⟨-22, -27, -29⟩⟩, true⟩,
   ⟨⟨⟨-31, 42, -36⟩, ⟨-48, 26, -47⟩⟩, false⟩,
   ⟨⟨⟨36, 51, -1⟩, ⟨-12, 6, -50⟩⟩, true⟩,
   ⟨⟨⟨-31, -15, -4⟩, ⟨-48, -32, -15⟩⟩, false⟩,
   ⟨⟨⟨27, 16, 47⟩, ⟨-18, -33, -7⟩⟩, true⟩,
   ⟨⟨⟨-21, -27, 42⟩, ⟨-40, -38, 23⟩⟩, false⟩,
   ⟨⟨⟨36, 11, 7⟩, ⟨-16, -41, -47⟩⟩, true⟩,
   ⟨⟨⟨-22, 31, 4⟩, ⟨-32, 11, -14⟩⟩, false⟩,
   ⟨⟨⟨-4, 46, 19⟩, ⟨-49, -3, -29⟩⟩, true⟩,
   ⟨⟨⟨31, -7, 14⟩, ⟨18, -20, -3⟩⟩, false⟩,
   ⟨⟨⟨10, 44, 16⟩, ⟨-41, -7, -33⟩⟩, true⟩] : List PowerCuboid) = some 1724 := by
  show covGo 18 ⟨⟨⟨29, 24, 17⟩, ⟨-22, -29, -38⟩⟩, true⟩
    ([⟨⟨⟨8, 47, 0⟩, ⟨-46, -6, -50⟩⟩, true⟩,
   ⟨⟨⟨2, 47, 29⟩, ⟨-49, -3, -24⟩⟩, true⟩,
   ⟨⟨⟨48, 23, 28⟩, ⟨2, -22, -23⟩⟩, true⟩,
   ⟨⟨⟨24, 27, 30⟩, ⟨-27, -28, -21⟩⟩, true⟩,
   ⟨⟨⟨6, 48, 45⟩, ⟨-39, -6, -3⟩⟩, true⟩,
   ⟨⟨⟨22, 44, 35⟩, ⟨-30, -8, -13⟩⟩, true⟩,
   ⟨⟨⟨27, 21, 20⟩, ⟨-22, -27, -29⟩⟩, true⟩,
   ⟨⟨⟨-31, 42, -36⟩, ⟨-48, 26, -47⟩⟩, false⟩,
   ⟨⟨⟨36, 51, -1⟩, ⟨-12, 6, -50⟩⟩, true⟩,
   ⟨⟨⟨-31, -15, -4⟩, ⟨-48, -32, -15⟩⟩, false⟩,
   ⟨⟨⟨27, 16, 47⟩, ⟨-18, -33, -7⟩⟩, true⟩,
   ⟨⟨⟨-21, -27, 42⟩, ⟨-40, -38, 23⟩⟩, false⟩,
   ⟨⟨⟨36, 11, 7⟩, ⟨-16, -41, -47⟩⟩, true⟩,
   ⟨⟨⟨-22, 31, 4⟩, ⟨-32, 11, -14⟩⟩, false⟩,
   ⟨⟨⟨-4, 46, 19⟩, ⟨-49, -3, -29⟩⟩, true⟩,
   ⟨⟨⟨31, -7, 14⟩, ⟨18, -20, -3⟩⟩, false⟩,
   ⟨⟨⟨10, 44, 16⟩, ⟨-41, -7, -33⟩⟩, true⟩] : List PowerCuboid) = some 1724
  exact cov_n162

/-- Leaf evaluation of the embedded recursion (832 nodes). -/
theorem cov_n192 :
    covGo 16 ⟨⟨⟨2, 47, 0⟩, ⟨-46, -3, -24⟩⟩, true⟩
    ([⟨⟨⟨8, 23, 0⟩, ⟨2, -6, -23⟩⟩, true⟩,
   ⟨⟨⟨8, 27, 0⟩, ⟨-27, -6, -21⟩⟩, true⟩,
   ⟨⟨⟨6, 47, 0⟩, ⟨-39, -6, -3⟩⟩, true⟩,
   ⟨⟨⟨8, 44, 0⟩, ⟨-30, -6, -13⟩⟩, true⟩,
   ⟨⟨⟨8, 21, 0⟩, ⟨-22, -6, -29⟩⟩, true⟩,
   ⟨⟨⟨-31, 42, -36⟩, ⟨-46, 26, -47⟩⟩, false⟩,
   ⟨⟨⟨8, 47, -1⟩, ⟨-12, 6, -50⟩⟩, true⟩,
   ⟨⟨⟨8, 16, 0⟩, ⟨-18, -6, -7⟩⟩, true⟩,
   ⟨⟨⟨8, 11, 0⟩, ⟨-16, -6, -47⟩⟩, true⟩,
   ⟨⟨⟨-22, 31, 0⟩, ⟨-32, 11, -14⟩⟩, false⟩,
   ⟨⟨⟨-4, 46, 0⟩, ⟨-46, -3, -29⟩⟩, true⟩,
   ⟨⟨⟨8, 44, 0⟩, ⟨-41, -6, -33⟩⟩, true⟩] : List PowerCuboid) = some 735 := by decide!

/-- Leaf evaluation of the embedded recursion (256 nodes). -/
theorem cov_n193 :
    covGo 16 ⟨⟨⟨8, 23, 0⟩, ⟨2, -6, -23⟩⟩, true⟩
    ([⟨⟨⟨8, 27, 0⟩, ⟨-27, -6, -21⟩⟩, true⟩,
   ⟨⟨⟨6, 47, 0⟩, ⟨-39, -6, -3⟩⟩, true⟩,
   ⟨⟨⟨8, 44, 0⟩, ⟨-30, -6, -13⟩⟩, true⟩,
   ⟨⟨⟨8, 21, 0⟩, ⟨-22, -6, -29⟩⟩, true⟩,
   ⟨⟨⟨-31, 42, -36⟩, ⟨-46, 26, -47⟩⟩, false⟩,
   ⟨⟨⟨8, 47, -1⟩, ⟨-12, 6, -50⟩⟩, true⟩,
   ⟨⟨⟨8, 16, 0⟩, ⟨-18, -6, -7⟩⟩, true⟩,
   ⟨⟨⟨8, 11, 0⟩, ⟨-16, -6, -47⟩⟩, true⟩,
   ⟨⟨⟨-22, 31, 0⟩, ⟨-32, 11, -14⟩⟩, false⟩,
   ⟨⟨⟨-4, 46, 0⟩, ⟨-46, -3, -29⟩⟩, true⟩,
   ⟨⟨⟨8, 44, 0⟩, ⟨-41, -6, -33⟩⟩, true⟩] : List PowerCuboid) = some 0 := by decide!

/-- Leaf evaluation of the embedded recursion (288 nodes). -/
theorem cov_n194 :
    covGo 16 ⟨⟨⟨8, 27, 0⟩, ⟨-27, -6, -21⟩⟩, true⟩
    ([⟨⟨⟨6, 47, 0⟩, ⟨-39, -6, -3⟩⟩, true⟩,
   ⟨⟨⟨8, 44, 0⟩, ⟨-30, -6, -13⟩⟩, true⟩,
   ⟨⟨⟨8, 21, 0⟩, ⟨-22, -6, -29⟩⟩, true⟩,
   ⟨⟨⟨-31, 42, -36⟩, ⟨-46, 26, -47⟩⟩, false⟩,
   ⟨⟨⟨8, 47, -1⟩, ⟨-12, 6, -50⟩⟩, true⟩,
   ⟨⟨⟨8, 16, 0⟩, ⟨-18, -6, -7⟩⟩, true⟩,
   ⟨⟨⟨8, 11, 0⟩, ⟨-16, -6, -47⟩⟩, true⟩,
   ⟨⟨⟨-22, 31, 0⟩, ⟨-32, 11, -14⟩⟩, false⟩,
   ⟨⟨⟨-4, 46, 0⟩, ⟨-46, -3, -29⟩⟩, true⟩,
   ⟨⟨⟨8, 44, 0⟩, ⟨-41, -6, -33⟩⟩, true⟩] : List PowerCuboid) = some 0 := by decide!

/-- Leaf evaluation of the embedded recursion (144 nodes). -/
theorem cov_n195 :
    covGo 16 ⟨⟨⟨6, 47, 0⟩, ⟨-39, -6, -3⟩⟩, true⟩
    ([⟨⟨⟨8, 44, 0⟩, ⟨-30, -6, -13⟩⟩, true⟩,
   ⟨⟨⟨8, 21, 0⟩, ⟨-22, -6, -29⟩⟩, true⟩,
   ⟨⟨⟨-31, 42, -36⟩, ⟨-46, 26, -47⟩⟩, false⟩,
   ⟨⟨⟨8, 47, -1⟩, ⟨-12, 6, -50⟩⟩, true⟩,
   ⟨⟨⟨8, 16, 0⟩, ⟨-18, -6, -7⟩⟩, true⟩,
   ⟨⟨⟨8, 11, 0⟩, ⟨-16, -6, -47⟩⟩, true⟩,
   ⟨⟨⟨-22, 31, 0⟩, ⟨-32, 11, -14⟩⟩, false⟩,
   ⟨⟨⟨-4, 46, 0⟩, ⟨-46, -3, -29⟩⟩, true⟩,
   ⟨⟨⟨8, 44, 0⟩, ⟨-41, -6, -33⟩⟩, true⟩] : List PowerCuboid) = some 119 := by decide!

/-- Leaf evaluation of the embedded recursion (72 nodes). -/
theorem cov_n196 :
    covGo 16 ⟨⟨⟨8, 44, 0⟩, ⟨-30, -6, -13⟩⟩, true⟩
    ([⟨⟨⟨8, 21, 0⟩, ⟨-22, -6, -29⟩⟩, true⟩,
   ⟨⟨⟨-31, 42, -36⟩, ⟨-46, 26, -47⟩⟩, false⟩,
   ⟨⟨⟨8, 47, -1⟩, ⟨-12, 6, -50⟩⟩, true⟩,
   ⟨⟨⟨8, 16, 0⟩, ⟨-18, -6, -7⟩⟩, true⟩,
   ⟨⟨⟨8, 11, 0⟩, ⟨-16, -6, -47⟩⟩, true⟩,
   ⟨⟨⟨-22, 31, 0⟩, ⟨-32, 11, -14⟩⟩, false⟩,
   ⟨⟨⟨-4, 46, 0⟩, ⟨-46, -3, -29⟩⟩, true⟩,
   ⟨⟨⟨8, 44, 0⟩, ⟨-41, -6, -33⟩⟩, true⟩] : List PowerCuboid) = some 0 := by decide!

/-- Leaf evaluation of the embedded recursion (36 nodes). -/
theorem cov_n197 :
    covGo 16 ⟨⟨⟨8, 21, 0⟩, ⟨-22, -6, -29⟩⟩, true⟩
    ([⟨⟨⟨-31, 42, -36⟩, ⟨-46, 26, -47⟩⟩, false⟩,
   ⟨⟨⟨8, 47, -1⟩, ⟨-12, 6, -50⟩⟩, true⟩,
   ⟨⟨⟨8, 16, 0⟩, ⟨-18, -6, -7⟩⟩, true⟩,
   ⟨⟨⟨8, 11, 0⟩, ⟨-16, -6, -47⟩⟩, true⟩,
   ⟨⟨⟨-22, 31, 0⟩, ⟨-32, 11, -14⟩⟩, false⟩,
   ⟨⟨⟨-4, 46, 0⟩, ⟨-46, -3, -29⟩⟩, true⟩,
   ⟨⟨⟨8, 44, 0⟩, ⟨-41, -6, -33⟩⟩, true⟩] : List PowerCuboid) = some 0 := by decide!

/-- Leaf evaluation of the embedded recursion (1 nodes). -/
theorem cov_n198 :
    covGo 16 ⟨⟨⟨-31, 42, -36⟩, ⟨-46, 26, -47⟩⟩, false⟩
    ([⟨⟨⟨8, 47, -1⟩, ⟨-12, 6, -50⟩⟩, true⟩,
   ⟨⟨⟨8, 16, 0⟩, ⟨-18, -6, -7⟩⟩, true⟩,
   ⟨⟨⟨8, 11, 0⟩, ⟨-16, -6, -47⟩⟩, true⟩,
   ⟨⟨⟨-22, 31, 0⟩, ⟨-32, 11, -14⟩⟩, false⟩,
   ⟨⟨⟨-4, 46, 0⟩, ⟨-46, -3, -29⟩⟩, true⟩,
   ⟨⟨⟨8, 44, 0⟩, ⟨-41, -6, -33⟩⟩, true⟩] : List PowerCuboid) = some 2640 := by decide!

/-- Leaf evaluation of the embedded recursion (16 nodes). -/
theorem cov_n199 :
    covGo 16 ⟨⟨⟨8, 47, -1⟩, ⟨-12, 6, -50⟩⟩, true⟩
    ([⟨⟨⟨8, 16, 0⟩, ⟨-18, -6, -7⟩⟩, true⟩,
   ⟨⟨⟨8, 11, 0⟩, ⟨-16, -6, -47⟩⟩, true⟩,
   ⟨⟨⟨-22, 31, 0⟩, ⟨-32, 11, -14⟩⟩, false⟩,
   ⟨⟨⟨-4, 46, 0⟩, ⟨-46, -3, -29⟩⟩, true⟩,
   ⟨⟨⟨8, 44, 0⟩, ⟨-41, -6, -33⟩⟩, true⟩] : List PowerCuboid) = some 14012 := by decide!

/-- Leaf evaluation of the embedded recursion (8 nodes). -/
theorem cov_n200 :
    covGo 16 ⟨⟨⟨8, 16, 0⟩, ⟨-18, -6, -7⟩⟩, true⟩
    ([⟨⟨⟨8, 11, 0⟩, ⟨-16, -6, -47⟩⟩, true⟩,
   ⟨⟨⟨-22, 31, 0⟩, ⟨-32, 11, -14⟩⟩, false⟩,
   ⟨⟨⟨-4, 46, 0⟩, ⟨-46, -3, -29⟩⟩, true⟩,
   ⟨⟨⟨8, 44, 0⟩, ⟨-41, -6, -33⟩⟩, true⟩] : List PowerCuboid) = some 0 := by decide!

/-- Leaf evaluation of the embedded recursion (4 nodes). -/
theorem cov_n201 :
    covGo 16 ⟨⟨⟨8, 11, 0⟩, ⟨-16, -6, -47⟩⟩, true⟩
    ([⟨⟨⟨-22, 31, 0⟩, ⟨-32, 11, -14⟩⟩, false⟩,
   ⟨⟨⟨-4, 46, 0⟩, ⟨-46, -3, -29⟩⟩, true⟩,
   ⟨⟨⟨8, 44, 0⟩, ⟨-41, -6, -33⟩⟩, true⟩] : List PowerCuboid) = some 5712 := by decide!

/-- Leaf evaluation of the embedded recursion (4 nodes). -/
theorem cov_n202 :
    covGo 16 ⟨⟨⟨-22, 31, 0⟩, ⟨-32, 11, -14⟩⟩, false⟩
    ([⟨⟨⟨-4, 46, 0⟩, ⟨-46, -3, -29⟩⟩, true⟩,
   ⟨⟨⟨8, 44, 0⟩, ⟨-41, -6, -33⟩⟩, true⟩] : List PowerCuboid) = some 0 := by decide!

/-- Leaf evaluation of the embedded recursion (2 nodes). -/
theorem cov_n203 :
    covGo 16 ⟨⟨⟨-4, 46, 0⟩, ⟨-46, -3, -29⟩⟩, true⟩
    ([⟨⟨⟨8, 44, 0⟩, ⟨-41, -6, -33⟩⟩, true⟩] : List PowerCuboid) = some 9251 := by decide!

/-- Leaf evaluation of the embedded recursion (1 nodes). -/
theorem cov_n204 :
    covGo 16 ⟨⟨⟨8, 44, 0⟩, ⟨-41, -6, -33⟩⟩, true⟩
    ([] : List PowerCuboid) = some 80850 := by decide!

/-- The conflict list of the node above, evaluated. -/
theorem ks_n205 :
    List.filterMap (fun c => PowerCuboid.intersect ⟨⟨⟨8, 47, 0⟩, ⟨-46, -6, -50⟩⟩, true⟩ c)
    ([⟨⟨⟨2, 47, 29⟩, ⟨-49, -3, -24⟩⟩, true⟩,
   ⟨⟨⟨48, 23, 28⟩, ⟨2, -22, -23⟩⟩, true⟩,
   ⟨⟨⟨24, 27, 30⟩, ⟨-27, -28, -21⟩⟩, true⟩,
   ⟨⟨⟨6, 48, 45⟩, ⟨-39, -6, -3⟩⟩, true⟩,
   ⟨⟨⟨22, 44, 35⟩, ⟨-30, -8, -13⟩⟩, true⟩,
   ⟨⟨⟨27, 21, 20⟩, ⟨-22, -27, -29⟩⟩, true⟩,
   ⟨⟨⟨-31, 42, -36⟩, ⟨-48, 26, -47⟩⟩, false⟩,
   ⟨⟨⟨36, 51, -1⟩, ⟨-12, 6, -50⟩⟩, true⟩,
   ⟨⟨⟨-31, -15, -4⟩, ⟨-48, -32, -15⟩⟩, false⟩,
   ⟨⟨⟨27, 16, 47⟩, ⟨-18, -33, -7⟩⟩, true⟩,
   ⟨⟨⟨-21, -27, 42⟩, ⟨-40, -38, 23⟩⟩, false⟩,
   ⟨⟨⟨36, 11, 7⟩, ⟨-16, -41, -47⟩⟩, true⟩,
   ⟨⟨⟨-22, 31, 4⟩, ⟨-32, 11, -14⟩⟩, false⟩,
   ⟨⟨⟨-4, 46, 19⟩, ⟨-49, -3, -29⟩⟩, true⟩,
   ⟨⟨⟨31, -7, 14⟩, ⟨18, -20, -3⟩⟩, false⟩,
   ⟨⟨⟨10, 44, 16⟩, ⟨-41, -7, -33⟩⟩, true⟩] : List PowerCuboid) = ([⟨⟨⟨2, 47, 0⟩, ⟨-46, -3, -24⟩⟩, true⟩,
   ⟨⟨⟨8, 23, 0⟩, ⟨2, -6, -23⟩⟩, true⟩,
   ⟨⟨⟨8, 27, 0⟩, ⟨-27, -6, -21⟩⟩, true⟩,
   ⟨⟨⟨6, 47, 0⟩, ⟨-39, -6, -3⟩⟩, true⟩,
   ⟨⟨⟨8, 44, 0⟩, ⟨-30, -6, -13⟩⟩, true⟩,
   ⟨⟨⟨8, 21, 0⟩, ⟨-22, -6, -29⟩⟩, true⟩,
   ⟨⟨⟨-31, 42, -36⟩, ⟨-46, 26, -47⟩⟩, false⟩,
   ⟨⟨⟨8, 47, -1⟩, ⟨-12, 6, -50⟩⟩, true⟩,
   ⟨⟨⟨8, 16, 0⟩, ⟨-18, -6, -7⟩⟩, true⟩,
   ⟨⟨⟨8, 11, 0⟩, ⟨-16, -6, -47⟩⟩, true⟩,
   ⟨⟨⟨-22, 31, 0⟩, ⟨-32, 11, -14⟩⟩, false⟩,
   ⟨⟨⟨-4, 46, 0⟩, ⟨-46, -3, -29⟩⟩, true⟩,
   ⟨⟨⟨8, 44, 0⟩, ⟨-41, -6, -33⟩⟩, true⟩] : List PowerCuboid) := by decide!

/-- Split evaluation of the embedded recursion (1665 nodes in total),
assembled from the conflict list and the net contributions of its
members. -/
theorem cov_n191 :
    covGo 17 ⟨⟨⟨8, 47, 0⟩, ⟨-46, -6, -50⟩⟩, true⟩
    ([⟨⟨⟨2, 47, 29⟩, ⟨-49, -3, -24⟩⟩, true⟩,
   ⟨⟨⟨48, 23, 28⟩, ⟨2, -22, -23⟩⟩, true⟩,
   ⟨⟨⟨24, 27, 30⟩, ⟨-27, -28, -21⟩⟩, true⟩,
   ⟨⟨⟨6, 48, 45⟩, ⟨-39, -6, -3⟩⟩, true⟩,
   ⟨⟨⟨22, 44, 35⟩, ⟨-30, -8, -13⟩⟩, true⟩,
   ⟨⟨⟨27, 21, 20⟩, ⟨-22, -27, -29⟩⟩, true⟩,
   ⟨⟨⟨-31, 42, -36⟩, ⟨-48, 26, -47⟩⟩, false⟩,
   ⟨⟨⟨36, 51, -1⟩, ⟨-12, 6, -50⟩⟩, true⟩,
   ⟨⟨⟨-31, -15, -4⟩, ⟨-48, -32, -15⟩⟩, false⟩,
   ⟨⟨⟨27, 16, 47⟩, ⟨-18, -33, -7⟩⟩, true⟩,
   ⟨⟨⟨-21, -27, 42⟩, ⟨-40, -38, 23⟩⟩, false⟩,
   ⟨⟨⟨36, 11, 7⟩, ⟨-16, -41, -47⟩⟩, true⟩,
   ⟨⟨⟨-22, 31, 4⟩, ⟨-32, 11, -14⟩⟩, false⟩,
   ⟨⟨⟨-4, 46, 19⟩, ⟨-49, -3, -29⟩⟩, true⟩,
   ⟨⟨⟨31, -7, 14⟩, ⟨18, -20, -3⟩⟩, false⟩,
   ⟨⟨⟨10, 44, 16⟩, ⟨-41, -7, -33⟩⟩, true⟩] : List PowerCuboid) = some 29781 := by
  have s13 : sumTails (covGo 16) ([] : List PowerCuboid) = some 0 := rfl
  have s12 : sumTails (covGo 16) ([⟨⟨⟨8, 44, 0⟩, ⟨-41, -6, -33⟩⟩, true⟩] : List PowerCuboid) = some 80850 :=
    sumTails_cons _ _ _ 80850 0 80850 cov_n204 s13 rfl
  have s11 : sumTails (covGo 16) ([⟨⟨⟨-4, 46, 0⟩, ⟨-46, -3, -29⟩⟩, true⟩,
   ⟨⟨⟨8, 44, 0⟩, ⟨-41, -6, -33⟩⟩, true⟩] : List PowerCuboid) = some 90101 :=
    sumTails_cons _ _ _ 9251 80850 90101 cov_n203 s12 rfl
  have s10 : sumTails (covGo 16) ([⟨⟨⟨-22, 31, 0⟩, ⟨-32, 11, -14⟩⟩, false⟩,
   ⟨⟨⟨-4, 46, 0⟩, ⟨-46, -3, -29⟩⟩, true⟩,
   ⟨⟨⟨8, 44, 0⟩, ⟨-41, -6, -33⟩⟩, true⟩] : List PowerCuboid) = some 90101 :=
    sumTails_cons _ _ _ 0 90101 90101 cov_n202 s11 rfl
  have s9 : sumTails (covGo 16) ([⟨⟨⟨8, 11, 0⟩, ⟨-16, -6, -47⟩⟩, true⟩,
   ⟨⟨⟨-22, 31, 0⟩, ⟨-32, 11, -14⟩⟩, false⟩,
   ⟨⟨⟨-4, 46, 0⟩, ⟨-46, -3, -29⟩⟩, true⟩,
   ⟨⟨⟨8, 44, 0⟩, ⟨-41, -6, -33⟩⟩, true⟩] : List PowerCuboid) = some 95813 :=
    sumTails_cons _ _ _ 5712 90101 95813 cov_n201 s10 rfl
  have s8 : sumTails (covGo 16) ([⟨⟨⟨8, 16, 0⟩, ⟨-18, -6, -7⟩⟩, true⟩,
   ⟨⟨⟨8, 11, 0⟩, ⟨-16, -6, -47⟩⟩, true⟩,
   ⟨⟨⟨-22, 31, 0⟩, ⟨-32, 11, -14⟩⟩, false⟩,
   ⟨⟨⟨-4, 46, 0⟩, ⟨-46, -3, -29⟩⟩, true⟩,
   ⟨⟨⟨8, 44, 0⟩, ⟨-41, -6, -33⟩⟩, true⟩] : List PowerCuboid) = some 95813 :=
    sumTails_cons _ _ _ 0 95813 95813 cov_n200 s9 rfl
  have s7 : sumTails (covGo 16) ([⟨⟨⟨8, 47, -1⟩, ⟨-12, 6, -50⟩⟩, true⟩,
   ⟨⟨⟨8, 16, 0⟩, ⟨-18, -6, -7⟩⟩, true⟩,
   ⟨⟨⟨8, 11, 0⟩, ⟨-16, -6, -47⟩⟩, true⟩,
   ⟨⟨⟨-22, 31, 0⟩, ⟨-32, 11, -14⟩⟩, false⟩,
   ⟨⟨⟨-4, 46, 0⟩, ⟨-46, -3, -29⟩⟩, true⟩,
   ⟨⟨⟨8, 44, 0⟩, ⟨-41, -6, -33⟩⟩, true⟩] : List PowerCuboid) = some 109825 :=
    sumTails_cons _ _ _ 14012 95813 109825 cov_n199 s8 rfl
  have s6 : sumTails (covGo 16) ([⟨⟨⟨-31, 42, -36⟩, ⟨-46, 26, -47⟩⟩, false⟩,
   ⟨⟨⟨8, 47, -1⟩, ⟨-12, 6, -50⟩⟩, true⟩,
   ⟨⟨⟨8, 16, 0⟩, ⟨-18, -6, -7⟩⟩, true⟩,
   ⟨⟨⟨8, 11, 0⟩, ⟨-16, -6, -47⟩⟩, true⟩,
   ⟨⟨⟨-22, 31, 0⟩, ⟨-32, 11, -14⟩⟩, false⟩,
   ⟨⟨⟨-4, 46, 0⟩, ⟨-46, -3, -29⟩⟩, true⟩,
   ⟨⟨⟨8, 44, 0⟩, ⟨-41, -6, -33⟩⟩, true⟩] : List PowerCuboid) = some 112465 :=
    sumTails_cons _ _ _ 2640 109825 112465 cov_n198 s7 rfl
  have s5 : sumTails (covGo 16) ([⟨⟨⟨8, 21, 0⟩, ⟨-22, -6, -29⟩⟩, true⟩,
   ⟨⟨⟨-31, 42, -36⟩, ⟨-46, 26, -47⟩⟩, false⟩,
   ⟨⟨⟨8, 47, -1⟩, ⟨-12, 6, -50⟩⟩, true⟩,
   ⟨⟨⟨8, 16, 0⟩, ⟨-18, -6, -7⟩⟩, true⟩,
   ⟨⟨⟨8, 11, 0⟩, ⟨-16, -6, -47⟩⟩, true⟩,
   ⟨⟨⟨-22, 31, 0⟩, ⟨-32, 11, -14⟩⟩, false⟩,
   ⟨⟨⟨-4, 46, 0⟩, ⟨-46, -3, -29⟩⟩, true⟩,
   ⟨⟨⟨8, 44, 0⟩, ⟨-41, -6, -33⟩⟩, true⟩] : List PowerCuboid) = some 112465 :=
    sumTails_cons _ _ _ 0 112465 112465 cov_n197 s6 rfl
  have s4 : sumTails (covGo 16) ([⟨⟨⟨8, 44, 0⟩, ⟨-30, -6, -13⟩⟩, true⟩,
   ⟨⟨⟨8, 21, 0⟩, ⟨-22, -6, -29⟩⟩, true⟩,
   ⟨⟨⟨-31, 42, -36⟩, ⟨-46, 26, -47⟩⟩, false⟩,
   ⟨⟨⟨8, 47, -1⟩, ⟨-12, 6, -50⟩⟩, true⟩,
   ⟨⟨⟨8, 16, 0⟩, ⟨-18, -6, -7⟩⟩, true⟩,
   ⟨⟨⟨8, 11, 0⟩, ⟨-16, -6, -47⟩⟩, true⟩,
   ⟨⟨⟨-22, 31, 0⟩, ⟨-32, 11, -14⟩⟩, false⟩,
   ⟨⟨⟨-4, 46, 0⟩, ⟨-46, -3, -29⟩⟩, true⟩,
   ⟨⟨⟨8, 44, 0⟩, ⟨-41, -6, -33⟩⟩, true⟩] : List PowerCuboid) = some 112465 :=
    sumTails_cons _ _ _ 0 112465 112465 cov_n196 s5 rfl
  have s3 : sumTails (covGo 16) ([⟨⟨⟨6, 47, 0⟩, ⟨-39, -6, -3⟩⟩, true⟩,
   ⟨⟨⟨8, 44, 0⟩, ⟨-30, -6, -13⟩⟩, true⟩,
   ⟨⟨⟨8, 21, 0⟩, ⟨-22, -6, -29⟩⟩, true⟩,
   ⟨⟨⟨-31, 42, -36⟩, ⟨-46, 26, -47⟩⟩, false⟩,
   ⟨⟨⟨8, 47, -1⟩, ⟨-12, 6, -50⟩⟩, true⟩,
   ⟨⟨⟨8, 16, 0⟩, ⟨-18, -6, -7⟩⟩, true⟩,
   ⟨⟨⟨8, 11, 0⟩, ⟨-16, -6, -47⟩⟩, true⟩,
   ⟨⟨⟨-22, 31, 0⟩, ⟨-32, 11, -14⟩⟩, false⟩,
   ⟨⟨⟨-4, 46, 0⟩, ⟨-46, -3, -29⟩⟩, true⟩,
   ⟨⟨⟨8, 44, 0⟩, ⟨-41, -6, -33⟩⟩, true⟩] : List PowerCuboid) = some 112584 :=
    sumTails_cons _ _ _ 119 112465 112584 cov_n195 s4 rfl
  have s2 : sumTails (covGo 16) ([⟨⟨⟨8, 27, 0⟩, ⟨-27, -6, -21⟩⟩, true⟩,
   ⟨⟨⟨6, 47, 0⟩, ⟨-39, -6, -3⟩⟩, true⟩,
   ⟨⟨⟨8, 44, 0⟩, ⟨-30, -6, -13⟩⟩, true⟩,
   ⟨⟨⟨8, 21, 0⟩, ⟨-22, -6, -29⟩⟩, true⟩,
   ⟨⟨⟨-31, 42, -36⟩, ⟨-46, 26, -47⟩⟩, false⟩,
   ⟨⟨⟨8, 47, -1⟩, ⟨-12, 6, -50⟩⟩, true⟩,
   ⟨⟨⟨8, 16, 0⟩, ⟨-18, -6, -7⟩⟩, true⟩,
   ⟨⟨⟨8, 11, 0⟩, ⟨-16, -6, -47⟩⟩, true⟩,
   ⟨⟨⟨-22, 31, 0⟩, ⟨-32, 11, -14⟩⟩, false⟩,
   ⟨⟨⟨-4, 46, 0⟩, ⟨-46, -3, -29⟩⟩, true⟩,
   ⟨⟨⟨8, 44, 0⟩, ⟨-41, -6, -33⟩⟩, true⟩] : List PowerCuboid) = some 112584 :=
    sumTails_cons _ _ _ 0 112584 112584 cov_n194 s3 rfl
  have s1 : sumTails (covGo 16) ([⟨⟨⟨8, 23, 0⟩, ⟨2, -6, -23⟩⟩, true⟩,
   ⟨⟨⟨8, 27, 0⟩, ⟨-27, -6, -21⟩⟩, true⟩,
   ⟨⟨⟨6, 47, 0⟩, ⟨-39, -6, -3⟩⟩, true⟩,
   ⟨⟨⟨8, 44, 0⟩, ⟨-30, -6, -13⟩⟩, true⟩,
   ⟨⟨⟨8, 21, 0⟩, ⟨-22, -6, -29⟩⟩, true⟩,
   ⟨⟨⟨-31, 42, -36⟩, ⟨-46, 26, -47⟩⟩, false⟩,
   ⟨⟨⟨8, 47, -1⟩, ⟨-12, 6, -50⟩⟩, true⟩,
   ⟨⟨⟨8, 16, 0⟩, ⟨-18, -6, -7⟩⟩, true⟩,
   ⟨⟨⟨8, 11, 0⟩, ⟨-16, -6, -47⟩⟩, true⟩,
   ⟨⟨⟨-22, 31, 0⟩, ⟨-32, 11, -14⟩⟩, false⟩,
   ⟨⟨⟨-4, 46, 0⟩, ⟨-46, -3, -29⟩⟩, true⟩,
   ⟨⟨⟨8, 44, 0⟩, ⟨-41, -6, -33⟩⟩, true⟩] : List PowerCuboid) = some 112584 :=
    sumTails_cons _ _ _ 0 112584 112584 cov_n193 s2 rfl
  have s0 : sumTails (covGo 16) ([⟨⟨⟨2, 47, 0⟩, ⟨-46, -3, -24⟩⟩, true⟩,
   ⟨⟨⟨8, 23, 0⟩, ⟨2, -6, -23⟩⟩, true⟩,
   ⟨⟨⟨8, 27, 0⟩, ⟨-27, -6, -21⟩⟩, true⟩,
   ⟨⟨⟨6, 47, 0⟩, ⟨-39, -6, -3⟩⟩, true⟩,
   ⟨⟨⟨8, 44, 0⟩, ⟨-30, -6, -13⟩⟩, true⟩,
   ⟨⟨⟨8, 21, 0⟩, ⟨-22, -6, -29⟩⟩, true⟩,
   ⟨⟨⟨-31, 42, -36⟩, ⟨-46, 26, -47⟩⟩, false⟩,
   ⟨⟨⟨8, 47, -1⟩, ⟨-12, 6, -50⟩⟩, true⟩,
   ⟨⟨⟨8, 16, 0⟩, ⟨-18, -6, -7⟩⟩, true⟩,
   ⟨⟨⟨8, 11, 0⟩, ⟨-16, -6, -47⟩⟩, true⟩,
   ⟨⟨⟨-22, 31, 0⟩, ⟨-32, 11, -14⟩⟩, false⟩,
   ⟨⟨⟨-4, 46, 0⟩, ⟨-46, -3, -29⟩⟩, true⟩,
   ⟨⟨⟨8, 44, 0⟩, ⟨-41, -6, -33⟩⟩, true⟩] : List PowerCuboid) = some 113319 :=
    sumTails_cons _ _ _ 735 112584 113319 cov_n192 s1 rfl
  rw [covGo_succ, ks_n205, s0]
  decide

/-- Net contribution of instruction 3 of the filtered reference
input against its suffix. -/
theorem instr_n3 :
    computeOnVolume ⟨⟨⟨8, 47, 0⟩, ⟨-46, -6, -50⟩⟩, true⟩
    ([⟨⟨⟨2, 47, 29⟩, ⟨-49, -3, -24⟩⟩, true⟩,
   ⟨⟨⟨48, 23, 28⟩, ⟨2, -22, -23⟩⟩, true⟩,
   ⟨⟨⟨24, 27, 30⟩, ⟨-27, -28, -21⟩⟩, true⟩,
   ⟨⟨⟨6, 48, 45⟩, ⟨-39, -6, -3⟩⟩, true⟩,
   ⟨⟨⟨22, 44, 35⟩, ⟨-30, -8, -13⟩⟩, true⟩,
   ⟨⟨⟨27, 21, 20⟩, ⟨-22, -27, -29⟩⟩, true⟩,
   ⟨⟨⟨-31, 42, -36⟩, ⟨-48, 26, -47⟩⟩, false⟩,
   ⟨⟨⟨36, 51, -1⟩, ⟨-12, 6, -50⟩⟩, true⟩,
   ⟨⟨⟨-31, -15, -4⟩, ⟨-48, -32, -15⟩⟩, false⟩,
   ⟨⟨⟨27, 16, 47⟩, ⟨-18, -33, -7⟩⟩, true⟩,
   ⟨⟨⟨-21, -27, 42⟩, ⟨-40, -38, 23⟩⟩, false⟩,
   ⟨⟨⟨36, 11, 7⟩, ⟨-16, -41, -47⟩⟩, true⟩,
   ⟨⟨⟨-22, 31, 4⟩, ⟨-32, 11, -14⟩⟩, false⟩,
   ⟨⟨⟨-4, 46, 19⟩, ⟨-49, -3, -29⟩⟩, true⟩,
   ⟨⟨⟨31, -7, 14⟩, ⟨18, -20, -3⟩⟩, false⟩,
   ⟨⟨⟨10, 44, 16⟩, ⟨-41, -7, -33⟩⟩, true⟩] : List PowerCuboid) = some 29781 := by
  show covGo 17 ⟨⟨⟨8, 47, 0⟩, ⟨-46, -6, -50⟩⟩, true⟩
    ([⟨⟨⟨2, 47, 29⟩, ⟨-49, -3, -24⟩⟩, true⟩,
   ⟨⟨⟨48, 23, 28⟩, ⟨2, -22, -23⟩⟩, true⟩,
   ⟨⟨⟨24, 27, 30⟩, ⟨-27, -28, -21⟩⟩, true⟩,
   ⟨⟨⟨6, 48, 45⟩, ⟨-39, -6, -3⟩⟩, true⟩,
   ⟨⟨⟨22, 44, 35⟩, ⟨-30, -8, -13⟩⟩, true⟩,
   ⟨⟨⟨27, 21, 20⟩, ⟨-22, -27, -29⟩⟩, true⟩,
   ⟨⟨⟨-31, 42, -36⟩, ⟨-48, 26, -47⟩⟩, false⟩,
   ⟨⟨⟨36, 51, -1⟩, ⟨-12, 6, -50⟩⟩, true⟩,
   ⟨⟨⟨-31, -15, -4⟩, ⟨-48, -32, -15⟩⟩, false⟩,
   ⟨⟨⟨27, 16, 47⟩, ⟨-18, -33, -7⟩⟩, true⟩,
   ⟨⟨⟨-21, -27, 42⟩, ⟨-40, -38, 23⟩⟩, false⟩,
   ⟨⟨⟨36, 11, 7⟩, ⟨-16, -41, -47⟩⟩, true⟩,
   ⟨⟨⟨-22, 31, 4⟩, ⟨-32, 11, -14⟩⟩, false⟩,
   ⟨⟨⟨-4, 46, 19⟩, ⟨-49, -3, -29⟩⟩, true⟩,
   ⟨⟨⟨31, -7, 14⟩, ⟨18, -20, -3⟩⟩, false⟩,
   ⟨⟨⟨10, 44, 16⟩, ⟨-41, -7, -33⟩⟩, true⟩] : List PowerCuboid) = some 29781
  exact cov_n191

/-- Leaf evaluation of the embedded recursion (832 nodes). -/
theorem cov_n206 :
    covGo 16 ⟨⟨⟨2, 47, 29⟩, ⟨-49, -3, -24⟩⟩, true⟩
    ([⟨⟨⟨48, 23, 28⟩, ⟨2, -22, -23⟩⟩, true⟩,
   ⟨⟨⟨24, 27, 30⟩, ⟨-27, -28, -21⟩⟩, true⟩,
   ⟨⟨⟨6, 48, 45⟩, ⟨-39, -6, -3⟩⟩, true⟩,
   ⟨⟨⟨22, 44, 35⟩, ⟨-30, -8, -13⟩⟩, true⟩,
   ⟨⟨⟨27, 21, 20⟩, ⟨-22, -27, -29⟩⟩, true⟩,
   ⟨⟨⟨-31, 42, -36⟩, ⟨-48, 26, -47⟩⟩, false⟩,
   ⟨⟨⟨36, 51, -1⟩, ⟨-12, 6, -50⟩⟩, true⟩,
   ⟨⟨⟨-31, -15, -4⟩, ⟨-48, -32, -15⟩⟩, false⟩,
   ⟨⟨⟨27, 16, 47⟩, ⟨-18, -33, -7⟩⟩, true⟩,
   ⟨⟨⟨-21, -27, 42⟩, ⟨-40, -38, 23⟩⟩, false⟩,
   ⟨⟨⟨36, 11, 7⟩, ⟨-16, -41, -47⟩⟩, true⟩,
   ⟨⟨⟨-22, 31, 4⟩, ⟨-32, 11, -14⟩⟩, false⟩,
   ⟨⟨⟨-4, 46, 19⟩, ⟨-49, -3, -29⟩⟩, true⟩,
   ⟨⟨⟨31, -7, 14⟩, ⟨18, -20, -3⟩⟩, false⟩,
   ⟨⟨⟨10, 44, 16⟩, ⟨-41, -7, -33⟩⟩, true⟩] : List PowerCuboid) = some 5997 := by decide!

/-- Net contribution of instruction 4 of the filtered reference
input against its suffix. -/
theorem instr_n4 :
    computeOnVolume ⟨⟨⟨2, 47, 29⟩, ⟨-49, -3, -24⟩⟩, true⟩
    ([⟨⟨⟨48, 23, 28⟩, ⟨2, -22, -23⟩⟩, true⟩,
   ⟨⟨⟨24, 27, 30⟩, ⟨-27, -28, -21⟩⟩, true⟩,
   ⟨⟨⟨6, 48, 45⟩, ⟨-39, -6, -3⟩⟩, true⟩,
   ⟨⟨⟨22, 44, 35⟩, ⟨-30, -8, -13⟩⟩, true⟩,
   ⟨⟨⟨27, 21, 20⟩, ⟨-22, -27, -29⟩⟩, true⟩,
   ⟨⟨⟨-31, 42, -36⟩, ⟨-48, 26, -47⟩⟩, false⟩,
   ⟨⟨⟨36, 51, -1⟩, ⟨-12, 6, -50⟩⟩, true⟩,
   ⟨⟨⟨-31, -15, -4⟩, ⟨-48, -32, -15⟩⟩, false⟩,
   ⟨⟨⟨27, 16, 47⟩, ⟨-18, -33, -7⟩⟩, true⟩,
   ⟨⟨⟨-21, -27, 42⟩, ⟨-40, -38, 23⟩⟩, false⟩,
   ⟨⟨⟨36, 11, 7⟩, ⟨-16, -41, -47⟩⟩, true⟩,
   ⟨⟨⟨-22, 31, 4⟩, ⟨-32, 11, -14⟩⟩, false⟩,
   ⟨⟨⟨-4, 46, 19⟩, ⟨-49, -3, -29⟩⟩, true⟩,
   ⟨⟨⟨31, -7, 14⟩, ⟨18, -20, -3⟩⟩, false⟩,
   ⟨⟨⟨10, 44, 16⟩, ⟨-41, -7, -33⟩⟩, true⟩] : List PowerCuboid) = some 5997 := by
  show covGo 16 ⟨⟨⟨2, 47, 29⟩, ⟨-49, -3, -24⟩⟩, true⟩
    ([⟨⟨⟨48, 23, 28⟩, ⟨2, -22, -23⟩⟩, true⟩,
   ⟨⟨⟨24, 27, 30⟩, ⟨-27, -28, -21⟩⟩, true⟩,
   ⟨⟨⟨6, 48, 45⟩, ⟨-39, -6, -3⟩⟩, true⟩,
   ⟨⟨⟨22, 44, 35⟩, ⟨-30, -8, -13⟩⟩, true⟩,
   ⟨⟨⟨27, 21, 20⟩, ⟨-22, -27, -29⟩⟩, true⟩,
   ⟨⟨⟨-31, 42, -36⟩, ⟨-48, 26, -47⟩⟩, false⟩,
   ⟨⟨⟨36, 51, -1⟩, ⟨-12, 6, -50⟩⟩, true⟩,
   ⟨⟨⟨-31, -15, -4⟩, ⟨-48, -32, -15⟩⟩, false⟩,
   ⟨⟨⟨27, 16, 47⟩, ⟨-18, -33, -7⟩⟩, true⟩,
   ⟨⟨⟨-21, -27, 42⟩, ⟨-40, -38, 23⟩⟩, false⟩,
   ⟨⟨⟨36, 11, 7⟩, ⟨-16, -41, -47⟩⟩, true⟩,
   ⟨⟨⟨-22, 31, 4⟩, ⟨-32, 11, -14⟩⟩, false⟩,
   ⟨⟨⟨-4, 46, 19⟩, ⟨-49, -3, -29⟩⟩, true⟩,
   ⟨⟨⟨31, -7, 14⟩, ⟨18, -20, -3⟩⟩, false⟩,
   ⟨⟨⟨10, 44, 16⟩, ⟨-41, -7, -33⟩⟩, true⟩] : List PowerCuboid) = some 5997
  exact cov_n206

/-- Leaf evaluation of the embedded recursion (288 nodes). -/
theorem cov_n207 :
    covGo 15 ⟨⟨⟨48, 23, 28⟩, ⟨2, -22, -23⟩⟩, true⟩
    ([⟨⟨⟨24, 27, 30⟩, ⟨-27, -28, -21⟩⟩, true⟩,
   ⟨⟨⟨6, 48, 45⟩, ⟨-39, -6, -3⟩⟩, true⟩,
   ⟨⟨⟨22, 44, 35⟩, ⟨-30, -8, -13⟩⟩, true⟩,
   ⟨⟨⟨27, 21, 20⟩, ⟨-22, -27, -29⟩⟩, true⟩,
   ⟨⟨⟨-31, 42, -36⟩, ⟨-48, 26, -47⟩⟩, false⟩,
   ⟨⟨⟨36, 51, -1⟩, ⟨-12, 6, -50⟩⟩, true⟩,
   ⟨⟨⟨-31, -15, -4⟩, ⟨-48, -32, -15⟩⟩, false⟩,
   ⟨⟨⟨27, 16, 47⟩, ⟨-18, -33, -7⟩⟩, true⟩,
   ⟨⟨⟨-21, -27, 42⟩, ⟨-40, -38, 23⟩⟩, false⟩,
   ⟨⟨⟨36, 11, 7⟩, ⟨-16, -41, -47⟩⟩, true⟩,
   ⟨⟨⟨-22, 31, 4⟩, ⟨-32, 11, -14⟩⟩, false⟩,
   ⟨⟨⟨-4, 46, 19⟩, ⟨-49, -3, -29⟩⟩, true⟩,
   ⟨⟨⟨31, -7, 14⟩, ⟨18, -20, -3⟩⟩, false⟩,
   ⟨⟨⟨10, 44, 16⟩, ⟨-41, -7, -33⟩⟩, true⟩] : List PowerCuboid) = some 36839 := by decide!

/-- Net contribution of instruction 5 of the filtered reference
input against its suffix. -/
theorem instr_n5 :
    computeOnVolume ⟨⟨⟨48, 23, 28⟩, ⟨2, -22, -23⟩⟩, true⟩
    ([⟨⟨⟨24, 27, 30⟩, ⟨-27, -28, -21⟩⟩, true⟩,
   ⟨⟨⟨6, 48, 45⟩, ⟨-39, -6, -3⟩⟩, true⟩,
   ⟨⟨⟨22, 44, 35⟩, ⟨-30, -8, -13⟩⟩, true⟩,
   ⟨⟨⟨27, 21, 20⟩, ⟨-22, -27, -29⟩⟩, true⟩,
   ⟨⟨⟨-31, 42, -36⟩, ⟨-48, 26, -47⟩⟩, false⟩,
   ⟨⟨⟨36, 51, -1⟩, ⟨-12, 6, -50⟩⟩, true⟩,
   ⟨⟨⟨-31, -15, -4⟩, ⟨-48, -32, -15⟩⟩, false⟩,
   ⟨⟨⟨27, 16, 47⟩, ⟨-18, -33, -7⟩⟩, true⟩,
   ⟨⟨⟨-21, -27, 42⟩, ⟨-40, -38, 23⟩⟩, false⟩,
   ⟨⟨⟨36, 11, 7⟩, ⟨-16, -41, -47⟩⟩, true⟩,
   ⟨⟨⟨-22, 31, 4⟩, ⟨-32, 11, -14⟩⟩, false⟩,
   ⟨⟨⟨-4, 46, 19⟩, ⟨-49, -3, -29⟩⟩, true⟩,
   ⟨⟨⟨31, -7, 14⟩, ⟨18, -20, -3⟩⟩, false⟩,
   ⟨⟨⟨10, 44, 16⟩, ⟨-41, -7, -33⟩⟩, true⟩] : List PowerCuboid) = some 36839 := by
  show covGo 15 ⟨⟨⟨48, 23, 28⟩, ⟨2, -22, -23⟩⟩, true⟩
    ([⟨⟨⟨24, 27, 30⟩, ⟨-27, -28, -21⟩⟩, true⟩,
   ⟨⟨⟨6, 48, 45⟩, ⟨-39, -6, -3⟩⟩, true⟩,
   ⟨⟨⟨22, 44, 35⟩, ⟨-30, -8, -13⟩⟩, true⟩,
   ⟨⟨⟨27, 21, 20⟩, ⟨-22, -27, -29⟩⟩, true⟩,
   ⟨⟨⟨-31, 42, -36⟩, ⟨-48, 26, -47⟩⟩, false⟩,
   ⟨⟨⟨36, 51, -1⟩, ⟨-12, 6, -50⟩⟩, true⟩,
   ⟨⟨⟨-31, -15, -4⟩, ⟨-48, -32, -15⟩⟩, false⟩,
   ⟨⟨⟨27, 16, 47⟩, ⟨-18, -33, -7⟩⟩, true⟩,
   ⟨⟨⟨-21, -27, 42⟩, ⟨-40, -38, 23⟩⟩, false⟩,
   ⟨⟨⟨36, 11, 7⟩, ⟨-16, -41, -47⟩⟩, true⟩,
   ⟨⟨⟨-22, 31, 4⟩, ⟨-32, 11, -14⟩⟩, false⟩,
   ⟨⟨⟨-4, 46, 19⟩, ⟨-49, -3, -29⟩⟩, true⟩,
   ⟨⟨⟨31, -7, 14⟩, ⟨18, -20, -3⟩⟩, false⟩,
   ⟨⟨⟨10, 44, 16⟩, ⟨-41, -7, -33⟩⟩, true⟩] : List PowerCuboid) = some 36839
  exact cov_n207

/-- Leaf evaluation of the embedded recursion (305 nodes). -/
theorem cov_n208 :
    covGo 14 ⟨⟨⟨24, 27, 30⟩, ⟨-27, -28, -21⟩⟩, true⟩
    ([⟨⟨⟨6, 48, 45⟩, ⟨-39, -6, -3⟩⟩, true⟩,
   ⟨⟨⟨22, 44, 35⟩, ⟨-30, -8, -13⟩⟩, true⟩,
   ⟨⟨⟨27, 21, 20⟩, ⟨-22, -27, -29⟩⟩, true⟩,
   ⟨⟨⟨-31, 42, -36⟩, ⟨-48, 26, -47⟩⟩, false⟩,
   ⟨⟨⟨36, 51, -1⟩, ⟨-12, 6, -50⟩⟩, true⟩,
   ⟨⟨⟨-31, -15, -4⟩, ⟨-48, -32, -15⟩⟩, false⟩,
   ⟨⟨⟨27, 16, 47⟩, ⟨-18, -33, -7⟩⟩, true⟩,
   ⟨⟨⟨-21, -27, 42⟩, ⟨-40, -38, 23⟩⟩, false⟩,
   ⟨⟨⟨36, 11, 7⟩, ⟨-16, -41, -47⟩⟩, true⟩,
   ⟨⟨⟨-22, 31, 4⟩, ⟨-32, 11, -14⟩⟩, false⟩,
   ⟨⟨⟨-4, 46, 19⟩, ⟨-49, -3, -29⟩⟩, true⟩,
   ⟨⟨⟨31, -7, 14⟩, ⟨18, -20, -3⟩⟩, false⟩,
   ⟨⟨⟨10, 44, 16⟩, ⟨-41, -7, -33⟩⟩, true⟩] : List PowerCuboid) = some 6562 := by decide!

/-- Net contribution of instruction 6 of the filtered reference
input against its suffix. -/
theorem instr_n6 :
    computeOnVolume ⟨⟨⟨24, 27, 30⟩, ⟨-27, -28, -21⟩⟩, true⟩
    ([⟨⟨⟨6, 48, 45⟩, ⟨-39, -6, -3⟩⟩, true⟩,
   ⟨⟨⟨22, 44, 35⟩, ⟨-30, -8, -13⟩⟩, true⟩,
   ⟨⟨⟨27, 21, 20⟩, ⟨-22, -27, -29⟩⟩, true⟩,
   ⟨⟨⟨-31, 42, -36⟩, ⟨-48, 26, -47⟩⟩, false⟩,
   ⟨⟨⟨36, 51, -1⟩, ⟨-12, 6, -50⟩⟩, true⟩,
   ⟨⟨⟨-31, -15, -4⟩, ⟨-48, -32, -15⟩⟩, false⟩,
   ⟨⟨⟨27, 16, 47⟩, ⟨-18, -33, -7⟩⟩, true⟩,
   ⟨⟨⟨-21, -27, 42⟩, ⟨-40, -38, 23⟩⟩, false⟩,
   ⟨⟨⟨36, 11, 7⟩, ⟨-16, -41, -47⟩⟩, true⟩,
   ⟨⟨⟨-22, 31, 4⟩, ⟨-32, 11, -14⟩⟩, false⟩,
   ⟨⟨⟨-4, 46, 19⟩, ⟨-49, -3, -29⟩⟩, true⟩,
   ⟨⟨⟨31, -7, 14⟩, ⟨18, -20, -3⟩⟩, false⟩,
   ⟨⟨⟨10, 44, 16⟩, ⟨-41, -7, -33⟩⟩, true⟩] : List PowerCuboid) = some 6562 := by
  show covGo 14 ⟨⟨⟨24, 27, 30⟩, ⟨-27, -28, -21⟩⟩, true⟩
    ([⟨⟨⟨6, 48, 45⟩, ⟨-39, -6, -3⟩⟩, true⟩,
   ⟨⟨⟨22, 44, 35⟩, ⟨-30, -8, -13⟩⟩, true⟩,
   ⟨⟨⟨27, 21, 20⟩, ⟨-22, -27, -29⟩⟩, true⟩,
   ⟨⟨⟨-31, 42, -36⟩, ⟨-48, 26, -47⟩⟩, false⟩,
   ⟨⟨⟨36, 51, -1⟩, ⟨-12, 6, -50⟩⟩, true⟩,
   ⟨⟨⟨-31, -15, -4⟩, ⟨-48, -32, -15⟩⟩, false⟩,
   ⟨⟨⟨27, 16, 47⟩, ⟨-18, -33, -7⟩⟩, true⟩,
   ⟨⟨⟨-21, -27, 42⟩, ⟨-40, -38, 23⟩⟩, false⟩,
   ⟨⟨⟨36, 11, 7⟩, ⟨-16, -41, -47⟩⟩, true⟩,
   ⟨⟨⟨-22, 31, 4⟩, ⟨-32, 11, -14⟩⟩, false⟩,
   ⟨⟨⟨-4, 46, 19⟩, ⟨-49, -3, -29⟩⟩, true⟩,
   ⟨⟨⟨31, -7, 14⟩, ⟨18, -20, -3⟩⟩, false⟩,
   ⟨⟨⟨10, 44, 16⟩, ⟨-41, -7, -33⟩⟩, true⟩] : List PowerCuboid) = some 6562
  exact cov_n208

/-- Leaf evaluation of the embedded recursion (144 nodes). -/
theorem cov_n209 :
    covGo 13 ⟨⟨⟨6, 48, 45⟩, ⟨-39, -6, -3⟩⟩, true⟩
    ([⟨⟨⟨22, 44, 35⟩, ⟨-30, -8, -13⟩⟩, true⟩,
   ⟨⟨⟨27, 21, 20⟩, ⟨-22, -27, -29⟩⟩, true⟩,
   ⟨⟨⟨-31, 42, -36⟩, ⟨-48, 26, -47⟩⟩, false⟩,
   ⟨⟨⟨36, 51, -1⟩, ⟨-12, 6, -50⟩⟩, true⟩,
   ⟨⟨⟨-31, -15, -4⟩, ⟨-48, -32, -15⟩⟩, false⟩,
   ⟨⟨⟨27, 16, 47⟩, ⟨-18, -33, -7⟩⟩, true⟩,
   ⟨⟨⟨-21, -27, 42⟩, ⟨-40, -38, 23⟩⟩, false⟩,
   ⟨⟨⟨36, 11, 7⟩, ⟨-16, -41, -47⟩⟩, true⟩,
   ⟨⟨⟨-22, 31, 4⟩, ⟨-32, 11, -14⟩⟩, false⟩,
   ⟨⟨⟨-4, 46, 19⟩, ⟨-49, -3, -29⟩⟩, true⟩,
   ⟨⟨⟨31, -7, 14⟩, ⟨18, -20, -3⟩⟩, false⟩,
   ⟨⟨⟨10, 44, 16⟩, ⟨-41, -7, -33⟩⟩, true⟩] : List PowerCuboid) = some 31489 := by decide!

/-- Net contribution of instruction 7 of the filtered reference
input against its suffix. -/
theorem instr_n7 :
    computeOnVolume ⟨⟨⟨6, 48, 45⟩, ⟨-39, -6, -3⟩⟩, true⟩
    ([⟨⟨⟨22, 44, 35⟩, ⟨-30, -8, -13⟩⟩, true⟩,
   ⟨⟨⟨27, 21, 20⟩, ⟨-22, -27, -29⟩⟩, true⟩,
   ⟨⟨⟨-31, 42, -36⟩, ⟨-48, 26, -47⟩⟩, false⟩,
   ⟨⟨⟨36, 51, -1⟩, ⟨-12, 6, -50⟩⟩, true⟩,
   ⟨⟨⟨-31, -15, -4⟩, ⟨-48, -32, -15⟩⟩, false⟩,
   ⟨⟨⟨27, 16, 47⟩, ⟨-18, -33, -7⟩⟩, true⟩,
   ⟨⟨⟨-21, -27, 42⟩, ⟨-40, -38, 23⟩⟩, false⟩,
   ⟨⟨⟨36, 11, 7⟩, ⟨-16, -41, -47⟩⟩, true⟩,
   ⟨⟨⟨-22, 31, 4⟩, ⟨-32, 11, -14⟩⟩, false⟩,
   ⟨⟨⟨-4, 46, 19⟩, ⟨-49, -3, -29⟩⟩, true⟩,
   ⟨⟨⟨31, -7, 14⟩, ⟨18, -20, -3⟩⟩, false⟩,
   ⟨⟨⟨10, 44, 16⟩, ⟨-41, -7, -33⟩⟩, true⟩] : List PowerCuboid) = some 31489 := by
  show covGo 13 ⟨⟨⟨6, 48, 45⟩, ⟨-39, -6, -3⟩⟩, true⟩
    ([⟨⟨⟨22, 44, 35⟩, ⟨-30, -8, -13⟩⟩, true⟩,
   ⟨⟨⟨27, 21, 20⟩, ⟨-22, -27, -29⟩⟩, true⟩,
   ⟨⟨⟨-31, 42, -36⟩, ⟨-48, 26, -47⟩⟩, false⟩,
   ⟨⟨⟨36, 51, -1⟩, ⟨-12, 6, -50⟩⟩, true⟩,
   ⟨⟨⟨-31, -15, -4⟩, ⟨-48, -32, -15⟩⟩, false⟩,
   ⟨⟨⟨27, 16, 47⟩, ⟨-18, -33, -7⟩⟩, true⟩,
   ⟨⟨⟨-21, -27, 42⟩, ⟨-40, -38, 23⟩⟩, false⟩,
   ⟨⟨⟨36, 11, 7⟩, ⟨-16, -41, -47⟩⟩, true⟩,
   ⟨⟨⟨-22, 31, 4⟩, ⟨-32, 11, -14⟩⟩, false⟩,
   ⟨⟨⟨-4, 46, 19⟩, ⟨-49, -3, -29⟩⟩, true⟩,
   ⟨⟨⟨31, -7, 14⟩, ⟨18, -20, -3⟩⟩, false⟩,
   ⟨⟨⟨10, 44, 16⟩, ⟨-41, -7, -33⟩⟩, true⟩] : List PowerCuboid) = some 31489
  exact cov_n209

/-- Leaf evaluation of the embedded recursion (80 nodes). -/
theorem cov_n210 :
    covGo 12 ⟨⟨⟨22, 44, 35⟩, ⟨-30, -8, -13⟩⟩, true⟩
    ([⟨⟨⟨27, 21, 20⟩, ⟨-22, -27, -29⟩⟩, true⟩,
   ⟨⟨⟨-31, 42, -36⟩, ⟨-48, 26, -47⟩⟩, false⟩,
   ⟨⟨⟨36, 51, -1⟩, ⟨-12, 6, -50⟩⟩, true⟩,
   ⟨⟨⟨-31, -15, -4⟩, ⟨-48, -32, -15⟩⟩, false⟩,
   ⟨⟨⟨27, 16, 47⟩, ⟨-18, -33, -7⟩⟩, true⟩,
   ⟨⟨⟨-21, -27, 42⟩, ⟨-40, -38, 23⟩⟩, false⟩,
   ⟨⟨⟨36, 11, 7⟩, ⟨-16, -41, -47⟩⟩, true⟩,
   ⟨⟨⟨-22, 31, 4⟩, ⟨-32, 11, -14⟩⟩, false⟩,
   ⟨⟨⟨-4, 46, 19⟩, ⟨-49, -3, -29⟩⟩, true⟩,
   ⟨⟨⟨31, -7, 14⟩, ⟨18, -20, -3⟩⟩, false⟩,
   ⟨⟨⟨10, 44, 16⟩, ⟨-41, -7, -33⟩⟩, true⟩] : List PowerCuboid) = some 34426 := by decide!

/-- Net contribution of instruction 8 of the filtered reference
input against its suffix. -/
theorem instr_n8 :
    computeOnVolume ⟨⟨⟨22, 44, 35⟩, ⟨-30, -8, -13⟩⟩, true⟩
    ([⟨⟨⟨27, 21, 20⟩, ⟨-22, -27, -29⟩⟩, true⟩,
   ⟨⟨⟨-31, 42, -36⟩, ⟨-48, 26, -47⟩⟩, false⟩,
   ⟨⟨⟨36, 51, -1⟩, ⟨-12, 6, -50⟩⟩, true⟩,
   ⟨⟨⟨-31, -15, -4⟩, ⟨-48, -32, -15⟩⟩, false⟩,
   ⟨⟨⟨27, 16, 47⟩, ⟨-18, -33, -7⟩⟩, true⟩,
   ⟨⟨⟨-21, -27, 42⟩, ⟨-40, -38, 23⟩⟩, false⟩,
   ⟨⟨⟨36, 11, 7⟩, ⟨-16, -41, -47⟩⟩, true⟩,
   ⟨⟨⟨-22, 31, 4⟩, ⟨-32, 11, -14⟩⟩, false⟩,
   ⟨⟨⟨-4, 46, 19⟩, ⟨-49, -3, -29⟩⟩, true⟩,
   ⟨⟨⟨31, -7, 14⟩, ⟨18, -20, -3⟩⟩, false⟩,
   ⟨⟨⟨10, 44, 16⟩, ⟨-41, -7, -33⟩⟩, true⟩] : List PowerCuboid) = some 34426 := by
  show covGo 12 ⟨⟨⟨22, 44, 35⟩, ⟨-30, -8, -13⟩⟩, true⟩
    ([⟨⟨⟨27, 21, 20⟩, ⟨-22, -27, -29⟩⟩, true⟩,
   ⟨⟨⟨-31, 42, -36⟩, ⟨-48, 26, -47⟩⟩, false⟩,
   ⟨⟨⟨36, 51, -1⟩, ⟨-12, 6, -50⟩⟩, true⟩,
   ⟨⟨⟨-31, -15, -4⟩, ⟨-48, -32, -15⟩⟩, false⟩,
   ⟨⟨⟨27, 16, 47⟩, ⟨-18, -33, -7⟩⟩, true⟩,
   ⟨⟨⟨-21, -27, 42⟩, ⟨-40, -38, 23⟩⟩, false⟩,
   ⟨⟨⟨36, 11, 7⟩, ⟨-16, -41, -47⟩⟩, true⟩,
   ⟨⟨⟨-22, 31, 4⟩, ⟨-32, 11, -14⟩⟩, false⟩,
   ⟨⟨⟨-4, 46, 19⟩, ⟨-49, -3, -29⟩⟩, true⟩,
   ⟨⟨⟨31, -7, 14⟩, ⟨18, -20, -3⟩⟩, false⟩,
   ⟨⟨⟨10, 44, 16⟩, ⟨-41, -7, -33⟩⟩, true⟩] : List PowerCuboid) = some 34426
  exact cov_n210

/-- Leaf evaluation of the embedded recursion (40 nodes). -/
theorem cov_n211 :
    covGo 11 ⟨⟨⟨27, 21, 20⟩, ⟨-22, -27, -29⟩⟩, true⟩
    ([⟨⟨⟨-31, 42, -36⟩, ⟨-48, 26, -47⟩⟩, false⟩,
   ⟨⟨⟨36, 51, -1⟩, ⟨-12, 6, -50⟩⟩, true⟩,
   ⟨⟨⟨-31, -15, -4⟩, ⟨-48, -32, -15⟩⟩, false⟩,
   ⟨⟨⟨27, 16, 47⟩, ⟨-18, -33, -7⟩⟩, true⟩,
   ⟨⟨⟨-21, -27, 42⟩, ⟨-40, -38, 23⟩⟩, false⟩,
   ⟨⟨⟨36, 11, 7⟩, ⟨-16, -41, -47⟩⟩, true⟩,
   ⟨⟨⟨-22, 31, 4⟩, ⟨-32, 11, -14⟩⟩, false⟩,
   ⟨⟨⟨-4, 46, 19⟩, ⟨-49, -3, -29⟩⟩, true⟩,
   ⟨⟨⟨31, -7, 14⟩, ⟨18, -20, -3⟩⟩, false⟩,
   ⟨⟨⟨10, 44, 16⟩, ⟨-41, -7, -33⟩⟩, true⟩] : List PowerCuboid) = some 7095 := by decide!

/-- Net contribution of instruction 9 of the filtered reference
input against its suffix. -/
theorem instr_n9 :
    computeOnVolume ⟨⟨⟨27, 21, 20⟩, ⟨-22, -27, -29⟩⟩, true⟩
    ([⟨⟨⟨-31, 42, -36⟩, ⟨-48, 26, -47⟩⟩, false⟩,
   ⟨⟨⟨36, 51, -1⟩, ⟨-12, 6, -50⟩⟩, true⟩,
   ⟨⟨⟨-31, -15, -4⟩, ⟨-48, -32, -15⟩⟩, false⟩,
   ⟨⟨⟨27, 16, 47⟩, ⟨-18, -33, -7⟩⟩, true⟩,
   ⟨⟨⟨-21, -27, 42⟩, ⟨-40, -38, 23⟩⟩, false⟩,
   ⟨⟨⟨36, 11, 7⟩, ⟨-16, -41, -47⟩⟩, true⟩,
   ⟨⟨⟨-22, 31, 4⟩, ⟨-32, 11, -14⟩⟩, false⟩,
   ⟨⟨⟨-4, 46, 19⟩, ⟨-49, -3, -29⟩⟩, true⟩,
   ⟨⟨⟨31, -7, 14⟩, ⟨18, -20, -3⟩⟩, false⟩,
   ⟨⟨⟨10, 44, 16⟩, ⟨-41, -7, -33⟩⟩, true⟩] : List PowerCuboid) = some 7095 := by
  show covGo 11 ⟨⟨⟨27, 21, 20⟩, ⟨-22, -27, -29⟩⟩, true⟩
    ([⟨⟨⟨-31, 42, -36⟩, ⟨-48, 26, -47⟩⟩, false⟩,
   ⟨⟨⟨36, 51, -1⟩, ⟨-12, 6, -50⟩⟩, true⟩,
   ⟨⟨⟨-31, -15, -4⟩, ⟨-48, -32, -15⟩⟩, false⟩,
   ⟨⟨⟨27, 16, 47⟩, ⟨-18, -33, -7⟩⟩, true⟩,
   ⟨⟨⟨-21, -27, 42⟩, ⟨-40, -38, 23⟩⟩, false⟩,
   ⟨⟨⟨36, 11, 7⟩, ⟨-16, -41, -47⟩⟩, true⟩,
   ⟨⟨⟨-22, 31, 4⟩, ⟨-32, 11, -14⟩⟩, false⟩,
   ⟨⟨⟨-4, 46, 19⟩, ⟨-49, -3, -29⟩⟩, true⟩,
   ⟨⟨⟨31, -7, 14⟩, ⟨18, -20, -3⟩⟩, false⟩,
   ⟨⟨⟨10, 44, 16⟩, ⟨-41, -7, -33⟩⟩, true⟩] : List PowerCuboid) = some 7095
  exact cov_n211

/-- Leaf evaluation of the embedded recursion (16 nodes). -/
theorem cov_n212 :
    covGo 9 ⟨⟨⟨36, 51, -1⟩, ⟨-12, 6, -50⟩⟩, true⟩
    ([⟨⟨⟨-31, -15, -4⟩, ⟨-48, -32, -15⟩⟩, false⟩,
   ⟨⟨⟨27, 16, 47⟩, ⟨-18, -33, -7⟩⟩, true⟩,
   ⟨⟨⟨-21, -27, 42⟩, ⟨-40, -38, 23⟩⟩, false⟩,
   ⟨⟨⟨36, 11, 7⟩, ⟨-16, -41, -47⟩⟩, true⟩,
   ⟨⟨⟨-22, 31, 4⟩, ⟨-32, 11, -14⟩⟩, false⟩,
   ⟨⟨⟨-4, 46, 19⟩, ⟨-49, -3, -29⟩⟩, true⟩,
   ⟨⟨⟨31, -7, 14⟩, ⟨18, -20, -3⟩⟩, false⟩,
   ⟨⟨⟨10, 44, 16⟩, ⟨-41, -7, -33⟩⟩, true⟩] : List PowerCuboid) = some 70610 := by decide!

/-- Net contribution of instruction 11 of the filtered reference
input against its suffix. -/
theorem instr_n11 :
    computeOnVolume ⟨⟨⟨36, 51, -1⟩, ⟨-12, 6, -50⟩⟩, true⟩
    ([⟨⟨⟨-31, -15, -4⟩, ⟨-48, -32, -15⟩⟩, false⟩,
   ⟨⟨⟨27, 16, 47⟩, ⟨-18, -33, -7⟩⟩, true⟩,
   ⟨⟨⟨-21, -27, 42⟩, ⟨-40, -38, 23⟩⟩, false⟩,
   ⟨⟨⟨36, 11, 7⟩, ⟨-16, -41, -47⟩⟩, true⟩,
   ⟨⟨⟨-22, 31, 4⟩, ⟨-32, 11, -14⟩⟩, false⟩,
   ⟨⟨⟨-4, 46, 19⟩, ⟨-49, -3, -29⟩⟩, true⟩,
   ⟨⟨⟨31, -7, 14⟩, ⟨18, -20, -3⟩⟩, false⟩,
   ⟨⟨⟨10, 44, 16⟩, ⟨-41, -7, -33⟩⟩, true⟩] : List PowerCuboid) = some 70610 := by
  show covGo 9 ⟨⟨⟨36, 51, -1⟩, ⟨-12, 6, -50⟩⟩, true⟩
    ([⟨⟨⟨-31, -15, -4⟩, ⟨-48, -32, -15⟩⟩, false⟩,
   ⟨⟨⟨27, 16, 47⟩, ⟨-18, -33, -7⟩⟩, true⟩,
   ⟨⟨⟨-21, -27, 42⟩, ⟨-40, -38, 23⟩⟩, false⟩,
   ⟨⟨⟨36, 11, 7⟩, ⟨-16, -41, -47⟩⟩, true⟩,
   ⟨⟨⟨-22, 31, 4⟩, ⟨-32, 11, -14⟩⟩, false⟩,
   ⟨⟨⟨-4, 46, 19⟩, ⟨-49, -3, -29⟩⟩, true⟩,
   ⟨⟨⟨31, -7, 14⟩, ⟨18, -20, -3⟩⟩, false⟩,
   ⟨⟨⟨10, 44, 16⟩, ⟨-41, -7, -33⟩⟩, true⟩] : List PowerCuboid) = some 70610
  exact cov_n212

/-- Leaf evaluation of the embedded recursion (10 nodes). -/
theorem cov_n213 :
    covGo 7 ⟨⟨⟨27, 16, 47⟩, ⟨-18, -33, -7⟩⟩, true⟩
    ([⟨⟨⟨-21, -27, 42⟩, ⟨-40, -38, 23⟩⟩, false⟩,
   ⟨⟨⟨36, 11, 7⟩, ⟨-16, -41, -47⟩⟩, true⟩,
   ⟨⟨⟨-22, 31, 4⟩, ⟨-32, 11, -14⟩⟩, false⟩,
   ⟨⟨⟨-4, 46, 19⟩, ⟨-49, -3, -29⟩⟩, true⟩,
   ⟨⟨⟨31, -7, 14⟩, ⟨18, -20, -3⟩⟩, false⟩,
   ⟨⟨⟨10, 44, 16⟩, ⟨-41, -7, -33⟩⟩, true⟩] : List PowerCuboid) = some 82705 := by decide!

/-- Net contribution of instruction 13 of the filtered reference
input against its suffix. -/
theorem instr_n13 :
    computeOnVolume ⟨⟨⟨27, 16, 47⟩, ⟨-18, -33, -7⟩⟩, true⟩
    ([⟨⟨⟨-21, -27, 42⟩, ⟨-40, -38, 23⟩⟩, false⟩,
   ⟨⟨⟨36, 11, 7⟩, ⟨-16, -41, -47⟩⟩, true⟩,
   ⟨⟨⟨-22, 31, 4⟩, ⟨-32, 11, -14⟩⟩, false⟩,
   ⟨⟨⟨-4, 46, 19⟩, ⟨-49, -3, -29⟩⟩, true⟩,
   ⟨⟨⟨31, -7, 14⟩, ⟨18, -20, -3⟩⟩, false⟩,
   ⟨⟨⟨10, 44, 16⟩, ⟨-41, -7, -33⟩⟩, true⟩] : List PowerCuboid) = some 82705 := by
  show covGo 7 ⟨⟨⟨27, 16, 47⟩, ⟨-18, -33, -7⟩⟩, true⟩
    ([⟨⟨⟨-21, -27, 42⟩, ⟨-40, -38, 23⟩⟩, false⟩,
   ⟨⟨⟨36, 11, 7⟩, ⟨-16, -41, -47⟩⟩, true⟩,
   ⟨⟨⟨-22, 31, 4⟩, ⟨-32, 11, -14⟩⟩, false⟩,
   ⟨⟨⟨-4, 46, 19⟩, ⟨-49, -3, -29⟩⟩, true⟩,
   ⟨⟨⟨31, -7, 14⟩, ⟨18, -20, -3⟩⟩, false⟩,
   ⟨⟨⟨10, 44, 16⟩, ⟨-41, -7, -33⟩⟩, true⟩] : List PowerCuboid) = some 82705
  exact cov_n213

/-- Leaf evaluation of the embedded recursion (5 nodes). -/
theorem cov_n214 :
    covGo 5 ⟨⟨⟨36, 11, 7⟩, ⟨-16, -41, -47⟩⟩, true⟩
    ([⟨⟨⟨-22, 31, 4⟩, ⟨-32, 11, -14⟩⟩, false⟩,
   ⟨⟨⟨-4, 46, 19⟩, ⟨-49, -3, -29⟩⟩, true⟩,
   ⟨⟨⟨31, -7, 14⟩, ⟨18, -20, -3⟩⟩, false⟩,
   ⟨⟨⟨10, 44, 16⟩, ⟨-41, -7, -33⟩⟩, true⟩] : List PowerCuboid) = some 125606 := by decide!

/-- Net contribution of instruction 15 of the filtered reference
input against its suffix. -/
theorem instr_n15 :
    computeOnVolume ⟨⟨⟨36, 11, 7⟩, ⟨-16, -41, -47⟩⟩, true⟩
    ([⟨⟨⟨-22, 31, 4⟩, ⟨-32, 11, -14⟩⟩, false⟩,
   ⟨⟨⟨-4, 46, 19⟩, ⟨-49, -3, -29⟩⟩, true⟩,
   ⟨⟨⟨31, -7, 14⟩, ⟨18, -20, -3⟩⟩, false⟩,
   ⟨⟨⟨10, 44, 16⟩, ⟨-41, -7, -33⟩⟩, true⟩] : List PowerCuboid) = some 125606 := by
  show covGo 5 ⟨⟨⟨36, 11, 7⟩, ⟨-16, -41, -47⟩⟩, true⟩
    ([⟨⟨⟨-22, 31, 4⟩, ⟨-32, 11, -14⟩⟩, false⟩,
   ⟨⟨⟨-4, 46, 19⟩, ⟨-49, -3, -29⟩⟩, true⟩,
   ⟨⟨⟨31, -7, 14⟩, ⟨18, -20, -3⟩⟩, false⟩,
   ⟨⟨⟨10, 44, 16⟩, ⟨-41, -7, -33⟩⟩, true⟩] : List PowerCuboid) = some 125606
  exact cov_n214

/-- Leaf evaluation of the embedded recursion (2 nodes). -/
theorem cov_n215 :
    covGo 3 ⟨⟨⟨-4, 46, 19⟩, ⟨-49, -3, -29⟩⟩, true⟩
    ([⟨⟨⟨31, -7, 14⟩, ⟨18, -20, -3⟩⟩, false⟩,
   ⟨⟨⟨10, 44, 16⟩, ⟨-41, -7, -33⟩⟩, true⟩] : List PowerCuboid) = some 27585 := by decide!

/-- Net contribution of instruction 17 of the filtered reference
input against its suffix. -/
theorem instr_n17 :
    computeOnVolume ⟨⟨⟨-4, 46, 19⟩, ⟨-49, -3, -29⟩⟩, true⟩
    ([⟨⟨⟨31, -7, 14⟩, ⟨18, -20, -3⟩⟩, false⟩,
   ⟨⟨⟨10, 44, 16⟩, ⟨-41, -7, -33⟩⟩, true⟩] : List PowerCuboid) = some 27585 := by
  show covGo 3 ⟨⟨⟨-4, 46, 19⟩, ⟨-49, -3, -29⟩⟩, true⟩
    ([⟨⟨⟨31, -7, 14⟩, ⟨18, -20, -3⟩⟩, false⟩,
   ⟨⟨⟨10, 44, 16⟩, ⟨-41, -7, -33⟩⟩, true⟩] : List PowerCuboid) = some 27585
  exact cov_n215

/-- Leaf evaluation of the embedded recursion (1 nodes). -/
theorem cov_n216 :
    covGo 1 ⟨⟨⟨10, 44, 16⟩, ⟨-41, -7, -33⟩⟩, true⟩
    ([] : List PowerCuboid) = some 127449 := by decide!

/-- Net contribution of instruction 19 of the filtered reference
input against its suffix. -/
theorem instr_n19 :
    computeOnVolume ⟨⟨⟨10, 44, 16⟩, ⟨-41, -7, -33⟩⟩, true⟩
    ([] : List PowerCuboid) = some 127449 := by
  show covGo 1 ⟨⟨⟨10, 44, 16⟩, ⟨-41, -7, -33⟩⟩, true⟩
    ([] : List PowerCuboid) = some 127449
  exact cov_n216

/-- The filtered reference input, with every coordinate evaluated to a
literal. -/
theorem refFiltered_eq :
    refFiltered =
  ([⟨⟨⟨27, 18, 8⟩, ⟨-20, -36, -47⟩⟩, true⟩,
   ⟨⟨⟨34, 24, 29⟩, ⟨-20, -21, -26⟩⟩, true⟩,
   ⟨⟨⟨29, 24, 17⟩, ⟨-22, -29, -38⟩⟩, true⟩,
   ⟨⟨⟨8, 47, 0⟩, ⟨-46, -6, -50⟩⟩, true⟩,
   ⟨⟨⟨2, 47, 29⟩, ⟨-49, -3, -24⟩⟩, true⟩,
   ⟨⟨⟨48, 23, 28⟩, ⟨2, -22, -23⟩⟩, true⟩,
   ⟨⟨⟨24, 27, 30⟩, ⟨-27, -28, -21⟩⟩, true⟩,
   ⟨⟨⟨6, 48, 45⟩, ⟨-39, -6, -3⟩⟩, true⟩,
   ⟨⟨⟨22, 44, 35⟩, ⟨-30, -8, -13⟩⟩, true⟩,
   ⟨⟨⟨27, 21, 20⟩, ⟨-22, -27, -29⟩⟩, true⟩,
   ⟨⟨⟨-31, 42, -36⟩, ⟨-48, 26, -47⟩⟩, false⟩,
   ⟨⟨⟨36, 51, -1⟩, ⟨-12, 6, -50⟩⟩, true⟩,
   ⟨⟨⟨-31, -15, -4⟩, ⟨-48, -32, -15⟩⟩, false⟩,
   ⟨⟨⟨27, 16, 47⟩, ⟨-18, -33, -7⟩⟩, true⟩,
   ⟨⟨⟨-21, -27, 42⟩, ⟨-40, -38, 23⟩⟩, false⟩,
   ⟨⟨⟨36, 11, 7⟩, ⟨-16, -41, -47⟩⟩, true⟩,
   ⟨⟨⟨-22, 31, 4⟩, ⟨-32, 11, -14⟩⟩, false⟩,
   ⟨⟨⟨-4, 46, 19⟩, ⟨-49, -3, -29⟩⟩, true⟩,
   ⟨⟨⟨31, -7, 14⟩, ⟨18, -20, -3⟩⟩, false⟩,
   ⟨⟨⟨10, 44, 16⟩, ⟨-41, -7, -33⟩⟩, true⟩] : List PowerCuboid) := by decide!

/-- The restricted computation over the filtered reference list totals
590784, as in the reference test: the instruction list is evaluated to
literals and the per-instruction net contributions of the
on-instructions are accumulated suffix by suffix. -/
theorem refFiltered_total : totalOnVolume refFiltered = some 590784 := by
  rw [refFiltered_eq]
  have t20 : totalOnVolume ([] : List PowerCuboid) = some 0 := rfl
  have t19 : totalOnVolume ([⟨⟨⟨10, 44, 16⟩, ⟨-41, -7, -33⟩⟩, true⟩] : List PowerCuboid) = some 127449 :=
    totalOnVolume_cons_on _ _ 127449 0 127449 rfl instr_n19 t20 rfl
  have t18 : totalOnVolume ([⟨⟨⟨31, -7, 14⟩, ⟨18, -20, -3⟩⟩, false⟩,
   ⟨⟨⟨10, 44, 16⟩, ⟨-41, -7, -33⟩⟩, true⟩] : List PowerCuboid) = some 127449 :=
    totalOnVolume_cons_off _ _ 127449 rfl t19
  have t17 : totalOnVolume ([⟨⟨⟨-4, 46, 19⟩, ⟨-49, -3, -29⟩⟩, true⟩,
   ⟨⟨⟨31, -7, 14⟩, ⟨18, -20, -3⟩⟩, false⟩,
   ⟨⟨⟨10, 44, 16⟩, ⟨-41, -7, -33⟩⟩, true⟩] : List PowerCuboid) = some 155034 :=
    totalOnVolume_cons_on _ _ 27585 127449 155034 rfl instr_n17 t18 rfl
  have t16 : totalOnVolume ([⟨⟨⟨-22, 31, 4⟩, ⟨-32, 11, -14⟩⟩, false⟩,
   ⟨⟨⟨-4, 46, 19⟩, ⟨-49, -3, -29⟩⟩, true⟩,
   ⟨⟨⟨31, -7, 14⟩, ⟨18, -20, -3⟩⟩, false⟩,
   ⟨⟨⟨10, 44, 16⟩, ⟨-41, -7, -33⟩⟩, true⟩] : List PowerCuboid) = some 155034 :=
    totalOnVolume_cons_off _ _ 155034 rfl t17
  have t15 : totalOnVolume ([⟨⟨⟨36, 11, 7⟩, ⟨-16, -41, -47⟩⟩, true⟩,
   ⟨⟨⟨-22, 31, 4⟩, ⟨-32, 11, -14⟩⟩, false⟩,
   ⟨⟨⟨-4, 46, 19⟩, ⟨-49, -3, -29⟩⟩, true⟩,
   ⟨⟨⟨31, -7, 14⟩, ⟨18, -20, -3⟩⟩, false⟩,
   ⟨⟨⟨10, 44, 16⟩, ⟨-41, -7, -33⟩⟩, true⟩] : List PowerCuboid) = some 280640 :=
    totalOnVolume_cons_on _ _ 125606 155034 280640 rfl instr_n15 t16 rfl
  have t14 : totalOnVolume ([⟨⟨⟨-21, -27, 42⟩, ⟨-40, -38, 23⟩⟩, false⟩,
   ⟨⟨⟨36, 11, 7⟩, ⟨-16, -41, -47⟩⟩, true⟩,
   ⟨⟨⟨-22, 31, 4⟩, ⟨-32, 11, -14⟩⟩, false⟩,
   ⟨⟨⟨-4, 46, 19⟩, ⟨-49, -3, -29⟩⟩, true⟩,
   ⟨⟨⟨31, -7, 14⟩, ⟨18, -20, -3⟩⟩, false⟩,
   ⟨⟨⟨10, 44, 16⟩, ⟨-41, -7, -33⟩⟩, true⟩] : List PowerCuboid) = some 280640 :=
    totalOnVolume_cons_off _ _ 280640 rfl t15
  have t13 : totalOnVolume ([⟨⟨⟨27, 16, 47⟩, ⟨-18, -33, -7⟩⟩, true⟩,
   ⟨⟨⟨-21, -27, 42⟩, ⟨-40, -38, 23⟩⟩, false⟩,
   ⟨⟨⟨36, 11, 7⟩, ⟨-16, -41, -47⟩⟩, true⟩,
   ⟨⟨⟨-22, 31, 4⟩, ⟨-32, 11, -14⟩⟩, false⟩,
   ⟨⟨⟨-4, 46, 19⟩, ⟨-49, -3, -29⟩⟩, true⟩,
   ⟨⟨⟨31, -7, 14⟩, ⟨18, -20, -3⟩⟩, false⟩,
   ⟨⟨⟨10, 44, 16⟩, ⟨-41, -7, -33⟩⟩, true⟩] : List PowerCuboid) = some 363345 :=
    totalOnVolume_cons_on _ _ 82705 280640 363345 rfl instr_n13 t14 rfl
  have t12 : totalOnVolume ([⟨⟨⟨-31, -15, -4⟩, ⟨-48, -32, -15⟩⟩, false⟩,
   ⟨⟨⟨27, 16, 47⟩, ⟨-18, -33, -7⟩⟩, true⟩,
   ⟨⟨⟨-21, -27, 42⟩, ⟨-40, -38, 23⟩⟩, false⟩,
   ⟨⟨⟨36, 11, 7⟩, ⟨-16, -41, -47⟩⟩, true⟩,
   ⟨⟨⟨-22, 31, 4⟩, ⟨-32, 11, -14⟩⟩, false⟩,
   ⟨⟨⟨-4, 46, 19⟩, ⟨-49, -3, -29⟩⟩, true⟩,
   ⟨⟨⟨31, -7, 14⟩, ⟨18, -20, -3⟩⟩, false⟩,
   ⟨⟨⟨10, 44, 16⟩, ⟨-41, -7, -33⟩⟩, true⟩] : List PowerCuboid) = some 363345 :=
    totalOnVolume_cons_off _ _ 363345 rfl t13
  have t11 : totalOnVolume ([⟨⟨⟨36, 51, -1⟩, ⟨-12, 6, -50⟩⟩, true⟩,
   ⟨⟨⟨-31, -15, -4⟩, ⟨-48, -32, -15⟩⟩, false⟩,
   ⟨⟨⟨27, 16, 47⟩, ⟨-18, -33, -7⟩⟩, true⟩,
   ⟨⟨⟨-21, -27, 42⟩, ⟨-40, -38, 23⟩⟩, false⟩,
   ⟨⟨⟨36, 11, 7⟩, ⟨-16, -41, -47⟩⟩, true⟩,
   ⟨⟨⟨-22, 31, 4⟩, ⟨-32, 11, -14⟩⟩, false⟩,
   ⟨⟨⟨-4, 46, 19⟩, ⟨-49, -3, -29⟩⟩, true⟩,
   ⟨⟨⟨31, -7, 14⟩, ⟨18, -20, -3⟩⟩, false⟩,
   ⟨⟨⟨10, 44, 16⟩, ⟨-41, -7, -33⟩⟩, true⟩] : List PowerCuboid) = some 433955 :=
    totalOnVolume_cons_on _ _ 70610 363345 433955 rfl instr_n11 t12 rfl
  have t10 : totalOnVolume ([⟨⟨⟨-31, 42, -36⟩, ⟨-48, 26, -47⟩⟩, false⟩,
   ⟨⟨⟨36, 51, -1⟩, ⟨-12, 6, -50⟩⟩, true⟩,
   ⟨⟨⟨-31, -15, -4⟩, ⟨-48, -32, -15⟩⟩, false⟩,
   ⟨⟨⟨27, 16, 47⟩, ⟨-18, -33, -7⟩⟩, true⟩,
   ⟨⟨⟨-21, -27, 42⟩, ⟨-40, -38, 23⟩⟩, false⟩,
   ⟨⟨⟨36, 11, 7⟩, ⟨-16, -41, -47⟩⟩, true⟩,
   ⟨⟨⟨-22, 31, 4⟩, ⟨-32, 11, -14⟩⟩, false⟩,
   ⟨⟨⟨-4, 46, 19⟩, ⟨-49, -3, -29⟩⟩, true⟩,
   ⟨⟨⟨31, -7, 14⟩, ⟨18, -20, -3⟩⟩, false⟩,
   ⟨⟨⟨10, 44, 16⟩, ⟨-41, -7, -33⟩⟩, true⟩] : List PowerCuboid) = some 433955 :=
    totalOnVolume_cons_off _ _ 433955 rfl t11
  have t9 : totalOnVolume ([⟨⟨⟨27, 21, 20⟩, ⟨-22, -27, -29⟩⟩, true⟩,
   ⟨⟨⟨-31, 42, -36⟩, ⟨-48, 26, -47⟩⟩, false⟩,
   ⟨⟨⟨36, 51, -1⟩, ⟨-12, 6, -50⟩⟩, true⟩,
   ⟨⟨⟨-31, -15, -4⟩, ⟨-48, -32, -15⟩⟩, false⟩,
   ⟨⟨⟨27, 16, 47⟩, ⟨-18, -33, -7⟩⟩, true⟩,
   ⟨⟨⟨-21, -27, 42⟩, ⟨-40, -38, 23⟩⟩, false⟩,
   ⟨⟨⟨36, 11, 7⟩, ⟨-16, -41, -47⟩⟩, true⟩,
   ⟨⟨⟨-22, 31, 4⟩, ⟨-32, 11, -14⟩⟩, false⟩,
   ⟨⟨⟨-4, 46, 19⟩, ⟨-49, -3, -29⟩⟩, true⟩,
   ⟨⟨⟨31, -7, 14⟩, ⟨18, -20, -3⟩⟩, false⟩,
   ⟨⟨⟨10, 44, 16⟩, ⟨-41, -7, -33⟩⟩, true⟩] : List PowerCuboid) = some 441050 :=
    totalOnVolume_cons_on _ _ 7095 433955 441050 rfl instr_n9 t10 rfl
  have t8 : totalOnVolume ([⟨⟨⟨22, 44, 35⟩, ⟨-30, -8, -13⟩⟩, true⟩,
   ⟨⟨⟨27, 21, 20⟩, ⟨-22, -27, -29⟩⟩, true⟩,
   ⟨⟨⟨-31, 42, -36⟩, ⟨-48, 26, -47⟩⟩, false⟩,
   ⟨⟨⟨36, 51, -1⟩, ⟨-12, 6, -50⟩⟩, true⟩,
   ⟨⟨⟨-31, -15, -4⟩, ⟨-48, -32, -15⟩⟩, false⟩,
   ⟨⟨⟨27, 16, 47⟩, ⟨-18, -33, -7⟩⟩, true⟩,
   ⟨⟨⟨-21, -27, 42⟩, ⟨-40, -38, 23⟩⟩, false⟩,
   ⟨⟨⟨36, 11, 7⟩, ⟨-16, -41, -47⟩⟩, true⟩,
   ⟨⟨⟨-22, 31, 4⟩, ⟨-32, 11, -14⟩⟩, false⟩,
   ⟨⟨⟨-4, 46, 19⟩, ⟨-49, -3, -29⟩⟩, true⟩,
   ⟨⟨⟨31, -7, 14⟩, ⟨18, -20, -3⟩⟩, false⟩,
   ⟨⟨⟨10, 44, 16⟩, ⟨-41, -7, -33⟩⟩, true⟩] : List PowerCuboid) = some 475476 :=
    totalOnVolume_cons_on _ _ 34426 441050 475476 rfl instr_n8 t9 rfl
  have t7 : totalOnVolume ([⟨⟨⟨6, 48, 45⟩, ⟨-39, -6, -3⟩⟩, true⟩,
   ⟨⟨⟨22, 44, 35⟩, ⟨-30, -8, -13⟩⟩, true⟩,
   ⟨⟨⟨27, 21, 20⟩, ⟨-22, -27, -29⟩⟩, true⟩,
   ⟨⟨⟨-31, 42, -36⟩, ⟨-48, 26, -47⟩⟩, false⟩,
   ⟨⟨⟨36, 51, -1⟩, ⟨-12, 6, -50⟩⟩, true⟩,
   ⟨⟨⟨-31, -15, -4⟩, ⟨-48, -32, -15⟩⟩, false⟩,
   ⟨⟨⟨27, 16, 47⟩, ⟨-18, -33, -7⟩⟩, true⟩,
   ⟨⟨⟨-21, -27, 42⟩, ⟨-40, -38, 23⟩⟩, false⟩,
   ⟨⟨⟨36, 11, 7⟩, ⟨-16, -41, -47⟩⟩, true⟩,
   ⟨⟨⟨-22, 31, 4⟩, ⟨-32, 11, -14⟩⟩, false⟩,
   ⟨⟨⟨-4, 46, 19⟩, ⟨-49, -3, -29⟩⟩, true⟩,
   ⟨⟨⟨31, -7, 14⟩, ⟨18, -20, -3⟩⟩, false⟩,
   ⟨⟨⟨10, 44, 16⟩, ⟨-41, -7, -33⟩⟩, true⟩] : List PowerCuboid) = some 506965 :=
    totalOnVolume_cons_on _ _ 31489 475476 506965 rfl instr_n7 t8 rfl
  have t6 : totalOnVolume ([⟨⟨⟨24, 27, 30⟩, ⟨-27, -28, -21⟩⟩, true⟩,
   ⟨⟨⟨6, 48, 45⟩, ⟨-39, -6, -3⟩⟩, true⟩,
   ⟨⟨⟨22, 44, 35⟩, ⟨-30, -8, -13⟩⟩, true⟩,
   ⟨⟨⟨27, 21, 20⟩, ⟨-22, -27, -29⟩⟩, true⟩,
   ⟨⟨⟨-31, 42, -36⟩, ⟨-48, 26, -47⟩⟩, false⟩,
   ⟨⟨⟨36, 51, -1⟩, ⟨-12, 6, -50⟩⟩, true⟩,
   ⟨⟨⟨-31, -15, -4⟩, ⟨-48, -32, -15⟩⟩, false⟩,
   ⟨⟨⟨27, 16, 47⟩, ⟨-18, -33, -7⟩⟩, true⟩,
   ⟨⟨⟨-21, -27, 42⟩, ⟨-40, -38, 23⟩⟩, false⟩,
   ⟨⟨⟨36, 11, 7⟩, ⟨-16, -41, -47⟩⟩, true⟩,
   ⟨⟨⟨-22, 31, 4⟩, ⟨-32, 11, -14⟩⟩, false⟩,
   ⟨⟨⟨-4, 46, 19⟩, ⟨-49, -3, -29⟩⟩, true⟩,
   ⟨⟨⟨31, -7, 14⟩, ⟨18, -20, -3⟩⟩, false⟩,
   ⟨⟨⟨10, 44, 16⟩, ⟨-41, -7, -33⟩⟩, true⟩] : List PowerCuboid) = some 513527 :=
    totalOnVolume_cons_on _ _ 6562 506965 513527 rfl instr_n6 t7 rfl
  have t5 : totalOnVolume ([⟨⟨⟨48, 23, 28⟩, ⟨2, -22, -23⟩⟩, true⟩,
   ⟨⟨⟨24, 27, 30⟩, ⟨-27, -28, -21⟩⟩, true⟩,
   ⟨⟨⟨6, 48, 45⟩, ⟨-39, -6, -3⟩⟩, true⟩,
   ⟨⟨⟨22, 44, 35⟩, ⟨-30, -8, -13⟩⟩, true⟩,
   ⟨⟨⟨27, 21, 20⟩, ⟨-22, -27, -29⟩⟩, true⟩,
   ⟨⟨⟨-31, 42, -36⟩, ⟨-48, 26, -47⟩⟩, false⟩,
   ⟨⟨⟨36, 51, -1⟩, ⟨-12, 6, -50⟩⟩, true⟩,
   ⟨⟨⟨-31, -15, -4⟩, ⟨-48, -32, -15⟩⟩, false⟩,
   ⟨⟨⟨27, 16, 47⟩, ⟨-18, -33, -7⟩⟩, true⟩,
   ⟨⟨⟨-21, -27, 42⟩, ⟨-40, -38, 23⟩⟩, false⟩,
   ⟨⟨⟨36, 11, 7⟩, ⟨-16, -41, -47⟩⟩, true⟩,
   ⟨⟨⟨-22, 31, 4⟩, ⟨-32, 11, -14⟩⟩, false⟩,
   ⟨⟨⟨-4, 46, 19⟩, ⟨-49, -3, -29⟩⟩, true⟩,
   ⟨⟨⟨31, -7, 14⟩, ⟨18, -20, -3⟩⟩, false⟩,
   ⟨⟨⟨10, 44, 16⟩, ⟨-41, -7, -33⟩⟩, true⟩] : List PowerCuboid) = some 550366 :=
    totalOnVolume_cons_on _ _ 36839 513527 550366 rfl instr_n5 t6 rfl
  have t4 : totalOnVolume ([⟨⟨⟨2, 47, 29⟩, ⟨-49, -3, -24⟩⟩, true⟩,
   ⟨⟨⟨48, 23, 28⟩, ⟨2, -22, -23⟩⟩, true⟩,
   ⟨⟨⟨24, 27, 30⟩, ⟨-27, -28, -21⟩⟩, true⟩,
   ⟨⟨⟨6, 48, 45⟩, ⟨-39, -6, -3⟩⟩, true⟩,
   ⟨⟨⟨22, 44, 35⟩, ⟨-30, -8, -13⟩⟩, true⟩,
   ⟨⟨⟨27, 21, 20⟩, ⟨-22, -27, -29⟩⟩, true⟩,
   ⟨⟨⟨-31, 42, -36⟩, ⟨-48, 26, -47⟩⟩, false⟩,
   ⟨⟨⟨36, 51, -1⟩, ⟨-12, 6, -50⟩⟩, true⟩,
   ⟨⟨⟨-31, -15, -4⟩, ⟨-48, -32, -15⟩⟩, false⟩,
   ⟨⟨⟨27, 16, 47⟩, ⟨-18, -33, -7⟩⟩, true⟩,
   ⟨⟨⟨-21, -27, 42⟩, ⟨-40, -38, 23⟩⟩, false⟩,
   ⟨⟨⟨36, 11, 7⟩, ⟨-16, -41, -47⟩⟩, true⟩,
   ⟨⟨⟨-22, 31, 4⟩, ⟨-32, 11, -14⟩⟩, false⟩,
   ⟨⟨⟨-4, 46, 19⟩, ⟨-49, -3, -29⟩⟩, true⟩,
   ⟨⟨⟨31, -7, 14⟩, ⟨18, -20, -3⟩⟩, false⟩,
   ⟨⟨⟨10, 44, 16⟩, ⟨-41, -7, -33⟩⟩, true⟩] : List PowerCuboid) = some 556363 :=
    totalOnVolume_cons_on _ _ 5997 550366 556363 rfl instr_n4 t5 rfl
  have t3 : totalOnVolume ([⟨⟨⟨8, 47, 0⟩, ⟨-46, -6, -50⟩⟩, true⟩,
   ⟨⟨⟨2, 47, 29⟩, ⟨-49, -3, -24⟩⟩, true⟩,
   ⟨⟨⟨48, 23, 28⟩, ⟨2, -22, -23⟩⟩, true⟩,
   ⟨⟨⟨24, 27, 30⟩, ⟨-27, -28, -21⟩⟩, true⟩,
   ⟨⟨⟨6, 48, 45⟩, ⟨-39, -6, -3⟩⟩, true⟩,
   ⟨⟨⟨22, 44, 35⟩, ⟨-30, -8, -13⟩⟩, true⟩,
   ⟨⟨⟨27, 21, 20⟩, ⟨-22, -27, -29⟩⟩, true⟩,
   ⟨⟨⟨-31, 42, -36⟩, ⟨-48, 26, -47⟩⟩, false⟩,
   ⟨⟨⟨36, 51, -1⟩, ⟨-12, 6, -50⟩⟩, true⟩,
   ⟨⟨⟨-31, -15, -4⟩, ⟨-48, -32, -15⟩⟩, false⟩,
   ⟨⟨⟨27, 16, 47⟩, ⟨-18, -33, -7⟩⟩, true⟩,
   ⟨⟨⟨-21, -27, 42⟩, ⟨-40, -38, 23⟩⟩, false⟩,
   ⟨⟨⟨36, 11, 7⟩, ⟨-16, -41, -47⟩⟩, true⟩,
   ⟨⟨⟨-22, 31, 4⟩, ⟨-32, 11, -14⟩⟩, false⟩,
   ⟨⟨⟨-4, 46, 19⟩, ⟨-49, -3, -29⟩⟩, true⟩,
   ⟨⟨⟨31, -7, 14⟩, ⟨18, -20, -3⟩⟩, false⟩,
   ⟨⟨⟨10, 44, 16⟩, ⟨-41, -7, -33⟩⟩, true⟩] : List PowerCuboid) = some 586144 :=
    totalOnVolume_cons_on _ _ 29781 556363 586144 rfl instr_n3 t4 rfl
  have t2 : totalOnVolume ([⟨⟨⟨29, 24, 17⟩, ⟨-22, -29, -38⟩⟩, true⟩,
   ⟨⟨⟨8, 47, 0⟩, ⟨-46, -6, -50⟩⟩, true⟩,
   ⟨⟨⟨2, 47, 29⟩, ⟨-49, -3, -24⟩⟩, true⟩,
   ⟨⟨⟨48, 23, 28⟩, ⟨2, -22, -23⟩⟩, true⟩,
   ⟨⟨⟨24, 27, 30⟩, ⟨-27, -28, -21⟩⟩, true⟩,
   ⟨⟨⟨6, 48, 45⟩, ⟨-39, -6, -3⟩⟩, true⟩,
   ⟨⟨⟨22, 44, 35⟩, ⟨-30, -8, -13⟩⟩, true⟩,
   ⟨⟨⟨27, 21, 20⟩, ⟨-22, -27, -29⟩⟩, true⟩,
   ⟨⟨⟨-31, 42, -36⟩, ⟨-48, 26, -47⟩⟩, false⟩,
   ⟨⟨⟨36, 51, -1⟩, ⟨-12, 6, -50⟩⟩, true⟩,
   ⟨⟨⟨-31, -15, -4⟩, ⟨-48, -32, -15⟩⟩, false⟩,
   ⟨⟨⟨27, 16, 47⟩, ⟨-18, -33, -7⟩⟩, true⟩,
   ⟨⟨⟨-21, -27, 42⟩, ⟨-40, -38, 23⟩⟩, false⟩,
   ⟨⟨⟨36, 11, 7⟩, ⟨-16, -41, -47⟩⟩, true⟩,
   ⟨⟨⟨-22, 31, 4⟩, ⟨-32, 11, -14⟩⟩, false⟩,
   ⟨⟨⟨-4, 46, 19⟩, ⟨-49, -3, -29⟩⟩, true⟩,
   ⟨⟨⟨31, -7, 14⟩, ⟨18, -20, -3⟩⟩, false⟩,
   ⟨⟨⟨10, 44, 16⟩, ⟨-41, -7, -33⟩⟩, true⟩] : List PowerCuboid) = some 587868 :=
    totalOnVolume_cons_on _ _ 1724 586144 587868 rfl instr_n2 t3 rfl
  have t1 : totalOnVolume ([⟨⟨⟨34, 24, 29⟩, ⟨-20, -21, -26⟩⟩, true⟩,
   ⟨⟨⟨29, 24, 17⟩, ⟨-22, -29, -38⟩⟩, true⟩,
   ⟨⟨⟨8, 47, 0⟩, ⟨-46, -6, -50⟩⟩, true⟩,
   ⟨⟨⟨2, 47, 29⟩, ⟨-49, -3, -24⟩⟩, true⟩,
   ⟨⟨⟨48, 23, 28⟩, ⟨2, -22, -23⟩⟩, true⟩,
   ⟨⟨⟨24, 27, 30⟩, ⟨-27, -28, -21⟩⟩, true⟩,
   ⟨⟨⟨6, 48, 45⟩, ⟨-39, -6, -3⟩⟩, true⟩,
   ⟨⟨⟨22, 44, 35⟩, ⟨-30, -8, -13⟩⟩, true⟩,
   ⟨⟨⟨27, 21, 20⟩, ⟨-22, -27, -29⟩⟩, true⟩,
   ⟨⟨⟨-31, 42, -36⟩, ⟨-48, 26, -47⟩⟩, false⟩,
   ⟨⟨⟨36, 51, -1⟩, ⟨-12, 6, -50⟩⟩, true⟩,
   ⟨⟨⟨-31, -15, -4⟩, ⟨-48, -32, -15⟩⟩, false⟩,
   ⟨⟨⟨27, 16, 47⟩, ⟨-18, -33, -7⟩⟩, true⟩,
   ⟨⟨⟨-21, -27, 42⟩, ⟨-40, -38, 23⟩⟩, false⟩,
   ⟨⟨⟨36, 11, 7⟩, ⟨-16, -41, -47⟩⟩, true⟩,
   ⟨⟨⟨-22, 31, 4⟩, ⟨-32, 11, -14⟩⟩, false⟩,
   ⟨⟨⟨-4, 46, 19⟩, ⟨-49, -3, -29⟩⟩, true⟩,
   ⟨⟨⟨31, -7, 14⟩, ⟨18, -20, -3⟩⟩, false⟩,
   ⟨⟨⟨10, 44, 16⟩, ⟨-41, -7, -33⟩⟩, true⟩] : List PowerCuboid) = some 588407 :=
    totalOnVolume_cons_on _ _ 539 587868 588407 rfl instr_n1 t2 rfl
  have t0 : totalOnVolume ([⟨⟨⟨27, 18, 8⟩, ⟨-20, -36, -47⟩⟩, true⟩,
   ⟨⟨⟨34, 24, 29⟩, ⟨-20, -21, -26⟩⟩, true⟩,
   ⟨⟨⟨29, 24, 17⟩, ⟨-22, -29, -38⟩⟩, true⟩,
   ⟨⟨⟨8, 47, 0⟩, ⟨-46, -6, -50⟩⟩, true⟩,
   ⟨⟨⟨2, 47, 29⟩, ⟨-49, -3, -24⟩⟩, true⟩,
   ⟨⟨⟨48, 23, 28⟩, ⟨2, -22, -23⟩⟩, true⟩,
   ⟨⟨⟨24, 27, 30⟩, ⟨-27, -28, -21⟩⟩, true⟩,
   ⟨⟨⟨6, 48, 45⟩, ⟨-39, -6, -3⟩⟩, true⟩,
   ⟨⟨⟨22, 44, 35⟩, ⟨-30, -8, -13⟩⟩, true⟩,
   ⟨⟨⟨27, 21, 20⟩, ⟨-22, -27, -29⟩⟩, true⟩,
   ⟨⟨⟨-31, 42, -36⟩, ⟨-48, 26, -47⟩⟩, false⟩,
   ⟨⟨⟨36, 51, -1⟩, ⟨-12, 6, -50⟩⟩, true⟩,
   ⟨⟨⟨-31, -15, -4⟩, ⟨-48, -32, -15⟩⟩, false⟩,
   ⟨⟨⟨27, 16, 47⟩, ⟨-18, -33, -7⟩⟩, true⟩,
   ⟨⟨⟨-21, -27, 42⟩, ⟨-40, -38, 23⟩⟩, false⟩,
   ⟨⟨⟨36, 11, 7⟩, ⟨-16, -41, -47⟩⟩, true⟩,
   ⟨⟨⟨-22, 31, 4⟩, ⟨-32, 11, -14⟩⟩, false⟩,
   ⟨⟨⟨-4, 46, 19⟩, ⟨-49, -3, -29⟩⟩, true⟩,
   ⟨⟨⟨31, -7, 14⟩, ⟨18, -20, -3⟩⟩, false⟩,
   ⟨⟨⟨10, 44, 16⟩, ⟨-41, -7, -33⟩⟩, true⟩] : List PowerCuboid) = some 590784 :=
    totalOnVolume_cons_on _ _ 2377 588407 590784 rfl instr_n0 t1 rfl
  exact t0

/-- C7: `inside_volume` holds exactly for instructions lying entirely
inside the bounding region (componentwise on both corners); the filtered
reference list keeps exactly the members of the reference input inside
the centered 101-cube region, 20 instructions survive, and the computed
total on-volume is 590784. -/
theorem claim_C7_restricted_region :
    (∀ (c : PowerCuboid) (vol : Cuboid), c.inside_volume vol = true ↔
      (vol.bottom_left.x ≤ c.cuboid.bottom_left.x ∧
       vol.bottom_left.y ≤ c.cuboid.bottom_left.y ∧
       vol.bottom_left.z ≤ c.cuboid.bottom_left.z ∧
       c.cuboid.top_right.x ≤ vol.top_right.x ∧
       c.cuboid.top_right.y ≤ vol.top_right.y ∧
       c.cuboid.top_right.z ≤ vol.top_right.z)) ∧
    (∀ c : PowerCuboid,
      c ∈ refFiltered ↔ c ∈ refInput ∧ c.inside_volume targetRegion = true) ∧
    refFiltered.length = 20 ∧
    totalOnVolume refFiltered = some 590784 := by
  refine ⟨?_, ?_, refFiltered_length, refFiltered_total⟩
  · intro c vol
    simp only [PowerCuboid.inside_volume, Cuboid.inside_volume, Point3.leB,
      Bool.and_eq_true, decide_eq_true_eq]
    tauto
  · intro c
    simp [refFiltered, List.mem_filter]

/-- C8: the total on-volume computation is a pure function of the
ordered list (recomputation yields the same result), yet swapping the
two overlapping instructions `on [0,2)³` and `off [1,2)³` changes the
computed total (7 versus 8). -/
theorem claim_C8_deterministic_but_order_sensitive :
    (∀ l : List PowerCuboid, totalOnVolume l = totalOnVolume l) ∧
    totalOnVolume [line true 0 1 0 1 0 1, line false 1 1 1 1 1 1] ≠
      totalOnVolume [line false 1 1 1 1 1 1, line true 0 1 0 1 0 1] :=
  ⟨fun _ => rfl, by decide⟩

/-- C9: on the syntactically well-formed line `on x=1..2`, which carries
only one axis range, `power_cube` panics (out-of-bounds index into the
parsed range list) instead of returning a parse error. -/
theorem claim_C9_short_line_panics :
    power_cube ("on x=1..2".toList) = PRes.panic := by decide

/-- C10: `power_cube` assigns the parsed ranges positionally, ignoring
the axis labels: on `on z=1..2,x=3..4,y=5..6` parsing succeeds and the
`z`-labelled range `1..2` lands on the x axis, the `x`-labelled `3..4`
on the y axis, and the `y`-labelled `5..6` on the z axis. -/
theorem claim_C10_labels_ignored :
    power_cube ("on z=1..2,x=3..4,y=5..6".toList) =
      PRes.ok [] (PowerCuboid.new true (1, 3) (3, 5) (5, 7)) := by decide
